import Mathlib

/-!
# Etnaviv state emission: command stream, coalescer, stall emitter, state weaver

A shallow embedding of `src/gallium/drivers/etnaviv/etnaviv_emit.c`.  Machine
words are natural numbers; 32-bit wrap-around is written out where the C
arithmetic can wrap.  C arrays are functions from the index to the element.
-/

namespace Etnaviv

/-! ## 32-bit arithmetic -/

/-- The number of values of a `uint32_t`. -/
def U32 : Nat := 4294967296

/-- Sum of two `uint32_t` values. -/
def add_u32 (a b : Nat) : Nat := (a + b) % U32

/-- Difference of two `uint32_t` values. -/
def sub_u32 (a b : Nat) : Nat := (a % U32 + U32 - b % U32) % U32

/-- Left shift of a `uint32_t` value. -/
def shl_u32 (a k : Nat) : Nat := (a <<< k) % U32

/-- Bitwise complement of a `uint32_t` value. -/
def not_u32 (a : Nat) : Nat := (U32 - 1) - a % U32

/-! ## Relocations and the command stream -/

/-- A reloc of `etnaviv_emit.c`: backing allocation (`none` is the null
pointer), byte offset and access flags. -/
structure etna_reloc where
  bo : Option Nat
  offset : Nat
  flags : Nat
deriving DecidableEq

/-- Modelled from the spec: the command stream collaborator, an append-only
buffer of 32-bit words whose write offset is the number of words appended, with
the relocations embedded so far (word offset, reloc). -/
structure etna_cmd_stream where
  buffer : List Nat
  relocs : List (Nat × etna_reloc)
deriving DecidableEq

/-- Modelled from the spec: reservation of `n` words; a reservation does not
change the words of the stream. -/
def etna_cmd_stream_reserve (stream : etna_cmd_stream) (_n : Nat) : etna_cmd_stream :=
  stream

/-- Modelled from the spec: emission of one word at the write offset. -/
def etna_cmd_stream_emit (stream : etna_cmd_stream) (data : Nat) : etna_cmd_stream :=
  { stream with buffer := stream.buffer ++ [data] }

/-- Modelled from the spec: random-access read of the word at `offset`. -/
def etna_cmd_stream_get (stream : etna_cmd_stream) (offset : Nat) : Nat :=
  stream.buffer.getD offset 0

/-- Modelled from the spec: random-access write of the word at `offset`. -/
def etna_cmd_stream_set (stream : etna_cmd_stream) (offset : Nat) (data : Nat) :
    etna_cmd_stream :=
  { stream with buffer := stream.buffer.set offset data }

/-- Modelled from the spec: the current write offset, in words. -/
def etna_cmd_stream_offset (stream : etna_cmd_stream) : Nat :=
  stream.buffer.length

/-- Modelled from the spec: embedding of a relocation at the current offset; the
word itself is a placeholder patched at submission time. -/
def etna_cmd_stream_reloc (stream : etna_cmd_stream) (r : etna_reloc) : etna_cmd_stream :=
  etna_cmd_stream_emit
    { stream with relocs := stream.relocs ++ [(etna_cmd_stream_offset stream, r)] } 0

/-! ## Front-end command encoding -/

/-- Modelled from the spec: opcode bits of a load-state header
(`hw/common.xml.h` is not among the sources). -/
def VIV_FE_LOAD_STATE_HEADER_OP_LOAD_STATE : Nat := 0x08000000

/-- Modelled from the spec: fixed-point tag bit of a load-state header. -/
def VIV_FE_LOAD_STATE_HEADER_FIXP : Nat := 0x04000000

/-- Modelled from the spec: mask of the run-length field of a load-state header. -/
def VIV_FE_LOAD_STATE_HEADER_COUNT__MASK : Nat := 0x03ff0000

/-- Modelled from the spec: position of the run-length field. -/
def VIV_FE_LOAD_STATE_HEADER_COUNT__SHIFT : Nat := 16

/-- Modelled from the spec: the run-length field holding `x`. -/
def VIV_FE_LOAD_STATE_HEADER_COUNT (x : Nat) : Nat :=
  (x <<< VIV_FE_LOAD_STATE_HEADER_COUNT__SHIFT) &&& VIV_FE_LOAD_STATE_HEADER_COUNT__MASK

/-- Modelled from the spec: mask of the register-index field of a load-state header. -/
def VIV_FE_LOAD_STATE_HEADER_OFFSET__MASK : Nat := 0x0000ffff

/-- Modelled from the spec: the register-index field holding `x`. -/
def VIV_FE_LOAD_STATE_HEADER_OFFSET (x : Nat) : Nat :=
  (x <<< 0) &&& VIV_FE_LOAD_STATE_HEADER_OFFSET__MASK

/-- Modelled from the spec: the header word of a load-state packet, encoding
register index, fixed-point tag and run length (`etna_emit_load_state` of
`etnaviv_emit.h` without the emission). -/
def load_state_header (offset count fixp : Nat) : Nat :=
  VIV_FE_LOAD_STATE_HEADER_OP_LOAD_STATE |||
    (if fixp ≠ 0 then VIV_FE_LOAD_STATE_HEADER_FIXP else 0) |||
    VIV_FE_LOAD_STATE_HEADER_OFFSET (offset % 65536) |||
    (VIV_FE_LOAD_STATE_HEADER_COUNT (count % 65536) &&& VIV_FE_LOAD_STATE_HEADER_COUNT__MASK)

/-- Modelled from the spec: `etna_emit_load_state` of `etnaviv_emit.h`, which
emits the header word of a load-state packet (16-bit register index, 16-bit
count argument, fixed-point flag). -/
def etna_emit_load_state (stream : etna_cmd_stream) (offset count fixp : Nat) :
    etna_cmd_stream :=
  etna_cmd_stream_emit stream (load_state_header offset count fixp)

/-- Modelled from the spec: `etna_set_state` of `etnaviv_emit.h`, one load-state
packet holding one register write. -/
def etna_set_state (stream : etna_cmd_stream) (address value : Nat) : etna_cmd_stream :=
  let stream := etna_cmd_stream_reserve stream 2
  let stream := etna_emit_load_state stream (address >>> 2) 1 0
  etna_cmd_stream_emit stream value

/-- Modelled from the spec: the words `values[0 .. num-1]` emitted in order. -/
def emit_values (stream : etna_cmd_stream) (values : Nat → Nat) (num : Nat) :
    etna_cmd_stream :=
  (List.range num).foldl (fun s i => etna_cmd_stream_emit s (values i)) stream

/-- Modelled from the spec: `etna_set_state_multi` of `etnaviv_emit.h`, one
load-state packet for `num` consecutive registers from `base`, padded to an
even number of words; nothing is emitted for `num = 0`. -/
def etna_set_state_multi (stream : etna_cmd_stream) (base num : Nat) (values : Nat → Nat) :
    etna_cmd_stream :=
  if num = 0 then stream
  else
    let stream := etna_cmd_stream_reserve stream (1 + num + 1)
    let stream := etna_emit_load_state stream (base >>> 2) num 0
    let stream := emit_values stream values num
    if num % 2 = 0 then etna_cmd_stream_emit stream 0 else stream

/-- Modelled from the spec: front-end STALL opcode word. -/
def VIV_FE_STALL_HEADER_OP_STALL : Nat := 0x48000000

/-- Modelled from the spec: source-stage field of a front-end stall token. -/
def VIV_FE_STALL_TOKEN_FROM (x : Nat) : Nat := (x <<< 0) &&& 0x0000001f

/-- Modelled from the spec: destination-stage field of a front-end stall token. -/
def VIV_FE_STALL_TOKEN_TO (x : Nat) : Nat := (x <<< 8) &&& 0x00001f00

/-- Modelled from the spec: address of the semaphore-token register. -/
def VIVS_GL_SEMAPHORE_TOKEN : Nat := 0x00003808

/-- Modelled from the spec: source-stage field of the semaphore token. -/
def VIVS_GL_SEMAPHORE_TOKEN_FROM (x : Nat) : Nat := (x <<< 0) &&& 0x0000001f

/-- Modelled from the spec: destination-stage field of the semaphore token. -/
def VIVS_GL_SEMAPHORE_TOKEN_TO (x : Nat) : Nat := (x <<< 8) &&& 0x00001f00

/-- Modelled from the spec: address of the stall-token register. -/
def VIVS_GL_STALL_TOKEN : Nat := 0x00003c00

/-- Modelled from the spec: source-stage field of the stall token. -/
def VIVS_GL_STALL_TOKEN_FROM (x : Nat) : Nat := (x <<< 0) &&& 0x0000001f

/-- Modelled from the spec: destination-stage field of the stall token. -/
def VIVS_GL_STALL_TOKEN_TO (x : Nat) : Nat := (x <<< 8) &&& 0x00001f00

/-- Modelled from the spec: the front-end stage. -/
def SYNC_RECIPIENT_FE : Nat := 0x01

/-- Modelled from the spec: the rasterizer stage. -/
def SYNC_RECIPIENT_RA : Nat := 0x05

/-- Modelled from the spec: the pixel-engine stage. -/
def SYNC_RECIPIENT_PE : Nat := 0x07

/-! ## Stall emitter (`etnaviv_emit.c`, lines 51-74) -/

/-- Queue a STALL command (queues 2 words). -/
def CMD_STALL (stream : etna_cmd_stream) (from_ to_ : Nat) : etna_cmd_stream :=
  let stream := etna_cmd_stream_emit stream VIV_FE_STALL_HEADER_OP_STALL
  etna_cmd_stream_emit stream (VIV_FE_STALL_TOKEN_FROM from_ ||| VIV_FE_STALL_TOKEN_TO to_)

/-- The function `etna_stall`. -/
def etna_stall (stream : etna_cmd_stream) (from_ to_ : Nat) : etna_cmd_stream :=
  let stream := etna_cmd_stream_reserve stream 4
  let stream := etna_emit_load_state stream (VIVS_GL_SEMAPHORE_TOKEN >>> 2) 1 0
  let stream := etna_cmd_stream_emit stream
    (VIVS_GL_SEMAPHORE_TOKEN_FROM from_ ||| VIVS_GL_SEMAPHORE_TOKEN_TO to_)
  if from_ = SYNC_RECIPIENT_FE then
    CMD_STALL stream from_ to_
  else
    let stream := etna_emit_load_state stream (VIVS_GL_STALL_TOKEN >>> 2) 1 0
    etna_cmd_stream_emit stream (VIVS_GL_STALL_TOKEN_FROM from_ ||| VIVS_GL_STALL_TOKEN_TO to_)

/-! ## Coalescer (`etnaviv_emit.c`, lines 44-49 and 76-145) -/

/-- The cursor `struct etna_coalesce`. -/
structure etna_coalesce where
  start : Nat
  last_reg : Nat
  last_fixp : Nat
deriving DecidableEq

/-- The function `etna_coalesce_start`. -/
def etna_coalesce_start (stream : etna_cmd_stream) (max : Nat) :
    etna_cmd_stream × etna_coalesce :=
  let stream := etna_cmd_stream_reserve stream max
  (stream, { start := etna_cmd_stream_offset stream, last_reg := 0, last_fixp := 0 })

/-- The function `etna_coalesce_end`; the cursor is only read. -/
def etna_coalesce_end (stream : etna_cmd_stream) (coalesce : etna_coalesce) :
    etna_cmd_stream :=
  let end_ := etna_cmd_stream_offset stream
  let size := sub_u32 end_ coalesce.start
  let stream :=
    if size ≠ 0 then
      let offset := sub_u32 coalesce.start 1
      let value := etna_cmd_stream_get stream offset
      let value := value ||| VIV_FE_LOAD_STATE_HEADER_COUNT size
      etna_cmd_stream_set stream offset value
    else stream
  if end_ % 2 = 1 then etna_cmd_stream_emit stream 0xdeadbeef else stream

/-- The function `check_coalsence`. -/
def check_coalsence (stream : etna_cmd_stream) (coalesce : etna_coalesce) (reg fixp : Nat) :
    etna_cmd_stream × etna_coalesce :=
  let (stream, coalesce) :=
    if coalesce.last_reg ≠ 0 then
      if add_u32 coalesce.last_reg 4 ≠ reg ∨ coalesce.last_fixp ≠ fixp then
        let stream := etna_coalesce_end stream coalesce
        let stream := etna_emit_load_state stream (reg >>> 2) 0 fixp
        (stream, { coalesce with start := etna_cmd_stream_offset stream })
      else (stream, coalesce)
    else
      let stream := etna_emit_load_state stream (reg >>> 2) 0 fixp
      (stream, { coalesce with start := etna_cmd_stream_offset stream })
  (stream, { coalesce with last_reg := reg, last_fixp := fixp })

/-- The function `etna_coalsence_emit`. -/
def etna_coalsence_emit (stream : etna_cmd_stream) (coalesce : etna_coalesce)
    (reg value : Nat) : etna_cmd_stream × etna_coalesce :=
  let (stream, coalesce) := check_coalsence stream coalesce reg 0
  (etna_cmd_stream_emit stream value, coalesce)

/-- The function `etna_coalsence_emit_fixp`. -/
def etna_coalsence_emit_fixp (stream : etna_cmd_stream) (coalesce : etna_coalesce)
    (reg value : Nat) : etna_cmd_stream × etna_coalesce :=
  let (stream, coalesce) := check_coalsence stream coalesce reg 1
  (etna_cmd_stream_emit stream value, coalesce)

/-- The function `etna_coalsence_emit_reloc`. -/
def etna_coalsence_emit_reloc (stream : etna_cmd_stream) (coalesce : etna_coalesce)
    (reg : Nat) (r : etna_reloc) : etna_cmd_stream × etna_coalesce :=
  if r.bo.isSome then
    let (stream, coalesce) := check_coalsence stream coalesce reg 0
    (etna_cmd_stream_reloc stream r, coalesce)
  else (stream, coalesce)

/-- The macros `EMIT_STATE`, `EMIT_STATE_FIXP` and `EMIT_STATE_RELOC`: one
register emission handed to the coalescer. -/
inductive emit_op where
  | state (reg value : Nat)
  | state_fixp (reg value : Nat)
  | state_reloc (reg : Nat) (r : etna_reloc)
deriving DecidableEq

/-- What one emission macro does to the stream and the cursor. -/
def emit_op.apply (sc : etna_cmd_stream × etna_coalesce) : emit_op →
    etna_cmd_stream × etna_coalesce
  | .state reg value => etna_coalsence_emit sc.1 sc.2 reg value
  | .state_fixp reg value => etna_coalsence_emit_fixp sc.1 sc.2 reg value
  | .state_reloc reg r => etna_coalsence_emit_reloc sc.1 sc.2 reg r

/-- A straight-line sequence of emission macros, run in program order. -/
def emit_ops (sc : etna_cmd_stream × etna_coalesce) (ops : List emit_op) :
    etna_cmd_stream × etna_coalesce :=
  ops.foldl emit_op.apply sc

/-- A region bracketed by `etna_coalesce_start(stream, &coalesce, max)` and
`etna_coalesce_end(stream, &coalesce)` with only emission macros in between. -/
def coalesced_region (stream : etna_cmd_stream) (max : Nat) (ops : List emit_op) :
    etna_cmd_stream :=
  let sc := emit_ops (etna_coalesce_start stream max) ops
  etna_coalesce_end sc.1 sc.2

/-! ## Context state read by the state weaver

The declarations of these structures are in headers that are not among the
sources; each structure lists the fields that `etnaviv_emit.c` reads or writes.
Bound state objects (`ctx->rasterizer`, `ctx->zsa`, `ctx->blend`, samplers and
sampler views) are given by value. -/

/-- Modelled from the spec: dirty bit of the blend category; the dirty set is a
bitmask with one bit per category (`etnaviv_context.h` is not among the sources). -/
def ETNA_DIRTY_BLEND : Nat := 0x1

/-- Modelled from the spec: dirty bit of the sampler category. -/
def ETNA_DIRTY_SAMPLERS : Nat := 0x2

/-- Modelled from the spec: dirty bit of the rasterizer category. -/
def ETNA_DIRTY_RASTERIZER : Nat := 0x4

/-- Modelled from the spec: dirty bit of the depth/stencil/alpha category. -/
def ETNA_DIRTY_ZSA : Nat := 0x8

/-- Modelled from the spec: dirty bit of the vertex-element category. -/
def ETNA_DIRTY_VERTEX_ELEMENTS : Nat := 0x10

/-- Modelled from the spec: dirty bit of the blend-color category. -/
def ETNA_DIRTY_BLEND_COLOR : Nat := 0x40

/-- Modelled from the spec: dirty bit of the stencil-ref category. -/
def ETNA_DIRTY_STENCIL_REF : Nat := 0x80

/-- Modelled from the spec: dirty bit of the sample-mask category. -/
def ETNA_DIRTY_SAMPLE_MASK : Nat := 0x100

/-- Modelled from the spec: dirty bit of the viewport category. -/
def ETNA_DIRTY_VIEWPORT : Nat := 0x200

/-- Modelled from the spec: dirty bit of the framebuffer category. -/
def ETNA_DIRTY_FRAMEBUFFER : Nat := 0x400

/-- Modelled from the spec: dirty bit of the scissor category. -/
def ETNA_DIRTY_SCISSOR : Nat := 0x800

/-- Modelled from the spec: dirty bit of the sampler-view category. -/
def ETNA_DIRTY_SAMPLER_VIEWS : Nat := 0x1000

/-- Modelled from the spec: dirty bit of the vertex-buffer category. -/
def ETNA_DIRTY_VERTEX_BUFFERS : Nat := 0x2000

/-- Modelled from the spec: dirty bit of the index-buffer category. -/
def ETNA_DIRTY_INDEX_BUFFER : Nat := 0x4000

/-- Modelled from the spec: dirty bit of the shader category. -/
def ETNA_DIRTY_SHADER : Nat := 0x8000

/-- Modelled from the spec: dirty bit of the vertex-uniform category. -/
def ETNA_DIRTY_VS_UNIFORMS : Nat := 0x10000

/-- Modelled from the spec: dirty bit of the fragment-uniform category. -/
def ETNA_DIRTY_PS_UNIFORMS : Nat := 0x20000

/-- Modelled from the spec: dirty bit of the tile-status category. -/
def ETNA_DIRTY_TS : Nat := 0x40000

/-- Modelled from the spec: dirty bit of the texture-cache category. -/
def ETNA_DIRTY_TEXTURE_CACHES : Nat := 0x80000

/-- Fields of `ctx->shader_state` used by the weaver. -/
structure compiled_shader_state where
  VS_END_PC : Nat
  VS_OUTPUT_COUNT : Nat
  VS_OUTPUT_COUNT_PSIZE : Nat
  VS_INPUT_COUNT : Nat
  VS_TEMP_REGISTER_CONTROL : Nat
  VS_OUTPUT : Nat → Nat
  VS_INPUT : Nat → Nat
  VS_LOAD_BALANCING : Nat
  VS_START_PC : Nat
  PA_ATTRIBUTE_ELEMENT_COUNT : Nat
  PA_CONFIG : Nat
  PA_SHADER_ATTRIBUTES : Nat → Nat
  RA_CONTROL : Nat
  PS_END_PC : Nat
  PS_OUTPUT_REG : Nat
  PS_INPUT_COUNT : Nat
  PS_INPUT_COUNT_MSAA : Nat
  PS_TEMP_REGISTER_CONTROL : Nat
  PS_TEMP_REGISTER_CONTROL_MSAA : Nat
  PS_CONTROL : Nat
  PS_START_PC : Nat
  GL_VARYING_TOTAL_COMPONENTS : Nat
  GL_VARYING_NUM_COMPONENTS : Nat
  GL_VARYING_COMPONENT_USE : Nat → Nat
  vs_inst_mem_size : Nat
  vs_uniforms_size : Nat
  ps_inst_mem_size : Nat
  ps_uniforms_size : Nat
  VS_INST_MEM : Nat → Nat
  VS_UNIFORMS : Nat → Nat
  PS_INST_MEM : Nat → Nat
  PS_UNIFORMS : Nat → Nat

/-- Fields of the GPU mirror `ctx->gpu3d` used by the weaver. -/
structure etna_3d_state where
  GL_MULTI_SAMPLE_CONFIG : Nat
  PS_INPUT_COUNT : Nat
  PS_TEMP_REGISTER_CONTROL : Nat
  vs_uniforms_size : Nat
  ps_uniforms_size : Nat
  VS_INST_MEM : Nat → Nat
  VS_UNIFORMS : Nat → Nat
  PS_INST_MEM : Nat → Nat
  PS_UNIFORMS : Nat → Nat

/-- Fields of `*ctx->vertex_elements`. -/
structure compiled_vertex_elements_state where
  num_elements : Nat
  FE_VERTEX_ELEMENT_CONFIG : Nat → Nat

/-- Fields of `ctx->index_buffer`; `ib_buffer` is the pointer `ib.buffer`. -/
structure compiled_index_buffer where
  ib_buffer : Option Nat
  FE_INDEX_STREAM_BASE_ADDR : etna_reloc
  FE_INDEX_STREAM_CONTROL : Nat

/-- Fields of one entry of `ctx->vertex_buffer.cvb`. -/
structure compiled_set_vertex_buffer where
  FE_VERTEX_STREAM_BASE_ADDR : etna_reloc
  FE_VERTEX_STREAM_CONTROL : Nat

/-- Fields of `ctx->vertex_buffer`. -/
structure etna_vertexbuf_state where
  count : Nat
  cvb : Nat → compiled_set_vertex_buffer

/-- Fields of the compiled rasterizer state (`etnaviv_rasterizer.c`). -/
structure etna_rasterizer_state where
  PA_CONFIG : Nat
  PA_LINE_WIDTH : Nat
  PA_POINT_SIZE : Nat
  PA_SYSTEM_MODE : Nat
  SE_DEPTH_SCALE : Nat
  SE_DEPTH_BIAS : Nat
  SE_CONFIG : Nat
  scissor : Bool
  point_size_per_vertex : Bool

/-- Fields of `ctx->viewport`. -/
structure compiled_viewport_state where
  PA_VIEWPORT_SCALE_X : Nat
  PA_VIEWPORT_SCALE_Y : Nat
  PA_VIEWPORT_SCALE_Z : Nat
  PA_VIEWPORT_OFFSET_X : Nat
  PA_VIEWPORT_OFFSET_Y : Nat
  PA_VIEWPORT_OFFSET_Z : Nat
  SE_SCISSOR_LEFT : Nat
  SE_SCISSOR_TOP : Nat
  SE_SCISSOR_RIGHT : Nat
  SE_SCISSOR_BOTTOM : Nat
  PE_DEPTH_NEAR : Nat
  PE_DEPTH_FAR : Nat

/-- Fields of `ctx->scissor`. -/
structure compiled_scissor_state where
  SE_SCISSOR_LEFT : Nat
  SE_SCISSOR_TOP : Nat
  SE_SCISSOR_RIGHT : Nat
  SE_SCISSOR_BOTTOM : Nat

/-- Fields of `ctx->framebuffer`. -/
structure compiled_framebuffer_state where
  GL_MULTI_SAMPLE_CONFIG : Nat
  SE_SCISSOR_LEFT : Nat
  SE_SCISSOR_TOP : Nat
  SE_SCISSOR_RIGHT : Nat
  SE_SCISSOR_BOTTOM : Nat
  RA_MULTISAMPLE_UNK00E04 : Nat
  RA_MULTISAMPLE_UNK00E10 : Nat → Nat
  RA_CENTROID_TABLE : Nat → Nat
  msaa_mode : Bool
  PE_DEPTH_CONFIG : Nat
  PE_DEPTH_NORMALIZE : Nat
  PE_DEPTH_ADDR : etna_reloc
  PE_DEPTH_STRIDE : Nat
  PE_COLOR_FORMAT : Nat
  PE_COLOR_ADDR : etna_reloc
  PE_COLOR_STRIDE : Nat
  PE_HDEPTH_CONTROL : Nat
  PE_PIPE_COLOR_ADDR : Nat → etna_reloc
  PE_PIPE_DEPTH_ADDR : Nat → etna_reloc
  TS_MEM_CONFIG : Nat
  TS_COLOR_STATUS_BASE : etna_reloc
  TS_COLOR_SURFACE_BASE : etna_reloc
  TS_COLOR_CLEAR_VALUE : Nat
  TS_DEPTH_STATUS_BASE : etna_reloc
  TS_DEPTH_SURFACE_BASE : etna_reloc
  TS_DEPTH_CLEAR_VALUE : Nat

/-- Fields of the compiled depth/stencil/alpha state. -/
structure etna_zsa_state where
  PE_DEPTH_CONFIG : Nat
  PE_STENCIL_OP : Nat
  PE_STENCIL_CONFIG : Nat
  PE_ALPHA_OP : Nat

/-- Fields of `ctx->stencil_ref`. -/
structure compiled_stencil_ref where
  PE_STENCIL_CONFIG : Nat
  PE_STENCIL_CONFIG_EXT : Nat

/-- Fields of `ctx->blend_color`. -/
structure compiled_blend_color where
  PE_ALPHA_BLEND_COLOR : Nat

/-- Fields of the compiled blend state. -/
structure etna_blend_state where
  PE_ALPHA_CONFIG : Nat
  PE_COLOR_FORMAT : Nat
  PE_LOGIC_OP : Nat
  PE_DITHER : Nat → Nat

/-- Fields of a compiled sampler state. -/
structure etna_sampler_state where
  TE_SAMPLER_CONFIG0 : Nat
  TE_SAMPLER_CONFIG1 : Nat
  TE_SAMPLER_LOD_CONFIG : Nat
  min_lod : Nat
  max_lod : Nat

/-- Fields of a compiled sampler view. -/
structure etna_sampler_view where
  TE_SAMPLER_CONFIG0 : Nat
  TE_SAMPLER_CONFIG0_MASK : Nat
  TE_SAMPLER_CONFIG1 : Nat
  TE_SAMPLER_SIZE : Nat
  TE_SAMPLER_LOG_SIZE : Nat
  TE_SAMPLER_LOD_ADDR : Nat → etna_reloc
  min_lod : Nat
  max_lod : Nat

/-- Fields of `ctx->specs` used by the weaver. -/
structure etna_specs where
  vertex_sampler_offset : Nat
  has_shader_range_registers : Bool
  pixel_pipes : Nat
  vs_offset : Nat
  ps_offset : Nat

/-- Fields of a bound shader object read by the driver. -/
structure etna_shader_object where
  num_inputs : Nat

/-- The fields of `struct etna_context` that `etnaviv_emit.c` uses. -/
structure etna_context where
  stream : etna_cmd_stream
  dirty : Nat
  specs : etna_specs
  vs : Option etna_shader_object
  fs : Option etna_shader_object
  shader_state : compiled_shader_state
  gpu3d : etna_3d_state
  vertex_elements : Option compiled_vertex_elements_state
  index_buffer : compiled_index_buffer
  vertex_buffer : etna_vertexbuf_state
  rasterizer : etna_rasterizer_state
  viewport : compiled_viewport_state
  scissor : compiled_scissor_state
  framebuffer : compiled_framebuffer_state
  zsa : etna_zsa_state
  stencil_ref : compiled_stencil_ref
  blend_color : compiled_blend_color
  blend : etna_blend_state
  sample_mask : Nat
  num_fragment_samplers : Nat
  num_fragment_sampler_views : Nat
  num_vertex_samplers : Nat
  num_vertex_sampler_views : Nat
  sampler : Nat → etna_sampler_state
  sampler_view : Nat → etna_sampler_view

/-! ## Register addresses and fields

The addresses are those annotated next to each emission in `etna_emit_state`;
registers of an array are 4 bytes apart. -/

/-- Address annotated `00600`. -/
def VIVS_FE_VERTEX_ELEMENT_CONFIG (x : Nat) : Nat := 0x00600 + 4 * x
/-- Address annotated `00644`. -/
def VIVS_FE_INDEX_STREAM_BASE_ADDR : Nat := 0x00644
/-- Address annotated `00648`. -/
def VIVS_FE_INDEX_STREAM_CONTROL : Nat := 0x00648
/-- Address annotated `0064C`. -/
def VIVS_FE_VERTEX_STREAM_BASE_ADDR : Nat := 0x0064C
/-- Address annotated `00650`. -/
def VIVS_FE_VERTEX_STREAM_CONTROL : Nat := 0x00650
/-- Address annotated `00680`. -/
def VIVS_FE_VERTEX_STREAMS_BASE_ADDR (x : Nat) : Nat := 0x00680 + 4 * x
/-- Address annotated `006A0`. -/
def VIVS_FE_VERTEX_STREAMS_CONTROL (x : Nat) : Nat := 0x006A0 + 4 * x
/-- Address annotated `00800`. -/
def VIVS_VS_END_PC : Nat := 0x00800
/-- Address annotated `00804`. -/
def VIVS_VS_OUTPUT_COUNT : Nat := 0x00804
/-- Address annotated `00808`. -/
def VIVS_VS_INPUT_COUNT : Nat := 0x00808
/-- Address annotated `0080C`. -/
def VIVS_VS_TEMP_REGISTER_CONTROL : Nat := 0x0080C
/-- Address annotated `00810`. -/
def VIVS_VS_OUTPUT (x : Nat) : Nat := 0x00810 + 4 * x
/-- Address annotated `00820`. -/
def VIVS_VS_INPUT (x : Nat) : Nat := 0x00820 + 4 * x
/-- Address annotated `00830`. -/
def VIVS_VS_LOAD_BALANCING : Nat := 0x00830
/-- Address annotated `00838`. -/
def VIVS_VS_START_PC : Nat := 0x00838
/-- Address annotated `0085C`. -/
def VIVS_VS_RANGE : Nat := 0x0085C
/-- Address annotated `00A00`. -/
def VIVS_PA_VIEWPORT_SCALE_X : Nat := 0x00A00
/-- Address annotated `00A04`. -/
def VIVS_PA_VIEWPORT_SCALE_Y : Nat := 0x00A04
/-- Address annotated `00A08`. -/
def VIVS_PA_VIEWPORT_SCALE_Z : Nat := 0x00A08
/-- Address annotated `00A0C`. -/
def VIVS_PA_VIEWPORT_OFFSET_X : Nat := 0x00A0C
/-- Address annotated `00A10`. -/
def VIVS_PA_VIEWPORT_OFFSET_Y : Nat := 0x00A10
/-- Address annotated `00A14`. -/
def VIVS_PA_VIEWPORT_OFFSET_Z : Nat := 0x00A14
/-- Address annotated `00A18`. -/
def VIVS_PA_LINE_WIDTH : Nat := 0x00A18
/-- Address annotated `00A1C`. -/
def VIVS_PA_POINT_SIZE : Nat := 0x00A1C
/-- Address annotated `00A28`. -/
def VIVS_PA_SYSTEM_MODE : Nat := 0x00A28
/-- Address annotated `00A30`. -/
def VIVS_PA_ATTRIBUTE_ELEMENT_COUNT : Nat := 0x00A30
/-- Address annotated `00A34`. -/
def VIVS_PA_CONFIG : Nat := 0x00A34
/-- Address annotated `00A40`. -/
def VIVS_PA_SHADER_ATTRIBUTES (x : Nat) : Nat := 0x00A40 + 4 * x
/-- Address annotated `00C00`. -/
def VIVS_SE_SCISSOR_LEFT : Nat := 0x00C00
/-- Address annotated `00C04`. -/
def VIVS_SE_SCISSOR_TOP : Nat := 0x00C04
/-- Address annotated `00C08`. -/
def VIVS_SE_SCISSOR_RIGHT : Nat := 0x00C08
/-- Address annotated `00C0C`. -/
def VIVS_SE_SCISSOR_BOTTOM : Nat := 0x00C0C
/-- Address annotated `00C10`. -/
def VIVS_SE_DEPTH_SCALE : Nat := 0x00C10
/-- Address annotated `00C14`. -/
def VIVS_SE_DEPTH_BIAS : Nat := 0x00C14
/-- Address annotated `00C18`. -/
def VIVS_SE_CONFIG : Nat := 0x00C18
/-- Address annotated `00E00`. -/
def VIVS_RA_CONTROL : Nat := 0x00E00
/-- Address annotated `00E04`. -/
def VIVS_RA_MULTISAMPLE_UNK00E04 : Nat := 0x00E04
/-- Address annotated `00E10`. -/
def VIVS_RA_MULTISAMPLE_UNK00E10 (x : Nat) : Nat := 0x00E10 + 4 * x
/-- Address annotated `00E40`. -/
def VIVS_RA_CENTROID_TABLE (x : Nat) : Nat := 0x00E40 + 4 * x
/-- Address annotated `01000`. -/
def VIVS_PS_END_PC : Nat := 0x01000
/-- Address annotated `01004`. -/
def VIVS_PS_OUTPUT_REG : Nat := 0x01004
/-- Address annotated `01008`. -/
def VIVS_PS_INPUT_COUNT : Nat := 0x01008
/-- Address annotated `0100C`. -/
def VIVS_PS_TEMP_REGISTER_CONTROL : Nat := 0x0100C
/-- Address annotated `01010`. -/
def VIVS_PS_CONTROL : Nat := 0x01010
/-- Address annotated `01018`. -/
def VIVS_PS_START_PC : Nat := 0x01018
/-- Address annotated `0101C`. -/
def VIVS_PS_RANGE : Nat := 0x0101C
/-- Address annotated `01400`. -/
def VIVS_PE_DEPTH_CONFIG : Nat := 0x01400
/-- Address annotated `01404`. -/
def VIVS_PE_DEPTH_NEAR : Nat := 0x01404
/-- Address annotated `01408`. -/
def VIVS_PE_DEPTH_FAR : Nat := 0x01408
/-- Address annotated `0140C`. -/
def VIVS_PE_DEPTH_NORMALIZE : Nat := 0x0140C
/-- Address annotated `01410`. -/
def VIVS_PE_DEPTH_ADDR : Nat := 0x01410
/-- Address annotated `01414`. -/
def VIVS_PE_DEPTH_STRIDE : Nat := 0x01414
/-- Address annotated `01418`. -/
def VIVS_PE_STENCIL_OP : Nat := 0x01418
/-- Address annotated `0141C`. -/
def VIVS_PE_STENCIL_CONFIG : Nat := 0x0141C
/-- Address annotated `01420`. -/
def VIVS_PE_ALPHA_OP : Nat := 0x01420
/-- Address annotated `01424`. -/
def VIVS_PE_ALPHA_BLEND_COLOR : Nat := 0x01424
/-- Address annotated `01428`. -/
def VIVS_PE_ALPHA_CONFIG : Nat := 0x01428
/-- Address annotated `0142C`. -/
def VIVS_PE_COLOR_FORMAT : Nat := 0x0142C
/-- Address annotated `01430`. -/
def VIVS_PE_COLOR_ADDR : Nat := 0x01430
/-- Address annotated `01434`. -/
def VIVS_PE_COLOR_STRIDE : Nat := 0x01434
/-- Address annotated `01454`. -/
def VIVS_PE_HDEPTH_CONTROL : Nat := 0x01454
/-- Address annotated `01460` and `01464`. -/
def VIVS_PE_PIPE_COLOR_ADDR (x : Nat) : Nat := 0x01460 + 4 * x
/-- Address annotated `01480` and `01484`. -/
def VIVS_PE_PIPE_DEPTH_ADDR (x : Nat) : Nat := 0x01480 + 4 * x
/-- Address annotated `014A0`. -/
def VIVS_PE_STENCIL_CONFIG_EXT : Nat := 0x014A0
/-- Address annotated `014A4`. -/
def VIVS_PE_LOGIC_OP : Nat := 0x014A4
/-- Address annotated `014A8`. -/
def VIVS_PE_DITHER (x : Nat) : Nat := 0x014A8 + 4 * x
/-- Address annotated `01654`. -/
def VIVS_TS_MEM_CONFIG : Nat := 0x01654
/-- Address annotated `01658`. -/
def VIVS_TS_COLOR_STATUS_BASE : Nat := 0x01658
/-- Address annotated `0165C`. -/
def VIVS_TS_COLOR_SURFACE_BASE : Nat := 0x0165C
/-- Address annotated `01660`. -/
def VIVS_TS_COLOR_CLEAR_VALUE : Nat := 0x01660
/-- Address annotated `01664`. -/
def VIVS_TS_DEPTH_STATUS_BASE : Nat := 0x01664
/-- Address annotated `01668`. -/
def VIVS_TS_DEPTH_SURFACE_BASE : Nat := 0x01668
/-- Address annotated `0166C`. -/
def VIVS_TS_DEPTH_CLEAR_VALUE : Nat := 0x0166C
/-- Modelled from the spec: number of samplers of the texture engine. -/
def VIVS_TE_SAMPLER__LEN : Nat := 12
/-- Address annotated `02000`. -/
def VIVS_TE_SAMPLER_CONFIG0 (x : Nat) : Nat := 0x02000 + 4 * x
/-- Address annotated `02040`. -/
def VIVS_TE_SAMPLER_SIZE (x : Nat) : Nat := 0x02040 + 4 * x
/-- Address annotated `02080`. -/
def VIVS_TE_SAMPLER_LOG_SIZE (x : Nat) : Nat := 0x02080 + 4 * x
/-- Address annotated `020C0`. -/
def VIVS_TE_SAMPLER_LOD_CONFIG (x : Nat) : Nat := 0x020C0 + 4 * x
/-- Address annotated `021C0`. -/
def VIVS_TE_SAMPLER_CONFIG1 (x : Nat) : Nat := 0x021C0 + 4 * x
/-- Modelled from the spec: number of mipmap level addresses per sampler. -/
def VIVS_TE_SAMPLER_LOD_ADDR__LEN : Nat := 14
/-- Address annotated `02400`; the levels of one sampler are 0x40 bytes apart. -/
def VIVS_TE_SAMPLER_LOD_ADDR (x y : Nat) : Nat := 0x02400 + 4 * x + 0x40 * y
/-- Modelled from the spec: address of the flush-cache register. -/
def VIVS_GL_FLUSH_CACHE : Nat := 0x0380C
/-- Address annotated `03818`. -/
def VIVS_GL_MULTI_SAMPLE_CONFIG : Nat := 0x03818
/-- Address annotated `0381C`. -/
def VIVS_GL_VARYING_TOTAL_COMPONENTS : Nat := 0x0381C
/-- Address annotated `03820`. -/
def VIVS_GL_VARYING_NUM_COMPONENTS : Nat := 0x03820
/-- Address annotated `03828`. -/
def VIVS_GL_VARYING_COMPONENT_USE (x : Nat) : Nat := 0x03828 + 4 * x
/-- Address annotated `05000`. -/
def VIVS_VS_UNIFORMS (x : Nat) : Nat := 0x05000 + 4 * x
/-- Address annotated `07000`. -/
def VIVS_PS_UNIFORMS (x : Nat) : Nat := 0x07000 + 4 * x

/-- Modelled from the spec: depth bit of the flush-cache value. -/
def VIVS_GL_FLUSH_CACHE_DEPTH : Nat := 0x1
/-- Modelled from the spec: color bit of the flush-cache value. -/
def VIVS_GL_FLUSH_CACHE_COLOR : Nat := 0x2
/-- Modelled from the spec: texture bit of the flush-cache value. -/
def VIVS_GL_FLUSH_CACHE_TEXTURE : Nat := 0x4
/-- Modelled from the spec: sample-count field of the multisample configuration. -/
def VIVS_GL_MULTI_SAMPLE_CONFIG_MSAA_SAMPLES__MASK : Nat := 0x00000003
/-- Modelled from the spec: MSAA-enables field of the multisample configuration. -/
def VIVS_GL_MULTI_SAMPLE_CONFIG_MSAA_ENABLES (x : Nat) : Nat := (x <<< 4) &&& 0x000000f0
/-- Modelled from the spec: components field of the color format. -/
def VIVS_PE_COLOR_FORMAT_COMPONENTS__MASK : Nat := 0x00000f00
/-- Modelled from the spec: overwrite bit of the color format. -/
def VIVS_PE_COLOR_FORMAT_OVERWRITE : Nat := 0x00010000
/-- Modelled from the spec: maximum-LOD field of the sampler LOD configuration. -/
def VIVS_TE_SAMPLER_LOD_CONFIG_MAX (x : Nat) : Nat := (x <<< 1) &&& 0x000007fe
/-- Modelled from the spec: minimum-LOD field of the sampler LOD configuration. -/
def VIVS_TE_SAMPLER_LOD_CONFIG_MIN (x : Nat) : Nat := (x <<< 11) &&& 0x001ff800

/-- Modelled from the spec: `etna_bits_ones(num)`, the `num` lowest bits set. -/
def etna_bits_ones (num : Nat) : Nat := sub_u32 (shl_u32 1 num) 1

/-- The macro `MIN2`. -/
def MIN2 (a b : Nat) : Nat := if a < b then a else b

/-- The macro `MAX2`. -/
def MAX2 (a b : Nat) : Nat := if a > b then a else b

/-! ## The state weaver (`etnaviv_emit.c`, lines 225-779) -/

/-- The function `active_samplers_bits`. -/
def active_samplers_bits (ctx : etna_context) : Nat :=
  let num_fragment_samplers := MIN2 ctx.num_fragment_samplers ctx.num_fragment_sampler_views
  let num_vertex_samplers := MIN2 ctx.num_vertex_samplers ctx.num_vertex_sampler_views
  etna_bits_ones num_fragment_samplers |||
    shl_u32 (etna_bits_ones num_vertex_samplers) ctx.specs.vertex_sampler_offset

/-- The constant `ETNA_3D_CONTEXT_SIZE`. -/
def ETNA_3D_CONTEXT_SIZE : Nat := 400

/-- The test `(1 << x) & active_samplers` of the sampler loops. -/
def sampler_active (active_samplers x : Nat) : Bool :=
  decide ((1 <<< x) &&& active_samplers ≠ 0)

/-- The rule block `multi_sample` of the coalesced region of `etna_emit_state`. -/
def region_multi_sample (ctx : etna_context) (dirty : Nat) :
    List emit_op :=
  if dirty &&& (ETNA_DIRTY_FRAMEBUFFER ||| ETNA_DIRTY_SAMPLE_MASK) ≠ 0 then
    let val := VIVS_GL_MULTI_SAMPLE_CONFIG_MSAA_ENABLES ctx.sample_mask
    let val := val ||| ctx.framebuffer.GL_MULTI_SAMPLE_CONFIG
    [emit_op.state VIVS_GL_MULTI_SAMPLE_CONFIG val]
  else []

/-- The rule block `index_buffer` of the coalesced region of `etna_emit_state`. -/
def region_index_buffer (ctx : etna_context) (dirty : Nat) :
    List emit_op :=
  if dirty &&& ETNA_DIRTY_INDEX_BUFFER ≠ 0 ∧ ctx.index_buffer.ib_buffer.isSome then
    [emit_op.state_reloc VIVS_FE_INDEX_STREAM_BASE_ADDR
        ctx.index_buffer.FE_INDEX_STREAM_BASE_ADDR,
      emit_op.state VIVS_FE_INDEX_STREAM_CONTROL ctx.index_buffer.FE_INDEX_STREAM_CONTROL]
  else []

/-- The rule block `vertex_buffers` of the coalesced region of `etna_emit_state`. -/
def region_vertex_buffers (ctx : etna_context) (dirty : Nat) :
    List emit_op :=
  if dirty &&& ETNA_DIRTY_VERTEX_BUFFERS ≠ 0 then
    [emit_op.state_reloc VIVS_FE_VERTEX_STREAM_BASE_ADDR
        (ctx.vertex_buffer.cvb 0).FE_VERTEX_STREAM_BASE_ADDR,
      emit_op.state VIVS_FE_VERTEX_STREAM_CONTROL
        (ctx.vertex_buffer.cvb 0).FE_VERTEX_STREAM_CONTROL] ++
    (List.range' 1 (ctx.vertex_buffer.count - 1)).map (fun x =>
      emit_op.state_reloc (VIVS_FE_VERTEX_STREAMS_BASE_ADDR x)
        (ctx.vertex_buffer.cvb x).FE_VERTEX_STREAM_BASE_ADDR) ++
    ((List.range' 1 (ctx.vertex_buffer.count - 1)).filter (fun x =>
        (ctx.vertex_buffer.cvb x).FE_VERTEX_STREAM_BASE_ADDR.bo.isSome)).map (fun x =>
      emit_op.state (VIVS_FE_VERTEX_STREAMS_CONTROL x)
        (ctx.vertex_buffer.cvb x).FE_VERTEX_STREAM_CONTROL)
  else []

/-- The rule block `vs_end_pc` of the coalesced region of `etna_emit_state`. -/
def region_vs_end_pc (ctx : etna_context) (dirty : Nat) :
    List emit_op :=
  if dirty &&& ETNA_DIRTY_SHADER ≠ 0 then
    [emit_op.state VIVS_VS_END_PC ctx.shader_state.VS_END_PC]
  else []

/-- The rule block `vs_output_count` of the coalesced region of `etna_emit_state`. -/
def region_vs_output_count (ctx : etna_context) (dirty : Nat) :
    List emit_op :=
  if dirty &&& (ETNA_DIRTY_SHADER ||| ETNA_DIRTY_RASTERIZER) ≠ 0 then
    let point_size_per_vertex := ctx.rasterizer.point_size_per_vertex
    [emit_op.state VIVS_VS_OUTPUT_COUNT
      (if point_size_per_vertex then ctx.shader_state.VS_OUTPUT_COUNT_PSIZE
       else ctx.shader_state.VS_OUTPUT_COUNT)]
  else []

/-- The rule block `vs_input_count` of the coalesced region of `etna_emit_state`. -/
def region_vs_input_count (ctx : etna_context) (dirty : Nat) :
    List emit_op :=
  if dirty &&& (ETNA_DIRTY_VERTEX_ELEMENTS ||| ETNA_DIRTY_SHADER) ≠ 0 then
    [emit_op.state VIVS_VS_INPUT_COUNT ctx.shader_state.VS_INPUT_COUNT,
      emit_op.state VIVS_VS_TEMP_REGISTER_CONTROL ctx.shader_state.VS_TEMP_REGISTER_CONTROL]
  else []

/-- The rule block `vs_output` of the coalesced region of `etna_emit_state`. -/
def region_vs_output (ctx : etna_context) (dirty : Nat) :
    List emit_op :=
  if dirty &&& ETNA_DIRTY_SHADER ≠ 0 then
    (List.range 4).map (fun x => emit_op.state (VIVS_VS_OUTPUT x) (ctx.shader_state.VS_OUTPUT x))
  else []

/-- The rule block `vs_input` of the coalesced region of `etna_emit_state`. -/
def region_vs_input (ctx : etna_context) (dirty : Nat) :
    List emit_op :=
  if dirty &&& (ETNA_DIRTY_VERTEX_ELEMENTS ||| ETNA_DIRTY_SHADER) ≠ 0 then
    (List.range 4).map (fun x => emit_op.state (VIVS_VS_INPUT x) (ctx.shader_state.VS_INPUT x))
  else []

/-- The rule block `vs_start` of the coalesced region of `etna_emit_state`. -/
def region_vs_start (ctx : etna_context) (dirty : Nat) :
    List emit_op :=
  if dirty &&& ETNA_DIRTY_SHADER ≠ 0 then
    [emit_op.state VIVS_VS_LOAD_BALANCING ctx.shader_state.VS_LOAD_BALANCING,
      emit_op.state VIVS_VS_START_PC ctx.shader_state.VS_START_PC] ++
    (if ctx.specs.has_shader_range_registers then
      [emit_op.state VIVS_VS_RANGE
        (shl_u32 (sub_u32 (ctx.shader_state.vs_inst_mem_size / 4) 1) 16)]
     else [])
  else []

/-- The rule block `viewport` of the coalesced region of `etna_emit_state`. -/
def region_viewport (ctx : etna_context) (dirty : Nat) :
    List emit_op :=
  if dirty &&& ETNA_DIRTY_VIEWPORT ≠ 0 then
    [emit_op.state_fixp VIVS_PA_VIEWPORT_SCALE_X ctx.viewport.PA_VIEWPORT_SCALE_X,
      emit_op.state_fixp VIVS_PA_VIEWPORT_SCALE_Y ctx.viewport.PA_VIEWPORT_SCALE_Y,
      emit_op.state VIVS_PA_VIEWPORT_SCALE_Z ctx.viewport.PA_VIEWPORT_SCALE_Z,
      emit_op.state_fixp VIVS_PA_VIEWPORT_OFFSET_X ctx.viewport.PA_VIEWPORT_OFFSET_X,
      emit_op.state_fixp VIVS_PA_VIEWPORT_OFFSET_Y ctx.viewport.PA_VIEWPORT_OFFSET_Y,
      emit_op.state VIVS_PA_VIEWPORT_OFFSET_Z ctx.viewport.PA_VIEWPORT_OFFSET_Z]
  else []

/-- The rule block `pa_rasterizer` of the coalesced region of `etna_emit_state`. -/
def region_pa_rasterizer (ctx : etna_context) (dirty : Nat) :
    List emit_op :=
  if dirty &&& ETNA_DIRTY_RASTERIZER ≠ 0 then
    let rasterizer := ctx.rasterizer
    [emit_op.state VIVS_PA_LINE_WIDTH rasterizer.PA_LINE_WIDTH,
      emit_op.state VIVS_PA_POINT_SIZE rasterizer.PA_POINT_SIZE,
      emit_op.state VIVS_PA_SYSTEM_MODE rasterizer.PA_SYSTEM_MODE]
  else []

/-- The rule block `pa_attribute_count` of the coalesced region of `etna_emit_state`. -/
def region_pa_attribute_count (ctx : etna_context) (dirty : Nat) :
    List emit_op :=
  if dirty &&& ETNA_DIRTY_SHADER ≠ 0 then
    [emit_op.state VIVS_PA_ATTRIBUTE_ELEMENT_COUNT ctx.shader_state.PA_ATTRIBUTE_ELEMENT_COUNT]
  else []

/-- The rule block `pa_config` of the coalesced region of `etna_emit_state`. -/
def region_pa_config (ctx : etna_context) (dirty : Nat) :
    List emit_op :=
  if dirty &&& (ETNA_DIRTY_RASTERIZER ||| ETNA_DIRTY_SHADER) ≠ 0 then
    let val := ctx.rasterizer.PA_CONFIG
    [emit_op.state VIVS_PA_CONFIG (val &&& ctx.shader_state.PA_CONFIG)]
  else []

/-- The rule block `pa_shader_attributes` of the coalesced region of `etna_emit_state`. -/
def region_pa_shader_attributes (ctx : etna_context) (dirty : Nat) :
    List emit_op :=
  if dirty &&& ETNA_DIRTY_SHADER ≠ 0 then
    (List.range 10).map (fun x =>
      emit_op.state (VIVS_PA_SHADER_ATTRIBUTES x) (ctx.shader_state.PA_SHADER_ATTRIBUTES x))
  else []

/-- The rule block `scissor` of the coalesced region of `etna_emit_state`. -/
def region_scissor (ctx : etna_context) (dirty : Nat) :
    List emit_op :=
  if dirty &&& (ETNA_DIRTY_SCISSOR ||| ETNA_DIRTY_FRAMEBUFFER ||| ETNA_DIRTY_RASTERIZER |||
      ETNA_DIRTY_VIEWPORT) ≠ 0 then
    let rasterizer := ctx.rasterizer
    let scissor_left := MAX2 ctx.framebuffer.SE_SCISSOR_LEFT ctx.viewport.SE_SCISSOR_LEFT
    let scissor_top := MAX2 ctx.framebuffer.SE_SCISSOR_TOP ctx.viewport.SE_SCISSOR_TOP
    let scissor_right := MIN2 ctx.framebuffer.SE_SCISSOR_RIGHT ctx.viewport.SE_SCISSOR_RIGHT
    let scissor_bottom := MIN2 ctx.framebuffer.SE_SCISSOR_BOTTOM ctx.viewport.SE_SCISSOR_BOTTOM
    let scissor_left :=
      if rasterizer.scissor then MAX2 ctx.scissor.SE_SCISSOR_LEFT scissor_left else scissor_left
    let scissor_top :=
      if rasterizer.scissor then MAX2 ctx.scissor.SE_SCISSOR_TOP scissor_top else scissor_top
    let scissor_right :=
      if rasterizer.scissor then MIN2 ctx.scissor.SE_SCISSOR_RIGHT scissor_right
      else scissor_right
    let scissor_bottom :=
      if rasterizer.scissor then MIN2 ctx.scissor.SE_SCISSOR_BOTTOM scissor_bottom
      else scissor_bottom
    [emit_op.state_fixp VIVS_SE_SCISSOR_LEFT scissor_left,
      emit_op.state_fixp VIVS_SE_SCISSOR_TOP scissor_top,
      emit_op.state_fixp VIVS_SE_SCISSOR_RIGHT scissor_right,
      emit_op.state_fixp VIVS_SE_SCISSOR_BOTTOM scissor_bottom]
  else []

/-- The rule block `se_rasterizer` of the coalesced region of `etna_emit_state`. -/
def region_se_rasterizer (ctx : etna_context) (dirty : Nat) :
    List emit_op :=
  if dirty &&& ETNA_DIRTY_RASTERIZER ≠ 0 then
    let rasterizer := ctx.rasterizer
    [emit_op.state VIVS_SE_DEPTH_SCALE rasterizer.SE_DEPTH_SCALE,
      emit_op.state VIVS_SE_DEPTH_BIAS rasterizer.SE_DEPTH_BIAS,
      emit_op.state VIVS_SE_CONFIG rasterizer.SE_CONFIG]
  else []

/-- The rule block `ra_control` of the coalesced region of `etna_emit_state`. -/
def region_ra_control (ctx : etna_context) (dirty : Nat) :
    List emit_op :=
  if dirty &&& ETNA_DIRTY_SHADER ≠ 0 then
    [emit_op.state VIVS_RA_CONTROL ctx.shader_state.RA_CONTROL]
  else []

/-- The rule block `ra_framebuffer` of the coalesced region of `etna_emit_state`. -/
def region_ra_framebuffer (ctx : etna_context) (dirty : Nat) :
    List emit_op :=
  if dirty &&& ETNA_DIRTY_FRAMEBUFFER ≠ 0 then
    [emit_op.state VIVS_RA_MULTISAMPLE_UNK00E04 ctx.framebuffer.RA_MULTISAMPLE_UNK00E04] ++
    (List.range 4).map (fun x =>
      emit_op.state (VIVS_RA_MULTISAMPLE_UNK00E10 x)
        (ctx.framebuffer.RA_MULTISAMPLE_UNK00E10 x)) ++
    (List.range 16).map (fun x =>
      emit_op.state (VIVS_RA_CENTROID_TABLE x) (ctx.framebuffer.RA_CENTROID_TABLE x))
  else []

/-- The rule block `ps` of the coalesced region of `etna_emit_state`. -/
def region_ps (ctx : etna_context) (dirty : Nat) :
    List emit_op :=
  if dirty &&& (ETNA_DIRTY_SHADER ||| ETNA_DIRTY_FRAMEBUFFER) ≠ 0 then
    [emit_op.state VIVS_PS_END_PC ctx.shader_state.PS_END_PC,
      emit_op.state VIVS_PS_OUTPUT_REG ctx.shader_state.PS_OUTPUT_REG,
      emit_op.state VIVS_PS_INPUT_COUNT
        (if ctx.framebuffer.msaa_mode then ctx.shader_state.PS_INPUT_COUNT_MSAA
         else ctx.shader_state.PS_INPUT_COUNT),
      emit_op.state VIVS_PS_TEMP_REGISTER_CONTROL
        (if ctx.framebuffer.msaa_mode then ctx.shader_state.PS_TEMP_REGISTER_CONTROL_MSAA
         else ctx.shader_state.PS_TEMP_REGISTER_CONTROL),
      emit_op.state VIVS_PS_CONTROL ctx.shader_state.PS_CONTROL,
      emit_op.state VIVS_PS_START_PC ctx.shader_state.PS_START_PC] ++
    (if ctx.specs.has_shader_range_registers then
      [emit_op.state VIVS_PS_RANGE
        (shl_u32 (add_u32 (sub_u32 (ctx.shader_state.ps_inst_mem_size / 4) 1) 0x100) 16 |||
          0x100)]
     else [])
  else []

/-- The rule block `pe_depth_config` of the coalesced region of `etna_emit_state`. -/
def region_pe_depth_config (ctx : etna_context) (dirty : Nat) :
    List emit_op :=
  if dirty &&& (ETNA_DIRTY_ZSA ||| ETNA_DIRTY_FRAMEBUFFER) ≠ 0 then
    let val := ctx.zsa.PE_DEPTH_CONFIG
    [emit_op.state VIVS_PE_DEPTH_CONFIG (val ||| ctx.framebuffer.PE_DEPTH_CONFIG)]
  else []

/-- The rule block `pe_depth_range` of the coalesced region of `etna_emit_state`. -/
def region_pe_depth_range (ctx : etna_context) (dirty : Nat) :
    List emit_op :=
  if dirty &&& ETNA_DIRTY_VIEWPORT ≠ 0 then
    [emit_op.state VIVS_PE_DEPTH_NEAR ctx.viewport.PE_DEPTH_NEAR,
      emit_op.state VIVS_PE_DEPTH_FAR ctx.viewport.PE_DEPTH_FAR]
  else []

/-- The rule block `pe_depth` of the coalesced region of `etna_emit_state`. -/
def region_pe_depth (ctx : etna_context) (dirty : Nat) :
    List emit_op :=
  if dirty &&& ETNA_DIRTY_FRAMEBUFFER ≠ 0 then
    [emit_op.state VIVS_PE_DEPTH_NORMALIZE ctx.framebuffer.PE_DEPTH_NORMALIZE] ++
    (if ctx.specs.pixel_pipes = 1 then
      [emit_op.state_reloc VIVS_PE_DEPTH_ADDR ctx.framebuffer.PE_DEPTH_ADDR]
     else []) ++
    [emit_op.state VIVS_PE_DEPTH_STRIDE ctx.framebuffer.PE_DEPTH_STRIDE]
  else []

/-- The rule block `pe_stencil_op` of the coalesced region of `etna_emit_state`. -/
def region_pe_stencil_op (ctx : etna_context) (dirty : Nat) :
    List emit_op :=
  if dirty &&& ETNA_DIRTY_ZSA ≠ 0 then
    let val := ctx.zsa.PE_STENCIL_OP
    [emit_op.state VIVS_PE_STENCIL_OP val]
  else []

/-- The rule block `pe_stencil_config` of the coalesced region of `etna_emit_state`. -/
def region_pe_stencil_config (ctx : etna_context) (dirty : Nat) :
    List emit_op :=
  if dirty &&& (ETNA_DIRTY_ZSA ||| ETNA_DIRTY_STENCIL_REF) ≠ 0 then
    let val := ctx.zsa.PE_STENCIL_CONFIG
    [emit_op.state VIVS_PE_STENCIL_CONFIG (val ||| ctx.stencil_ref.PE_STENCIL_CONFIG)]
  else []

/-- The rule block `pe_alpha_op` of the coalesced region of `etna_emit_state`. -/
def region_pe_alpha_op (ctx : etna_context) (dirty : Nat) :
    List emit_op :=
  if dirty &&& ETNA_DIRTY_ZSA ≠ 0 then
    let val := ctx.zsa.PE_ALPHA_OP
    [emit_op.state VIVS_PE_ALPHA_OP val]
  else []

/-- The rule block `pe_blend_color` of the coalesced region of `etna_emit_state`. -/
def region_pe_blend_color (ctx : etna_context) (dirty : Nat) :
    List emit_op :=
  if dirty &&& ETNA_DIRTY_BLEND_COLOR ≠ 0 then
    [emit_op.state VIVS_PE_ALPHA_BLEND_COLOR ctx.blend_color.PE_ALPHA_BLEND_COLOR]
  else []

/-- The rule block `pe_alpha_config` of the coalesced region of `etna_emit_state`. -/
def region_pe_alpha_config (ctx : etna_context) (dirty : Nat) :
    List emit_op :=
  if dirty &&& ETNA_DIRTY_BLEND ≠ 0 then
    let val := ctx.blend.PE_ALPHA_CONFIG
    [emit_op.state VIVS_PE_ALPHA_CONFIG val]
  else []

/-- The rule block `pe_color_format` of the coalesced region of `etna_emit_state`. -/
def region_pe_color_format (ctx : etna_context) (dirty : Nat) :
    List emit_op :=
  if dirty &&& (ETNA_DIRTY_BLEND ||| ETNA_DIRTY_FRAMEBUFFER) ≠ 0 then
    let val := not_u32 (VIVS_PE_COLOR_FORMAT_COMPONENTS__MASK ||| VIVS_PE_COLOR_FORMAT_OVERWRITE)
    let val := val ||| ctx.blend.PE_COLOR_FORMAT
    let val := val &&& ctx.framebuffer.PE_COLOR_FORMAT
    [emit_op.state VIVS_PE_COLOR_FORMAT val]
  else []

/-- The rule block `pe_color` of the coalesced region of `etna_emit_state`; `none` when
`abort()` is reached. -/
def region_pe_color (ctx : etna_context) (dirty : Nat) :
    Option (List emit_op) :=
  if dirty &&& ETNA_DIRTY_FRAMEBUFFER ≠ 0 then
    if ctx.specs.pixel_pipes = 1 then
      some [emit_op.state_reloc VIVS_PE_COLOR_ADDR ctx.framebuffer.PE_COLOR_ADDR,
        emit_op.state VIVS_PE_COLOR_STRIDE ctx.framebuffer.PE_COLOR_STRIDE,
        emit_op.state VIVS_PE_HDEPTH_CONTROL ctx.framebuffer.PE_HDEPTH_CONTROL]
    else if ctx.specs.pixel_pipes = 2 then
      some [emit_op.state VIVS_PE_COLOR_STRIDE ctx.framebuffer.PE_COLOR_STRIDE,
        emit_op.state VIVS_PE_HDEPTH_CONTROL ctx.framebuffer.PE_HDEPTH_CONTROL,
        emit_op.state_reloc (VIVS_PE_PIPE_COLOR_ADDR 0) (ctx.framebuffer.PE_PIPE_COLOR_ADDR 0),
        emit_op.state_reloc (VIVS_PE_PIPE_COLOR_ADDR 1) (ctx.framebuffer.PE_PIPE_COLOR_ADDR 1),
        emit_op.state_reloc (VIVS_PE_PIPE_DEPTH_ADDR 0) (ctx.framebuffer.PE_PIPE_DEPTH_ADDR 0),
        emit_op.state_reloc (VIVS_PE_PIPE_DEPTH_ADDR 1) (ctx.framebuffer.PE_PIPE_DEPTH_ADDR 1)]
    else none
  else some []

/-- The rule block `pe_stencil_ext` of the coalesced region of `etna_emit_state`. -/
def region_pe_stencil_ext (ctx : etna_context) (dirty : Nat) :
    List emit_op :=
  if dirty &&& ETNA_DIRTY_STENCIL_REF ≠ 0 then
    [emit_op.state VIVS_PE_STENCIL_CONFIG_EXT ctx.stencil_ref.PE_STENCIL_CONFIG_EXT]
  else []

/-- The rule block `pe_blend` of the coalesced region of `etna_emit_state`. -/
def region_pe_blend (ctx : etna_context) (dirty : Nat) :
    List emit_op :=
  if dirty &&& ETNA_DIRTY_BLEND ≠ 0 then
    let blend := ctx.blend
    [emit_op.state VIVS_PE_LOGIC_OP blend.PE_LOGIC_OP] ++
    (List.range 2).map (fun x => emit_op.state (VIVS_PE_DITHER x) (blend.PE_DITHER x))
  else []

/-- The rule block `ts` of the coalesced region of `etna_emit_state`. -/
def region_ts (ctx : etna_context) (dirty : Nat) :
    List emit_op :=
  if dirty &&& (ETNA_DIRTY_FRAMEBUFFER ||| ETNA_DIRTY_TS) ≠ 0 then
    [emit_op.state VIVS_TS_MEM_CONFIG ctx.framebuffer.TS_MEM_CONFIG,
      emit_op.state_reloc VIVS_TS_COLOR_STATUS_BASE ctx.framebuffer.TS_COLOR_STATUS_BASE,
      emit_op.state_reloc VIVS_TS_COLOR_SURFACE_BASE ctx.framebuffer.TS_COLOR_SURFACE_BASE,
      emit_op.state VIVS_TS_COLOR_CLEAR_VALUE ctx.framebuffer.TS_COLOR_CLEAR_VALUE,
      emit_op.state_reloc VIVS_TS_DEPTH_STATUS_BASE ctx.framebuffer.TS_DEPTH_STATUS_BASE,
      emit_op.state_reloc VIVS_TS_DEPTH_SURFACE_BASE ctx.framebuffer.TS_DEPTH_SURFACE_BASE,
      emit_op.state VIVS_TS_DEPTH_CLEAR_VALUE ctx.framebuffer.TS_DEPTH_CLEAR_VALUE]
  else []

/-- The rule block `te_config0` of the coalesced region of `etna_emit_state`. -/
def region_te_config0 (ctx : etna_context) (dirty active_samplers : Nat) :
    List emit_op :=
  if dirty &&& (ETNA_DIRTY_SAMPLER_VIEWS ||| ETNA_DIRTY_SAMPLERS) ≠ 0 then
    (List.range VIVS_TE_SAMPLER__LEN).map (fun x =>
      let val :=
        if sampler_active active_samplers x then
          let ss := ctx.sampler x
          let sv := ctx.sampler_view x
          (ss.TE_SAMPLER_CONFIG0 &&& sv.TE_SAMPLER_CONFIG0_MASK) ||| sv.TE_SAMPLER_CONFIG0
        else 0
      emit_op.state (VIVS_TE_SAMPLER_CONFIG0 x) val)
  else []

/-- The rule block `te_size` of the coalesced region of `etna_emit_state`. -/
def region_te_size (ctx : etna_context) (dirty active_samplers : Nat) :
    List emit_op :=
  if dirty &&& ETNA_DIRTY_SAMPLER_VIEWS ≠ 0 then
    ((List.range VIVS_TE_SAMPLER__LEN).filter (sampler_active active_samplers)).map (fun x =>
      emit_op.state (VIVS_TE_SAMPLER_SIZE x) (ctx.sampler_view x).TE_SAMPLER_SIZE) ++
    ((List.range VIVS_TE_SAMPLER__LEN).filter (sampler_active active_samplers)).map (fun x =>
      emit_op.state (VIVS_TE_SAMPLER_LOG_SIZE x) (ctx.sampler_view x).TE_SAMPLER_LOG_SIZE)
  else []

/-- The rule block `te_lod` of the coalesced region of `etna_emit_state`. -/
def region_te_lod (ctx : etna_context) (dirty active_samplers : Nat) :
    List emit_op :=
  if dirty &&& (ETNA_DIRTY_SAMPLER_VIEWS ||| ETNA_DIRTY_SAMPLERS) ≠ 0 then
    ((List.range VIVS_TE_SAMPLER__LEN).filter (sampler_active active_samplers)).map (fun x =>
      let ss := ctx.sampler x
      let sv := ctx.sampler_view x
      emit_op.state (VIVS_TE_SAMPLER_LOD_CONFIG x)
        (ss.TE_SAMPLER_LOD_CONFIG |||
          VIVS_TE_SAMPLER_LOD_CONFIG_MAX (MIN2 ss.max_lod sv.max_lod) |||
          VIVS_TE_SAMPLER_LOD_CONFIG_MIN (MAX2 ss.min_lod sv.min_lod))) ++
    ((List.range VIVS_TE_SAMPLER__LEN).filter (sampler_active active_samplers)).map (fun x =>
      let ss := ctx.sampler x
      let sv := ctx.sampler_view x
      emit_op.state (VIVS_TE_SAMPLER_CONFIG1 x)
        (ss.TE_SAMPLER_CONFIG1 ||| sv.TE_SAMPLER_CONFIG1))
  else []

/-- The rule block `te_lod_addr` of the coalesced region of `etna_emit_state`. -/
def region_te_lod_addr (ctx : etna_context) (dirty active_samplers : Nat) :
    List emit_op :=
  if dirty &&& ETNA_DIRTY_SAMPLER_VIEWS ≠ 0 then
    (List.range VIVS_TE_SAMPLER_LOD_ADDR__LEN).flatMap (fun y =>
      ((List.range VIVS_TE_SAMPLER__LEN).filter (sampler_active active_samplers)).map
        (fun x =>
          let sv := ctx.sampler_view x
          emit_op.state_reloc (VIVS_TE_SAMPLER_LOD_ADDR x y) (sv.TE_SAMPLER_LOD_ADDR y)))
  else []

/-- The rule block `varying` of the coalesced region of `etna_emit_state`. -/
def region_varying (ctx : etna_context) (dirty : Nat) :
    List emit_op :=
  if dirty &&& ETNA_DIRTY_SHADER ≠ 0 then
    [emit_op.state VIVS_GL_VARYING_TOTAL_COMPONENTS
        ctx.shader_state.GL_VARYING_TOTAL_COMPONENTS,
      emit_op.state VIVS_GL_VARYING_NUM_COMPONENTS ctx.shader_state.GL_VARYING_NUM_COMPONENTS] ++
    (List.range 2).map (fun x =>
      emit_op.state (VIVS_GL_VARYING_COMPONENT_USE x)
        (ctx.shader_state.GL_VARYING_COMPONENT_USE x))
  else []

/-- The emission macros between `etna_coalesce_start(stream, &coalesce,
ETNA_3D_CONTEXT_SIZE)` and the matching `etna_coalesce_end` (lines 339-710), in
program order; `none` when `abort()` is reached. -/
def etna_emit_state_region (ctx : etna_context) (dirty active_samplers : Nat) :
    Option (List emit_op) :=
  match region_pe_color ctx dirty with
  | none => none
  | some r_pe_color =>
    some (region_multi_sample ctx dirty ++
      region_index_buffer ctx dirty ++
      region_vertex_buffers ctx dirty ++
      region_vs_end_pc ctx dirty ++
      region_vs_output_count ctx dirty ++
      region_vs_input_count ctx dirty ++
      region_vs_output ctx dirty ++
      region_vs_input ctx dirty ++
      region_vs_start ctx dirty ++
      region_viewport ctx dirty ++
      region_pa_rasterizer ctx dirty ++
      region_pa_attribute_count ctx dirty ++
      region_pa_config ctx dirty ++
      region_pa_shader_attributes ctx dirty ++
      region_scissor ctx dirty ++
      region_se_rasterizer ctx dirty ++
      region_ra_control ctx dirty ++
      region_ra_framebuffer ctx dirty ++
      region_ps ctx dirty ++
      region_pe_depth_config ctx dirty ++
      region_pe_depth_range ctx dirty ++
      region_pe_depth ctx dirty ++
      region_pe_stencil_op ctx dirty ++
      region_pe_stencil_config ctx dirty ++
      region_pe_alpha_op ctx dirty ++
      region_pe_blend_color ctx dirty ++
      region_pe_alpha_config ctx dirty ++
      region_pe_color_format ctx dirty ++
      r_pe_color ++
      region_pe_stencil_ext ctx dirty ++
      region_pe_blend ctx dirty ++
      region_ts ctx dirty ++
      region_te_config0 ctx dirty active_samplers ++
      region_te_size ctx dirty active_samplers ++
      region_te_lod ctx dirty active_samplers ++
      region_te_lod_addr ctx dirty active_samplers ++
      region_varying ctx dirty)

/-- Copy of the first `n` words of `src` over `dst` (`memcpy` of `n * 4` bytes). -/
def memcpy_words (dst src : Nat → Nat) (n : Nat) : Nat → Nat :=
  fun i => if i < n then src i else dst i

/-- One iteration of a sparse uniform loop (lines 750-757 and 763-770): when the
mirror differs from the new value at `x`, emit the new value to register
`reg x` and store it in the mirror. -/
def uniform_update_step (reg : Nat → Nat) (new_values : Nat → Nat)
    (st : (etna_cmd_stream × etna_coalesce) × (Nat → Nat)) (x : Nat) :
    (etna_cmd_stream × etna_coalesce) × (Nat → Nat) :=
  if st.2 x ≠ new_values x then
    (etna_coalsence_emit st.1.1 st.1.2 (reg x) (new_values x),
      Function.update st.2 x (new_values x))
  else st

/-- A sparse uniform update: `etna_coalesce_start`, the loop over all `size`
uniforms, `etna_coalesce_end`.  Returns the stream and the updated mirror. -/
def uniform_update (stream : etna_cmd_stream) (reg : Nat → Nat) (size : Nat)
    (new_values mirror : Nat → Nat) : etna_cmd_stream × (Nat → Nat) :=
  let st := (List.range size).foldl (uniform_update_step reg new_values)
    (etna_coalesce_start stream size, mirror)
  (etna_coalesce_end st.1.1 st.1.2, st.2)

/-- The cache bits to flush, lines 267-287. -/
def emit_state_to_flush (dbg_cflush_all : Bool) (dirty : Nat) : Nat :=
  let to_flush := 0
  let to_flush :=
    if dirty &&& ETNA_DIRTY_BLEND ≠ 0 then to_flush ||| VIVS_GL_FLUSH_CACHE_COLOR else to_flush
  let to_flush :=
    if dirty &&& ETNA_DIRTY_TEXTURE_CACHES ≠ 0 then to_flush ||| VIVS_GL_FLUSH_CACHE_TEXTURE
    else to_flush
  let to_flush :=
    if dirty &&& ETNA_DIRTY_FRAMEBUFFER ≠ 0 then
      to_flush ||| (VIVS_GL_FLUSH_CACHE_COLOR ||| VIVS_GL_FLUSH_CACHE_DEPTH)
    else to_flush
  if dbg_cflush_all then
    to_flush ||| (VIVS_GL_FLUSH_CACHE_TEXTURE ||| VIVS_GL_FLUSH_CACHE_COLOR |||
      VIVS_GL_FLUSH_CACHE_DEPTH)
  else to_flush

/-- The cache-flush pre-pass, lines 289-293. -/
def emit_state_flush (dbg_cflush_all : Bool) (dirty : Nat) (stream : etna_cmd_stream) :
    etna_cmd_stream :=
  let to_flush := emit_state_to_flush dbg_cflush_all dirty
  if to_flush ≠ 0 then
    let stream := etna_set_state stream VIVS_GL_FLUSH_CACHE to_flush
    etna_stall stream SYNC_RECIPIENT_RA SYNC_RECIPIENT_PE
  else stream

/-- The clobbering of the mirror on a sample-count change, lines 295-308. -/
def emit_state_msaa_clobber (ctx : etna_context) (dirty : Nat) : etna_3d_state :=
  if dirty &&& ETNA_DIRTY_FRAMEBUFFER ≠ 0 ∧
      ctx.gpu3d.GL_MULTI_SAMPLE_CONFIG &&& VIVS_GL_MULTI_SAMPLE_CONFIG_MSAA_SAMPLES__MASK ≠
        ctx.framebuffer.GL_MULTI_SAMPLE_CONFIG &&&
          VIVS_GL_MULTI_SAMPLE_CONFIG_MSAA_SAMPLES__MASK then
    { ctx.gpu3d with PS_INPUT_COUNT := 0xffffffff, PS_TEMP_REGISTER_CONTROL := 0xffffffff }
  else ctx.gpu3d

/-- The full re-emission of the vertex elements, lines 310-318. -/
def emit_state_vertex_elements (dirty : Nat) (vertex_elements : compiled_vertex_elements_state)
    (stream : etna_cmd_stream) : etna_cmd_stream :=
  if dirty &&& ETNA_DIRTY_VERTEX_ELEMENTS ≠ 0 then
    etna_set_state_multi stream (VIVS_FE_VERTEX_ELEMENT_CONFIG 0)
      vertex_elements.num_elements vertex_elements.FE_VERTEX_ELEMENT_CONFIG
  else stream

/-- The stall before shader or uniform uploads, lines 713-722. -/
def emit_state_shader_stall (ctx : etna_context) (stream : etna_cmd_stream) :
    etna_cmd_stream :=
  if ctx.dirty &&& (ETNA_DIRTY_SHADER ||| ETNA_DIRTY_VS_UNIFORMS ||| ETNA_DIRTY_PS_UNIFORMS) ≠ 0 ∧
      ctx.specs.vs_offset > 0x4000 then
    etna_stall stream SYNC_RECIPIENT_FE SYNC_RECIPIENT_PE
  else stream

/-- The large dynamically-sized state, lines 724-773: the full upload when the
shader is dirty, the sparse uniform updates otherwise. -/
def emit_state_uniforms (ctx : etna_context) (dirty : Nat) (stream : etna_cmd_stream)
    (gpu3d : etna_3d_state) : etna_cmd_stream × etna_3d_state :=
  if dirty &&& ETNA_DIRTY_SHADER ≠ 0 then
    let stream := etna_set_state_multi stream ctx.specs.vs_offset
      ctx.shader_state.vs_inst_mem_size ctx.shader_state.VS_INST_MEM
    let stream := etna_set_state_multi stream ctx.specs.ps_offset
      ctx.shader_state.ps_inst_mem_size ctx.shader_state.PS_INST_MEM
    let stream := etna_set_state_multi stream (VIVS_VS_UNIFORMS 0)
      ctx.shader_state.vs_uniforms_size ctx.shader_state.VS_UNIFORMS
    let stream := etna_set_state_multi stream (VIVS_PS_UNIFORMS 0)
      ctx.shader_state.ps_uniforms_size ctx.shader_state.PS_UNIFORMS
    (stream,
      { gpu3d with
        vs_uniforms_size := ctx.shader_state.vs_uniforms_size
        ps_uniforms_size := ctx.shader_state.ps_uniforms_size
        VS_UNIFORMS := memcpy_words gpu3d.VS_UNIFORMS ctx.shader_state.VS_UNIFORMS
          ctx.shader_state.vs_uniforms_size
        PS_UNIFORMS := memcpy_words gpu3d.PS_UNIFORMS ctx.shader_state.PS_UNIFORMS
          ctx.shader_state.ps_uniforms_size
        VS_INST_MEM := memcpy_words gpu3d.VS_INST_MEM ctx.shader_state.VS_INST_MEM
          ctx.shader_state.vs_inst_mem_size
        PS_INST_MEM := memcpy_words gpu3d.PS_INST_MEM ctx.shader_state.PS_INST_MEM
          ctx.shader_state.ps_inst_mem_size })
  else
    let vs :=
      if dirty &&& ETNA_DIRTY_VS_UNIFORMS ≠ 0 then
        let r := uniform_update stream VIVS_VS_UNIFORMS ctx.shader_state.vs_uniforms_size
          ctx.shader_state.VS_UNIFORMS gpu3d.VS_UNIFORMS
        (r.1, { gpu3d with VS_UNIFORMS := r.2 })
      else (stream, gpu3d)
    if dirty &&& ETNA_DIRTY_PS_UNIFORMS ≠ 0 then
      let r := uniform_update vs.1 VIVS_PS_UNIFORMS ctx.shader_state.ps_uniforms_size
        ctx.shader_state.PS_UNIFORMS vs.2.PS_UNIFORMS
      (r.1, { vs.2 with PS_UNIFORMS := r.2 })
    else vs

/-- The re-link pass, lines 249-255: `etna_link_shaders` is the shader-link
collaborator, which returns the new `ctx->shader_state`. -/
def emit_state_relink (etna_link_shaders : etna_context → compiled_shader_state)
    (ctx : etna_context) : etna_context :=
  if ctx.dirty &&& ETNA_DIRTY_SHADER ≠ 0 ∧ ctx.vs.isSome ∧ ctx.fs.isSome then
    { ctx with shader_state := etna_link_shaders ctx }
  else ctx

/-- The function `etna_emit_state`.  `dbg_cflush_all` is
`DBG_ENABLED(ETNA_DBG_CFLUSH_ALL)`.  The result is `none` when `abort()` is
reached or the null `ctx->vertex_elements` is dereferenced. -/
def etna_emit_state (dbg_cflush_all : Bool)
    (etna_link_shaders : etna_context → compiled_shader_state) (ctx0 : etna_context) :
    Option etna_context :=
  let stream := ctx0.stream
  let active_samplers := active_samplers_bits ctx0
  let ctx := emit_state_relink etna_link_shaders ctx0
  match ctx.vertex_elements with
  | none => none
  | some vertex_elements =>
    let stream := etna_cmd_stream_reserve stream
      (ETNA_3D_CONTEXT_SIZE + 6 + 2 + vertex_elements.num_elements + 6)
    let dirty := ctx.dirty
    let stream := emit_state_flush dbg_cflush_all dirty stream
    let gpu3d := emit_state_msaa_clobber ctx dirty
    let stream := emit_state_vertex_elements dirty vertex_elements stream
    match etna_emit_state_region ctx dirty active_samplers with
    | none => none
    | some ops =>
      let stream := coalesced_region stream ETNA_3D_CONTEXT_SIZE ops
      let stream := emit_state_shader_stall ctx stream
      let r := emit_state_uniforms ctx dirty stream gpu3d
      some { ctx with stream := r.1, gpu3d := r.2, dirty := 0 }

/-! ## Resolve/blit state (`etnaviv_rs.c`, `etna_submit_rs_state`) -/

/-- Fields of the resolve descriptor `struct rs_state` read by
`etna_compile_rs_state` (`etnaviv_rs.h` is not among the sources); the two
dither words and the four clear values are listed one by one. -/
structure rs_state where
  source_format : Nat
  downsample_x : Bool
  downsample_y : Bool
  source_tiling : Nat
  dest_format : Nat
  dest_tiling : Nat
  swap_rb : Bool
  flip : Bool
  source : Option Nat
  source_offset : Nat
  source_stride : Nat
  source_padded_height : Nat
  dest : Option Nat
  dest_offset : Nat
  dest_stride : Nat
  dest_padded_height : Nat
  width : Nat
  height : Nat
  dither_0 : Nat
  dither_1 : Nat
  clear_bits : Nat
  clear_mode : Nat
  clear_value_0 : Nat
  clear_value_1 : Nat
  clear_value_2 : Nat
  clear_value_3 : Nat
  aa : Nat
  endian_mode : Nat
deriving DecidableEq

/-- Fields of `struct compiled_rs_state`; array elements are listed one by one. -/
structure compiled_rs_state where
  RS_CONFIG : Nat
  RS_SOURCE_STRIDE : Nat
  RS_DEST_STRIDE : Nat
  RS_WINDOW_SIZE : Nat
  RS_DITHER_0 : Nat
  RS_DITHER_1 : Nat
  RS_CLEAR_CONTROL : Nat
  RS_FILL_VALUE_0 : Nat
  RS_FILL_VALUE_1 : Nat
  RS_FILL_VALUE_2 : Nat
  RS_FILL_VALUE_3 : Nat
  RS_EXTRA_CONFIG : Nat
  RS_PIPE_OFFSET_0 : Nat
  RS_PIPE_OFFSET_1 : Nat
  source_0 : etna_reloc
  source_1 : etna_reloc
  dest_0 : etna_reloc
  dest_1 : etna_reloc
deriving DecidableEq

/-- The all-zero reloc left by `memset`. -/
def etna_reloc_zero : etna_reloc := ⟨none, 0, 0⟩

/-- The block left by `memset(cs, 0, sizeof(*cs))`. -/
def compiled_rs_state_zero : compiled_rs_state :=
  ⟨0, 0, 0, 0, 0, 0, 0, 0, 0, 0, 0, 0, 0, 0, etna_reloc_zero, etna_reloc_zero,
    etna_reloc_zero, etna_reloc_zero⟩

/-- Modelled from the spec: the linear layout. -/
def ETNA_LAYOUT_LINEAR : Nat := 0
/-- Modelled from the spec: the multi bit of a tiling mode. -/
def ETNA_LAYOUT_BIT_MULTI : Nat := 4
/-- Modelled from the spec: width alignment mask of the resolve engine (16 - 1). -/
def ETNA_RS_WIDTH_MASK : Nat := 15
/-- Modelled from the spec: read access flag of a reloc. -/
def ETNA_RELOC_READ : Nat := 1
/-- Modelled from the spec: write access flag of a reloc. -/
def ETNA_RELOC_WRITE : Nat := 2
/-- Modelled from the spec: source-format field of RS_CONFIG. -/
def VIVS_RS_CONFIG_SOURCE_FORMAT (x : Nat) : Nat := (x <<< 0) &&& 0x0000001f
/-- Modelled from the spec: downsample-x bit of RS_CONFIG. -/
def VIVS_RS_CONFIG_DOWNSAMPLE_X : Nat := 0x00000020
/-- Modelled from the spec: downsample-y bit of RS_CONFIG. -/
def VIVS_RS_CONFIG_DOWNSAMPLE_Y : Nat := 0x00000040
/-- Modelled from the spec: source-tiled bit of RS_CONFIG. -/
def VIVS_RS_CONFIG_SOURCE_TILED : Nat := 0x00000080
/-- Modelled from the spec: destination-format field of RS_CONFIG. -/
def VIVS_RS_CONFIG_DEST_FORMAT (x : Nat) : Nat := (x <<< 8) &&& 0x00001f00
/-- Modelled from the spec: destination-tiled bit of RS_CONFIG. -/
def VIVS_RS_CONFIG_DEST_TILED : Nat := 0x00004000
/-- Modelled from the spec: swap-RB bit of RS_CONFIG. -/
def VIVS_RS_CONFIG_SWAP_RB : Nat := 0x20000000
/-- Modelled from the spec: flip bit of RS_CONFIG. -/
def VIVS_RS_CONFIG_FLIP : Nat := 0x40000000
/-- Modelled from the spec: multi flag of the source stride. -/
def VIVS_RS_SOURCE_STRIDE_MULTI : Nat := 0x40000000
/-- Modelled from the spec: tiling flag of the source stride. -/
def VIVS_RS_SOURCE_STRIDE_TILING : Nat := 0x80000000
/-- Modelled from the spec: multi flag of the destination stride. -/
def VIVS_RS_DEST_STRIDE_MULTI : Nat := 0x40000000
/-- Modelled from the spec: tiling flag of the destination stride. -/
def VIVS_RS_DEST_STRIDE_TILING : Nat := 0x80000000
/-- Modelled from the spec: width field of the window size. -/
def VIVS_RS_WINDOW_SIZE_WIDTH (x : Nat) : Nat := (x <<< 0) &&& 0x0000ffff
/-- Modelled from the spec: height field of the window size. -/
def VIVS_RS_WINDOW_SIZE_HEIGHT (x : Nat) : Nat := (x <<< 16) &&& 0xffff0000
/-- Modelled from the spec: x field of a pipe offset. -/
def VIVS_RS_PIPE_OFFSET_X (x : Nat) : Nat := (x <<< 0) &&& 0x0000ffff
/-- Modelled from the spec: y field of a pipe offset. -/
def VIVS_RS_PIPE_OFFSET_Y (x : Nat) : Nat := (x <<< 16) &&& 0xffff0000
/-- Modelled from the spec: mask of the clear-bits field of the clear control. -/
def VIVS_RS_CLEAR_CONTROL_BITS__MASK : Nat := 0x0000ffff
/-- Modelled from the spec: the clear-bits field holding `x`. -/
def VIVS_RS_CLEAR_CONTROL_BITS (x : Nat) : Nat :=
  (x <<< 0) &&& VIVS_RS_CLEAR_CONTROL_BITS__MASK
/-- Modelled from the spec: anti-aliasing field of the extra configuration. -/
def VIVS_RS_EXTRA_CONFIG_AA (x : Nat) : Nat := (x <<< 0) &&& 0x00000003
/-- Modelled from the spec: endian field of the extra configuration. -/
def VIVS_RS_EXTRA_CONFIG_ENDIAN (x : Nat) : Nat := (x <<< 8) &&& 0x00000300

/-- Modelled from the spec: address of RS_KICKER. -/
def VIVS_RS_KICKER : Nat := 0x00001600
/-- Modelled from the spec: address of RS_CONFIG. -/
def VIVS_RS_CONFIG : Nat := 0x00001604
/-- Modelled from the spec: address of RS_SOURCE_ADDR. -/
def VIVS_RS_SOURCE_ADDR : Nat := 0x00001608
/-- Modelled from the spec: address of RS_SOURCE_STRIDE. -/
def VIVS_RS_SOURCE_STRIDE : Nat := 0x0000160c
/-- Modelled from the spec: address of RS_DEST_ADDR. -/
def VIVS_RS_DEST_ADDR : Nat := 0x00001610
/-- Modelled from the spec: address of RS_DEST_STRIDE. -/
def VIVS_RS_DEST_STRIDE : Nat := 0x00001614
/-- Modelled from the spec: address of RS_WINDOW_SIZE. -/
def VIVS_RS_WINDOW_SIZE : Nat := 0x00001620
/-- Modelled from the spec: address of RS_DITHER(x). -/
def VIVS_RS_DITHER (x : Nat) : Nat := 0x00001630 + 4 * x
/-- Modelled from the spec: address of RS_CLEAR_CONTROL. -/
def VIVS_RS_CLEAR_CONTROL : Nat := 0x0000163c
/-- Modelled from the spec: address of RS_FILL_VALUE(x). -/
def VIVS_RS_FILL_VALUE (x : Nat) : Nat := 0x00001640 + 4 * x
/-- Modelled from the spec: address of RS_EXTRA_CONFIG. -/
def VIVS_RS_EXTRA_CONFIG : Nat := 0x000016a0
/-- Modelled from the spec: address of RS_PIPE_SOURCE_ADDR(x). -/
def VIVS_RS_PIPE_SOURCE_ADDR (x : Nat) : Nat := 0x000016c0 + 4 * x
/-- Modelled from the spec: address of RS_PIPE_DEST_ADDR(x). -/
def VIVS_RS_PIPE_DEST_ADDR (x : Nat) : Nat := 0x000016e0 + 4 * x
/-- Modelled from the spec: address of RS_PIPE_OFFSET(x). -/
def VIVS_RS_PIPE_OFFSET (x : Nat) : Nat := 0x00001700 + 4 * x

/-- The function `etna_compile_rs_state`; `none` when the program is stopped, by
`abort()` or by the failing `assert` on the height.  `NDEBUG` tells whether the
file is compiled with `NDEBUG` defined, in which case `assert` expands to nothing
and the height is not tested. -/
def etna_compile_rs_state (NDEBUG : Bool) (pixel_pipes : Nat) (rs : rs_state) :
    Option compiled_rs_state :=
  let cs := compiled_rs_state_zero
  let source_stride_shift := if rs.source_tiling ≠ ETNA_LAYOUT_LINEAR then 2 else 0
  let dest_stride_shift := if rs.dest_tiling ≠ ETNA_LAYOUT_LINEAR then 2 else 0
  let source_multi : Bool := decide (rs.source_tiling &&& ETNA_LAYOUT_BIT_MULTI ≠ 0)
  let dest_multi : Bool := decide (rs.dest_tiling &&& ETNA_LAYOUT_BIT_MULTI ≠ 0)
  if rs.width &&& ETNA_RS_WIDTH_MASK ≠ 0 then none
  else
    let cs := { cs with
      RS_CONFIG := VIVS_RS_CONFIG_SOURCE_FORMAT rs.source_format |||
        (if rs.downsample_x then VIVS_RS_CONFIG_DOWNSAMPLE_X else 0) |||
        (if rs.downsample_y then VIVS_RS_CONFIG_DOWNSAMPLE_Y else 0) |||
        (if rs.source_tiling &&& 1 ≠ 0 then VIVS_RS_CONFIG_SOURCE_TILED else 0) |||
        VIVS_RS_CONFIG_DEST_FORMAT rs.dest_format |||
        (if rs.dest_tiling &&& 1 ≠ 0 then VIVS_RS_CONFIG_DEST_TILED else 0) |||
        (if rs.swap_rb then VIVS_RS_CONFIG_SWAP_RB else 0) |||
        (if rs.flip then VIVS_RS_CONFIG_FLIP else 0)
      RS_SOURCE_STRIDE := shl_u32 rs.source_stride source_stride_shift |||
        (if rs.source_tiling &&& 2 ≠ 0 then VIVS_RS_SOURCE_STRIDE_TILING else 0) |||
        (if source_multi then VIVS_RS_SOURCE_STRIDE_MULTI else 0)
      source_0 := ⟨rs.source, rs.source_offset, ETNA_RELOC_READ⟩
      dest_0 := ⟨rs.dest, rs.dest_offset, ETNA_RELOC_WRITE⟩
      RS_DEST_STRIDE := shl_u32 rs.dest_stride dest_stride_shift |||
        (if rs.dest_tiling &&& 2 ≠ 0 then VIVS_RS_DEST_STRIDE_TILING else 0) |||
        (if dest_multi then VIVS_RS_DEST_STRIDE_MULTI else 0) }
    let cs : Option compiled_rs_state :=
      if pixel_pipes = 1 then
        some { cs with
          RS_WINDOW_SIZE := VIVS_RS_WINDOW_SIZE_WIDTH rs.width |||
            VIVS_RS_WINDOW_SIZE_HEIGHT rs.height }
      else if pixel_pipes = 2 then
        if NDEBUG = true ∨ rs.height &&& 7 = 0 then
          let cs :=
            if source_multi then
              { cs with source_1 := ⟨rs.source,
                  add_u32 rs.source_offset
                    ((rs.source_stride * rs.source_padded_height) % U32 / 2),
                  ETNA_RELOC_READ⟩ }
            else cs
          let cs :=
            if dest_multi then
              { cs with dest_1 := ⟨rs.dest,
                  add_u32 rs.dest_offset ((rs.dest_stride * rs.dest_padded_height) % U32 / 2),
                  ETNA_RELOC_WRITE⟩ }
            else cs
          some { cs with
            RS_WINDOW_SIZE := VIVS_RS_WINDOW_SIZE_WIDTH rs.width |||
              VIVS_RS_WINDOW_SIZE_HEIGHT (rs.height / 2) }
        else none
      else none
    match cs with
    | none => none
    | some cs =>
      some { cs with
        RS_PIPE_OFFSET_0 := VIVS_RS_PIPE_OFFSET_X 0 ||| VIVS_RS_PIPE_OFFSET_Y 0
        RS_PIPE_OFFSET_1 := VIVS_RS_PIPE_OFFSET_X 0 ||| VIVS_RS_PIPE_OFFSET_Y (rs.height / 2)
        RS_DITHER_0 := rs.dither_0
        RS_DITHER_1 := rs.dither_1
        RS_CLEAR_CONTROL := VIVS_RS_CLEAR_CONTROL_BITS rs.clear_bits ||| rs.clear_mode
        RS_FILL_VALUE_0 := rs.clear_value_0
        RS_FILL_VALUE_1 := rs.clear_value_1
        RS_FILL_VALUE_2 := rs.clear_value_2
        RS_FILL_VALUE_3 := rs.clear_value_3
        RS_EXTRA_CONFIG := VIVS_RS_EXTRA_CONFIG_AA rs.aa |||
          VIVS_RS_EXTRA_CONFIG_ENDIAN rs.endian_mode }

/-- The function `etna_modify_rs_clearbits`. -/
def etna_modify_rs_clearbits (cs : compiled_rs_state) (clear_bits : Nat) :
    compiled_rs_state :=
  let v := cs.RS_CLEAR_CONTROL &&& not_u32 VIVS_RS_CLEAR_CONTROL_BITS__MASK
  { cs with RS_CLEAR_CONTROL := v ||| VIVS_RS_CLEAR_CONTROL_BITS clear_bits }

/-- The emission macros of `etna_submit_rs_state` for one pixel pipe (lines 166-183). -/
def submit_rs_ops_single (cs : compiled_rs_state) : List emit_op :=
  [emit_op.state VIVS_RS_CONFIG cs.RS_CONFIG,
    emit_op.state_reloc VIVS_RS_SOURCE_ADDR cs.source_0,
    emit_op.state VIVS_RS_SOURCE_STRIDE cs.RS_SOURCE_STRIDE,
    emit_op.state_reloc VIVS_RS_DEST_ADDR cs.dest_0,
    emit_op.state VIVS_RS_DEST_STRIDE cs.RS_DEST_STRIDE,
    emit_op.state VIVS_RS_WINDOW_SIZE cs.RS_WINDOW_SIZE,
    emit_op.state (VIVS_RS_DITHER 0) cs.RS_DITHER_0,
    emit_op.state (VIVS_RS_DITHER 1) cs.RS_DITHER_1,
    emit_op.state VIVS_RS_CLEAR_CONTROL cs.RS_CLEAR_CONTROL,
    emit_op.state (VIVS_RS_FILL_VALUE 0) cs.RS_FILL_VALUE_0,
    emit_op.state (VIVS_RS_FILL_VALUE 1) cs.RS_FILL_VALUE_1,
    emit_op.state (VIVS_RS_FILL_VALUE 2) cs.RS_FILL_VALUE_2,
    emit_op.state (VIVS_RS_FILL_VALUE 3) cs.RS_FILL_VALUE_3,
    emit_op.state VIVS_RS_EXTRA_CONFIG cs.RS_EXTRA_CONFIG,
    emit_op.state VIVS_RS_KICKER 0xbeebbeeb]

/-- The emission macros of `etna_submit_rs_state` for two pixel pipes (lines 187-217). -/
def submit_rs_ops_dual (cs : compiled_rs_state) : List emit_op :=
  [emit_op.state VIVS_RS_CONFIG cs.RS_CONFIG,
    emit_op.state VIVS_RS_SOURCE_STRIDE cs.RS_SOURCE_STRIDE,
    emit_op.state VIVS_RS_DEST_STRIDE cs.RS_DEST_STRIDE,
    emit_op.state_reloc (VIVS_RS_PIPE_SOURCE_ADDR 0) cs.source_0] ++
  (if cs.RS_SOURCE_STRIDE &&& VIVS_RS_SOURCE_STRIDE_MULTI ≠ 0 then
    [emit_op.state_reloc (VIVS_RS_PIPE_SOURCE_ADDR 1) cs.source_1]
   else []) ++
  [emit_op.state_reloc (VIVS_RS_PIPE_DEST_ADDR 0) cs.dest_0] ++
  (if cs.RS_DEST_STRIDE &&& VIVS_RS_DEST_STRIDE_MULTI ≠ 0 then
    [emit_op.state_reloc (VIVS_RS_PIPE_DEST_ADDR 1) cs.dest_1]
   else []) ++
  [emit_op.state (VIVS_RS_PIPE_OFFSET 0) cs.RS_PIPE_OFFSET_0,
    emit_op.state (VIVS_RS_PIPE_OFFSET 1) cs.RS_PIPE_OFFSET_1,
    emit_op.state VIVS_RS_WINDOW_SIZE cs.RS_WINDOW_SIZE,
    emit_op.state (VIVS_RS_DITHER 0) cs.RS_DITHER_0,
    emit_op.state (VIVS_RS_DITHER 1) cs.RS_DITHER_1,
    emit_op.state VIVS_RS_CLEAR_CONTROL cs.RS_CLEAR_CONTROL,
    emit_op.state (VIVS_RS_FILL_VALUE 0) cs.RS_FILL_VALUE_0,
    emit_op.state (VIVS_RS_FILL_VALUE 1) cs.RS_FILL_VALUE_1,
    emit_op.state (VIVS_RS_FILL_VALUE 2) cs.RS_FILL_VALUE_2,
    emit_op.state (VIVS_RS_FILL_VALUE 3) cs.RS_FILL_VALUE_3,
    emit_op.state VIVS_RS_EXTRA_CONFIG cs.RS_EXTRA_CONFIG,
    emit_op.state VIVS_RS_KICKER 0xbeebbeeb]

/-- The function `etna_submit_rs_state` on the stream of the context; `none`
when `abort()` is called. -/
def etna_submit_rs_state (pixel_pipes : Nat) (stream : etna_cmd_stream)
    (cs : compiled_rs_state) : Option etna_cmd_stream :=
  if pixel_pipes = 1 then
    some (coalesced_region stream 22 (submit_rs_ops_single cs))
  else if pixel_pipes = 2 then
    some (coalesced_region stream 34 (submit_rs_ops_dual cs))
  else none

/-! ## Rasterizer state (`etnaviv_rasterizer.c`) -/

/-- Fields of `struct pipe_draw_info` read by `etna_draw_vbo`. -/
structure pipe_draw_info where
  mode : Nat
  count : Nat
  start : Nat
  index_bias : Nat
  indexed : Bool

/-- The collaborators of `etna_draw_vbo` that are not among the sources. -/
structure draw_collaborators where
  dbg_cflush_all : Bool
  etna_link_shaders : etna_context → compiled_shader_state
  util_primconvert_draw_vbo : etna_context → pipe_draw_info → etna_context
  u_decomposed_prims_for_vertices : Nat → Nat → Int
  translate_draw_mode : Nat → Option Nat
  etna_draw_indexed_primitives : etna_cmd_stream → Nat → Nat → Int → Nat → etna_cmd_stream
  etna_draw_primitives : etna_cmd_stream → Nat → Nat → Int → etna_cmd_stream

/-- The end of `etna_draw_vbo` (lines 105-125): translation of the draw mode and
the draw command. -/
def draw_vbo_command (ext : draw_collaborators) (ctx : etna_context) (info : pipe_draw_info)
    (prims : Int) : etna_context :=
  match ext.translate_draw_mode info.mode with
  | none => ctx
  | some draw_mode =>
    if info.indexed then
      { ctx with stream := (ext.etna_draw_indexed_primitives ctx.stream draw_mode
          info.start prims info.index_bias) }
    else
      { ctx with stream := (ext.etna_draw_primitives ctx.stream draw_mode info.start prims) }

/-- The test of line 98: a vertex shader is bound and the number of vertex
elements differs from its number of inputs. -/
def draw_vbo_mismatch (ctx : etna_context) : Bool :=
  match ctx.vs, ctx.vertex_elements with
  | some vs, some ve => decide (ve.num_elements ≠ vs.num_inputs)
  | _, _ => false

/-- The function `etna_draw_vbo`; `prim_hwsupport` is `ctx->prim_hwsupport`.
`none` when `etna_emit_state` aborts. -/
def etna_draw_vbo (ext : draw_collaborators) (prim_hwsupport : Nat) (ctx : etna_context)
    (info : pipe_draw_info) : Option etna_context :=
  match ctx.vertex_elements with
  | none => some ctx
  | some vertex_elements =>
    if vertex_elements.num_elements = 0 then some ctx
    else if prim_hwsupport &&& (1 <<< info.mode) = 0 then
      some (ext.util_primconvert_draw_vbo ctx info)
    else
      let prims := ext.u_decomposed_prims_for_vertices info.mode info.count
      if prims ≤ 0 then some ctx
      else
        match etna_emit_state ext.dbg_cflush_all ext.etna_link_shaders ctx with
        | none => none
        | some ctx =>
          if draw_vbo_mismatch ctx then some ctx
          else some (draw_vbo_command ext ctx info prims)

/-- Modelled from the spec: address of GL_API_MODE. -/
def VIVS_GL_API_MODE : Nat := 0x0000384c
/-- Modelled from the spec: the OpenGL value of GL_API_MODE. -/
def VIVS_GL_API_MODE_OPENGL : Nat := 0x00000000
/-- Modelled from the spec: address of GL_VERTEX_ELEMENT_CONFIG. -/
def VIVS_GL_VERTEX_ELEMENT_CONFIG : Nat := 0x00003814
/-- Modelled from the spec: address of RA_EARLY_DEPTH. -/
def VIVS_RA_EARLY_DEPTH : Nat := 0x00000e08
/-- Modelled from the spec: address of PA_W_CLIP_LIMIT. -/
def VIVS_PA_W_CLIP_LIMIT : Nat := 0x00000a2c

/-- The function `etna_cmd_stream_reset_notify`, returning the stream and the new
`ctx->dirty`. -/
def etna_cmd_stream_reset_notify (stream : etna_cmd_stream) : etna_cmd_stream × Nat :=
  let stream := etna_set_state stream VIVS_GL_API_MODE VIVS_GL_API_MODE_OPENGL
  let stream := etna_set_state stream VIVS_GL_VERTEX_ELEMENT_CONFIG 0x00000001
  let stream := etna_set_state stream VIVS_RA_EARLY_DEPTH 0x00000031
  let stream := etna_set_state stream VIVS_PA_W_CLIP_LIMIT 0x34000001
  (stream, 0xffffffff)

/-! ## Reading the stream back: register writes and load-state packets -/

/-- A register write as the hardware sees it: register address, fixed-point tag
and value. -/
structure reg_write where
  reg : Nat
  fixp : Bool
  value : Nat
deriving DecidableEq

/-- The emission macro that makes a given plain or fixed-point write. -/
def reg_write.op (w : reg_write) : emit_op :=
  if w.fixp then .state_fixp w.reg w.value else .state w.reg w.value

/-- The write an emission macro hands to the coalescer: none for a reloc without
backing allocation, a placeholder word for a reloc with one. -/
def emit_op.write : emit_op → Option reg_write
  | .state reg value => some ⟨reg, false, value⟩
  | .state_fixp reg value => some ⟨reg, true, value⟩
  | .state_reloc reg r => if r.bo.isSome then some ⟨reg, false, 0⟩ else none

/-- The writes `vals[0], vals[1], ...` to the registers `a, a+4, ...` with one tag. -/
def run_writes (a : Nat) (t : Bool) : List Nat → List reg_write
  | [] => []
  | v :: vs => ⟨a, t, v⟩ :: run_writes (a + 4) t vs

/-- A load-state packet: first register address, tag and payload words. -/
structure packet where
  reg : Nat
  fixp : Bool
  vals : List Nat
deriving DecidableEq

/-- The filler appended at stream offset `off` to reach an even offset. -/
def padding (off : Nat) : List Nat :=
  if off % 2 = 1 then [0xdeadbeef] else []

/-- The words of a closed packet whose header sits at stream offset `off`. -/
def packet.words (off : Nat) (p : packet) : List Nat :=
  load_state_header (p.reg >>> 2) p.vals.length p.fixp.toNat :: p.vals ++
    padding (off + 1 + p.vals.length)

/-- The words of consecutive closed packets, the first header at offset `off`. -/
def encode_packets : Nat → List packet → List Nat
  | _, [] => []
  | off, p :: ps => p.words off ++ encode_packets (off + (p.words off).length) ps

/-- The packets made of the open packet `p` (last register written `last`)
followed by the writes `ws`: a write joins the open packet when its address is
`last + 4` (as 32-bit sum) and its tag is the packet's. -/
def group_from (p : packet) (last : Nat) : List reg_write → List packet
  | [] => [p]
  | w :: ws =>
    if add_u32 last 4 = w.reg ∧ p.fixp = w.fixp then
      group_from { p with vals := p.vals ++ [w.value] } w.reg ws
    else
      p :: group_from ⟨w.reg, w.fixp, [w.value]⟩ w.reg ws

/-- The maximal runs of contiguous same-tag writes of a write sequence. -/
def group_writes : List reg_write → List packet
  | [] => []
  | w :: ws => group_from ⟨w.reg, w.fixp, [w.value]⟩ w.reg ws

/-- The cursor and stream while the packet `p` is open after the words `pre`:
its header, still with count 0, sits right before `start`, its payload follows,
and `last` is the last register written. -/
def OpenAt (pre : List Nat) (p : packet) (last : Nat) (s : etna_cmd_stream)
    (c : etna_coalesce) : Prop :=
  s.buffer = pre ++ load_state_header (p.reg >>> 2) 0 p.fixp.toNat :: p.vals ∧
    c.start = pre.length + 1 ∧ c.last_reg = last ∧ c.last_fixp = p.fixp.toNat ∧
    p.vals ≠ [] ∧ last ≠ 0

/-- The run-length field of a header word. -/
def header_count (w : Nat) : Nat :=
  (w &&& VIV_FE_LOAD_STATE_HEADER_COUNT__MASK) >>> VIV_FE_LOAD_STATE_HEADER_COUNT__SHIFT

/-- The register-index field of a header word. -/
def header_offset (w : Nat) : Nat :=
  (w &&& VIV_FE_LOAD_STATE_HEADER_OFFSET__MASK) >>> 0

/-- The fixed-point tag of a header word. -/
def header_fixp (w : Nat) : Bool :=
  decide (w &&& VIV_FE_LOAD_STATE_HEADER_FIXP ≠ 0)

/-- Decoding of a word sequence that starts at an even offset as load-state
packets: a header gives register index, tag and count, then come count payload
words, then a filler word is skipped up to the next even offset. -/
def decode_packets : Nat → List Nat → List reg_write
  | 0, _ => []
  | _, [] => []
  | fuel + 1, h :: rest =>
    let n := header_count h
    run_writes (4 * header_offset h) (header_fixp h) (rest.take n) ++
      decode_packets fuel ((rest.drop n).drop (if n % 2 = 0 then 1 else 0))

/-- Decoding with fuel for every word. -/
def decode_stream (words : List Nat) : List reg_write :=
  decode_packets words.length words

/-- The uncoalesced encoding: one load-state packet of count 1 per register write. -/
def uncoalesced : List reg_write → List Nat
  | [] => []
  | w :: ws => load_state_header (w.reg >>> 2) 1 w.fixp.toNat :: w.value :: uncoalesced ws

/-- The register addresses written by a sequence of emission macros, in order. -/
def written_regs (ops : List emit_op) : List Nat :=
  (ops.filterMap emit_op.write).map (fun w => w.reg)

/-- A context with every field zero, one vertex element and one pixel pipe, used
as the base of examples. -/
def blank_context : etna_context :=
  { stream := ⟨[], []⟩
    dirty := 0
    specs := ⟨0, false, 1, 0, 0⟩
    vs := none
    fs := none
    shader_state := ⟨0, 0, 0, 0, 0, fun _ => 0, fun _ => 0, 0, 0, 0, 0, fun _ => 0, 0, 0, 0, 0, 0,
      0, 0, 0, 0, 0, 0, fun _ => 0, 0, 0, 0, 0, fun _ => 0, fun _ => 0, fun _ => 0, fun _ => 0⟩
    gpu3d := ⟨0, 0, 0, 0, 0, fun _ => 0, fun _ => 0, fun _ => 0, fun _ => 0⟩
    vertex_elements := some ⟨1, fun _ => 0⟩
    index_buffer := ⟨none, ⟨none, 0, 0⟩, 0⟩
    vertex_buffer := ⟨0, fun _ => ⟨⟨none, 0, 0⟩, 0⟩⟩
    rasterizer := ⟨0, 0, 0, 0, 0, 0, 0, false, false⟩
    viewport := ⟨0, 0, 0, 0, 0, 0, 0, 0, 0, 0, 0, 0⟩
    scissor := ⟨0, 0, 0, 0⟩
    framebuffer := ⟨0, 0, 0, 0, 0, 0, fun _ => 0, fun _ => 0, false, 0, 0, ⟨none, 0, 0⟩, 0, 0,
      ⟨none, 0, 0⟩, 0, 0, fun _ => ⟨none, 0, 0⟩, fun _ => ⟨none, 0, 0⟩, 0, ⟨none, 0, 0⟩,
      ⟨none, 0, 0⟩, 0, ⟨none, 0, 0⟩, ⟨none, 0, 0⟩, 0⟩
    zsa := ⟨0, 0, 0, 0⟩
    stencil_ref := ⟨0, 0⟩
    blend_color := ⟨0⟩
    blend := ⟨0, 0, 0, fun _ => 0⟩
    sample_mask := 0
    num_fragment_samplers := 0
    num_fragment_sampler_views := 0
    num_vertex_samplers := 0
    num_vertex_sampler_views := 0
    sampler := fun _ => ⟨0, 0, 0, 0, 0⟩
    sampler_view := fun _ => ⟨0, 0, 0, 0, 0, fun _ => ⟨none, 0, 0⟩, 0, 0⟩ }

/-- A resolve descriptor with every field zero, used as the base of examples. -/
def blank_rs_state : rs_state :=
  ⟨0, false, false, 0, 0, 0, false, false, none, 0, 0, 0, none, 0, 0, 0, 0, 0, 0, 0, 0, 0, 0, 0,
    0, 0, 0, 0⟩

/-- Collaborators used in examples: a third of the vertex count as primitive
count, every draw mode translated to itself, draw commands and the primitive
converter appending the words they are given. -/
def example_collaborators : draw_collaborators :=
  { dbg_cflush_all := false
    etna_link_shaders := fun c => c.shader_state
    util_primconvert_draw_vbo := fun c info =>
      { c with stream := etna_cmd_stream_emit c.stream info.mode }
    u_decomposed_prims_for_vertices := fun _ count => (count / 3 : Nat)
    translate_draw_mode := fun m => some m
    etna_draw_indexed_primitives := fun s m _ _ _ => etna_cmd_stream_emit s m
    etna_draw_primitives := fun s m _ _ => etna_cmd_stream_emit s m }

/-- The maximal runs of consecutive indices of `cur` (the run in progress, whose
last index is `last`) followed by `xs`: an index joins the run in progress
exactly when it is `last + 1`. -/
def index_runs_from (cur : List Nat) (last : Nat) : List Nat → List (List Nat)
  | [] => [cur]
  | x :: xs =>
    if x = last + 1 then index_runs_from (cur ++ [x]) x xs
    else cur :: index_runs_from [x] x xs

/-- The maximal runs of consecutive indices of an index list. -/
def index_runs : List Nat → List (List Nat)
  | [] => []
  | x :: xs => index_runs_from [x] x xs

/-- The indices below `size` at which the mirror differs from the new value. -/
def differing_indices (size : Nat) (new_values mirror : Nat → Nat) : List Nat :=
  (List.range size).filter (fun x => decide (mirror x ≠ new_values x))

/-- The register an emission macro names. -/
def emit_op.reg : emit_op → Nat
  | .state reg _ => reg
  | .state_fixp reg _ => reg
  | .state_reloc reg _ => reg

/-- The registers of the rule blocks that follow the leading
GL_MULTI_SAMPLE_CONFIG rule in the coalesced region of `etna_emit_state`, in
program order, for nine vertex buffers (the most for which the stream base
addresses stay below the stream controls) and both pixel-pipe layouts. -/
def region_registers : List Nat :=
  [VIVS_FE_INDEX_STREAM_BASE_ADDR, VIVS_FE_INDEX_STREAM_CONTROL] ++
    ([VIVS_FE_VERTEX_STREAM_BASE_ADDR, VIVS_FE_VERTEX_STREAM_CONTROL] ++
        (List.range' 1 8).map VIVS_FE_VERTEX_STREAMS_BASE_ADDR ++
        (List.range' 1 8).map VIVS_FE_VERTEX_STREAMS_CONTROL) ++
    [VIVS_VS_END_PC] ++
    [VIVS_VS_OUTPUT_COUNT] ++
    [VIVS_VS_INPUT_COUNT, VIVS_VS_TEMP_REGISTER_CONTROL] ++
    (List.range 4).map VIVS_VS_OUTPUT ++
    (List.range 4).map VIVS_VS_INPUT ++
    [VIVS_VS_LOAD_BALANCING, VIVS_VS_START_PC, VIVS_VS_RANGE] ++
    [VIVS_PA_VIEWPORT_SCALE_X, VIVS_PA_VIEWPORT_SCALE_Y, VIVS_PA_VIEWPORT_SCALE_Z,
        VIVS_PA_VIEWPORT_OFFSET_X, VIVS_PA_VIEWPORT_OFFSET_Y, VIVS_PA_VIEWPORT_OFFSET_Z] ++
    [VIVS_PA_LINE_WIDTH, VIVS_PA_POINT_SIZE, VIVS_PA_SYSTEM_MODE] ++
    [VIVS_PA_ATTRIBUTE_ELEMENT_COUNT] ++
    [VIVS_PA_CONFIG] ++
    (List.range 10).map VIVS_PA_SHADER_ATTRIBUTES ++
    [VIVS_SE_SCISSOR_LEFT, VIVS_SE_SCISSOR_TOP, VIVS_SE_SCISSOR_RIGHT,
        VIVS_SE_SCISSOR_BOTTOM] ++
    [VIVS_SE_DEPTH_SCALE, VIVS_SE_DEPTH_BIAS, VIVS_SE_CONFIG] ++
    [VIVS_RA_CONTROL] ++
    ([VIVS_RA_MULTISAMPLE_UNK00E04] ++ (List.range 4).map VIVS_RA_MULTISAMPLE_UNK00E10 ++
        (List.range 16).map VIVS_RA_CENTROID_TABLE) ++
    [VIVS_PS_END_PC, VIVS_PS_OUTPUT_REG, VIVS_PS_INPUT_COUNT, VIVS_PS_TEMP_REGISTER_CONTROL,
        VIVS_PS_CONTROL, VIVS_PS_START_PC, VIVS_PS_RANGE] ++
    [VIVS_PE_DEPTH_CONFIG] ++
    [VIVS_PE_DEPTH_NEAR, VIVS_PE_DEPTH_FAR] ++
    [VIVS_PE_DEPTH_NORMALIZE, VIVS_PE_DEPTH_ADDR, VIVS_PE_DEPTH_STRIDE] ++
    [VIVS_PE_STENCIL_OP] ++
    [VIVS_PE_STENCIL_CONFIG] ++
    [VIVS_PE_ALPHA_OP] ++
    [VIVS_PE_ALPHA_BLEND_COLOR] ++
    [VIVS_PE_ALPHA_CONFIG] ++
    [VIVS_PE_COLOR_FORMAT] ++
    [VIVS_PE_COLOR_ADDR, VIVS_PE_COLOR_STRIDE, VIVS_PE_HDEPTH_CONTROL,
        VIVS_PE_PIPE_COLOR_ADDR 0, VIVS_PE_PIPE_COLOR_ADDR 1, VIVS_PE_PIPE_DEPTH_ADDR 0,
        VIVS_PE_PIPE_DEPTH_ADDR 1] ++
    [VIVS_PE_STENCIL_CONFIG_EXT] ++
    ([VIVS_PE_LOGIC_OP] ++ (List.range 2).map VIVS_PE_DITHER) ++
    [VIVS_TS_MEM_CONFIG, VIVS_TS_COLOR_STATUS_BASE, VIVS_TS_COLOR_SURFACE_BASE,
        VIVS_TS_COLOR_CLEAR_VALUE, VIVS_TS_DEPTH_STATUS_BASE, VIVS_TS_DEPTH_SURFACE_BASE,
        VIVS_TS_DEPTH_CLEAR_VALUE] ++
    (List.range VIVS_TE_SAMPLER__LEN).map VIVS_TE_SAMPLER_CONFIG0 ++
    ((List.range VIVS_TE_SAMPLER__LEN).map VIVS_TE_SAMPLER_SIZE ++
        (List.range VIVS_TE_SAMPLER__LEN).map VIVS_TE_SAMPLER_LOG_SIZE) ++
    ((List.range VIVS_TE_SAMPLER__LEN).map VIVS_TE_SAMPLER_LOD_CONFIG ++
        (List.range VIVS_TE_SAMPLER__LEN).map VIVS_TE_SAMPLER_CONFIG1) ++
    (List.range VIVS_TE_SAMPLER_LOD_ADDR__LEN).flatMap (fun y =>
        (List.range VIVS_TE_SAMPLER__LEN).map (fun x => VIVS_TE_SAMPLER_LOD_ADDR x y)) ++
    ([VIVS_GL_VARYING_TOTAL_COMPONENTS, VIVS_GL_VARYING_NUM_COMPONENTS] ++
        (List.range 2).map VIVS_GL_VARYING_COMPONENT_USE)

/-- Whether each address of a list is strictly below the next one. -/
def ascending : List Nat → Bool
  | [] => true
  | [_] => true
  | a :: b :: l => decide (a < b) && ascending (b :: l)

/-- A context in which every rule of the region fires: every category dirty, a
bound index buffer, one vertex buffer, every reloc with a backing allocation,
shader-range registers, one pixel pipe, and eight fragment and four vertex
samplers with their sampler views. -/
def loaded_context : etna_context :=
  { blank_context with
    dirty := 0xffffffff
    specs := ⟨8, true, 1, 0, 0⟩
    index_buffer := ⟨some 1, ⟨some 1, 0, 0⟩, 0⟩
    vertex_buffer := ⟨1, fun _ => ⟨⟨some 1, 0, 0⟩, 0⟩⟩
    framebuffer := ⟨0, 0, 0, 0, 0, 0, fun _ => 0, fun _ => 0, false, 0, 0, ⟨some 1, 0, 0⟩, 0, 0,
      ⟨some 1, 0, 0⟩, 0, 0, fun _ => ⟨some 1, 0, 0⟩, fun _ => ⟨some 1, 0, 0⟩, 0, ⟨some 1, 0, 0⟩,
      ⟨some 1, 0, 0⟩, 0, ⟨some 1, 0, 0⟩, ⟨some 1, 0, 0⟩, 0⟩
    num_fragment_samplers := 8
    num_fragment_sampler_views := 8
    num_vertex_samplers := 4
    num_vertex_sampler_views := 4
    sampler_view := fun _ => ⟨0, 0, 0, 0, 0, fun _ => ⟨some 1, 0, 0⟩, 0, 0⟩ }

/-- The writes handed to the coalescer by `etna_submit_rs_state` for one pixel
pipe; `src` and `dst` tell whether the source and destination relocs have a
backing allocation. -/
def submit_rs_writes_single (cs : compiled_rs_state) (src dst : Bool) : List reg_write :=
  [⟨VIVS_RS_CONFIG, false, cs.RS_CONFIG⟩] ++
  (if src then [⟨VIVS_RS_SOURCE_ADDR, false, 0⟩] else []) ++
  [⟨VIVS_RS_SOURCE_STRIDE, false, cs.RS_SOURCE_STRIDE⟩] ++
  (if dst then [⟨VIVS_RS_DEST_ADDR, false, 0⟩] else []) ++
  [⟨VIVS_RS_DEST_STRIDE, false, cs.RS_DEST_STRIDE⟩,
    ⟨VIVS_RS_WINDOW_SIZE, false, cs.RS_WINDOW_SIZE⟩,
    ⟨VIVS_RS_DITHER 0, false, cs.RS_DITHER_0⟩,
    ⟨VIVS_RS_DITHER 1, false, cs.RS_DITHER_1⟩,
    ⟨VIVS_RS_CLEAR_CONTROL, false, cs.RS_CLEAR_CONTROL⟩,
    ⟨VIVS_RS_FILL_VALUE 0, false, cs.RS_FILL_VALUE_0⟩,
    ⟨VIVS_RS_FILL_VALUE 1, false, cs.RS_FILL_VALUE_1⟩,
    ⟨VIVS_RS_FILL_VALUE 2, false, cs.RS_FILL_VALUE_2⟩,
    ⟨VIVS_RS_FILL_VALUE 3, false, cs.RS_FILL_VALUE_3⟩,
    ⟨VIVS_RS_EXTRA_CONFIG, false, cs.RS_EXTRA_CONFIG⟩,
    ⟨VIVS_RS_KICKER, false, 0xbeebbeeb⟩]

/-- The writes handed to the coalescer by `etna_submit_rs_state` for two pixel
pipes; `src0`, `src1`, `dst0` and `dst1` tell which of the four reloc emissions
take place. -/
def submit_rs_writes_dual (cs : compiled_rs_state) (src0 src1 dst0 dst1 : Bool) :
    List reg_write :=
  [⟨VIVS_RS_CONFIG, false, cs.RS_CONFIG⟩,
    ⟨VIVS_RS_SOURCE_STRIDE, false, cs.RS_SOURCE_STRIDE⟩,
    ⟨VIVS_RS_DEST_STRIDE, false, cs.RS_DEST_STRIDE⟩] ++
  (if src0 then [⟨VIVS_RS_PIPE_SOURCE_ADDR 0, false, 0⟩] else []) ++
  (if src1 then [⟨VIVS_RS_PIPE_SOURCE_ADDR 1, false, 0⟩] else []) ++
  (if dst0 then [⟨VIVS_RS_PIPE_DEST_ADDR 0, false, 0⟩] else []) ++
  (if dst1 then [⟨VIVS_RS_PIPE_DEST_ADDR 1, false, 0⟩] else []) ++
  [⟨VIVS_RS_PIPE_OFFSET 0, false, cs.RS_PIPE_OFFSET_0⟩,
    ⟨VIVS_RS_PIPE_OFFSET 1, false, cs.RS_PIPE_OFFSET_1⟩,
    ⟨VIVS_RS_WINDOW_SIZE, false, cs.RS_WINDOW_SIZE⟩,
    ⟨VIVS_RS_DITHER 0, false, cs.RS_DITHER_0⟩,
    ⟨VIVS_RS_DITHER 1, false, cs.RS_DITHER_1⟩,
    ⟨VIVS_RS_CLEAR_CONTROL, false, cs.RS_CLEAR_CONTROL⟩,
    ⟨VIVS_RS_FILL_VALUE 0, false, cs.RS_FILL_VALUE_0⟩,
    ⟨VIVS_RS_FILL_VALUE 1, false, cs.RS_FILL_VALUE_1⟩,
    ⟨VIVS_RS_FILL_VALUE 2, false, cs.RS_FILL_VALUE_2⟩,
    ⟨VIVS_RS_FILL_VALUE 3, false, cs.RS_FILL_VALUE_3⟩,
    ⟨VIVS_RS_EXTRA_CONFIG, false, cs.RS_EXTRA_CONFIG⟩,
    ⟨VIVS_RS_KICKER, false, 0xbeebbeeb⟩]

/-- The rule blocks that follow the vertex-buffer rule in the coalesced region of
`etna_emit_state` (lines 373-710), in program order; `r_pe_color` is the output
of the PE_COLOR rule. -/
def region_after_vertex_buffers (ctx : etna_context) (dirty active_samplers : Nat)
    (r_pe_color : List emit_op) : List emit_op :=
  region_vs_end_pc ctx dirty ++
    region_vs_output_count ctx dirty ++
    region_vs_input_count ctx dirty ++
    region_vs_output ctx dirty ++
    region_vs_input ctx dirty ++
    region_vs_start ctx dirty ++
    region_viewport ctx dirty ++
    region_pa_rasterizer ctx dirty ++
    region_pa_attribute_count ctx dirty ++
    region_pa_config ctx dirty ++
    region_pa_shader_attributes ctx dirty ++
    region_scissor ctx dirty ++
    region_se_rasterizer ctx dirty ++
    region_ra_control ctx dirty ++
    region_ra_framebuffer ctx dirty ++
    region_ps ctx dirty ++
    region_pe_depth_config ctx dirty ++
    region_pe_depth_range ctx dirty ++
    region_pe_depth ctx dirty ++
    region_pe_stencil_op ctx dirty ++
    region_pe_stencil_config ctx dirty ++
    region_pe_alpha_op ctx dirty ++
    region_pe_blend_color ctx dirty ++
    region_pe_alpha_config ctx dirty ++
    region_pe_color_format ctx dirty ++
    r_pe_color ++
    region_pe_stencil_ext ctx dirty ++
    region_pe_blend ctx dirty ++
    region_ts ctx dirty ++
    region_te_config0 ctx dirty active_samplers ++
    region_te_size ctx dirty active_samplers ++
    region_te_lod ctx dirty active_samplers ++
    region_te_lod_addr ctx dirty active_samplers ++
    region_varying ctx dirty

/-- The sampler (TE_SAMPLER) registers named by the emission macros of
`etna_emit_state` (lines 597-694). -/
def te_sampler_registers : List Nat :=
  (List.range VIVS_TE_SAMPLER__LEN).map VIVS_TE_SAMPLER_CONFIG0 ++
    (List.range VIVS_TE_SAMPLER__LEN).map VIVS_TE_SAMPLER_SIZE ++
    (List.range VIVS_TE_SAMPLER__LEN).map VIVS_TE_SAMPLER_LOG_SIZE ++
    (List.range VIVS_TE_SAMPLER__LEN).map VIVS_TE_SAMPLER_LOD_CONFIG ++
    (List.range VIVS_TE_SAMPLER__LEN).map VIVS_TE_SAMPLER_CONFIG1 ++
    (List.range VIVS_TE_SAMPLER_LOD_ADDR__LEN).flatMap (fun y =>
      (List.range VIVS_TE_SAMPLER__LEN).map (fun x => VIVS_TE_SAMPLER_LOD_ADDR x y))

/-- A rule of the coalesced region of `etna_emit_state` as data: the dirty mask
its `if` tests, and the registers it names, in program order, each with its
gate (the further condition under which the register is written: a bound index
buffer, a reloc with a backing allocation, an active sampler, the pixel-pipe
layout, the shader range registers). -/
structure region_rule where
  mask : Nat
  regs : List (Nat × Bool)

/-- The registers of a list of gated registers whose gate holds. -/
def gated_registers (regs : List (Nat × Bool)) : List Nat :=
  (regs.filter (fun e => e.2)).map (fun e => e.1)

/-- The registers a rule writes for a dirty set: none when its mask does not
intersect the set, and otherwise those of its registers whose gate holds. -/
def region_rule.written (dirty : Nat) (r : region_rule) : List Nat :=
  if dirty &&& r.mask ≠ 0 then gated_registers r.regs else []

/-- The rule table of the coalesced region of `etna_emit_state` that the
specification speaks of (per rule a dirty mask and its registers), in program
order, with the rules read off the `if` blocks of lines 341-710 and their
emission macros; it is compared with the emission list of the code on the
passes that return (for a pixel-pipe count other than 1 or 2 the PE_COLOR rule
calls `abort()`). -/
def region_rule_table (ctx : etna_context) (active_samplers : Nat) : List region_rule :=
  [⟨ETNA_DIRTY_FRAMEBUFFER ||| ETNA_DIRTY_SAMPLE_MASK,
      [(VIVS_GL_MULTI_SAMPLE_CONFIG, true)]⟩,
    ⟨ETNA_DIRTY_INDEX_BUFFER,
      [(VIVS_FE_INDEX_STREAM_BASE_ADDR,
          ctx.index_buffer.ib_buffer.isSome &&
            ctx.index_buffer.FE_INDEX_STREAM_BASE_ADDR.bo.isSome),
        (VIVS_FE_INDEX_STREAM_CONTROL, ctx.index_buffer.ib_buffer.isSome)]⟩,
    ⟨ETNA_DIRTY_VERTEX_BUFFERS,
      [(VIVS_FE_VERTEX_STREAM_BASE_ADDR,
          (ctx.vertex_buffer.cvb 0).FE_VERTEX_STREAM_BASE_ADDR.bo.isSome),
        (VIVS_FE_VERTEX_STREAM_CONTROL, true)] ++
        (List.range' 1 (ctx.vertex_buffer.count - 1)).map (fun x =>
          (VIVS_FE_VERTEX_STREAMS_BASE_ADDR x,
            (ctx.vertex_buffer.cvb x).FE_VERTEX_STREAM_BASE_ADDR.bo.isSome)) ++
        (List.range' 1 (ctx.vertex_buffer.count - 1)).map (fun x =>
          (VIVS_FE_VERTEX_STREAMS_CONTROL x,
            (ctx.vertex_buffer.cvb x).FE_VERTEX_STREAM_BASE_ADDR.bo.isSome))⟩,
    ⟨ETNA_DIRTY_SHADER,
      [(VIVS_VS_END_PC, true)]⟩,
    ⟨ETNA_DIRTY_SHADER ||| ETNA_DIRTY_RASTERIZER,
      [(VIVS_VS_OUTPUT_COUNT, true)]⟩,
    ⟨ETNA_DIRTY_VERTEX_ELEMENTS ||| ETNA_DIRTY_SHADER,
      [(VIVS_VS_INPUT_COUNT, true), (VIVS_VS_TEMP_REGISTER_CONTROL, true)]⟩,
    ⟨ETNA_DIRTY_SHADER,
      (List.range 4).map (fun x => (VIVS_VS_OUTPUT x, true))⟩,
    ⟨ETNA_DIRTY_VERTEX_ELEMENTS ||| ETNA_DIRTY_SHADER,
      (List.range 4).map (fun x => (VIVS_VS_INPUT x, true))⟩,
    ⟨ETNA_DIRTY_SHADER,
      [(VIVS_VS_LOAD_BALANCING, true), (VIVS_VS_START_PC, true),
        (VIVS_VS_RANGE, ctx.specs.has_shader_range_registers)]⟩,
    ⟨ETNA_DIRTY_VIEWPORT,
      [(VIVS_PA_VIEWPORT_SCALE_X, true), (VIVS_PA_VIEWPORT_SCALE_Y, true),
        (VIVS_PA_VIEWPORT_SCALE_Z, true), (VIVS_PA_VIEWPORT_OFFSET_X, true),
        (VIVS_PA_VIEWPORT_OFFSET_Y, true), (VIVS_PA_VIEWPORT_OFFSET_Z, true)]⟩,
    ⟨ETNA_DIRTY_RASTERIZER,
      [(VIVS_PA_LINE_WIDTH, true), (VIVS_PA_POINT_SIZE, true), (VIVS_PA_SYSTEM_MODE, true)]⟩,
    ⟨ETNA_DIRTY_SHADER,
      [(VIVS_PA_ATTRIBUTE_ELEMENT_COUNT, true)]⟩,
    ⟨ETNA_DIRTY_RASTERIZER ||| ETNA_DIRTY_SHADER,
      [(VIVS_PA_CONFIG, true)]⟩,
    ⟨ETNA_DIRTY_SHADER,
      (List.range 10).map (fun x => (VIVS_PA_SHADER_ATTRIBUTES x, true))⟩,
    ⟨ETNA_DIRTY_SCISSOR ||| ETNA_DIRTY_FRAMEBUFFER ||| ETNA_DIRTY_RASTERIZER ||| ETNA_DIRTY_VIEWPORT,
      [(VIVS_SE_SCISSOR_LEFT, true), (VIVS_SE_SCISSOR_TOP, true), (VIVS_SE_SCISSOR_RIGHT, true),
        (VIVS_SE_SCISSOR_BOTTOM, true)]⟩,
    ⟨ETNA_DIRTY_RASTERIZER,
      [(VIVS_SE_DEPTH_SCALE, true), (VIVS_SE_DEPTH_BIAS, true), (VIVS_SE_CONFIG, true)]⟩,
    ⟨ETNA_DIRTY_SHADER,
      [(VIVS_RA_CONTROL, true)]⟩,
    ⟨ETNA_DIRTY_FRAMEBUFFER,
      [(VIVS_RA_MULTISAMPLE_UNK00E04, true)] ++
        (List.range 4).map (fun x => (VIVS_RA_MULTISAMPLE_UNK00E10 x, true)) ++
        (List.range 16).map (fun x => (VIVS_RA_CENTROID_TABLE x, true))⟩,
    ⟨ETNA_DIRTY_SHADER ||| ETNA_DIRTY_FRAMEBUFFER,
      [(VIVS_PS_END_PC, true), (VIVS_PS_OUTPUT_REG, true), (VIVS_PS_INPUT_COUNT, true),
        (VIVS_PS_TEMP_REGISTER_CONTROL, true), (VIVS_PS_CONTROL, true), (VIVS_PS_START_PC, true),
        (VIVS_PS_RANGE, ctx.specs.has_shader_range_registers)]⟩,
    ⟨ETNA_DIRTY_ZSA ||| ETNA_DIRTY_FRAMEBUFFER,
      [(VIVS_PE_DEPTH_CONFIG, true)]⟩,
    ⟨ETNA_DIRTY_VIEWPORT,
      [(VIVS_PE_DEPTH_NEAR, true), (VIVS_PE_DEPTH_FAR, true)]⟩,
    ⟨ETNA_DIRTY_FRAMEBUFFER,
      [(VIVS_PE_DEPTH_NORMALIZE, true),
        (VIVS_PE_DEPTH_ADDR,
          decide (ctx.specs.pixel_pipes = 1) && ctx.framebuffer.PE_DEPTH_ADDR.bo.isSome),
        (VIVS_PE_DEPTH_STRIDE, true)]⟩,
    ⟨ETNA_DIRTY_ZSA,
      [(VIVS_PE_STENCIL_OP, true)]⟩,
    ⟨ETNA_DIRTY_ZSA ||| ETNA_DIRTY_STENCIL_REF,
      [(VIVS_PE_STENCIL_CONFIG, true)]⟩,
    ⟨ETNA_DIRTY_ZSA,
      [(VIVS_PE_ALPHA_OP, true)]⟩,
    ⟨ETNA_DIRTY_BLEND_COLOR,
      [(VIVS_PE_ALPHA_BLEND_COLOR, true)]⟩,
    ⟨ETNA_DIRTY_BLEND,
      [(VIVS_PE_ALPHA_CONFIG, true)]⟩,
    ⟨ETNA_DIRTY_BLEND ||| ETNA_DIRTY_FRAMEBUFFER,
      [(VIVS_PE_COLOR_FORMAT, true)]⟩,
    ⟨ETNA_DIRTY_FRAMEBUFFER,
      [(VIVS_PE_COLOR_ADDR,
          decide (ctx.specs.pixel_pipes = 1) && ctx.framebuffer.PE_COLOR_ADDR.bo.isSome),
        (VIVS_PE_COLOR_STRIDE, true), (VIVS_PE_HDEPTH_CONTROL, true),
        (VIVS_PE_PIPE_COLOR_ADDR 0,
          decide (ctx.specs.pixel_pipes = 2) && (ctx.framebuffer.PE_PIPE_COLOR_ADDR 0).bo.isSome),
        (VIVS_PE_PIPE_COLOR_ADDR 1,
          decide (ctx.specs.pixel_pipes = 2) && (ctx.framebuffer.PE_PIPE_COLOR_ADDR 1).bo.isSome),
        (VIVS_PE_PIPE_DEPTH_ADDR 0,
          decide (ctx.specs.pixel_pipes = 2) && (ctx.framebuffer.PE_PIPE_DEPTH_ADDR 0).bo.isSome),
        (VIVS_PE_PIPE_DEPTH_ADDR 1,
          decide (ctx.specs.pixel_pipes = 2) && (ctx.framebuffer.PE_PIPE_DEPTH_ADDR 1).bo.isSome)]⟩,
    ⟨ETNA_DIRTY_STENCIL_REF,
      [(VIVS_PE_STENCIL_CONFIG_EXT, true)]⟩,
    ⟨ETNA_DIRTY_BLEND,
      [(VIVS_PE_LOGIC_OP, true)] ++ (List.range 2).map (fun x => (VIVS_PE_DITHER x, true))⟩,
    ⟨ETNA_DIRTY_FRAMEBUFFER ||| ETNA_DIRTY_TS,
      [(VIVS_TS_MEM_CONFIG, true),
        (VIVS_TS_COLOR_STATUS_BASE, ctx.framebuffer.TS_COLOR_STATUS_BASE.bo.isSome),
        (VIVS_TS_COLOR_SURFACE_BASE, ctx.framebuffer.TS_COLOR_SURFACE_BASE.bo.isSome),
        (VIVS_TS_COLOR_CLEAR_VALUE, true),
        (VIVS_TS_DEPTH_STATUS_BASE, ctx.framebuffer.TS_DEPTH_STATUS_BASE.bo.isSome),
        (VIVS_TS_DEPTH_SURFACE_BASE, ctx.framebuffer.TS_DEPTH_SURFACE_BASE.bo.isSome),
        (VIVS_TS_DEPTH_CLEAR_VALUE, true)]⟩,
    ⟨ETNA_DIRTY_SAMPLER_VIEWS ||| ETNA_DIRTY_SAMPLERS,
      (List.range VIVS_TE_SAMPLER__LEN).map (fun x => (VIVS_TE_SAMPLER_CONFIG0 x, true))⟩,
    ⟨ETNA_DIRTY_SAMPLER_VIEWS,
      (List.range VIVS_TE_SAMPLER__LEN).map (fun x =>
          (VIVS_TE_SAMPLER_SIZE x, sampler_active active_samplers x)) ++
        (List.range VIVS_TE_SAMPLER__LEN).map (fun x =>
          (VIVS_TE_SAMPLER_LOG_SIZE x, sampler_active active_samplers x))⟩,
    ⟨ETNA_DIRTY_SAMPLER_VIEWS ||| ETNA_DIRTY_SAMPLERS,
      (List.range VIVS_TE_SAMPLER__LEN).map (fun x =>
          (VIVS_TE_SAMPLER_LOD_CONFIG x, sampler_active active_samplers x)) ++
        (List.range VIVS_TE_SAMPLER__LEN).map (fun x =>
          (VIVS_TE_SAMPLER_CONFIG1 x, sampler_active active_samplers x))⟩,
    ⟨ETNA_DIRTY_SAMPLER_VIEWS,
      (List.range VIVS_TE_SAMPLER_LOD_ADDR__LEN).flatMap (fun y =>
          (List.range VIVS_TE_SAMPLER__LEN).map (fun x =>
            (VIVS_TE_SAMPLER_LOD_ADDR x y,
              sampler_active active_samplers x &&
                ((ctx.sampler_view x).TE_SAMPLER_LOD_ADDR y).bo.isSome)))⟩,
    ⟨ETNA_DIRTY_SHADER,
      [(VIVS_GL_VARYING_TOTAL_COMPONENTS, true), (VIVS_GL_VARYING_NUM_COMPONENTS, true)] ++
        (List.range 2).map (fun x => (VIVS_GL_VARYING_COMPONENT_USE x, true))⟩]

/-- The registers the rule table gives for a dirty set, in program order. -/
def region_rule_registers (ctx : etna_context) (dirty active_samplers : Nat) : List Nat :=
  (region_rule_table ctx active_samplers).flatMap (region_rule.written dirty)

/-- The blank context with `n` vertex buffers, each with a backing allocation,
and the dirty set `dirty`; used as the base of examples. -/
def streams_context (n dirty : Nat) : etna_context :=
  { blank_context with
    dirty := dirty
    vertex_buffer := ⟨n, fun _ => ⟨⟨some 1, 0, 0⟩, 0⟩⟩ }

/-! ## Theorems: arithmetic and header encoding -/

theorem sub_u32_of_le {a b : Nat} (hb : b ≤ a) (ha : a < U32) : sub_u32 a b = a - b := by
  unfold sub_u32 U32 at *
  omega

theorem and_shl_mask (w m k : Nat) : w &&& (m <<< k) = ((w >>> k) &&& m) <<< k := by
  apply Nat.eq_of_testBit_eq
  intro i
  simp only [Nat.testBit_and, Nat.testBit_shiftLeft, Nat.testBit_shiftRight]
  by_cases h : k ≤ i
  · simp [h, Nat.add_sub_cancel' h]
  · simp [h]

theorem field_of_shl (x k n : Nat) :
    (x <<< k) &&& ((2 ^ n - 1) <<< k) = (x % 2 ^ n) * 2 ^ k := by
  rw [and_shl_mask, Nat.shiftLeft_shiftRight, Nat.and_pow_two_sub_one_eq_mod, Nat.shiftLeft_eq]

theorem field_extract (w k n : Nat) :
    (w &&& ((2 ^ n - 1) <<< k)) >>> k = (w / 2 ^ k) % 2 ^ n := by
  rw [and_shl_mask, Nat.shiftLeft_shiftRight, Nat.and_pow_two_sub_one_eq_mod,
    Nat.shiftRight_eq_div_pow]

theorem lor_eq_add (a b k : Nat) (h : b < 2 ^ k) : (2 ^ k * a) ||| b = 2 ^ k * a + b :=
  (Nat.mul_add_lt_is_or h a).symm

theorem header_count_field (x : Nat) :
    VIV_FE_LOAD_STATE_HEADER_COUNT x = (x % 1024) * 65536 := by
  have h := field_of_shl x 16 10
  simpa [VIV_FE_LOAD_STATE_HEADER_COUNT, VIV_FE_LOAD_STATE_HEADER_COUNT__SHIFT,
    VIV_FE_LOAD_STATE_HEADER_COUNT__MASK] using h

theorem header_offset_field (x : Nat) : VIV_FE_LOAD_STATE_HEADER_OFFSET x = x % 65536 := by
  have h := Nat.and_pow_two_sub_one_eq_mod x 16
  simpa [VIV_FE_LOAD_STATE_HEADER_OFFSET, VIV_FE_LOAD_STATE_HEADER_OFFSET__MASK] using h

theorem header_fields_sum (f c o : Nat) (hf : f < 2) (hc : c < 1024) (ho : o < 65536) :
    134217728 ||| 2 ^ 26 * f ||| o ||| c * 65536 = 134217728 + 2 ^ 26 * f + c * 65536 + o := by
  have h1 : 2 ^ 16 * c ||| o = 2 ^ 16 * c + o := lor_eq_add c o 16 (by omega)
  have h3 : 2 ^ 26 * f ||| (2 ^ 16 * c + o) = 2 ^ 26 * f + (2 ^ 16 * c + o) :=
    lor_eq_add _ _ _ (by omega)
  have h4 : 2 ^ 27 * 1 ||| (2 ^ 26 * f + (2 ^ 16 * c + o)) =
      2 ^ 27 * 1 + (2 ^ 26 * f + (2 ^ 16 * c + o)) := lor_eq_add _ _ _ (by omega)
  calc 134217728 ||| 2 ^ 26 * f ||| o ||| c * 65536
      = 2 ^ 27 * 1 ||| (2 ^ 26 * f ||| (2 ^ 16 * c ||| o)) := by
        rw [show c * 65536 = 2 ^ 16 * c by omega, show (134217728 : Nat) = 2 ^ 27 * 1 by norm_num]
        ac_rfl
    _ = _ := by rw [h1, h3, h4]; omega

theorem fixp_bit (fixp : Nat) :
    (if fixp ≠ 0 then VIV_FE_LOAD_STATE_HEADER_FIXP else 0) =
      2 ^ 26 * (if fixp ≠ 0 then 1 else 0) := by
  unfold VIV_FE_LOAD_STATE_HEADER_FIXP; split <;> simp

/-- The header word as a sum of its disjoint fields. -/
theorem load_state_header_eq_sum (offset count fixp : Nat) :
    load_state_header offset count fixp =
      134217728 + 2 ^ 26 * (if fixp ≠ 0 then 1 else 0) + (count % 1024) * 65536 +
        offset % 65536 := by
  have hc : VIV_FE_LOAD_STATE_HEADER_COUNT (count % 65536) &&&
      VIV_FE_LOAD_STATE_HEADER_COUNT__MASK = (count % 1024) * 65536 := by
    unfold VIV_FE_LOAD_STATE_HEADER_COUNT
    rw [Nat.and_assoc, Nat.and_self]
    have h := header_count_field (count % 65536)
    unfold VIV_FE_LOAD_STATE_HEADER_COUNT at h
    rw [h]
    omega
  unfold load_state_header
  rw [hc, header_offset_field, Nat.mod_mod, fixp_bit]
  unfold VIV_FE_LOAD_STATE_HEADER_OP_LOAD_STATE
  exact header_fields_sum _ _ _ (by split <;> omega) (Nat.mod_lt _ (by norm_num))
    (Nat.mod_lt _ (by norm_num))

/-- Patching the count into a header written with count 0 gives the header with
that count. -/
theorem load_state_header_patch (offset size fixp : Nat) :
    load_state_header offset 0 fixp ||| VIV_FE_LOAD_STATE_HEADER_COUNT size =
      load_state_header offset size fixp := by
  rw [load_state_header_eq_sum offset size, header_count_field]
  have h0 := load_state_header_eq_sum offset 0 fixp
  have hs := header_fields_sum (if fixp ≠ 0 then 1 else 0) 0 (offset % 65536)
    (by split <;> omega) (by norm_num) (Nat.mod_lt _ (by norm_num))
  rw [h0, ← hs]
  have hs2 := header_fields_sum (if fixp ≠ 0 then 1 else 0) (size % 1024) (offset % 65536)
    (by split <;> omega) (Nat.mod_lt _ (by norm_num)) (Nat.mod_lt _ (by norm_num))
  rw [← hs2]
  simp only [Nat.zero_mul, Nat.or_zero]

theorem header_count_eq (w : Nat) : header_count w = (w / 65536) % 1024 := by
  have h := field_extract w 16 10
  have hm : VIV_FE_LOAD_STATE_HEADER_COUNT__MASK = (2 ^ 10 - 1) <<< 16 := by decide
  unfold header_count VIV_FE_LOAD_STATE_HEADER_COUNT__SHIFT
  rw [hm, h]
  norm_num

theorem header_offset_eq (w : Nat) : header_offset w = w % 65536 := by
  have h := Nat.and_pow_two_sub_one_eq_mod w 16
  have hm : VIV_FE_LOAD_STATE_HEADER_OFFSET__MASK = 2 ^ 16 - 1 := by decide
  unfold header_offset
  rw [hm, h, Nat.shiftRight_zero]

theorem header_fixp_eq (w : Nat) : header_fixp w = decide ((w / 67108864) % 2 ≠ 0) := by
  have hm : VIV_FE_LOAD_STATE_HEADER_FIXP = (2 ^ 1 - 1) <<< 26 := by decide
  unfold header_fixp
  rw [hm, and_shl_mask, Nat.and_pow_two_sub_one_eq_mod, Nat.shiftLeft_eq,
    Nat.shiftRight_eq_div_pow]
  congr 1
  simp

/-- The count field of a header is the count modulo 1024. -/
theorem header_count_load_state_header (offset count fixp : Nat) :
    header_count (load_state_header offset count fixp) = count % 1024 := by
  rw [header_count_eq, load_state_header_eq_sum]
  split <;> omega

/-- The register-index field of a header is the index modulo 65536. -/
theorem header_offset_load_state_header (offset count fixp : Nat) :
    header_offset (load_state_header offset count fixp) = offset % 65536 := by
  rw [header_offset_eq, load_state_header_eq_sum]
  split <;> omega

/-- The tag bit of a header is set exactly for a non-zero tag. -/
theorem header_fixp_load_state_header (offset count fixp : Nat) :
    header_fixp (load_state_header offset count fixp) = decide (fixp ≠ 0) := by
  rw [header_fixp_eq, load_state_header_eq_sum]
  by_cases h : fixp = 0
  · simp only [h, ne_eq, not_true_eq_false, if_false, decide_False, decide_eq_false_iff_not,
      Decidable.not_not]
    omega
  · simp only [h, ne_eq, not_false_eq_true, if_true, decide_True, decide_eq_true_eq]
    omega

/-! ## Theorems: the coalescer -/

theorem set_mid (pre : List Nat) (x y : Nat) (vals : List Nat) :
    (pre ++ x :: vals).set pre.length y = pre ++ y :: vals := by
  induction pre with
  | nil => rfl
  | cons a t ih => simp [List.set, ih]

theorem getD_mid (pre : List Nat) (x d : Nat) (vals : List Nat) :
    (pre ++ x :: vals).getD pre.length d = x := by
  induction pre with
  | nil => rfl
  | cons a t ih => simpa using ih

theorem padding_length (off : Nat) : (padding off).length = off % 2 := by
  unfold padding
  split <;> simp <;> omega

theorem packet_words_length (off : Nat) (p : packet) :
    (p.words off).length = 1 + p.vals.length + (off + 1 + p.vals.length) % 2 := by
  simp [packet.words, padding_length]
  omega

/-- Closing an open packet patches its count into the header and pads to an
even offset. -/
theorem etna_coalesce_end_open {pre : List Nat} {p : packet} {last : Nat}
    {s : etna_cmd_stream} {c : etna_coalesce} (h : OpenAt pre p last s c)
    (hlen : s.buffer.length < U32) :
    etna_coalesce_end s c = { s with buffer := pre ++ p.words pre.length } := by
  obtain ⟨hb, hs, -, -, hv, -⟩ := h
  have hvl : p.vals.length ≠ 0 := fun h0 => hv (List.length_eq_zero.mp h0)
  have hlen2 : s.buffer.length = pre.length + 1 + p.vals.length := by
    rw [hb]; simp; omega
  have hsize : sub_u32 s.buffer.length c.start = p.vals.length := by
    rw [hs, sub_u32_of_le (by omega) hlen]; omega
  have hoff : sub_u32 c.start 1 = pre.length := by
    rw [hs, sub_u32_of_le (by omega) (by omega)]; omega
  simp only [etna_coalesce_end, etna_cmd_stream_offset, hsize, hoff, etna_cmd_stream_get,
    etna_cmd_stream_set, etna_cmd_stream_emit, ne_eq, hvl, not_false_eq_true, if_true]
  rw [hb, getD_mid, set_mid, load_state_header_patch]
  have hl3 : (pre ++ load_state_header (p.reg >>> 2) 0 p.fixp.toNat :: p.vals).length =
      pre.length + 1 + p.vals.length := by rw [← hb]; exact hlen2
  rw [hl3]
  unfold packet.words padding
  by_cases hp : (pre.length + 1 + p.vals.length) % 2 = 1
  · simp [hp]
  · simp [hp]

theorem OpenAt_length {pre : List Nat} {p : packet} {last : Nat}
    {s : etna_cmd_stream} {c : etna_coalesce} (h : OpenAt pre p last s c) :
    s.buffer.length = pre.length + 1 + p.vals.length := by
  rw [h.1]; simp; omega

/-- A break while a packet is open: the packet is closed and a new header with
count 0 is written. -/
theorem check_coalsence_break {pre : List Nat} {p : packet} {last : Nat}
    {s : etna_cmd_stream} {c : etna_coalesce} (h : OpenAt pre p last s c)
    (hlen : s.buffer.length < U32) (reg fixp : Nat)
    (hbr : add_u32 last 4 ≠ reg ∨ p.fixp.toNat ≠ fixp) :
    check_coalsence s c reg fixp =
      ({ s with buffer := pre ++ p.words pre.length ++ [load_state_header (reg >>> 2) 0 fixp] },
       { start := (pre ++ p.words pre.length).length + 1, last_reg := reg,
         last_fixp := fixp }) := by
  have hend := etna_coalesce_end_open h hlen
  obtain ⟨-, -, hl, hf, -, hn⟩ := h
  have hbr2 : add_u32 c.last_reg 4 ≠ reg ∨ c.last_fixp ≠ fixp := by rw [hl, hf]; exact hbr
  have hn2 : c.last_reg ≠ 0 := by rw [hl]; exact hn
  simp only [check_coalsence, ne_eq, hn2, not_false_eq_true, if_true, hbr2, hend,
    etna_emit_load_state, etna_cmd_stream_emit, etna_cmd_stream_offset]
  simp
  omega

/-- No break while a packet is open: nothing is written, the cursor moves on. -/
theorem check_coalsence_merge {pre : List Nat} {p : packet} {last : Nat}
    {s : etna_cmd_stream} {c : etna_coalesce} (h : OpenAt pre p last s c)
    (reg fixp : Nat) (hm : add_u32 last 4 = reg ∧ p.fixp.toNat = fixp) :
    check_coalsence s c reg fixp = (s, { c with last_reg := reg, last_fixp := fixp }) := by
  obtain ⟨-, -, hl, hf, -, hn⟩ := h
  have hm2 : ¬ (add_u32 c.last_reg 4 ≠ reg ∨ c.last_fixp ≠ fixp) := by
    rw [hl, hf]; simp [hm.1, hm.2]
  have hn2 : c.last_reg ≠ 0 := by rw [hl]; exact hn
  simp only [check_coalsence, ne_eq, hn2, not_false_eq_true, if_true, hm2, if_false]

/-- With no packet open, a header with count 0 is written. -/
theorem check_coalsence_closed (s : etna_cmd_stream) (c : etna_coalesce) (reg fixp : Nat)
    (h0 : c.last_reg = 0) :
    check_coalsence s c reg fixp =
      ({ s with buffer := s.buffer ++ [load_state_header (reg >>> 2) 0 fixp] },
       { start := s.buffer.length + 1, last_reg := reg, last_fixp := fixp }) := by
  simp [check_coalsence, h0, etna_emit_load_state, etna_cmd_stream_emit,
    etna_cmd_stream_offset]

/-- Every emission macro is `check_coalsence` with the tag of its write followed
by one word, or nothing at all. -/
theorem emit_op_apply_write (sc : etna_cmd_stream × etna_coalesce) (op : emit_op)
    (w : reg_write) (hw : op.write = some w) :
    (op.apply sc).1.buffer = (check_coalsence sc.1 sc.2 w.reg w.fixp.toNat).1.buffer ++ [w.value] ∧
      (op.apply sc).2 = (check_coalsence sc.1 sc.2 w.reg w.fixp.toNat).2 := by
  cases op with
  | state reg value =>
    simp only [emit_op.write, Option.some.injEq] at hw
    subst hw
    simp [emit_op.apply, etna_coalsence_emit, etna_cmd_stream_emit]
  | state_fixp reg value =>
    simp only [emit_op.write, Option.some.injEq] at hw
    subst hw
    simp [emit_op.apply, etna_coalsence_emit_fixp, etna_cmd_stream_emit]
  | state_reloc reg r =>
    simp only [emit_op.write] at hw
    split at hw
    · rename_i hbo
      simp only [Option.some.injEq] at hw
      subst hw
      simp [emit_op.apply, etna_coalsence_emit_reloc, hbo, etna_cmd_stream_reloc,
        etna_cmd_stream_emit]
    · exact absurd hw (by simp)

/-- A reloc without backing allocation leaves stream and cursor alone. -/
theorem emit_op_apply_none (sc : etna_cmd_stream × etna_coalesce) (op : emit_op)
    (hw : op.write = none) : op.apply sc = sc := by
  cases op with
  | state reg value => simp [emit_op.write] at hw
  | state_fixp reg value => simp [emit_op.write] at hw
  | state_reloc reg r =>
    simp only [emit_op.write] at hw
    split at hw
    · exact absurd hw (by simp)
    · rename_i hbo
      simp [emit_op.apply, etna_coalsence_emit_reloc, hbo]

theorem toNat_eq_iff (a b : Bool) : a.toNat = b.toNat ↔ a = b := by
  cases a <;> cases b <;> simp

/-- One write while a packet is open: it joins the packet, or the packet is
closed and the write opens the next one. -/
theorem emit_op_apply_open {pre : List Nat} {p : packet} {last : Nat}
    {s : etna_cmd_stream} {c : etna_coalesce} (h : OpenAt pre p last s c)
    (hlen : s.buffer.length < U32) (op : emit_op) (w : reg_write)
    (hw : op.write = some w) (hreg : w.reg ≠ 0) :
    if add_u32 last 4 = w.reg ∧ p.fixp = w.fixp then
      OpenAt pre { p with vals := p.vals ++ [w.value] } w.reg
        (op.apply (s, c)).1 (op.apply (s, c)).2
    else
      OpenAt (pre ++ p.words pre.length) ⟨w.reg, w.fixp, [w.value]⟩ w.reg
        (op.apply (s, c)).1 (op.apply (s, c)).2 := by
  obtain ⟨hb, hc⟩ := emit_op_apply_write (s, c) op w hw
  split
  · rename_i hm
    have hm2 : add_u32 last 4 = w.reg ∧ p.fixp.toNat = w.fixp.toNat :=
      ⟨hm.1, (toNat_eq_iff _ _).mpr hm.2⟩
    have hcc := check_coalsence_merge h w.reg w.fixp.toNat hm2
    rw [hcc] at hb hc
    obtain ⟨h1, h2, -, -, -, -⟩ := h
    refine ⟨?_, ?_, ?_, ?_, ?_, hreg⟩
    · rw [hb]; simp only; rw [h1]; simp
    · rw [hc]; exact h2
    · rw [hc]
    · rw [hc]; exact hm2.2.symm
    · simp
  · rename_i hm
    have hbr : add_u32 last 4 ≠ w.reg ∨ p.fixp.toNat ≠ w.fixp.toNat := by
      by_cases h1 : add_u32 last 4 = w.reg
      · right
        intro h2
        exact hm ⟨h1, (toNat_eq_iff _ _).mp h2⟩
      · left; exact h1
    have hcc := check_coalsence_break h hlen w.reg w.fixp.toNat hbr
    rw [hcc] at hb hc
    refine ⟨?_, ?_, ?_, ?_, ?_, hreg⟩
    · rw [hb]; simp
    · rw [hc]
    · rw [hc]
    · rw [hc]
    · simp

/-- The first write of a region opens a packet. -/
theorem emit_op_apply_closed (s : etna_cmd_stream) (c : etna_coalesce) (h0 : c.last_reg = 0)
    (op : emit_op) (w : reg_write) (hw : op.write = some w) (hreg : w.reg ≠ 0) :
    OpenAt s.buffer ⟨w.reg, w.fixp, [w.value]⟩ w.reg (op.apply (s, c)).1 (op.apply (s, c)).2 := by
  obtain ⟨hb, hc⟩ := emit_op_apply_write (s, c) op w hw
  rw [check_coalsence_closed s c w.reg w.fixp.toNat h0] at hb hc
  refine ⟨?_, ?_, ?_, ?_, ?_, hreg⟩
  · rw [hb]; simp
  · rw [hc]
  · rw [hc]
  · rw [hc]
  · simp

theorem emit_ops_cons (sc : etna_cmd_stream × etna_coalesce) (op : emit_op)
    (ops : List emit_op) : emit_ops sc (op :: ops) = emit_ops (op.apply sc) ops := rfl

theorem emit_ops_nil (sc : etna_cmd_stream × etna_coalesce) : emit_ops sc [] = sc := rfl

/-- From an open packet, a sequence of emissions followed by `etna_coalesce_end`
leaves the packets of the grouped writes in the stream. -/
theorem emit_ops_open (ops : List emit_op) :
    ∀ (pre : List Nat) (p : packet) (last : Nat) (s : etna_cmd_stream) (c : etna_coalesce),
      OpenAt pre p last s c →
      (∀ w ∈ ops.filterMap emit_op.write, w.reg ≠ 0) →
      s.buffer.length + 3 * (ops.filterMap emit_op.write).length < U32 →
      (etna_coalesce_end (emit_ops (s, c) ops).1 (emit_ops (s, c) ops).2).buffer =
        pre ++ encode_packets pre.length (group_from p last (ops.filterMap emit_op.write)) := by
  induction ops with
  | nil =>
    intro pre p last s c h _ hlen
    rw [emit_ops_nil, etna_coalesce_end_open h (by simpa using hlen)]
    simp [group_from, encode_packets]
  | cons op ops ih =>
    intro pre p last s c h hreg hlen
    rw [emit_ops_cons]
    cases hw : op.write with
    | none =>
      rw [emit_op_apply_none (s, c) op hw]
      have e : (op :: ops).filterMap emit_op.write = ops.filterMap emit_op.write := by
        simp [List.filterMap_cons, hw]
      rw [e] at hreg hlen ⊢
      exact ih pre p last s c h hreg hlen
    | some w =>
      have e : (op :: ops).filterMap emit_op.write = w :: ops.filterMap emit_op.write := by
        simp [List.filterMap_cons, hw]
      rw [e] at hreg hlen ⊢
      have hwreg : w.reg ≠ 0 := hreg w (List.mem_cons_self _ _)
      have hreg2 : ∀ w2 ∈ ops.filterMap emit_op.write, w2.reg ≠ 0 :=
        fun w2 hw2 => hreg w2 (List.mem_cons_of_mem _ hw2)
      have hl := OpenAt_length h
      simp only [List.length_cons] at hlen
      have hstep := emit_op_apply_open h (by omega) op w hw hwreg
      unfold group_from
      split
      · rename_i hm
        rw [if_pos hm] at hstep
        have hl2 := OpenAt_length hstep
        simp only [List.length_append, List.length_singleton] at hl2
        have hb : (op.apply (s, c)).1.buffer.length +
            3 * (ops.filterMap emit_op.write).length < U32 := by omega
        exact ih _ _ _ (op.apply (s, c)).1 (op.apply (s, c)).2 hstep hreg2 hb
      · rename_i hm
        rw [if_neg hm] at hstep
        have hl2 := OpenAt_length hstep
        have hpw := packet_words_length pre.length p
        simp only [List.length_append, List.length_singleton, List.length_nil] at hl2
        have hb : (op.apply (s, c)).1.buffer.length +
            3 * (ops.filterMap emit_op.write).length < U32 := by omega
        have := ih _ _ _ (op.apply (s, c)).1 (op.apply (s, c)).2 hstep hreg2 hb
        rw [this]
        simp [encode_packets]

/-- A coalesced region leaves after the words already in the stream the packets
of its grouped writes, or only the filler when nothing is written. -/
theorem coalesced_region_buffer (s0 : etna_cmd_stream) (max : Nat) (ops : List emit_op)
    (hreg : ∀ w ∈ ops.filterMap emit_op.write, w.reg ≠ 0)
    (hlen : s0.buffer.length + 3 * (ops.filterMap emit_op.write).length < U32) :
    (coalesced_region s0 max ops).buffer =
      s0.buffer ++
        (if ops.filterMap emit_op.write = [] then padding s0.buffer.length
         else encode_packets s0.buffer.length (group_writes (ops.filterMap emit_op.write))) := by
  unfold coalesced_region etna_coalesce_start etna_cmd_stream_reserve etna_cmd_stream_offset
  simp only
  generalize hc : ({ start := s0.buffer.length, last_reg := 0, last_fixp := 0 } :
    etna_coalesce) = c
  have hc0 : c.last_reg = 0 := by rw [← hc]
  have hcs : c.start = s0.buffer.length := by rw [← hc]
  clear hc
  induction ops with
  | nil =>
    simp only [emit_ops_nil, List.filterMap_nil, if_true]
    have hz : sub_u32 s0.buffer.length c.start = 0 := by
      rw [hcs]; unfold sub_u32 U32; omega
    simp only [etna_coalesce_end, etna_cmd_stream_offset, hz, ne_eq, not_true_eq_false,
      if_false, etna_cmd_stream_emit, padding]
    split <;> simp
  | cons op ops ih =>
    rw [emit_ops_cons]
    cases hw : op.write with
    | none =>
      rw [emit_op_apply_none (s0, c) op hw]
      have e : (op :: ops).filterMap emit_op.write = ops.filterMap emit_op.write := by
        simp [List.filterMap_cons, hw]
      rw [e] at hreg hlen ⊢
      exact ih hreg hlen
    | some w =>
      have e : (op :: ops).filterMap emit_op.write = w :: ops.filterMap emit_op.write := by
        simp [List.filterMap_cons, hw]
      rw [e] at hreg hlen ⊢
      have hwreg : w.reg ≠ 0 := hreg w (List.mem_cons_self _ _)
      have hreg2 : ∀ w2 ∈ ops.filterMap emit_op.write, w2.reg ≠ 0 :=
        fun w2 hw2 => hreg w2 (List.mem_cons_of_mem _ hw2)
      have hstep := emit_op_apply_closed s0 c hc0 op w hw hwreg
      have hl2 := OpenAt_length hstep
      simp only [List.length_cons, List.length_singleton, List.length_nil] at hl2 hlen
      have hb : (op.apply (s0, c)).1.buffer.length +
          3 * (ops.filterMap emit_op.write).length < U32 := by omega
      have := emit_ops_open ops _ _ _ (op.apply (s0, c)).1 (op.apply (s0, c)).2 hstep hreg2 hb
      rw [this]
      simp [group_writes]

theorem write_op (w : reg_write) : w.op.write = some w := by
  cases w with
  | mk reg fixp value => cases fixp <;> rfl

theorem filterMap_write_map_op (ws : List reg_write) :
    (ws.map reg_write.op).filterMap emit_op.write = ws := by
  induction ws with
  | nil => rfl
  | cons w ws ih => simp [List.filterMap_cons, write_op, ih]

theorem run_writes_length (a : Nat) (t : Bool) (vals : List Nat) :
    (run_writes a t vals).length = vals.length := by
  induction vals generalizing a with
  | nil => rfl
  | cons v vs ih => simp [run_writes, ih]

theorem run_writes_reg_ge (t : Bool) (vals : List Nat) :
    ∀ (a : Nat) (w : reg_write), w ∈ run_writes a t vals → a ≤ w.reg := by
  induction vals with
  | nil => intro a w h; simp [run_writes] at h
  | cons v vs ih =>
    intro a w h
    simp only [run_writes, List.mem_cons] at h
    rcases h with h | h
    · rw [h]
    · have := ih (a + 4) w h
      omega

/-- Contiguous same-tag writes all join the open packet. -/
theorem group_from_run (vals : List Nat) :
    ∀ (p : packet) (last : Nat), last + 4 * vals.length < U32 →
      group_from p last (run_writes (last + 4) p.fixp vals) =
        [{ p with vals := p.vals ++ vals }] := by
  induction vals with
  | nil => intro p last _; simp [run_writes, group_from]
  | cons v vs ih =>
    intro p last h
    simp only [List.length_cons] at h
    have h4 : add_u32 last 4 = last + 4 := by
      unfold add_u32; exact Nat.mod_eq_of_lt (by omega)
    simp only [run_writes, group_from, h4, and_self, if_true]
    have := ih { p with vals := p.vals ++ [v] } (last + 4) (by omega)
    simp only at this
    rw [this]
    simp

theorem group_writes_run (a : Nat) (t : Bool) (v : Nat) (vs : List Nat)
    (h : a + 4 * vs.length < U32) :
    group_writes (run_writes a t (v :: vs)) = [⟨a, t, v :: vs⟩] := by
  simp only [run_writes, group_writes]
  have := group_from_run vs ⟨a, t, [v]⟩ a h
  simp only at this
  rw [this]
  simp

/-! ## Claims about the coalescer -/

/-- C1 (amended): between `etna_coalesce_start` and `etna_coalesce_end`, emitting
`n >= 1` values with one tag `t` to the registers `a, a+4, ..., a+4(n-1)`, for a
non-zero register address `a` with `a+4(n-1)` a 32-bit address (and stream
offsets within 32 bits), appends exactly one load-state header for register `a`
and tag `t`, then the `n` values, then only the alignment filler; the count
field of that header is `n` modulo 1024, the width of the field. -/
theorem coalesce_contiguous_run (s0 : etna_cmd_stream) (max a : Nat) (t : Bool)
    (vals : List Nat) (hv : vals ≠ []) (ha : a ≠ 0)
    (hfit : a + 4 * (vals.length - 1) < U32)
    (hlen : s0.buffer.length + 3 * vals.length < U32) :
    (coalesced_region s0 max ((run_writes a t vals).map reg_write.op)).buffer =
        s0.buffer ++ (load_state_header (a >>> 2) vals.length t.toNat :: vals ++
          padding (s0.buffer.length + 1 + vals.length)) ∧
      header_count (load_state_header (a >>> 2) vals.length t.toNat) = vals.length % 1024 ∧
      header_offset (load_state_header (a >>> 2) vals.length t.toNat) = (a >>> 2) % 65536 ∧
      header_fixp (load_state_header (a >>> 2) vals.length t.toNat) = t := by
  refine ⟨?_, header_count_load_state_header _ _ _, header_offset_load_state_header _ _ _, ?_⟩
  · cases vals with
    | nil => exact absurd rfl hv
    | cons v vs =>
      simp only [List.length_cons, Nat.add_sub_cancel] at hfit
      have hreg : ∀ w ∈ ((run_writes a t (v :: vs)).map reg_write.op).filterMap emit_op.write,
          w.reg ≠ 0 := by
        rw [filterMap_write_map_op]
        intro w hw
        have := run_writes_reg_ge t (v :: vs) a w hw
        omega
      have hl : s0.buffer.length +
          3 * (((run_writes a t (v :: vs)).map reg_write.op).filterMap emit_op.write).length <
            U32 := by
        rw [filterMap_write_map_op, run_writes_length]; exact hlen
      rw [coalesced_region_buffer s0 max _ hreg hl, filterMap_write_map_op,
        group_writes_run a t v vs hfit]
      simp [run_writes, encode_packets, packet.words]
  · rw [header_fixp_load_state_header]
    cases t <;> simp

/-- C1 (witness): three fixed-point values to registers 0xA00, 0xA04, 0xA08. -/
theorem coalesce_contiguous_run_witness :
    ([1, 2, 3] : List Nat) ≠ [] ∧ (0xA00 : Nat) ≠ 0 ∧
      (coalesced_region ⟨[], []⟩ 0 ((run_writes 0xA00 true [1, 2, 3]).map reg_write.op)).buffer =
        [] ++ (load_state_header (0xA00 >>> 2) 3 1 :: [1, 2, 3] ++ padding (0 + 1 + 3)) :=
  ⟨by decide, by decide,
    (coalesce_contiguous_run ⟨[], []⟩ 0 0xA00 true [1, 2, 3] (by decide) (by decide)
      (by decide) (by decide)).1⟩

/-- C1 (counterexample): two plain values emitted to the registers 0 and 4 give
two headers, the first with count 0, and not one header with count 2. -/
theorem contiguous_run_from_register_zero :
    (coalesced_region ⟨[], []⟩ 0 ((run_writes 0 false [7, 9]).map reg_write.op)).buffer =
        [load_state_header 0 0 0, 7, load_state_header 1 1 0, 9] ∧
      (coalesced_region ⟨[], []⟩ 0 ((run_writes 0 false [7, 9]).map reg_write.op)).buffer ≠
        [] ++ (load_state_header (0 >>> 2) 2 false.toNat :: [7, 9] ++ padding (0 + 1 + 2)) := by
  decide

/-- Contiguous same-tag writes keep the packet open and extend its payload. -/
theorem emit_ops_run_open (vals : List Nat) :
    ∀ (pre : List Nat) (p : packet) (last : Nat) (s : etna_cmd_stream) (c : etna_coalesce),
      OpenAt pre p last s c → last + 4 * vals.length < U32 →
      s.buffer.length + vals.length < U32 →
      OpenAt pre { p with vals := p.vals ++ vals } (last + 4 * vals.length)
        (emit_ops (s, c) ((run_writes (last + 4) p.fixp vals).map reg_write.op)).1
        (emit_ops (s, c) ((run_writes (last + 4) p.fixp vals).map reg_write.op)).2 := by
  induction vals with
  | nil =>
    intro pre p last s c h _ _
    simpa [run_writes, emit_ops_nil] using h
  | cons v vs ih =>
    intro pre p last s c h hfit hlen
    simp only [List.length_cons] at hfit hlen
    have h4 : add_u32 last 4 = last + 4 := by
      unfold add_u32; exact Nat.mod_eq_of_lt (by omega)
    have hstep := emit_op_apply_open h (by omega) (reg_write.op ⟨last + 4, p.fixp, v⟩)
      ⟨last + 4, p.fixp, v⟩ (write_op _) (by simp)
    simp only [h4, and_self, if_true] at hstep
    have hl2 := OpenAt_length hstep
    simp only [List.length_append, List.length_singleton] at hl2
    have hl1 := OpenAt_length h
    have hb : ((reg_write.op ⟨last + 4, p.fixp, v⟩).apply (s, c)).1.buffer.length +
        vs.length < U32 := by omega
    have := ih pre { p with vals := p.vals ++ [v] } (last + 4)
      ((reg_write.op ⟨last + 4, p.fixp, v⟩).apply (s, c)).1
      ((reg_write.op ⟨last + 4, p.fixp, v⟩).apply (s, c)).2 hstep (by omega) hb
    simp only [run_writes, List.map_cons, emit_ops_cons, List.length_cons]
    have e : last + 4 * (vs.length + 1) = last + 4 + 4 * vs.length := by omega
    rw [e]
    simpa using this

/-- The state after a contiguous same-tag run at the start of a region. -/
theorem emit_ops_run_from_start (s0 : etna_cmd_stream) (max a : Nat) (t : Bool) (v : Nat)
    (vs : List Nat) (ha : a ≠ 0) (hfit : a + 4 * vs.length < U32)
    (hlen : s0.buffer.length + 2 + vs.length < U32) :
    OpenAt s0.buffer ⟨a, t, v :: vs⟩ (a + 4 * vs.length)
      (emit_ops (etna_coalesce_start s0 max) ((run_writes a t (v :: vs)).map reg_write.op)).1
      (emit_ops (etna_coalesce_start s0 max) ((run_writes a t (v :: vs)).map reg_write.op)).2 := by
  have h0 := emit_op_apply_closed s0 ⟨s0.buffer.length, 0, 0⟩ rfl (reg_write.op ⟨a, t, v⟩)
    ⟨a, t, v⟩ (write_op _) ha
  have hl := OpenAt_length h0
  simp only [List.length_singleton] at hl
  have := emit_ops_run_open vs s0.buffer ⟨a, t, [v]⟩ a _ _ h0 hfit (by omega)
  simpa [run_writes, emit_ops_cons, etna_coalesce_start, etna_cmd_stream_reserve,
    etna_cmd_stream_offset] using this

/-- C2 (amended): while a packet is open (`OpenAt`: header with count 0 right
before `start`, payload behind it, `last_reg` non-zero), for every next emission
whose register is not `last_reg + 4` (32-bit sum) or whose tag differs,
`check_coalsence` closes the open packet, so that its header's count field
becomes the number of payload words written since that header modulo 1024 (the
width of the field), pads to an even offset, writes a new header with count 0
for the new register and tag, and sets the cursor behind it; in particular a
fixed-point write at `last_reg + 4` after a plain write starts a new packet. -/
theorem check_coalsence_closes_on_break (pre : List Nat) (p : packet) (last : Nat)
    (s : etna_cmd_stream) (c : etna_coalesce) (reg fixp : Nat)
    (h : OpenAt pre p last s c) (hlen : s.buffer.length < U32)
    (hbr : add_u32 last 4 ≠ reg ∨ p.fixp.toNat ≠ fixp) :
    (check_coalsence s c reg fixp).1.buffer =
        pre ++ (load_state_header (p.reg >>> 2) p.vals.length p.fixp.toNat :: p.vals ++
          padding (pre.length + 1 + p.vals.length)) ++ [load_state_header (reg >>> 2) 0 fixp] ∧
      header_count (load_state_header (p.reg >>> 2) p.vals.length p.fixp.toNat) =
        p.vals.length % 1024 ∧
      (check_coalsence s c reg fixp).2 =
        ⟨(check_coalsence s c reg fixp).1.buffer.length, reg, fixp⟩ ∧
      (p.fixp = false → ∀ value : Nat,
        (etna_coalsence_emit_fixp s c (add_u32 last 4) value).1.buffer =
          pre ++ (load_state_header (p.reg >>> 2) p.vals.length 0 :: p.vals ++
            padding (pre.length + 1 + p.vals.length)) ++
            [load_state_header (add_u32 last 4 >>> 2) 0 1, value]) := by
  have hcc := check_coalsence_break h hlen reg fixp hbr
  refine ⟨?_, header_count_load_state_header _ _ _, ?_, ?_⟩
  · rw [hcc]; simp [packet.words]
  · rw [hcc]; simp; omega
  · intro hp value
    have hbr2 : add_u32 last 4 ≠ add_u32 last 4 ∨ p.fixp.toNat ≠ 1 := by
      right; rw [hp]; decide
    have hcc2 := check_coalsence_break h hlen (add_u32 last 4) 1 hbr2
    simp only [etna_coalsence_emit_fixp, hcc2, etna_cmd_stream_emit]
    simp [packet.words, hp]

/-- C2 (witness): after one plain write to register 0xA18 a packet is open, and a
write to 0xA28 breaks it. -/
theorem check_coalsence_closes_on_break_witness :
    OpenAt [] ⟨0xA18, false, [5]⟩ 0xA18
        (emit_ops (etna_coalesce_start ⟨[], []⟩ 0) [emit_op.state 0xA18 5]).1
        (emit_ops (etna_coalesce_start ⟨[], []⟩ 0) [emit_op.state 0xA18 5]).2 ∧
      (check_coalsence (emit_ops (etna_coalesce_start ⟨[], []⟩ 0) [emit_op.state 0xA18 5]).1
        (emit_ops (etna_coalesce_start ⟨[], []⟩ 0) [emit_op.state 0xA18 5]).2 0xA28 0).1.buffer =
        [load_state_header (0xA18 >>> 2) 1 0, 5, load_state_header (0xA28 >>> 2) 0 0] :=
  ⟨by unfold OpenAt; decide,
    (check_coalsence_closes_on_break [] ⟨0xA18, false, [5]⟩ 0xA18 _ _ 0xA28 0
      (by unfold OpenAt; decide) (by decide) (by decide)).1⟩

/-- After a break the word at the place of the old header holds the number of
payload words modulo 1024 in its count field. -/
theorem break_header_count (pre : List Nat) (p : packet) (last : Nat) (s : etna_cmd_stream)
    (c : etna_coalesce) (reg fixp : Nat) (hopen : OpenAt pre p last s c)
    (hlen : s.buffer.length < U32) (hbr : add_u32 last 4 ≠ reg ∨ p.fixp.toNat ≠ fixp) :
    header_count ((check_coalsence s c reg fixp).1.buffer.getD pre.length 0) =
      p.vals.length % 1024 := by
  have hcc := check_coalsence_break hopen hlen reg fixp hbr
  rw [hcc]
  simp only [packet.words, List.cons_append, List.append_assoc, getD_mid]
  exact header_count_load_state_header _ _ _

theorem run_1024_fits : (4 : Nat) + 4 * (List.replicate 1023 0).length < U32 := by
  rw [List.length_replicate]; unfold U32; omega

theorem run_1024_stream_fits :
    ({ buffer := [], relocs := [] } : etna_cmd_stream).buffer.length + 2 +
      (List.replicate 1023 0).length < U32 := by
  rw [List.length_replicate]; simp only [List.length_nil]; unfold U32; omega

theorem run_1024_length : ((0 : Nat) :: List.replicate 1023 0).length = 1024 := by
  rw [List.length_cons, List.length_replicate]

theorem run_1024_break : add_u32 (4 + 4 * (List.replicate 1023 0).length) 4 ≠ 8 := by
  rw [List.length_replicate]; unfold add_u32 U32; omega

/-- C2 (counterexample): after 1024 contiguous plain writes from register 4 a
packet with 1024 payload words is open; the break made by a write to register 8
leaves 0, not 1024, in the count field of its header (word 0 of the stream). -/
theorem break_after_1024_payload_words :
    OpenAt [] ⟨4, false, 0 :: List.replicate 1023 0⟩ (4 + 4 * (List.replicate 1023 0).length)
        (emit_ops (etna_coalesce_start ⟨[], []⟩ 0)
          ((run_writes 4 false (0 :: List.replicate 1023 0)).map reg_write.op)).1
        (emit_ops (etna_coalesce_start ⟨[], []⟩ 0)
          ((run_writes 4 false (0 :: List.replicate 1023 0)).map reg_write.op)).2 ∧
      ((0 : Nat) :: List.replicate 1023 0).length = 1024 ∧
      header_count ((check_coalsence
        (emit_ops (etna_coalesce_start ⟨[], []⟩ 0)
          ((run_writes 4 false (0 :: List.replicate 1023 0)).map reg_write.op)).1
        (emit_ops (etna_coalesce_start ⟨[], []⟩ 0)
          ((run_writes 4 false (0 :: List.replicate 1023 0)).map reg_write.op)).2
        8 0).1.buffer.getD ([] : List Nat).length 0) = 0 :=
  have hopen := emit_ops_run_from_start ⟨[], []⟩ 0 4 false 0 (List.replicate 1023 0)
    (by omega) run_1024_fits run_1024_stream_fits
  ⟨hopen, run_1024_length,
    ((break_header_count [] ⟨4, false, 0 :: List.replicate 1023 0⟩ _ _ _ 8 0 hopen
      (by rw [OpenAt_length hopen, run_1024_length]; show 0 + 1 + 1024 < U32
          unfold U32; omega)
      (Or.inl run_1024_break)).trans
        (congrArg (fun n => n % 1024) run_1024_length)).trans (Nat.mod_self 1024)⟩

theorem etna_coalesce_end_length (s : etna_cmd_stream) (c : etna_coalesce) :
    (etna_coalesce_end s c).buffer.length = s.buffer.length + s.buffer.length % 2 := by
  unfold etna_coalesce_end etna_cmd_stream_offset etna_cmd_stream_set etna_cmd_stream_emit
    etna_cmd_stream_get
  simp only
  split <;> split <;> simp <;> omega

theorem check_coalsence_length_ge (s : etna_cmd_stream) (c : etna_coalesce) (reg fixp : Nat) :
    s.buffer.length ≤ (check_coalsence s c reg fixp).1.buffer.length := by
  unfold check_coalsence
  simp only
  split
  · split
    · simp only [etna_emit_load_state, etna_cmd_stream_emit, List.length_append,
        List.length_singleton]
      have := etna_coalesce_end_length s c
      omega
    · exact Nat.le_refl _
  · simp [etna_emit_load_state, etna_cmd_stream_emit]

theorem emit_op_apply_length_ge (sc : etna_cmd_stream × etna_coalesce) (op : emit_op) :
    sc.1.buffer.length ≤ (op.apply sc).1.buffer.length := by
  cases hw : op.write with
  | none => rw [emit_op_apply_none sc op hw]
  | some w =>
    obtain ⟨hb, -⟩ := emit_op_apply_write sc op w hw
    rw [hb]
    have := check_coalsence_length_ge sc.1 sc.2 w.reg w.fixp.toNat
    simp only [List.length_append, List.length_singleton]
    omega

theorem emit_ops_length_ge (ops : List emit_op) :
    ∀ sc : etna_cmd_stream × etna_coalesce,
      sc.1.buffer.length ≤ (emit_ops sc ops).1.buffer.length := by
  induction ops with
  | nil => intro sc; exact Nat.le_refl _
  | cons op ops ih =>
    intro sc
    rw [emit_ops_cons]
    exact Nat.le_trans (emit_op_apply_length_ge sc op) (ih _)

/-- C4 (amended): `etna_coalesce_end` appends exactly one filler word
(0xdeadbeef) when the stream offset before the padding step is odd, and then the
offset is even; it appends nothing when that offset is even.  This holds for
every stream and cursor, so for every coalesced region wherever it starts.  For
a region that starts at an even stream offset this is the parity of the number
of words emitted in the region: an odd number gets one filler word and the
region's total becomes even, an even number gets none.  For a region that starts
at an odd offset it is the opposite: an even number of words gets the filler
word, an odd number gets none, and the region's total is odd either way. -/
theorem coalesce_end_padding (s0 : etna_cmd_stream) (max : Nat) (ops : List emit_op) :
    (∀ (s : etna_cmd_stream) (c : etna_coalesce),
      (etna_cmd_stream_offset s % 2 = 1 →
        (etna_coalesce_end s c).buffer.length = s.buffer.length + 1 ∧
        (etna_coalesce_end s c).buffer.getLast? = some 0xdeadbeef ∧
        etna_cmd_stream_offset (etna_coalesce_end s c) % 2 = 0) ∧
      (etna_cmd_stream_offset s % 2 = 0 →
        (etna_coalesce_end s c).buffer.length = s.buffer.length)) ∧
    ((emit_ops (etna_coalesce_start s0 max) ops).1.buffer.length % 2 = 1 →
        (coalesced_region s0 max ops).buffer.length =
          (emit_ops (etna_coalesce_start s0 max) ops).1.buffer.length + 1 ∧
        (coalesced_region s0 max ops).buffer.getLast? = some 0xdeadbeef ∧
        (coalesced_region s0 max ops).buffer.length % 2 = 0) ∧
    ((emit_ops (etna_coalesce_start s0 max) ops).1.buffer.length % 2 = 0 →
        (coalesced_region s0 max ops).buffer.length =
          (emit_ops (etna_coalesce_start s0 max) ops).1.buffer.length) ∧
    (s0.buffer.length % 2 = 0 →
      (((emit_ops (etna_coalesce_start s0 max) ops).1.buffer.length - s0.buffer.length) % 2 = 1 →
        (coalesced_region s0 max ops).buffer.length =
          (emit_ops (etna_coalesce_start s0 max) ops).1.buffer.length + 1 ∧
        (coalesced_region s0 max ops).buffer.getLast? = some 0xdeadbeef ∧
        ((coalesced_region s0 max ops).buffer.length - s0.buffer.length) % 2 = 0) ∧
      (((emit_ops (etna_coalesce_start s0 max) ops).1.buffer.length - s0.buffer.length) % 2 = 0 →
        (coalesced_region s0 max ops).buffer.length =
          (emit_ops (etna_coalesce_start s0 max) ops).1.buffer.length)) ∧
    (s0.buffer.length % 2 = 1 →
      (((emit_ops (etna_coalesce_start s0 max) ops).1.buffer.length - s0.buffer.length) % 2 = 0 →
        (coalesced_region s0 max ops).buffer.length =
          (emit_ops (etna_coalesce_start s0 max) ops).1.buffer.length + 1 ∧
        (coalesced_region s0 max ops).buffer.getLast? = some 0xdeadbeef ∧
        ((coalesced_region s0 max ops).buffer.length - s0.buffer.length) % 2 = 1) ∧
      (((emit_ops (etna_coalesce_start s0 max) ops).1.buffer.length - s0.buffer.length) % 2 = 1 →
        (coalesced_region s0 max ops).buffer.length =
          (emit_ops (etna_coalesce_start s0 max) ops).1.buffer.length ∧
        ((coalesced_region s0 max ops).buffer.length - s0.buffer.length) % 2 = 1)) := by
  have hend : ∀ (s : etna_cmd_stream) (c : etna_coalesce),
      (s.buffer.length % 2 = 1 →
        (etna_coalesce_end s c).buffer.length = s.buffer.length + 1 ∧
        (etna_coalesce_end s c).buffer.getLast? = some 0xdeadbeef ∧
        (etna_coalesce_end s c).buffer.length % 2 = 0) ∧
      (s.buffer.length % 2 = 0 →
        (etna_coalesce_end s c).buffer.length = s.buffer.length) := by
    intro s c
    have hlen := etna_coalesce_end_length s c
    constructor
    · intro hodd
      refine ⟨by omega, ?_, by omega⟩
      unfold etna_coalesce_end
      simp only [etna_cmd_stream_offset, hodd, if_true, etna_cmd_stream_emit]
      simp
    · intro hev
      omega
  have hge := emit_ops_length_ge ops (etna_coalesce_start s0 max)
  have hs : (etna_coalesce_start s0 max).1.buffer.length = s0.buffer.length := rfl
  rw [hs] at hge
  have hreg : (coalesced_region s0 max ops) =
      etna_coalesce_end (emit_ops (etna_coalesce_start s0 max) ops).1
        (emit_ops (etna_coalesce_start s0 max) ops).2 := rfl
  have h := hend (emit_ops (etna_coalesce_start s0 max) ops).1
    (emit_ops (etna_coalesce_start s0 max) ops).2
  rw [← hreg] at h
  refine ⟨hend, h.1, h.2, ?_, ?_⟩
  · intro heven
    constructor
    · intro hodd
      have h1 := h.1 (by omega)
      exact ⟨h1.1, h1.2.1, by omega⟩
    · intro hev
      exact h.2 (by omega)
  · intro hodd0
    constructor
    · intro hev
      have h1 := h.1 (by omega)
      exact ⟨h1.1, h1.2.1, by omega⟩
    · intro hodd
      have h1 := h.2 (by omega)
      exact ⟨h1, by omega⟩

/-- C4 (witness): a region at the odd offset 1 with one write emits two words, an
even number, and still gets the filler word. -/
theorem coalesce_end_padding_witness :
    (coalesced_region ⟨[0], []⟩ 0 [emit_op.state 0xA18 5]).buffer.length =
        (emit_ops (etna_coalesce_start ⟨[0], []⟩ 0) [emit_op.state 0xA18 5]).1.buffer.length +
          1 ∧
      (coalesced_region ⟨[0], []⟩ 0 [emit_op.state 0xA18 5]).buffer.getLast? =
        some 0xdeadbeef ∧
      ((coalesced_region ⟨[0], []⟩ 0 [emit_op.state 0xA18 5]).buffer.length -
        (⟨[0], []⟩ : etna_cmd_stream).buffer.length) % 2 = 1 :=
  ((coalesce_end_padding ⟨[0], []⟩ 0 [emit_op.state 0xA18 5]).2.2.2.2 (by decide)).1
    (by decide)

/-- C4 (counterexample): a region that starts at the odd offset 1 and emits two
words (an even number) still gets a filler word, and its total of three words
is odd. -/
theorem padding_of_region_at_odd_offset :
    (emit_ops (etna_coalesce_start ⟨[0], []⟩ 0) [emit_op.state 0xA18 5]).1.buffer.length - 1 = 2 ∧
      (coalesced_region ⟨[0], []⟩ 0 [emit_op.state 0xA18 5]).buffer =
        [0, load_state_header (0xA18 >>> 2) 1 0, 5, 0xdeadbeef] := by
  decide

/-- C5: the stream offset is even immediately after every call of
`etna_coalesce_end`, for every stream and cursor at entry; in particular the
header written by `check_coalsence` after a break sits at an even offset. -/
theorem etna_coalesce_end_even (s : etna_cmd_stream) (c : etna_coalesce) (reg fixp : Nat) :
    etna_cmd_stream_offset (etna_coalesce_end s c) % 2 = 0 ∧
      etna_cmd_stream_offset
        (etna_emit_load_state (etna_coalesce_end s c) (reg >>> 2) 0 fixp) % 2 = 1 := by
  have h := etna_coalesce_end_length s c
  unfold etna_cmd_stream_offset etna_emit_load_state etna_cmd_stream_emit
  simp only [List.length_append, List.length_singleton]
  omega

/-- C6: `etna_coalsence_emit_reloc` with a reloc whose backing allocation is null
appends no word and leaves the cursor unchanged, so every later emission and
the closing of the region produce the same stream as if the call had not been
made. -/
theorem etna_coalsence_emit_reloc_null (s : etna_cmd_stream) (c : etna_coalesce)
    (reg : Nat) (r : etna_reloc) (hr : r.bo = none) :
    etna_coalsence_emit_reloc s c reg r = (s, c) ∧
      (∀ ops : List emit_op,
        emit_ops (etna_coalsence_emit_reloc s c reg r) ops = emit_ops (s, c) ops) ∧
      (∀ (s0 : etna_cmd_stream) (max : Nat) (before after : List emit_op),
        coalesced_region s0 max (before ++ emit_op.state_reloc reg r :: after) =
          coalesced_region s0 max (before ++ after)) := by
  have h1 : etna_coalsence_emit_reloc s c reg r = (s, c) := by
    simp [etna_coalsence_emit_reloc, hr]
  refine ⟨h1, fun ops => by rw [h1], ?_⟩
  intro s0 max before after
  have hn : ∀ sc, (emit_op.state_reloc reg r).apply sc = sc := fun sc =>
    emit_op_apply_none sc _ (by simp [emit_op.write, hr])
  unfold coalesced_region emit_ops
  simp only [List.foldl_append, List.foldl_cons, hn]

/-- C6 (witness): a null reloc between two contiguous writes does not break the run. -/
theorem etna_coalsence_emit_reloc_null_witness :
    (⟨none, 0, 0⟩ : etna_reloc).bo = none ∧
      coalesced_region ⟨[], []⟩ 0
          ([emit_op.state 0x1654 1] ++ emit_op.state_reloc 0x1658 ⟨none, 0, 0⟩ ::
            [emit_op.state 0x1658 2]) =
        coalesced_region ⟨[], []⟩ 0 ([emit_op.state 0x1654 1] ++ [emit_op.state 0x1658 2]) :=
  ⟨rfl, (etna_coalsence_emit_reloc_null ⟨[], []⟩ ⟨0, 0, 0⟩ 0x1658 ⟨none, 0, 0⟩ rfl).2.2
    ⟨[], []⟩ 0 [emit_op.state 0x1654 1] [emit_op.state 0x1658 2]⟩

/-- The words appended by `etna_stall`. -/
theorem etna_stall_buffer (s : etna_cmd_stream) (from_ to_ : Nat) :
    (etna_stall s from_ to_).buffer =
        s.buffer ++
          [load_state_header (VIVS_GL_SEMAPHORE_TOKEN >>> 2) 1 0,
            VIVS_GL_SEMAPHORE_TOKEN_FROM from_ ||| VIVS_GL_SEMAPHORE_TOKEN_TO to_] ++
          (if from_ = SYNC_RECIPIENT_FE then
            [VIV_FE_STALL_HEADER_OP_STALL,
              VIV_FE_STALL_TOKEN_FROM from_ ||| VIV_FE_STALL_TOKEN_TO to_]
           else
            [load_state_header (VIVS_GL_STALL_TOKEN >>> 2) 1 0,
              VIVS_GL_STALL_TOKEN_FROM from_ ||| VIVS_GL_STALL_TOKEN_TO to_]) := by
  unfold etna_stall CMD_STALL etna_emit_load_state etna_cmd_stream_emit
    etna_cmd_stream_reserve
  split <;> simp

/-- C7: for every stage pair, `etna_stall` appends exactly four words (its
reservation is 4): a load-state header for the semaphore-token register with
count 1 and the semaphore token; then, when `from` is the front-end, the STALL
command word and its stall token, and otherwise a load-state header for the
stall-token register with count 1 and the stall token. -/
theorem etna_stall_words (s : etna_cmd_stream) (from_ to_ : Nat) :
    (etna_stall s from_ to_).buffer =
        s.buffer ++
          [load_state_header (VIVS_GL_SEMAPHORE_TOKEN >>> 2) 1 0,
            VIVS_GL_SEMAPHORE_TOKEN_FROM from_ ||| VIVS_GL_SEMAPHORE_TOKEN_TO to_] ++
          (if from_ = SYNC_RECIPIENT_FE then
            [VIV_FE_STALL_HEADER_OP_STALL,
              VIV_FE_STALL_TOKEN_FROM from_ ||| VIV_FE_STALL_TOKEN_TO to_]
           else
            [load_state_header (VIVS_GL_STALL_TOKEN >>> 2) 1 0,
              VIVS_GL_STALL_TOKEN_FROM from_ ||| VIVS_GL_STALL_TOKEN_TO to_]) ∧
      (etna_stall s from_ to_).buffer.length = s.buffer.length + 4 ∧
      (etna_stall s from_ to_).relocs = s.relocs ∧
      header_count (load_state_header (VIVS_GL_SEMAPHORE_TOKEN >>> 2) 1 0) = 1 ∧
      header_count (load_state_header (VIVS_GL_STALL_TOKEN >>> 2) 1 0) = 1 ∧
      4 * header_offset (load_state_header (VIVS_GL_SEMAPHORE_TOKEN >>> 2) 1 0) =
        VIVS_GL_SEMAPHORE_TOKEN ∧
      4 * header_offset (load_state_header (VIVS_GL_STALL_TOKEN >>> 2) 1 0) =
        VIVS_GL_STALL_TOKEN := by
  refine ⟨?_, ?_, ?_, by decide, by decide, by decide, by decide⟩
  · unfold etna_stall CMD_STALL etna_emit_load_state etna_cmd_stream_emit
      etna_cmd_stream_reserve
    split <;> simp
  · unfold etna_stall CMD_STALL etna_emit_load_state etna_cmd_stream_emit
      etna_cmd_stream_reserve
    split <;> simp
  · unfold etna_stall CMD_STALL etna_emit_load_state etna_cmd_stream_emit
      etna_cmd_stream_reserve
    split <;> simp

/-! ## Claims about the resolve state -/

theorem and_15 (x : Nat) : x &&& ETNA_RS_WIDTH_MASK = x % 16 :=
  Nat.and_pow_two_sub_one_eq_mod x 4

theorem and_7 (x : Nat) : x &&& 7 = x % 8 :=
  Nat.and_pow_two_sub_one_eq_mod x 3

/-- C22 (amended): `etna_compile_rs_state` stops the program if and only if the
width is not a multiple of 16, or the pixel-pipe count is neither 1 nor 2, or
the pixel-pipe count is 2, the height is not a multiple of 8 and the `assert` is
compiled in (`NDEBUG` not defined).  In a build with `NDEBUG` the height is not
tested: the function returns if and only if the width is a multiple of 16 and
the pixel-pipe count is 1 or 2. -/
theorem etna_compile_rs_state_abort_iff (NDEBUG : Bool) (pixel_pipes : Nat) (rs : rs_state) :
    (etna_compile_rs_state NDEBUG pixel_pipes rs = none ↔
      rs.width % 16 ≠ 0 ∨ (pixel_pipes ≠ 1 ∧ pixel_pipes ≠ 2) ∨
        (NDEBUG = false ∧ pixel_pipes = 2 ∧ rs.height % 8 ≠ 0)) ∧
      (etna_compile_rs_state true pixel_pipes rs = none ↔
        rs.width % 16 ≠ 0 ∨ (pixel_pipes ≠ 1 ∧ pixel_pipes ≠ 2)) ∧
      (etna_compile_rs_state false pixel_pipes rs = none ↔
        rs.width % 16 ≠ 0 ∨ (pixel_pipes ≠ 1 ∧ pixel_pipes ≠ 2) ∨
          (pixel_pipes = 2 ∧ rs.height % 8 ≠ 0)) := by
  have key : ∀ n : Bool, (etna_compile_rs_state n pixel_pipes rs = none ↔
      rs.width % 16 ≠ 0 ∨ (pixel_pipes ≠ 1 ∧ pixel_pipes ≠ 2) ∨
        (n = false ∧ pixel_pipes = 2 ∧ rs.height % 8 ≠ 0)) := by
    intro n
    unfold etna_compile_rs_state
    simp only [and_15, and_7]
    by_cases hw : rs.width % 16 = 0
    · by_cases h1 : pixel_pipes = 1
      · simp [hw, h1]
      · by_cases h2 : pixel_pipes = 2
        · by_cases hh : rs.height % 8 = 0
          · simp [hw, h2, hh]
          · cases n <;> simp [hw, h2, hh]
        · simp [hw, h1, h2]
    · simp [hw]
  refine ⟨key NDEBUG, ?_, ?_⟩
  · have := key true
    simpa using this
  · have := key false
    simpa using this

/-- C22 (counterexample): on two pixel pipes, a descriptor of width 16 and height
4 (not a multiple of 8) compiled with `NDEBUG` defined is not stopped: the
function returns a block, whose window size is computed from half the height. -/
theorem compile_rs_state_height_with_ndebug :
    ¬ (4 % 8 = 0) ∧
      (etna_compile_rs_state true 2 { blank_rs_state with width := 16, height := 4 }).isSome =
        true ∧
      (etna_compile_rs_state true 2 { blank_rs_state with width := 16, height := 4 }).map
          (fun cs => cs.RS_WINDOW_SIZE) =
        some (VIVS_RS_WINDOW_SIZE_WIDTH 16 ||| VIVS_RS_WINDOW_SIZE_HEIGHT 2) := by
  decide

/-- The fields of an accepted compiled block that the claims below are about. -/
theorem etna_compile_rs_state_fields (NDEBUG : Bool) (pixel_pipes : Nat) (rs : rs_state)
    (cs : compiled_rs_state) (h : etna_compile_rs_state NDEBUG pixel_pipes rs = some cs) :
    cs.RS_SOURCE_STRIDE =
        (shl_u32 rs.source_stride (if rs.source_tiling ≠ ETNA_LAYOUT_LINEAR then 2 else 0) |||
          (if rs.source_tiling &&& 2 ≠ 0 then VIVS_RS_SOURCE_STRIDE_TILING else 0) |||
          (if rs.source_tiling &&& ETNA_LAYOUT_BIT_MULTI ≠ 0 then VIVS_RS_SOURCE_STRIDE_MULTI
           else 0)) ∧
      cs.RS_DEST_STRIDE =
        (shl_u32 rs.dest_stride (if rs.dest_tiling ≠ ETNA_LAYOUT_LINEAR then 2 else 0) |||
          (if rs.dest_tiling &&& 2 ≠ 0 then VIVS_RS_DEST_STRIDE_TILING else 0) |||
          (if rs.dest_tiling &&& ETNA_LAYOUT_BIT_MULTI ≠ 0 then VIVS_RS_DEST_STRIDE_MULTI
           else 0)) ∧
      cs.source_0 = ⟨rs.source, rs.source_offset, ETNA_RELOC_READ⟩ ∧
      cs.dest_0 = ⟨rs.dest, rs.dest_offset, ETNA_RELOC_WRITE⟩ ∧
      cs.source_1 =
        (if pixel_pipes = 2 ∧ rs.source_tiling &&& ETNA_LAYOUT_BIT_MULTI ≠ 0 then
          ⟨rs.source, add_u32 rs.source_offset
            ((rs.source_stride * rs.source_padded_height) % U32 / 2), ETNA_RELOC_READ⟩
         else etna_reloc_zero) ∧
      cs.dest_1 =
        (if pixel_pipes = 2 ∧ rs.dest_tiling &&& ETNA_LAYOUT_BIT_MULTI ≠ 0 then
          ⟨rs.dest, add_u32 rs.dest_offset
            ((rs.dest_stride * rs.dest_padded_height) % U32 / 2), ETNA_RELOC_WRITE⟩
         else etna_reloc_zero) ∧
      cs.RS_CLEAR_CONTROL = (VIVS_RS_CLEAR_CONTROL_BITS rs.clear_bits ||| rs.clear_mode) := by
  unfold etna_compile_rs_state at h
  simp only at h
  by_cases hw : rs.width &&& ETNA_RS_WIDTH_MASK = 0
  · by_cases h1 : pixel_pipes = 1
    · simp only [hw, h1, ne_eq, not_true_eq_false, if_false, if_true, Option.some.injEq] at h
      subst h
      simp [compiled_rs_state_zero, h1]
    · by_cases h2 : pixel_pipes = 2
      · by_cases hh : NDEBUG = true ∨ rs.height &&& 7 = 0
        · simp only [hw, h2, hh, ne_eq, not_true_eq_false, if_false, if_true,
            Option.some.injEq, OfNat.ofNat_ne_one] at h
          subst h
          by_cases hsm : rs.source_tiling &&& ETNA_LAYOUT_BIT_MULTI = 0 <;>
            by_cases hdm : rs.dest_tiling &&& ETNA_LAYOUT_BIT_MULTI = 0 <;>
            simp [compiled_rs_state_zero, hsm, hdm, h2]
        · simp [hw, h2, hh] at h
      · simp [hw, h1, h2] at h
  · simp [hw] at h

/-- C23: for every accepted descriptor, RS_SOURCE_STRIDE is `source_stride * 4`
(mod 2^32) when the source tiling is not linear and `source_stride` itself when
it is linear, OR-ed with the TILING flag when bit 1 of the tiling mode is set and
with the MULTI flag when the tiling mode has the multi bit; the same holds for
RS_DEST_STRIDE. -/
theorem etna_compile_rs_state_stride (NDEBUG : Bool) (pixel_pipes : Nat) (rs : rs_state)
    (cs : compiled_rs_state) (h : etna_compile_rs_state NDEBUG pixel_pipes rs = some cs)
    (hs : rs.source_stride < U32) (hd : rs.dest_stride < U32) :
    cs.RS_SOURCE_STRIDE =
        ((if rs.source_tiling = ETNA_LAYOUT_LINEAR then rs.source_stride
          else (rs.source_stride * 4) % U32) |||
          (if rs.source_tiling &&& 2 ≠ 0 then VIVS_RS_SOURCE_STRIDE_TILING else 0) |||
          (if rs.source_tiling &&& ETNA_LAYOUT_BIT_MULTI ≠ 0 then VIVS_RS_SOURCE_STRIDE_MULTI
           else 0)) ∧
      cs.RS_DEST_STRIDE =
        ((if rs.dest_tiling = ETNA_LAYOUT_LINEAR then rs.dest_stride
          else (rs.dest_stride * 4) % U32) |||
          (if rs.dest_tiling &&& 2 ≠ 0 then VIVS_RS_DEST_STRIDE_TILING else 0) |||
          (if rs.dest_tiling &&& ETNA_LAYOUT_BIT_MULTI ≠ 0 then VIVS_RS_DEST_STRIDE_MULTI
           else 0)) := by
  obtain ⟨h1, h2, -⟩ := etna_compile_rs_state_fields NDEBUG pixel_pipes rs cs h
  have e : ∀ (x t : Nat), x < U32 →
      shl_u32 x (if t ≠ ETNA_LAYOUT_LINEAR then 2 else 0) =
        (if t = ETNA_LAYOUT_LINEAR then x else (x * 4) % U32) := by
    intro x t hx
    by_cases ht : t = ETNA_LAYOUT_LINEAR
    · simp [ht, shl_u32, Nat.mod_eq_of_lt hx]
    · simp [ht, shl_u32, Nat.shiftLeft_eq]
  rw [h1, h2, e _ _ hs, e _ _ hd]
  exact ⟨rfl, rfl⟩

/-- C23 (witness): a tiled 16x8 resolve on one pixel pipe. -/
theorem etna_compile_rs_state_stride_witness :
    ∃ cs, etna_compile_rs_state false 1
        { blank_rs_state with width := 16, height := 8, source_tiling := 1, source_stride := 64 } =
        some cs ∧ cs.RS_SOURCE_STRIDE = 256 :=
  ⟨_, rfl, (etna_compile_rs_state_stride false 1
      { blank_rs_state with width := 16, height := 8, source_tiling := 1, source_stride := 64 }
      _ rfl (by decide) (by decide)).1.trans (by decide)⟩

/-- C24 (amended): for every accepted descriptor, the second source reloc is set
if and only if the pixel-pipe count is 2 and the source tiling mode is a multi
mode; it then carries the descriptor's source allocation (the same as the first
reloc, null when the descriptor has none), READ access and the byte offset
`source_offset + (source_stride * source_padded_height) / 2` in 32-bit
arithmetic, and otherwise it is all zero.  The same holds for the second
destination reloc with the destination fields and WRITE access. -/
theorem etna_compile_rs_state_second_reloc (NDEBUG : Bool) (pixel_pipes : Nat)
    (rs : rs_state) (cs : compiled_rs_state)
    (h : etna_compile_rs_state NDEBUG pixel_pipes rs = some cs) :
    cs.source_1 =
        (if pixel_pipes = 2 ∧ rs.source_tiling &&& ETNA_LAYOUT_BIT_MULTI ≠ 0 then
          ⟨cs.source_0.bo, add_u32 rs.source_offset
            ((rs.source_stride * rs.source_padded_height) % U32 / 2), ETNA_RELOC_READ⟩
         else etna_reloc_zero) ∧
      cs.dest_1 =
        (if pixel_pipes = 2 ∧ rs.dest_tiling &&& ETNA_LAYOUT_BIT_MULTI ≠ 0 then
          ⟨cs.dest_0.bo, add_u32 rs.dest_offset
            ((rs.dest_stride * rs.dest_padded_height) % U32 / 2), ETNA_RELOC_WRITE⟩
         else etna_reloc_zero) ∧
      cs.source_0.bo = rs.source ∧ cs.dest_0.bo = rs.dest ∧
      (cs.source_1.bo.isSome ↔
        pixel_pipes = 2 ∧ rs.source_tiling &&& ETNA_LAYOUT_BIT_MULTI ≠ 0 ∧ rs.source.isSome) ∧
      (cs.dest_1.bo.isSome ↔
        pixel_pipes = 2 ∧ rs.dest_tiling &&& ETNA_LAYOUT_BIT_MULTI ≠ 0 ∧ rs.dest.isSome) := by
  obtain ⟨-, -, h3, h4, h5, h6, -⟩ := etna_compile_rs_state_fields NDEBUG pixel_pipes rs cs h
  rw [h3, h4, h5, h6]
  refine ⟨rfl, rfl, rfl, rfl, ?_, ?_⟩
  · split <;> simp_all [etna_reloc_zero]
  · split <;> simp_all [etna_reloc_zero]

/-- C24 (witness): a multi-tiled source on two pixel pipes. -/
theorem etna_compile_rs_state_second_reloc_witness :
    ∃ cs, etna_compile_rs_state false 2
        { blank_rs_state with width := 16, height := 8, source_tiling := 5, source := some 7, source_stride := 64, source_padded_height := 8 } = some cs ∧
      cs.source_1 = ⟨some 7, 256, ETNA_RELOC_READ⟩ :=
  ⟨_, rfl, (etna_compile_rs_state_second_reloc false 2
      { blank_rs_state with width := 16, height := 8, source_tiling := 5, source := some 7, source_stride := 64, source_padded_height := 8 } _ rfl).1.trans (by decide)⟩

/-- C24 (counterexample): on two pixel pipes with a multi-tiled source and a
descriptor without source allocation, the second source reloc has no backing
allocation, and it is not all zero either. -/
theorem second_reloc_of_null_source :
    ∃ cs, etna_compile_rs_state false 2
        { blank_rs_state with width := 16, height := 8, source_tiling := 5 } = some cs ∧
      cs.source_1.bo = none ∧ cs.source_1 ≠ etna_reloc_zero :=
  ⟨_, rfl, by decide, by decide⟩

theorem clear_bits_field (x : Nat) : VIVS_RS_CLEAR_CONTROL_BITS x = x % 65536 := by
  have h := Nat.and_pow_two_sub_one_eq_mod x 16
  simpa [VIVS_RS_CLEAR_CONTROL_BITS, VIVS_RS_CLEAR_CONTROL_BITS__MASK] using h

theorem and_high_half (x : Nat) (hx : x < U32) :
    x &&& not_u32 VIVS_RS_CLEAR_CONTROL_BITS__MASK = 2 ^ 16 * (x / 65536) := by
  have hm : not_u32 VIVS_RS_CLEAR_CONTROL_BITS__MASK = (2 ^ 16 - 1) <<< 16 := by decide
  rw [hm, and_shl_mask, Nat.and_pow_two_sub_one_eq_mod, Nat.shiftLeft_eq,
    Nat.shiftRight_eq_div_pow]
  unfold U32 at hx
  omega

/-- C25: `etna_modify_rs_clearbits(cs, b)` leaves every bit of RS_CLEAR_CONTROL
outside the clear-bits field unchanged, sets the clear-bits field to `b`
truncated to the field width, and leaves every other field of `cs` unchanged. -/
theorem etna_modify_rs_clearbits_frame (cs : compiled_rs_state) (b : Nat)
    (hcs : cs.RS_CLEAR_CONTROL < U32) :
    (etna_modify_rs_clearbits cs b).RS_CLEAR_CONTROL / 65536 = cs.RS_CLEAR_CONTROL / 65536 ∧
      (etna_modify_rs_clearbits cs b).RS_CLEAR_CONTROL % 65536 = b % 65536 ∧
      (etna_modify_rs_clearbits cs b).RS_CLEAR_CONTROL &&& VIVS_RS_CLEAR_CONTROL_BITS__MASK =
        VIVS_RS_CLEAR_CONTROL_BITS b ∧
      etna_modify_rs_clearbits cs b =
        { cs with RS_CLEAR_CONTROL := (etna_modify_rs_clearbits cs b).RS_CLEAR_CONTROL } := by
  have hv : (etna_modify_rs_clearbits cs b).RS_CLEAR_CONTROL =
      2 ^ 16 * (cs.RS_CLEAR_CONTROL / 65536) + b % 65536 := by
    unfold etna_modify_rs_clearbits
    simp only
    rw [and_high_half _ hcs, clear_bits_field]
    exact lor_eq_add _ _ 16 (Nat.mod_lt _ (by norm_num))
  have hm : ∀ y : Nat, y &&& VIVS_RS_CLEAR_CONTROL_BITS__MASK = y % 65536 := fun y => by
    have h := Nat.and_pow_two_sub_one_eq_mod y 16
    simpa [VIVS_RS_CLEAR_CONTROL_BITS__MASK] using h
  refine ⟨by rw [hv]; omega, by rw [hv]; omega, ?_, rfl⟩
  rw [hm, clear_bits_field, hv]; omega

/-- C25 (witness): clear bits 0xffff on a block whose clear control holds a mode. -/
theorem etna_modify_rs_clearbits_frame_witness :
    (etna_modify_rs_clearbits { compiled_rs_state_zero with RS_CLEAR_CONTROL := 0x10005 }
      0xffff).RS_CLEAR_CONTROL % 65536 = 0xffff % 65536 :=
  (etna_modify_rs_clearbits_frame { compiled_rs_state_zero with RS_CLEAR_CONTROL := 0x10005 }
    0xffff (by decide)).2.1

theorem mem_written_regs (x : Nat) (ops : List emit_op) :
    x ∈ written_regs ops ↔ ∃ op ∈ ops, ∃ w, op.write = some w ∧ w.reg = x := by
  unfold written_regs
  simp only [List.mem_map, List.mem_filterMap]
  constructor
  · rintro ⟨w, ⟨op, hop, hw⟩, hx⟩
    exact ⟨op, hop, w, hw, hx⟩
  · rintro ⟨op, hop, w, hw, hx⟩
    exact ⟨w, ⟨op, hop, hw⟩, hx⟩

theorem write_state_reg (r v x : Nat) :
    (∃ w, (emit_op.state r v).write = some w ∧ w.reg = x) ↔ r = x := by
  simp [emit_op.write]

theorem write_state_fixp_reg (r v x : Nat) :
    (∃ w, (emit_op.state_fixp r v).write = some w ∧ w.reg = x) ↔ r = x := by
  simp [emit_op.write]

theorem write_state_reloc_reg (r : Nat) (rel : etna_reloc) (x : Nat) :
    (∃ w, (emit_op.state_reloc r rel).write = some w ∧ w.reg = x) ↔
      rel.bo.isSome ∧ r = x := by
  cases h : rel.bo <;> simp [emit_op.write, h]

/-- C21 (amended): with one pixel pipe `etna_submit_rs_state` writes none of the
RS_PIPE_* registers, and RS_SOURCE_ADDR (RS_DEST_ADDR) exactly when the first
source (destination) reloc has a backing allocation; with two pixel pipes it
writes RS_PIPE_OFFSET(0..1), RS_PIPE_SOURCE_ADDR(0) and RS_PIPE_DEST_ADDR(0)
exactly when the first source and destination relocs have a backing allocation,
and RS_PIPE_SOURCE_ADDR(1) (RS_PIPE_DEST_ADDR(1)) exactly when the MULTI flag
is set in RS_SOURCE_STRIDE (RS_DEST_STRIDE) and the second reloc has a backing
allocation; with any other pixel-pipe count it aborts. -/
theorem etna_submit_rs_state_registers (pixel_pipes : Nat) (stream : etna_cmd_stream)
    (cs : compiled_rs_state) :
    (pixel_pipes = 1 →
      etna_submit_rs_state pixel_pipes stream cs =
          some (coalesced_region stream 22 (submit_rs_ops_single cs)) ∧
        (∀ x, VIVS_RS_PIPE_SOURCE_ADDR x ∉ written_regs (submit_rs_ops_single cs) ∧
          VIVS_RS_PIPE_DEST_ADDR x ∉ written_regs (submit_rs_ops_single cs) ∧
          VIVS_RS_PIPE_OFFSET x ∉ written_regs (submit_rs_ops_single cs)) ∧
        (VIVS_RS_SOURCE_ADDR ∈ written_regs (submit_rs_ops_single cs) ↔ cs.source_0.bo.isSome) ∧
        (VIVS_RS_DEST_ADDR ∈ written_regs (submit_rs_ops_single cs) ↔ cs.dest_0.bo.isSome)) ∧
      (pixel_pipes = 2 →
        etna_submit_rs_state pixel_pipes stream cs =
          some (coalesced_region stream 34 (submit_rs_ops_dual cs)) ∧
        VIVS_RS_PIPE_OFFSET 0 ∈ written_regs (submit_rs_ops_dual cs) ∧
        VIVS_RS_PIPE_OFFSET 1 ∈ written_regs (submit_rs_ops_dual cs) ∧
        (VIVS_RS_PIPE_SOURCE_ADDR 0 ∈ written_regs (submit_rs_ops_dual cs) ↔
          cs.source_0.bo.isSome) ∧
        (VIVS_RS_PIPE_DEST_ADDR 0 ∈ written_regs (submit_rs_ops_dual cs) ↔
          cs.dest_0.bo.isSome) ∧
        (VIVS_RS_PIPE_SOURCE_ADDR 1 ∈ written_regs (submit_rs_ops_dual cs) ↔
          cs.RS_SOURCE_STRIDE &&& VIVS_RS_SOURCE_STRIDE_MULTI ≠ 0 ∧ cs.source_1.bo.isSome) ∧
        (VIVS_RS_PIPE_DEST_ADDR 1 ∈ written_regs (submit_rs_ops_dual cs) ↔
          cs.RS_DEST_STRIDE &&& VIVS_RS_DEST_STRIDE_MULTI ≠ 0 ∧ cs.dest_1.bo.isSome)) ∧
      (pixel_pipes ≠ 1 → pixel_pipes ≠ 2 → etna_submit_rs_state pixel_pipes stream cs = none) := by
  refine ⟨?_, ?_, ?_⟩
  · intro h1
    refine ⟨by simp [etna_submit_rs_state, h1], ?_, ?_, ?_⟩
    · intro x
      simp only [mem_written_regs, submit_rs_ops_single, List.mem_cons, List.mem_singleton,
        exists_eq_or_imp, exists_eq_left, write_state_reg, write_state_reloc_reg,
        List.not_mem_nil, false_and, exists_false, or_false,
        VIVS_RS_PIPE_SOURCE_ADDR, VIVS_RS_PIPE_DEST_ADDR, VIVS_RS_PIPE_OFFSET, VIVS_RS_CONFIG,
        VIVS_RS_SOURCE_ADDR, VIVS_RS_SOURCE_STRIDE, VIVS_RS_DEST_ADDR, VIVS_RS_DEST_STRIDE,
        VIVS_RS_WINDOW_SIZE, VIVS_RS_DITHER, VIVS_RS_CLEAR_CONTROL, VIVS_RS_FILL_VALUE,
        VIVS_RS_EXTRA_CONFIG, VIVS_RS_KICKER]
      omega
    · simp only [mem_written_regs, submit_rs_ops_single, List.mem_cons, List.mem_singleton,
        exists_eq_or_imp, exists_eq_left, write_state_reg, write_state_reloc_reg,
        List.not_mem_nil, false_and, exists_false, or_false, VIVS_RS_CONFIG,
        VIVS_RS_SOURCE_ADDR, VIVS_RS_SOURCE_STRIDE, VIVS_RS_DEST_ADDR, VIVS_RS_DEST_STRIDE,
        VIVS_RS_WINDOW_SIZE, VIVS_RS_DITHER, VIVS_RS_CLEAR_CONTROL, VIVS_RS_FILL_VALUE,
        VIVS_RS_EXTRA_CONFIG, VIVS_RS_KICKER]
      simp
    · simp only [mem_written_regs, submit_rs_ops_single, List.mem_cons, List.mem_singleton,
        exists_eq_or_imp, exists_eq_left, write_state_reg, write_state_reloc_reg,
        List.not_mem_nil, false_and, exists_false, or_false, VIVS_RS_CONFIG,
        VIVS_RS_SOURCE_ADDR, VIVS_RS_SOURCE_STRIDE, VIVS_RS_DEST_ADDR, VIVS_RS_DEST_STRIDE,
        VIVS_RS_WINDOW_SIZE, VIVS_RS_DITHER, VIVS_RS_CLEAR_CONTROL, VIVS_RS_FILL_VALUE,
        VIVS_RS_EXTRA_CONFIG, VIVS_RS_KICKER]
      simp
  · intro h2
    refine ⟨by simp [etna_submit_rs_state, h2], ?_⟩
    by_cases hsm : cs.RS_SOURCE_STRIDE &&& VIVS_RS_SOURCE_STRIDE_MULTI = 0 <;>
      by_cases hdm : cs.RS_DEST_STRIDE &&& VIVS_RS_DEST_STRIDE_MULTI = 0 <;>
      simp only [mem_written_regs, submit_rs_ops_dual, hsm, hdm, ne_eq, not_true_eq_false,
        not_false_eq_true, if_true, if_false, List.append_nil, List.mem_append, List.mem_cons,
        List.mem_singleton, exists_eq_or_imp, exists_eq_left, or_imp, forall_and,
        exists_or, or_and_right, write_state_reg, write_state_reloc_reg,
        List.not_mem_nil, false_and, exists_false, or_false,
        VIVS_RS_PIPE_SOURCE_ADDR, VIVS_RS_PIPE_DEST_ADDR, VIVS_RS_PIPE_OFFSET, VIVS_RS_CONFIG,
        VIVS_RS_SOURCE_STRIDE, VIVS_RS_DEST_STRIDE,
        VIVS_RS_WINDOW_SIZE, VIVS_RS_DITHER, VIVS_RS_CLEAR_CONTROL, VIVS_RS_FILL_VALUE,
        VIVS_RS_EXTRA_CONFIG, VIVS_RS_KICKER] <;>
      simp
  · intro h1 h2
    simp [etna_submit_rs_state, h1, h2]

/-- C21 (witness): a block without relocs on one and on two pixel pipes. -/
theorem etna_submit_rs_state_registers_witness :
    etna_submit_rs_state 1 ⟨[], []⟩ compiled_rs_state_zero =
        some (coalesced_region ⟨[], []⟩ 22 (submit_rs_ops_single compiled_rs_state_zero)) ∧
      VIVS_RS_PIPE_OFFSET 1 ∈ written_regs (submit_rs_ops_dual compiled_rs_state_zero) ∧
      etna_submit_rs_state 3 ⟨[], []⟩ compiled_rs_state_zero = none :=
  ⟨((etna_submit_rs_state_registers 1 ⟨[], []⟩ compiled_rs_state_zero).1 rfl).1,
    ((etna_submit_rs_state_registers 2 ⟨[], []⟩ compiled_rs_state_zero).2.1 rfl).2.2.1,
    (etna_submit_rs_state_registers 3 ⟨[], []⟩ compiled_rs_state_zero).2.2 (by decide)
      (by decide)⟩

/-- C21 (counterexample): on two pixel pipes a block whose first source reloc has
no backing allocation (a clear) does not write RS_PIPE_SOURCE_ADDR(0). -/
theorem submit_rs_dual_without_source :
    VIVS_RS_PIPE_SOURCE_ADDR 0 ∉ written_regs (submit_rs_ops_dual compiled_rs_state_zero) ∧
      etna_submit_rs_state 2 ⟨[], []⟩ compiled_rs_state_zero =
        some (coalesced_region ⟨[], []⟩ 34 (submit_rs_ops_dual compiled_rs_state_zero)) := by
  decide

/-! ## Claims about the draw entry point and the rasterizer state -/

/-- C27 (amended): when `vertex_elements` is null or has zero elements, and for
every draw of a primitive mode the hardware supports whose decomposed primitive
count is <= 0, `etna_draw_vbo` returns without calling `etna_emit_state`: the
context (stream and dirty set included) is unchanged.  A draw of a mode the
hardware does not support is handed to the primitive converter before the
primitive count is looked at. -/
theorem etna_draw_vbo_early_return (ext : draw_collaborators) (prim_hwsupport : Nat)
    (ctx : etna_context) (info : pipe_draw_info) :
    (ctx.vertex_elements = none → etna_draw_vbo ext prim_hwsupport ctx info = some ctx) ∧
      (∀ ve, ctx.vertex_elements = some ve → ve.num_elements = 0 →
        etna_draw_vbo ext prim_hwsupport ctx info = some ctx) ∧
      (∀ ve, ctx.vertex_elements = some ve → ve.num_elements ≠ 0 →
        prim_hwsupport &&& (1 <<< info.mode) ≠ 0 →
        ext.u_decomposed_prims_for_vertices info.mode info.count ≤ 0 →
        etna_draw_vbo ext prim_hwsupport ctx info = some ctx) ∧
      (∀ ve, ctx.vertex_elements = some ve → ve.num_elements ≠ 0 →
        prim_hwsupport &&& (1 <<< info.mode) = 0 →
        etna_draw_vbo ext prim_hwsupport ctx info =
          some (ext.util_primconvert_draw_vbo ctx info)) := by
  refine ⟨?_, ?_, ?_, ?_⟩
  · intro h; simp [etna_draw_vbo, h]
  · intro ve h h0; simp [etna_draw_vbo, h, h0]
  · intro ve h h0 hs hp; simp [etna_draw_vbo, h, h0, hs, hp]
  · intro ve h h0 hs; simp [etna_draw_vbo, h, h0, hs]

/-- C27 (witness): a supported mode with no complete primitive. -/
theorem etna_draw_vbo_early_return_witness :
    etna_draw_vbo example_collaborators 0x10 { blank_context with dirty := 0x200 }
        ⟨4, 2, 0, 0, false⟩ = some { blank_context with dirty := 0x200 } :=
  (etna_draw_vbo_early_return example_collaborators 0x10 { blank_context with dirty := 0x200 }
    ⟨4, 2, 0, 0, false⟩).2.2.1 ⟨1, fun _ => 0⟩ rfl (by decide) (by decide) (by decide)

/-- C27 (counterexample): a draw of a mode the hardware does not support, with
primitive count 0, is handed to the primitive converter, whose effect on the
stream is what `etna_draw_vbo` returns. -/
theorem draw_vbo_unsupported_mode_with_no_primitive :
    example_collaborators.u_decomposed_prims_for_vertices 7 2 ≤ 0 ∧
      (etna_draw_vbo example_collaborators 0x10 blank_context ⟨7, 2, 0, 0, false⟩).map
        (fun c => c.stream.buffer) = some [7] := by
  decide

/-- C26 (the code at the failing input): with a bound vertex shader of two inputs
and one vertex element, a supported mode and one primitive, `etna_draw_vbo`
skips the draw after `etna_emit_state` has run: the viewport state is in the
stream and the dirty set is clear. -/
theorem draw_vbo_mismatch_after_emit :
    draw_vbo_mismatch { blank_context with dirty := 0x200, vs := some ⟨2⟩ } = true ∧
      (etna_draw_vbo example_collaborators 0x10
          { blank_context with dirty := 0x200, vs := some ⟨2⟩ } ⟨4, 3, 0, 0, false⟩).map
        (fun c => (c.dirty, c.stream.buffer.length)) = some (0, 22) := by
  decide

/-- C30 (the code at the failing input): with one uniform whose new value differs
from the mirror, the sparse update started with `etna_coalesce_start(stream,
&coalesce, 1)` appends two words, a header and the value. -/
theorem uniform_update_single_word_count :
    (uniform_update ⟨[], []⟩ VIVS_VS_UNIFORMS 1 (fun _ => 5) (fun _ => 0)).1.buffer =
        [load_state_header (VIVS_VS_UNIFORMS 0 >>> 2) 1 0, 5] ∧
      ¬ ((uniform_update ⟨[], []⟩ VIVS_VS_UNIFORMS 1 (fun _ => 5) (fun _ => 0)).1.buffer.length -
        ([] : List Nat).length ≤ 1) := by
  decide

/-! ## Claims about the state weaver -/

theorem emit_state_relink_frame (l : etna_context → compiled_shader_state)
    (ctx : etna_context) :
    emit_state_relink l ctx =
      { ctx with shader_state := (emit_state_relink l ctx).shader_state } := by
  unfold emit_state_relink
  split <;> rfl

theorem emit_state_relink_clean (l : etna_context → compiled_shader_state)
    (ctx : etna_context) (h : ctx.dirty &&& ETNA_DIRTY_SHADER = 0) :
    emit_state_relink l ctx = ctx := by
  simp [emit_state_relink, h]

/-- The result of `etna_emit_state` when it returns, phase by phase. -/
theorem etna_emit_state_some (d : Bool) (l : etna_context → compiled_shader_state)
    (ctx ctx' : etna_context) (h : etna_emit_state d l ctx = some ctx') :
    ∃ ve ops, ctx.vertex_elements = some ve ∧
      etna_emit_state_region (emit_state_relink l ctx) ctx.dirty (active_samplers_bits ctx) =
        some ops ∧
      ctx' =
        { emit_state_relink l ctx with
          stream := (emit_state_uniforms (emit_state_relink l ctx) ctx.dirty
            (emit_state_shader_stall (emit_state_relink l ctx)
              (coalesced_region
                (emit_state_vertex_elements ctx.dirty ve
                  (emit_state_flush d ctx.dirty ctx.stream))
                ETNA_3D_CONTEXT_SIZE ops))
            (emit_state_msaa_clobber (emit_state_relink l ctx) ctx.dirty)).1
          gpu3d := (emit_state_uniforms (emit_state_relink l ctx) ctx.dirty
            (emit_state_shader_stall (emit_state_relink l ctx)
              (coalesced_region
                (emit_state_vertex_elements ctx.dirty ve
                  (emit_state_flush d ctx.dirty ctx.stream))
                ETNA_3D_CONTEXT_SIZE ops))
            (emit_state_msaa_clobber (emit_state_relink l ctx) ctx.dirty)).2
          dirty := 0 } := by
  have hr := emit_state_relink_frame l ctx
  have hve : (emit_state_relink l ctx).vertex_elements = ctx.vertex_elements := by rw [hr]
  have hd : (emit_state_relink l ctx).dirty = ctx.dirty := by rw [hr]
  unfold etna_emit_state at h
  simp only [hve, hd, etna_cmd_stream_reserve] at h
  cases hv : ctx.vertex_elements with
  | none => simp [hv] at h
  | some ve =>
    simp only [hv] at h
    cases hreg : etna_emit_state_region (emit_state_relink l ctx) ctx.dirty
        (active_samplers_bits ctx) with
    | none => simp [hreg] at h
    | some ops =>
      simp only [hreg, Option.some.injEq] at h
      refine ⟨ve, ops, rfl, rfl, ?_⟩
      rw [← h]
      simp [hve, hv]

/-- C8: on every context state on which `etna_emit_state` returns, `ctx->dirty`
is 0 afterwards, and the clearing is the last step: the returned context is the
re-linked context with the stream and the mirror produced by all emission
phases (the flush pre-pass, the vertex elements, the coalesced region, the
stall, the uniform upload) and with the dirty set then cleared.  Every phase
reads the dirty set of entry: the re-link pass leaves `ctx->dirty` unchanged,
and the stall test of line 720, the last reader of `ctx->dirty`, still sees the
dirty set of entry. -/
theorem etna_emit_state_clears_dirty (d : Bool) (l : etna_context → compiled_shader_state)
    (ctx ctx' : etna_context) (h : etna_emit_state d l ctx = some ctx') :
    ctx'.dirty = 0 ∧
      (emit_state_relink l ctx).dirty = ctx.dirty ∧
      (∀ S : etna_cmd_stream, emit_state_shader_stall (emit_state_relink l ctx) S =
        (if ctx.dirty &&&
              (ETNA_DIRTY_SHADER ||| ETNA_DIRTY_VS_UNIFORMS ||| ETNA_DIRTY_PS_UNIFORMS) ≠ 0 ∧
            ctx.specs.vs_offset > 0x4000 then
          etna_stall S SYNC_RECIPIENT_FE SYNC_RECIPIENT_PE
         else S)) ∧
      ∃ ve ops, ctx.vertex_elements = some ve ∧
        etna_emit_state_region (emit_state_relink l ctx) ctx.dirty (active_samplers_bits ctx) =
          some ops ∧
        ctx' =
          { emit_state_relink l ctx with
            stream := (emit_state_uniforms (emit_state_relink l ctx) ctx.dirty
              (emit_state_shader_stall (emit_state_relink l ctx)
                (coalesced_region
                  (emit_state_vertex_elements ctx.dirty ve
                    (emit_state_flush d ctx.dirty ctx.stream))
                  ETNA_3D_CONTEXT_SIZE ops))
              (emit_state_msaa_clobber (emit_state_relink l ctx) ctx.dirty)).1
            gpu3d := (emit_state_uniforms (emit_state_relink l ctx) ctx.dirty
              (emit_state_shader_stall (emit_state_relink l ctx)
                (coalesced_region
                  (emit_state_vertex_elements ctx.dirty ve
                    (emit_state_flush d ctx.dirty ctx.stream))
                  ETNA_3D_CONTEXT_SIZE ops))
              (emit_state_msaa_clobber (emit_state_relink l ctx) ctx.dirty)).2
            dirty := 0 } := by
  obtain ⟨ve, ops, h0, h1, h2⟩ := etna_emit_state_some d l ctx ctx' h
  have hr := emit_state_relink_frame l ctx
  refine ⟨by rw [h2], by rw [hr], ?_, ve, ops, h0, h1, h2⟩
  intro S
  unfold emit_state_shader_stall
  rw [hr]

/-- C8 (witness): the blank context with the viewport category dirty. -/
theorem etna_emit_state_clears_dirty_witness :
    ∃ ctx', etna_emit_state false (fun c => c.shader_state)
        { blank_context with dirty := 0x200 } = some ctx' ∧ ctx'.dirty = 0 :=
  ⟨_, rfl, (etna_emit_state_clears_dirty false (fun c => c.shader_state)
    { blank_context with dirty := 0x200 } _ rfl).1⟩

theorem region_clean (ctx : etna_context) (a : Nat) :
    etna_emit_state_region ctx 0 a = some [] := by
  simp [etna_emit_state_region, region_pe_color, region_multi_sample, region_index_buffer,
    region_vertex_buffers, region_vs_end_pc, region_vs_output_count, region_vs_input_count,
    region_vs_output, region_vs_input, region_vs_start, region_viewport, region_pa_rasterizer,
    region_pa_attribute_count, region_pa_config, region_pa_shader_attributes, region_scissor,
    region_se_rasterizer, region_ra_control, region_ra_framebuffer, region_ps,
    region_pe_depth_config, region_pe_depth_range, region_pe_depth, region_pe_stencil_op,
    region_pe_stencil_config, region_pe_alpha_op, region_pe_blend_color, region_pe_alpha_config,
    region_pe_color_format, region_pe_stencil_ext, region_pe_blend, region_ts,
    region_te_config0, region_te_size, region_te_lod, region_te_lod_addr, region_varying]

theorem coalesced_region_nil (s : etna_cmd_stream) (max : Nat) :
    coalesced_region s max [] = { s with buffer := s.buffer ++ padding s.buffer.length } := by
  have hz : sub_u32 s.buffer.length s.buffer.length = 0 := by
    unfold sub_u32 U32; omega
  simp only [coalesced_region, emit_ops_nil, etna_coalesce_start, etna_cmd_stream_reserve,
    etna_cmd_stream_offset, etna_coalesce_end, hz, ne_eq, not_true_eq_false, if_false,
    etna_cmd_stream_emit, padding]
  split <;> simp

/-- C9 (amended): for every context state whose dirty set is empty (debug
flush-all disabled, vertex elements bound), `etna_emit_state` appends zero words
to the command stream when the stream offset at entry is even, and only the
filler word of the final `etna_coalesce_end` when it is odd; nothing else of
the context changes. -/
theorem etna_emit_state_clean (l : etna_context → compiled_shader_state)
    (ctx : etna_context) (ve : compiled_vertex_elements_state) (hd : ctx.dirty = 0)
    (hve : ctx.vertex_elements = some ve) :
    etna_emit_state false l ctx =
        some { ctx with
          stream := { ctx.stream with
            buffer := ctx.stream.buffer ++ padding ctx.stream.buffer.length } } ∧
      (ctx.stream.buffer.length % 2 = 0 → etna_emit_state false l ctx = some ctx) := by
  have hrl : emit_state_relink l ctx = ctx := emit_state_relink_clean l ctx (by simp [hd])
  have h1 : etna_emit_state false l ctx =
      some { ctx with
        stream := { ctx.stream with
          buffer := ctx.stream.buffer ++ padding ctx.stream.buffer.length } } := by
    unfold etna_emit_state
    simp only [hrl, hve, hd, region_clean, coalesced_region_nil]
    simp [emit_state_flush, emit_state_to_flush, emit_state_vertex_elements,
      emit_state_shader_stall, emit_state_uniforms, emit_state_msaa_clobber,
      etna_cmd_stream_reserve, hd]
  refine ⟨h1, ?_⟩
  intro hev
  have hp : padding ctx.stream.buffer.length = [] := by simp [padding, hev]
  rw [h1, hp, List.append_nil]

/-- C9 (witness): the blank context, whose stream is empty. -/
theorem etna_emit_state_clean_witness :
    etna_emit_state false (fun c => c.shader_state) blank_context = some blank_context :=
  (etna_emit_state_clean (fun c => c.shader_state) blank_context ⟨1, fun _ => 0⟩ rfl rfl).2
    (by decide)

/-- C9 (counterexample): with an empty dirty set and one word in the stream,
`etna_emit_state` appends the filler word. -/
theorem emit_state_clean_at_odd_offset :
    (etna_emit_state false (fun c => c.shader_state)
        { blank_context with stream := ⟨[0], []⟩ }).map (fun c => c.stream.buffer) =
      some [0, 0xdeadbeef] := by
  decide

theorem region_pe_color_none (ctx : etna_context) (dirty : Nat) :
    region_pe_color ctx dirty = none ↔
      dirty &&& ETNA_DIRTY_FRAMEBUFFER ≠ 0 ∧ ctx.specs.pixel_pipes ≠ 1 ∧
        ctx.specs.pixel_pipes ≠ 2 := by
  unfold region_pe_color
  by_cases hd : dirty &&& ETNA_DIRTY_FRAMEBUFFER = 0
  · simp [hd]
  · by_cases h1 : ctx.specs.pixel_pipes = 1
    · simp [hd, h1]
    · by_cases h2 : ctx.specs.pixel_pipes = 2
      · simp [hd, h2]
      · simp [hd, h1, h2]

theorem etna_emit_state_region_none (ctx : etna_context) (dirty a : Nat) :
    etna_emit_state_region ctx dirty a = none ↔ region_pe_color ctx dirty = none := by
  unfold etna_emit_state_region
  cases region_pe_color ctx dirty <;> simp

/-- C20 (amended): `etna_emit_state` aborts for every context state whose
pixel-pipe count is neither 1 nor 2 and whose framebuffer category is dirty;
with the framebuffer category clean (and vertex elements bound) it returns
whatever the pixel-pipe count is. -/
theorem etna_emit_state_abort_iff (d : Bool) (l : etna_context → compiled_shader_state)
    (ctx : etna_context) (ve : compiled_vertex_elements_state)
    (hve : ctx.vertex_elements = some ve) :
    etna_emit_state d l ctx = none ↔
      ctx.dirty &&& ETNA_DIRTY_FRAMEBUFFER ≠ 0 ∧ ctx.specs.pixel_pipes ≠ 1 ∧
        ctx.specs.pixel_pipes ≠ 2 := by
  have hr := emit_state_relink_frame l ctx
  have hv : (emit_state_relink l ctx).vertex_elements = some ve := by rw [hr]; exact hve
  have hd : (emit_state_relink l ctx).dirty = ctx.dirty := by rw [hr]
  have hs : (emit_state_relink l ctx).specs = ctx.specs := by rw [hr]
  have key := region_pe_color_none (emit_state_relink l ctx) ctx.dirty
  rw [hs] at key
  rw [← key, ← etna_emit_state_region_none _ _ (active_samplers_bits ctx)]
  unfold etna_emit_state
  simp only [hv, hd]
  cases etna_emit_state_region (emit_state_relink l ctx) ctx.dirty (active_samplers_bits ctx) <;>
    simp

/-- C20 (witness): three pixel pipes with the framebuffer dirty abort. -/
theorem etna_emit_state_abort_iff_witness :
    etna_emit_state false (fun c => c.shader_state)
      { blank_context with dirty := 0x400, specs := ⟨0, false, 3, 0, 0⟩ } = none :=
  (etna_emit_state_abort_iff false (fun c => c.shader_state)
    { blank_context with dirty := 0x400, specs := ⟨0, false, 3, 0, 0⟩ } ⟨1, fun _ => 0⟩ rfl).mpr
    (by decide)

/-- C20 (counterexample): with three pixel pipes and the viewport category dirty
`etna_emit_state` returns. -/
theorem emit_state_three_pipes_returns :
    (etna_emit_state false (fun c => c.shader_state)
      { blank_context with dirty := 0x200, specs := ⟨0, false, 3, 0, 0⟩ }).isSome = true := by
  decide

theorem emit_state_uniforms_frame (ctx : etna_context) (dirty : Nat) (s : etna_cmd_stream)
    (g : etna_3d_state) :
    (emit_state_uniforms ctx dirty s g).2.PS_INPUT_COUNT = g.PS_INPUT_COUNT ∧
      (emit_state_uniforms ctx dirty s g).2.PS_TEMP_REGISTER_CONTROL =
        g.PS_TEMP_REGISTER_CONTROL ∧
      (emit_state_uniforms ctx dirty s g).2.GL_MULTI_SAMPLE_CONFIG = g.GL_MULTI_SAMPLE_CONFIG := by
  unfold emit_state_uniforms
  split
  · exact ⟨rfl, rfl, rfl⟩
  · simp only
    split <;> split <;> exact ⟨rfl, rfl, rfl⟩

/-- C16: `etna_emit_state` sets gpu3d.PS_INPUT_COUNT and
gpu3d.PS_TEMP_REGISTER_CONTROL to 0xffffffff when the framebuffer category is
dirty and the MSAA sample-count field of gpu3d.GL_MULTI_SAMPLE_CONFIG differs
from that of framebuffer.GL_MULTI_SAMPLE_CONFIG, and leaves both unchanged in
every other case. -/
theorem etna_emit_state_msaa_clobber (d : Bool) (l : etna_context → compiled_shader_state)
    (ctx ctx' : etna_context) (h : etna_emit_state d l ctx = some ctx') :
    (ctx.dirty &&& ETNA_DIRTY_FRAMEBUFFER ≠ 0 ∧
        ctx.gpu3d.GL_MULTI_SAMPLE_CONFIG &&& VIVS_GL_MULTI_SAMPLE_CONFIG_MSAA_SAMPLES__MASK ≠
          ctx.framebuffer.GL_MULTI_SAMPLE_CONFIG &&&
            VIVS_GL_MULTI_SAMPLE_CONFIG_MSAA_SAMPLES__MASK →
      ctx'.gpu3d.PS_INPUT_COUNT = 0xffffffff ∧
        ctx'.gpu3d.PS_TEMP_REGISTER_CONTROL = 0xffffffff) ∧
    (¬ (ctx.dirty &&& ETNA_DIRTY_FRAMEBUFFER ≠ 0 ∧
        ctx.gpu3d.GL_MULTI_SAMPLE_CONFIG &&& VIVS_GL_MULTI_SAMPLE_CONFIG_MSAA_SAMPLES__MASK ≠
          ctx.framebuffer.GL_MULTI_SAMPLE_CONFIG &&&
            VIVS_GL_MULTI_SAMPLE_CONFIG_MSAA_SAMPLES__MASK) →
      ctx'.gpu3d.PS_INPUT_COUNT = ctx.gpu3d.PS_INPUT_COUNT ∧
        ctx'.gpu3d.PS_TEMP_REGISTER_CONTROL = ctx.gpu3d.PS_TEMP_REGISTER_CONTROL) := by
  obtain ⟨ve, ops, -, -, h2⟩ := etna_emit_state_some d l ctx ctx' h
  have hr := emit_state_relink_frame l ctx
  have hg : (emit_state_relink l ctx).gpu3d = ctx.gpu3d := by rw [hr]
  have hf : (emit_state_relink l ctx).framebuffer = ctx.framebuffer := by rw [hr]
  have e1 : ctx'.gpu3d.PS_INPUT_COUNT =
      (emit_state_msaa_clobber (emit_state_relink l ctx) ctx.dirty).PS_INPUT_COUNT := by
    rw [h2]; exact (emit_state_uniforms_frame _ _ _ _).1
  have e2 : ctx'.gpu3d.PS_TEMP_REGISTER_CONTROL =
      (emit_state_msaa_clobber (emit_state_relink l ctx) ctx.dirty).PS_TEMP_REGISTER_CONTROL := by
    rw [h2]; exact (emit_state_uniforms_frame _ _ _ _).2.1
  rw [e1, e2]
  unfold emit_state_msaa_clobber
  rw [hg, hf]
  constructor
  · intro hc; rw [if_pos hc]; exact ⟨rfl, rfl⟩
  · intro hc; rw [if_neg hc]; exact ⟨rfl, rfl⟩

/-- C16 (witness): the framebuffer dirty with a sample count different from the
mirror's. -/
theorem etna_emit_state_msaa_clobber_witness :
    ∃ ctx', etna_emit_state false (fun c => c.shader_state)
        { blank_context with dirty := 0x400,
                             gpu3d := ⟨1, 7, 7, 0, 0, fun _ => 0, fun _ => 0, fun _ => 0,
                               fun _ => 0⟩ } = some ctx' ∧
      ctx'.gpu3d.PS_INPUT_COUNT = 0xffffffff ∧
        ctx'.gpu3d.PS_TEMP_REGISTER_CONTROL = 0xffffffff :=
  ⟨_, rfl, (etna_emit_state_msaa_clobber false (fun c => c.shader_state)
    { blank_context with dirty := 0x400,
                         gpu3d := ⟨1, 7, 7, 0, 0, fun _ => 0, fun _ => 0, fun _ => 0,
                           fun _ => 0⟩ } _ rfl).1 (by decide)⟩

/-- C17: `etna_emit_state` emits a front-end to pixel-engine stall (the four words
of `etna_stall` with the front-end as source) after the coalesced region and
before the instruction-memory or uniform upload if and only if the dirty set
intersects the shader, vertex-uniform or fragment-uniform categories and
`specs.vs_offset` is strictly greater than 0x4000. -/
theorem etna_emit_state_shader_stall (d : Bool) (l : etna_context → compiled_shader_state)
    (ctx ctx' : etna_context) (h : etna_emit_state d l ctx = some ctx') :
    ∃ (region_end : etna_cmd_stream) (g : etna_3d_state),
      (∃ ve ops, ctx.vertex_elements = some ve ∧
        etna_emit_state_region (emit_state_relink l ctx) ctx.dirty (active_samplers_bits ctx) =
          some ops ∧
        region_end = coalesced_region
          (emit_state_vertex_elements ctx.dirty ve (emit_state_flush d ctx.dirty ctx.stream))
          ETNA_3D_CONTEXT_SIZE ops) ∧
      (ctx.dirty &&& (ETNA_DIRTY_SHADER ||| ETNA_DIRTY_VS_UNIFORMS ||| ETNA_DIRTY_PS_UNIFORMS) ≠ 0 ∧
          ctx.specs.vs_offset > 0x4000 →
        ctx'.stream = (emit_state_uniforms (emit_state_relink l ctx) ctx.dirty
            (etna_stall region_end SYNC_RECIPIENT_FE SYNC_RECIPIENT_PE) g).1 ∧
          (etna_stall region_end SYNC_RECIPIENT_FE SYNC_RECIPIENT_PE).buffer =
            region_end.buffer ++
              [load_state_header (VIVS_GL_SEMAPHORE_TOKEN >>> 2) 1 0,
                VIVS_GL_SEMAPHORE_TOKEN_FROM SYNC_RECIPIENT_FE |||
                  VIVS_GL_SEMAPHORE_TOKEN_TO SYNC_RECIPIENT_PE,
                VIV_FE_STALL_HEADER_OP_STALL,
                VIV_FE_STALL_TOKEN_FROM SYNC_RECIPIENT_FE |||
                  VIV_FE_STALL_TOKEN_TO SYNC_RECIPIENT_PE]) ∧
      (¬ (ctx.dirty &&& (ETNA_DIRTY_SHADER ||| ETNA_DIRTY_VS_UNIFORMS |||
            ETNA_DIRTY_PS_UNIFORMS) ≠ 0 ∧ ctx.specs.vs_offset > 0x4000) →
        ctx'.stream =
          (emit_state_uniforms (emit_state_relink l ctx) ctx.dirty region_end g).1) := by
  obtain ⟨ve, ops, h1, h2, h3⟩ := etna_emit_state_some d l ctx ctx' h
  have hr := emit_state_relink_frame l ctx
  have hd : (emit_state_relink l ctx).dirty = ctx.dirty := by rw [hr]
  have hs : (emit_state_relink l ctx).specs = ctx.specs := by rw [hr]
  have hst : ctx'.stream = (emit_state_uniforms (emit_state_relink l ctx) ctx.dirty
      (emit_state_shader_stall (emit_state_relink l ctx)
        (coalesced_region
          (emit_state_vertex_elements ctx.dirty ve (emit_state_flush d ctx.dirty ctx.stream))
          ETNA_3D_CONTEXT_SIZE ops))
      (emit_state_msaa_clobber (emit_state_relink l ctx) ctx.dirty)).1 := by rw [h3]
  refine ⟨_, emit_state_msaa_clobber (emit_state_relink l ctx) ctx.dirty,
    ⟨ve, ops, h1, h2, rfl⟩, ?_, ?_⟩
  · intro hc
    have hss : ∀ s, emit_state_shader_stall (emit_state_relink l ctx) s =
        etna_stall s SYNC_RECIPIENT_FE SYNC_RECIPIENT_PE := by
      intro s
      unfold emit_state_shader_stall
      rw [hd, hs, if_pos hc]
    refine ⟨by rw [hst, hss], ?_⟩
    have := (etna_stall_buffer (coalesced_region
      (emit_state_vertex_elements ctx.dirty ve (emit_state_flush d ctx.dirty ctx.stream))
      ETNA_3D_CONTEXT_SIZE ops) SYNC_RECIPIENT_FE SYNC_RECIPIENT_PE)
    rw [this]
    simp
  · intro hc
    have hss : ∀ s, emit_state_shader_stall (emit_state_relink l ctx) s = s := by
      intro s
      unfold emit_state_shader_stall
      rw [hd, hs, if_neg hc]
    rw [hst, hss]

/-- C17 (witness): the vertex uniforms dirty on hardware whose instruction memory
lies at 0xC000. -/
theorem etna_emit_state_shader_stall_witness :
    (etna_emit_state false (fun c => c.shader_state)
        { blank_context with dirty := 0x10000, specs := ⟨0, false, 1, 0xC000, 0xD000⟩ }).map
      (fun c => c.stream.buffer) =
      some [load_state_header (VIVS_GL_SEMAPHORE_TOKEN >>> 2) 1 0,
        VIVS_GL_SEMAPHORE_TOKEN_FROM SYNC_RECIPIENT_FE |||
          VIVS_GL_SEMAPHORE_TOKEN_TO SYNC_RECIPIENT_PE,
        VIV_FE_STALL_HEADER_OP_STALL,
        VIV_FE_STALL_TOKEN_FROM SYNC_RECIPIENT_FE ||| VIV_FE_STALL_TOKEN_TO SYNC_RECIPIENT_PE] := by
  obtain ⟨re, g, -, h1, -⟩ := etna_emit_state_shader_stall false (fun c => c.shader_state)
    { blank_context with dirty := 0x10000, specs := ⟨0, false, 1, 0xC000, 0xD000⟩ } _ rfl
  decide

/-- The cache bits to flush are the union of COLOR for blend, TEXTURE for the
texture caches, COLOR and DEPTH for the framebuffer, and all three for the
debug flag. -/
theorem emit_state_to_flush_eq (d : Bool) (dirty : Nat) :
    emit_state_to_flush d dirty =
      ((if dirty &&& ETNA_DIRTY_BLEND ≠ 0 then VIVS_GL_FLUSH_CACHE_COLOR else 0) |||
        (if dirty &&& ETNA_DIRTY_TEXTURE_CACHES ≠ 0 then VIVS_GL_FLUSH_CACHE_TEXTURE else 0) |||
        (if dirty &&& ETNA_DIRTY_FRAMEBUFFER ≠ 0 then
          VIVS_GL_FLUSH_CACHE_COLOR ||| VIVS_GL_FLUSH_CACHE_DEPTH else 0) |||
        (if d then VIVS_GL_FLUSH_CACHE_TEXTURE ||| VIVS_GL_FLUSH_CACHE_COLOR |||
          VIVS_GL_FLUSH_CACHE_DEPTH else 0)) ∧
      (emit_state_to_flush d dirty ≠ 0 ↔
        dirty &&& ETNA_DIRTY_BLEND ≠ 0 ∨ dirty &&& ETNA_DIRTY_TEXTURE_CACHES ≠ 0 ∨
          dirty &&& ETNA_DIRTY_FRAMEBUFFER ≠ 0 ∨ d = true) := by
  unfold emit_state_to_flush
  by_cases h1 : dirty &&& ETNA_DIRTY_BLEND = 0 <;>
    by_cases h2 : dirty &&& ETNA_DIRTY_TEXTURE_CACHES = 0 <;>
    by_cases h3 : dirty &&& ETNA_DIRTY_FRAMEBUFFER = 0 <;>
    cases d <;>
    simp only [h1, h2, h3, ne_eq, not_true_eq_false, not_false_eq_true, if_true, if_false,
      Bool.false_eq_true, or_false, false_or, or_true, true_or, iff_true, iff_false,
      not_not] <;>
    decide

/-- C15: `etna_emit_state` emits a flush-cache command if and only if the dirty
set intersects the blend, texture-cache or framebuffer categories or debug
flush-all is on; it is one load-state write of the union of COLOR (blend),
TEXTURE (texture caches) and COLOR|DEPTH (framebuffer) to the flush-cache
register, the first thing appended to the stream, before the vertex elements
and the region, and it is followed at once by the stall from the rasterizer to
the pixel engine. -/
theorem etna_emit_state_flush (d : Bool) (l : etna_context → compiled_shader_state)
    (ctx ctx' : etna_context) (h : etna_emit_state d l ctx = some ctx') :
    (∃ ve ops, ctx.vertex_elements = some ve ∧
      etna_emit_state_region (emit_state_relink l ctx) ctx.dirty (active_samplers_bits ctx) =
        some ops ∧
      ctx'.stream = (emit_state_uniforms (emit_state_relink l ctx) ctx.dirty
        (emit_state_shader_stall (emit_state_relink l ctx)
          (coalesced_region
            (emit_state_vertex_elements ctx.dirty ve (emit_state_flush d ctx.dirty ctx.stream))
            ETNA_3D_CONTEXT_SIZE ops))
        (emit_state_msaa_clobber (emit_state_relink l ctx) ctx.dirty)).1) ∧
      (emit_state_to_flush d ctx.dirty ≠ 0 ↔
        ctx.dirty &&& ETNA_DIRTY_BLEND ≠ 0 ∨ ctx.dirty &&& ETNA_DIRTY_TEXTURE_CACHES ≠ 0 ∨
          ctx.dirty &&& ETNA_DIRTY_FRAMEBUFFER ≠ 0 ∨ d = true) ∧
      (emit_state_to_flush d ctx.dirty ≠ 0 →
        (emit_state_flush d ctx.dirty ctx.stream).buffer =
          ctx.stream.buffer ++
            [load_state_header (VIVS_GL_FLUSH_CACHE >>> 2) 1 0, emit_state_to_flush d ctx.dirty,
              load_state_header (VIVS_GL_SEMAPHORE_TOKEN >>> 2) 1 0,
              VIVS_GL_SEMAPHORE_TOKEN_FROM SYNC_RECIPIENT_RA |||
                VIVS_GL_SEMAPHORE_TOKEN_TO SYNC_RECIPIENT_PE,
              load_state_header (VIVS_GL_STALL_TOKEN >>> 2) 1 0,
              VIVS_GL_STALL_TOKEN_FROM SYNC_RECIPIENT_RA |||
                VIVS_GL_STALL_TOKEN_TO SYNC_RECIPIENT_PE]) ∧
      (emit_state_to_flush d ctx.dirty = 0 →
        emit_state_flush d ctx.dirty ctx.stream = ctx.stream) ∧
      (d = false → emit_state_to_flush d ctx.dirty =
        ((if ctx.dirty &&& ETNA_DIRTY_BLEND ≠ 0 then VIVS_GL_FLUSH_CACHE_COLOR else 0) |||
          (if ctx.dirty &&& ETNA_DIRTY_TEXTURE_CACHES ≠ 0 then VIVS_GL_FLUSH_CACHE_TEXTURE
           else 0) |||
          (if ctx.dirty &&& ETNA_DIRTY_FRAMEBUFFER ≠ 0 then
            VIVS_GL_FLUSH_CACHE_COLOR ||| VIVS_GL_FLUSH_CACHE_DEPTH else 0))) := by
  obtain ⟨ve, ops, h1, h2, h3⟩ := etna_emit_state_some d l ctx ctx' h
  refine ⟨⟨ve, ops, h1, h2, by rw [h3]⟩, (emit_state_to_flush_eq d ctx.dirty).2, ?_, ?_, ?_⟩
  · intro hf
    have hs := (etna_stall_buffer (etna_set_state ctx.stream VIVS_GL_FLUSH_CACHE
      (emit_state_to_flush d ctx.dirty)) SYNC_RECIPIENT_RA SYNC_RECIPIENT_PE)
    simp only [emit_state_flush, hf, ne_eq, not_false_eq_true, if_true]
    rw [hs]
    simp [etna_set_state, etna_emit_load_state, etna_cmd_stream_emit, etna_cmd_stream_reserve,
      SYNC_RECIPIENT_RA, SYNC_RECIPIENT_FE]
  · intro hf
    simp [emit_state_flush, hf]
  · intro hd
    rw [(emit_state_to_flush_eq d ctx.dirty).1, hd]
    simp

/-- C15 (witness): the blend category dirty. -/
theorem etna_emit_state_flush_witness :
    (emit_state_flush false 0x1 ⟨[], []⟩).buffer =
      [] ++ [load_state_header (VIVS_GL_FLUSH_CACHE >>> 2) 1 0, emit_state_to_flush false 0x1,
        load_state_header (VIVS_GL_SEMAPHORE_TOKEN >>> 2) 1 0,
        VIVS_GL_SEMAPHORE_TOKEN_FROM SYNC_RECIPIENT_RA |||
          VIVS_GL_SEMAPHORE_TOKEN_TO SYNC_RECIPIENT_PE,
        load_state_header (VIVS_GL_STALL_TOKEN >>> 2) 1 0,
        VIVS_GL_STALL_TOKEN_FROM SYNC_RECIPIENT_RA ||| VIVS_GL_STALL_TOKEN_TO SYNC_RECIPIENT_PE] :=
  (etna_emit_state_flush false (fun c => c.shader_state) { blank_context with dirty := 0x1 } _
    rfl).2.2.1 (by decide)

theorem MAX2_eq_max (a b : Nat) : MAX2 a b = max a b := by
  unfold MAX2; split <;> omega

theorem MIN2_eq_min (a b : Nat) : MIN2 a b = min a b := by
  unfold MIN2; split <;> omega

/-- The output of the scissor rule when it fires: left/top are the maximum and
right/bottom the minimum of the framebuffer and viewport bounds, combined in the
same way with the explicit scissor when the rasterizer's scissor flag is set. -/
theorem region_scissor_eq (ctx : etna_context) (dirty : Nat)
    (hd : dirty &&& (ETNA_DIRTY_SCISSOR ||| ETNA_DIRTY_FRAMEBUFFER ||| ETNA_DIRTY_RASTERIZER |||
      ETNA_DIRTY_VIEWPORT) ≠ 0) :
    region_scissor ctx dirty =
      [emit_op.state_fixp VIVS_SE_SCISSOR_LEFT
          (if ctx.rasterizer.scissor then
            max ctx.scissor.SE_SCISSOR_LEFT
              (max ctx.framebuffer.SE_SCISSOR_LEFT ctx.viewport.SE_SCISSOR_LEFT)
           else max ctx.framebuffer.SE_SCISSOR_LEFT ctx.viewport.SE_SCISSOR_LEFT),
        emit_op.state_fixp VIVS_SE_SCISSOR_TOP
          (if ctx.rasterizer.scissor then
            max ctx.scissor.SE_SCISSOR_TOP
              (max ctx.framebuffer.SE_SCISSOR_TOP ctx.viewport.SE_SCISSOR_TOP)
           else max ctx.framebuffer.SE_SCISSOR_TOP ctx.viewport.SE_SCISSOR_TOP),
        emit_op.state_fixp VIVS_SE_SCISSOR_RIGHT
          (if ctx.rasterizer.scissor then
            min ctx.scissor.SE_SCISSOR_RIGHT
              (min ctx.framebuffer.SE_SCISSOR_RIGHT ctx.viewport.SE_SCISSOR_RIGHT)
           else min ctx.framebuffer.SE_SCISSOR_RIGHT ctx.viewport.SE_SCISSOR_RIGHT),
        emit_op.state_fixp VIVS_SE_SCISSOR_BOTTOM
          (if ctx.rasterizer.scissor then
            min ctx.scissor.SE_SCISSOR_BOTTOM
              (min ctx.framebuffer.SE_SCISSOR_BOTTOM ctx.viewport.SE_SCISSOR_BOTTOM)
           else min ctx.framebuffer.SE_SCISSOR_BOTTOM ctx.viewport.SE_SCISSOR_BOTTOM)] := by
  simp only [region_scissor, hd, ne_eq, not_false_eq_true, if_true, MAX2_eq_max, MIN2_eq_min]

/-- The sampler rules with no active sampler: the CONFIG0 rule writes 0 for every
sampler, and the size, LOD-configuration and LOD-address rules emit nothing. -/
theorem region_samplers_inactive (ctx : etna_context) (dirty : Nat)
    (hd : dirty &&& (ETNA_DIRTY_SAMPLER_VIEWS ||| ETNA_DIRTY_SAMPLERS) ≠ 0) :
    region_te_config0 ctx dirty 0 =
        (List.range VIVS_TE_SAMPLER__LEN).map
          (fun x => emit_op.state (VIVS_TE_SAMPLER_CONFIG0 x) 0) ∧
      region_te_size ctx dirty 0 = [] ∧ region_te_lod ctx dirty 0 = [] ∧
      region_te_lod_addr ctx dirty 0 = [] := by
  have ha : ∀ x, sampler_active 0 x = false := by
    intro x; simp [sampler_active]
  have hf : (List.range VIVS_TE_SAMPLER__LEN).filter (sampler_active 0) = [] := by
    simp [ha]
  refine ⟨?_, ?_, ?_, ?_⟩
  · simp [region_te_config0, hd, ha]
  · unfold region_te_size; rw [hf]; simp
  · unfold region_te_lod; rw [hf]; simp
  · unfold region_te_lod_addr; rw [hf]; simp

theorem etna_bits_ones_eq (n : Nat) : etna_bits_ones n = 2 ^ (min n 32) - 1 := by
  unfold etna_bits_ones sub_u32 shl_u32 U32
  rw [Nat.shiftLeft_eq, one_mul]
  by_cases h : n < 32
  · have hlt : 2 ^ n < 2 ^ 32 := Nat.pow_lt_pow_right (by norm_num) h
    have hpos : 0 < 2 ^ n := Nat.pos_pow_of_pos n (by norm_num)
    rw [Nat.min_eq_left (by omega)]
    norm_num at hlt
    generalize 2 ^ n = x at *
    omega
  · have hd : 2 ^ 32 ∣ 2 ^ n := Nat.pow_dvd_pow 2 (by omega)
    rw [Nat.min_eq_right (by omega)]
    obtain ⟨k, hk⟩ := hd
    rw [hk]
    norm_num

theorem testBit_etna_bits_ones (n i : Nat) (hi : i < 32) :
    (etna_bits_ones n).testBit i = decide (i < n) := by
  rw [etna_bits_ones_eq, Nat.testBit_two_pow_sub_one]
  simp; omega

/-- C19: with nf and nv the minima of the bound sampler states and sampler views
of the fragment and vertex stages, bit `i` (of the 32 bits) of
`active_samplers_bits` is set exactly when `i < nf` or
`vertex_sampler_offset ≤ i < vertex_sampler_offset + nv`, in particular
whenever `vertex_sampler_offset + nv ≤ 32`; two contexts that agree on the four
counts and on the vertex sampler offset give the same result. -/
theorem active_samplers_bits_testBit (ctx : etna_context) (i : Nat) (hi : i < 32) :
    ((active_samplers_bits ctx).testBit i = true ↔
      i < min ctx.num_fragment_samplers ctx.num_fragment_sampler_views ∨
        (ctx.specs.vertex_sampler_offset ≤ i ∧
          i < ctx.specs.vertex_sampler_offset +
            min ctx.num_vertex_samplers ctx.num_vertex_sampler_views)) ∧
      ∀ ctx2 : etna_context,
        ctx2.num_fragment_samplers = ctx.num_fragment_samplers →
        ctx2.num_fragment_sampler_views = ctx.num_fragment_sampler_views →
        ctx2.num_vertex_samplers = ctx.num_vertex_samplers →
        ctx2.num_vertex_sampler_views = ctx.num_vertex_sampler_views →
        ctx2.specs.vertex_sampler_offset = ctx.specs.vertex_sampler_offset →
        active_samplers_bits ctx2 = active_samplers_bits ctx := by
  refine ⟨?_, ?_⟩
  · unfold active_samplers_bits
    simp only [MIN2_eq_min, Nat.testBit_or, Bool.or_eq_true]
    rw [testBit_etna_bits_ones _ _ hi]
    unfold shl_u32 U32
    have h32 : (4294967296 : Nat) = 2 ^ 32 := by norm_num
    rw [h32, Nat.testBit_mod_two_pow, Nat.testBit_shiftLeft]
    by_cases hk : ctx.specs.vertex_sampler_offset ≤ i
    · rw [testBit_etna_bits_ones _ _ (by omega)]
      simp [hi, hk]
      omega
    · simp [hi, hk]
  · intro ctx2 h1 h2 h3 h4 h5
    unfold active_samplers_bits
    rw [h1, h2, h3, h4, h5]

/-- C19 (witness): three fragment samplers, two vertex samplers at offset 8, and
bit 9. -/
theorem active_samplers_bits_testBit_witness :
    (active_samplers_bits
        { blank_context with
          specs := { blank_context.specs with vertex_sampler_offset := 8 }
          num_fragment_samplers := 3, num_fragment_sampler_views := 4
          num_vertex_samplers := 2, num_vertex_sampler_views := 2 }).testBit 9 = true :=
  ((active_samplers_bits_testBit
      { blank_context with
        specs := { blank_context.specs with vertex_sampler_offset := 8 }
        num_fragment_samplers := 3, num_fragment_sampler_views := 4
        num_vertex_samplers := 2, num_vertex_sampler_views := 2 } 9 (by decide)).1).2
    (Or.inr ⟨by decide, by decide⟩)

theorem and_lor_ne_zero (d a b : Nat) :
    d &&& (a ||| b) ≠ 0 ↔ d &&& a ≠ 0 ∨ d &&& b ≠ 0 := by
  rw [Nat.and_or_distrib_left]
  constructor
  · intro h
    by_contra hc
    push_neg at hc
    apply h
    rw [hc.1, hc.2]
    rfl
  · intro h hc
    have h1 : d &&& a = 0 := by
      apply Nat.eq_of_testBit_eq
      intro i
      have := congrArg (fun n => n.testBit i) hc
      simp only [Nat.testBit_or, Nat.zero_testBit, Bool.or_eq_false_iff] at this
      simp [this.1]
    have h2 : d &&& b = 0 := by
      apply Nat.eq_of_testBit_eq
      intro i
      have := congrArg (fun n => n.testBit i) hc
      simp only [Nat.testBit_or, Nat.zero_testBit, Bool.or_eq_false_iff] at this
      simp [this.2]
    cases h with
    | inl h => exact h h1
    | inr h => exact h h2

/-- The mirror after the loop of a sparse uniform update over the first `n`
uniforms: the new value below `n`, the old mirror from `n` on. -/
theorem uniform_loop_mirror (reg new_values : Nat → Nat) (n : Nat)
    (st : (etna_cmd_stream × etna_coalesce) × (Nat → Nat)) :
    ((List.range n).foldl (uniform_update_step reg new_values) st).2 =
      fun x => if x < n then new_values x else st.2 x := by
  induction n with
  | zero => simp
  | succ n ih =>
    rw [List.range_succ, List.foldl_append, List.foldl_cons, List.foldl_nil]
    generalize (List.range n).foldl (uniform_update_step reg new_values) st = T at ih ⊢
    funext x
    unfold uniform_update_step
    split
    · simp only
      rw [ih]
      by_cases hx : x = n
      · subst hx; simp
      · rw [Function.update_noteq hx]
        by_cases hlt : x < n
        · simp [hlt, Nat.lt_succ_of_lt hlt]
        · have : ¬ x < n + 1 := by omega
          simp [hlt, this]
    · rename_i hq
      rw [ih] at hq ⊢
      simp only [Nat.lt_irrefl, if_false, ne_eq, not_not] at hq
      by_cases hx : x = n
      · subst hx; simp [hq]
      · by_cases hlt : x < n
        · simp [hlt, Nat.lt_succ_of_lt hlt]
        · have : ¬ x < n + 1 := by omega
          simp [hlt, this]
theorem uniform_update_mirror (stream : etna_cmd_stream) (reg : Nat → Nat) (size : Nat)
    (new_values mirror : Nat → Nat) :
    (uniform_update stream reg size new_values mirror).2 =
      fun x => if x < size then new_values x else mirror x := by
  unfold uniform_update
  exact uniform_loop_mirror reg new_values size _

/-- The mirror left by the upload phase. -/
theorem emit_state_uniforms_mirror (ctx : etna_context) (dirty : Nat)
    (stream : etna_cmd_stream) (g : etna_3d_state) :
    (dirty &&& (ETNA_DIRTY_SHADER ||| ETNA_DIRTY_VS_UNIFORMS) ≠ 0 →
      ∀ x, x < ctx.shader_state.vs_uniforms_size →
        (emit_state_uniforms ctx dirty stream g).2.VS_UNIFORMS x =
          ctx.shader_state.VS_UNIFORMS x) ∧
    (dirty &&& (ETNA_DIRTY_SHADER ||| ETNA_DIRTY_PS_UNIFORMS) ≠ 0 →
      ∀ x, x < ctx.shader_state.ps_uniforms_size →
        (emit_state_uniforms ctx dirty stream g).2.PS_UNIFORMS x =
          ctx.shader_state.PS_UNIFORMS x) ∧
    (dirty &&& ETNA_DIRTY_SHADER ≠ 0 →
      (emit_state_uniforms ctx dirty stream g).2.vs_uniforms_size =
          ctx.shader_state.vs_uniforms_size ∧
        (emit_state_uniforms ctx dirty stream g).2.ps_uniforms_size =
          ctx.shader_state.ps_uniforms_size ∧
        (∀ x, x < ctx.shader_state.vs_inst_mem_size →
          (emit_state_uniforms ctx dirty stream g).2.VS_INST_MEM x =
            ctx.shader_state.VS_INST_MEM x) ∧
        (∀ x, x < ctx.shader_state.ps_inst_mem_size →
          (emit_state_uniforms ctx dirty stream g).2.PS_INST_MEM x =
            ctx.shader_state.PS_INST_MEM x)) := by
  by_cases hs : dirty &&& ETNA_DIRTY_SHADER ≠ 0
  · have e : emit_state_uniforms ctx dirty stream g =
        (etna_set_state_multi
          (etna_set_state_multi
            (etna_set_state_multi
              (etna_set_state_multi stream ctx.specs.vs_offset
                ctx.shader_state.vs_inst_mem_size ctx.shader_state.VS_INST_MEM)
              ctx.specs.ps_offset ctx.shader_state.ps_inst_mem_size
              ctx.shader_state.PS_INST_MEM)
            (VIVS_VS_UNIFORMS 0) ctx.shader_state.vs_uniforms_size
            ctx.shader_state.VS_UNIFORMS)
          (VIVS_PS_UNIFORMS 0) ctx.shader_state.ps_uniforms_size ctx.shader_state.PS_UNIFORMS,
        { g with
          vs_uniforms_size := ctx.shader_state.vs_uniforms_size
          ps_uniforms_size := ctx.shader_state.ps_uniforms_size
          VS_UNIFORMS := memcpy_words g.VS_UNIFORMS ctx.shader_state.VS_UNIFORMS
            ctx.shader_state.vs_uniforms_size
          PS_UNIFORMS := memcpy_words g.PS_UNIFORMS ctx.shader_state.PS_UNIFORMS
            ctx.shader_state.ps_uniforms_size
          VS_INST_MEM := memcpy_words g.VS_INST_MEM ctx.shader_state.VS_INST_MEM
            ctx.shader_state.vs_inst_mem_size
          PS_INST_MEM := memcpy_words g.PS_INST_MEM ctx.shader_state.PS_INST_MEM
            ctx.shader_state.ps_inst_mem_size }) := by
      unfold emit_state_uniforms
      rw [if_pos hs]
    rw [e]
    refine ⟨fun _ x hx => ?_, fun _ x hx => ?_, fun _ => ⟨rfl, rfl, fun x hx => ?_,
      fun x hx => ?_⟩⟩ <;> simp [memcpy_words, hx]
  · have hs0 : dirty &&& ETNA_DIRTY_SHADER = 0 := by
      by_contra hc; exact hs hc
    refine ⟨?_, ?_, fun h => absurd h hs⟩
    · intro hv x hx
      have hv2 : dirty &&& ETNA_DIRTY_VS_UNIFORMS ≠ 0 := by
        rcases (and_lor_ne_zero _ _ _).1 hv with h | h
        · exact absurd h hs
        · exact h
      unfold emit_state_uniforms
      rw [if_neg hs, if_pos hv2]
      by_cases hp : dirty &&& ETNA_DIRTY_PS_UNIFORMS ≠ 0
      · rw [if_pos hp]
        simp only [uniform_update_mirror, hx, if_true]
      · rw [if_neg hp]
        simp only [uniform_update_mirror, hx, if_true]
    · intro hv x hx
      have hp : dirty &&& ETNA_DIRTY_PS_UNIFORMS ≠ 0 := by
        rcases (and_lor_ne_zero _ _ _).1 hv with h | h
        · exact absurd h hs
        · exact h
      unfold emit_state_uniforms
      rw [if_neg hs, if_pos hp]
      simp only [uniform_update_mirror, hx, if_true]

/-- C14: after `etna_emit_state` returns from a pass with the shader or the
vertex-uniform category dirty, `gpu3d.VS_UNIFORMS[x]` equals
`shader_state.VS_UNIFORMS[x]` for every `x < shader_state.vs_uniforms_size`;
likewise for the fragment uniforms with the shader or fragment-uniform
category; and when the shader category was dirty the mirror's two uniform sizes
equal those of `shader_state` and the mirror's instruction memories equal those
of `shader_state` on their `vs_inst_mem_size` and `ps_inst_mem_size` words. -/
theorem etna_emit_state_mirror (d : Bool) (l : etna_context → compiled_shader_state)
    (ctx ctx' : etna_context) (h : etna_emit_state d l ctx = some ctx') :
    (ctx.dirty &&& (ETNA_DIRTY_SHADER ||| ETNA_DIRTY_VS_UNIFORMS) ≠ 0 →
      ∀ x, x < ctx'.shader_state.vs_uniforms_size →
        ctx'.gpu3d.VS_UNIFORMS x = ctx'.shader_state.VS_UNIFORMS x) ∧
    (ctx.dirty &&& (ETNA_DIRTY_SHADER ||| ETNA_DIRTY_PS_UNIFORMS) ≠ 0 →
      ∀ x, x < ctx'.shader_state.ps_uniforms_size →
        ctx'.gpu3d.PS_UNIFORMS x = ctx'.shader_state.PS_UNIFORMS x) ∧
    (ctx.dirty &&& ETNA_DIRTY_SHADER ≠ 0 →
      ctx'.gpu3d.vs_uniforms_size = ctx'.shader_state.vs_uniforms_size ∧
        ctx'.gpu3d.ps_uniforms_size = ctx'.shader_state.ps_uniforms_size ∧
        (∀ x, x < ctx'.shader_state.vs_inst_mem_size →
          ctx'.gpu3d.VS_INST_MEM x = ctx'.shader_state.VS_INST_MEM x) ∧
        (∀ x, x < ctx'.shader_state.ps_inst_mem_size →
          ctx'.gpu3d.PS_INST_MEM x = ctx'.shader_state.PS_INST_MEM x)) := by
  obtain ⟨ve, ops, -, -, h3⟩ := etna_emit_state_some d l ctx ctx' h
  have hg : ctx'.gpu3d = (emit_state_uniforms (emit_state_relink l ctx) ctx.dirty
      (emit_state_shader_stall (emit_state_relink l ctx)
        (coalesced_region
          (emit_state_vertex_elements ctx.dirty ve (emit_state_flush d ctx.dirty ctx.stream))
          ETNA_3D_CONTEXT_SIZE ops))
      (emit_state_msaa_clobber (emit_state_relink l ctx) ctx.dirty)).2 := by rw [h3]
  have hsh : ctx'.shader_state = (emit_state_relink l ctx).shader_state := by rw [h3]
  rw [hg, hsh]
  exact emit_state_uniforms_mirror _ _ _ _

/-- C14 (witness): a pass with only the vertex-uniform category dirty, two
vertex uniforms with new values 7 and 9 over a zero mirror. -/
theorem etna_emit_state_mirror_witness :
    ∃ ctx', etna_emit_state false (fun c => c.shader_state)
        { blank_context with
          dirty := ETNA_DIRTY_VS_UNIFORMS
          shader_state := { blank_context.shader_state with vs_uniforms_size := 2, VS_UNIFORMS := fun x => 7 + 2 * x } } = some ctx' ∧
      ctx'.gpu3d.VS_UNIFORMS 1 = 9 :=
  ⟨_, rfl, (etna_emit_state_mirror false (fun c => c.shader_state)
    { blank_context with
      dirty := ETNA_DIRTY_VS_UNIFORMS
      shader_state := { blank_context.shader_state with vs_uniforms_size := 2, VS_UNIFORMS := fun x => 7 + 2 * x } }
    _ rfl).1 (by decide) 1 (by decide)⟩

/-- The stream and cursor after the loop of a sparse uniform update over the
first `n` uniforms: the differing indices are emitted in increasing order. -/
theorem uniform_loop_stream (reg new_values : Nat → Nat) (n : Nat)
    (st : (etna_cmd_stream × etna_coalesce) × (Nat → Nat)) :
    ((List.range n).foldl (uniform_update_step reg new_values) st).1 =
      emit_ops st.1 (((List.range n).filter (fun x => decide (st.2 x ≠ new_values x))).map
        (fun x => emit_op.state (reg x) (new_values x))) := by
  induction n with
  | zero => simp [emit_ops_nil]
  | succ n ih =>
    rw [List.range_succ, List.foldl_append, List.foldl_cons, List.foldl_nil, List.filter_append,
      List.map_append]
    have hm := uniform_loop_mirror reg new_values n st
    generalize (List.range n).foldl (uniform_update_step reg new_values) st = T at ih hm ⊢
    have hT : T.2 n = st.2 n := by rw [hm]; simp
    unfold emit_ops at ih ⊢
    rw [List.foldl_append, ← ih]
    unfold uniform_update_step
    rw [hT]
    by_cases hq : st.2 n ≠ new_values n
    · simp [hq, emit_op.apply]
    · simp [hq]

/-- A sparse uniform update is a coalesced region that emits the differing
indices in increasing order. -/
theorem uniform_update_region (stream : etna_cmd_stream) (reg : Nat → Nat) (size : Nat)
    (new_values mirror : Nat → Nat) :
    (uniform_update stream reg size new_values mirror).1 =
      coalesced_region stream size
        (((List.range size).filter (fun x => decide (mirror x ≠ new_values x))).map
          (fun x => emit_op.state (reg x) (new_values x))) := by
  unfold uniform_update coalesced_region
  simp only
  rw [uniform_loop_stream]

/-- A coalesced region with one plain write. -/
theorem coalesced_region_single (s : etna_cmd_stream) (max reg value : Nat) (hreg : reg ≠ 0)
    (hlen : s.buffer.length + 3 < U32) :
    (coalesced_region s max [emit_op.state reg value]).buffer =
      s.buffer ++ [load_state_header (reg >>> 2) 1 0, value] ++
        padding (s.buffer.length + 2) := by
  have h := coalesced_region_buffer s max [emit_op.state reg value]
    (by simp [emit_op.write]; exact hreg) (by simpa [emit_op.write] using hlen)
  rw [h]
  simp [emit_op.write, group_writes, group_from, encode_packets, packet.words]

theorem emit_state_msaa_clobber_uniforms (ctx : etna_context) (dirty : Nat) :
    (emit_state_msaa_clobber ctx dirty).VS_UNIFORMS = ctx.gpu3d.VS_UNIFORMS ∧
      (emit_state_msaa_clobber ctx dirty).PS_UNIFORMS = ctx.gpu3d.PS_UNIFORMS := by
  unfold emit_state_msaa_clobber
  split <;> exact ⟨rfl, rfl⟩

/-- The stream left by the upload phase when the shader category is clean. -/
theorem emit_state_uniforms_sparse (ctx : etna_context) (dirty : Nat)
    (stream : etna_cmd_stream) (g : etna_3d_state) (hs : dirty &&& ETNA_DIRTY_SHADER = 0) :
    (emit_state_uniforms ctx dirty stream g).1 =
      (if dirty &&& ETNA_DIRTY_PS_UNIFORMS ≠ 0 then
        coalesced_region
          (if dirty &&& ETNA_DIRTY_VS_UNIFORMS ≠ 0 then
            coalesced_region stream ctx.shader_state.vs_uniforms_size
              (((List.range ctx.shader_state.vs_uniforms_size).filter
                (fun x => decide (g.VS_UNIFORMS x ≠ ctx.shader_state.VS_UNIFORMS x))).map
                (fun x => emit_op.state (VIVS_VS_UNIFORMS x) (ctx.shader_state.VS_UNIFORMS x)))
           else stream)
          ctx.shader_state.ps_uniforms_size
          (((List.range ctx.shader_state.ps_uniforms_size).filter
            (fun x => decide (g.PS_UNIFORMS x ≠ ctx.shader_state.PS_UNIFORMS x))).map
            (fun x => emit_op.state (VIVS_PS_UNIFORMS x) (ctx.shader_state.PS_UNIFORMS x)))
       else if dirty &&& ETNA_DIRTY_VS_UNIFORMS ≠ 0 then
        coalesced_region stream ctx.shader_state.vs_uniforms_size
          (((List.range ctx.shader_state.vs_uniforms_size).filter
            (fun x => decide (g.VS_UNIFORMS x ≠ ctx.shader_state.VS_UNIFORMS x))).map
            (fun x => emit_op.state (VIVS_VS_UNIFORMS x) (ctx.shader_state.VS_UNIFORMS x)))
       else stream) := by
  unfold emit_state_uniforms
  rw [if_neg (by simp [hs])]
  by_cases hv : dirty &&& ETNA_DIRTY_VS_UNIFORMS ≠ 0 <;>
    by_cases hp : dirty &&& ETNA_DIRTY_PS_UNIFORMS ≠ 0 <;>
    simp only [hv, hp, ne_eq, not_false_eq_true, not_true_eq_false, if_true, if_false,
      uniform_update_region]

theorem coalesced_region_even (s : etna_cmd_stream) (max : Nat) (ops : List emit_op) :
    (coalesced_region s max ops).buffer.length % 2 = 0 := by
  unfold coalesced_region
  simp only
  rw [etna_coalesce_end_length]
  omega

theorem emit_state_shader_stall_even (ctx : etna_context) (s : etna_cmd_stream)
    (h : s.buffer.length % 2 = 0) : (emit_state_shader_stall ctx s).buffer.length % 2 = 0 := by
  unfold emit_state_shader_stall
  split
  · rw [etna_stall_buffer]
    simp [SYNC_RECIPIENT_FE]
    omega
  · exact h

/-- C12: in a pass of `etna_emit_state` with the shader category clean, the
sparse update of a dirty uniform category is a coalesced region, placed after
the main region and the optional stall, that emits for the indices
`x < size` at which the mirror differs from the new value, in increasing `x`,
the new value to uniform register `x`: the vertex uniforms first, then the
fragment uniforms.  When exactly one index `k` differs the update appends
exactly one load-state packet, with count 1, targeting uniform register `k`
(for `k = 5` register 5). -/
theorem etna_emit_state_uniform_diff (d : Bool) (l : etna_context → compiled_shader_state)
    (ctx ctx' : etna_context) (h : etna_emit_state d l ctx = some ctx')
    (hs : ctx.dirty &&& ETNA_DIRTY_SHADER = 0) :
    ∃ S : etna_cmd_stream,
      (∃ ve ops, ctx.vertex_elements = some ve ∧
        etna_emit_state_region ctx ctx.dirty (active_samplers_bits ctx) = some ops ∧
        S = emit_state_shader_stall ctx (coalesced_region
          (emit_state_vertex_elements ctx.dirty ve (emit_state_flush d ctx.dirty ctx.stream))
          ETNA_3D_CONTEXT_SIZE ops)) ∧
      S.buffer.length % 2 = 0 ∧
      (ctx.dirty &&& ETNA_DIRTY_VS_UNIFORMS ≠ 0 → ctx.dirty &&& ETNA_DIRTY_PS_UNIFORMS = 0 →
        ctx'.stream = coalesced_region S ctx.shader_state.vs_uniforms_size
          (((List.range ctx.shader_state.vs_uniforms_size).filter
            (fun x => decide (ctx.gpu3d.VS_UNIFORMS x ≠ ctx.shader_state.VS_UNIFORMS x))).map
            (fun x => emit_op.state (VIVS_VS_UNIFORMS x) (ctx.shader_state.VS_UNIFORMS x))) ∧
        ∀ k, (List.range ctx.shader_state.vs_uniforms_size).filter
            (fun x => decide (ctx.gpu3d.VS_UNIFORMS x ≠ ctx.shader_state.VS_UNIFORMS x)) = [k] →
          S.buffer.length + 3 < U32 →
          ctx'.stream.buffer = S.buffer ++
            [load_state_header (VIVS_VS_UNIFORMS k >>> 2) 1 0, ctx.shader_state.VS_UNIFORMS k]) ∧
      (ctx.dirty &&& ETNA_DIRTY_PS_UNIFORMS ≠ 0 → ctx.dirty &&& ETNA_DIRTY_VS_UNIFORMS = 0 →
        ctx'.stream = coalesced_region S ctx.shader_state.ps_uniforms_size
          (((List.range ctx.shader_state.ps_uniforms_size).filter
            (fun x => decide (ctx.gpu3d.PS_UNIFORMS x ≠ ctx.shader_state.PS_UNIFORMS x))).map
            (fun x => emit_op.state (VIVS_PS_UNIFORMS x) (ctx.shader_state.PS_UNIFORMS x))) ∧
        ∀ k, (List.range ctx.shader_state.ps_uniforms_size).filter
            (fun x => decide (ctx.gpu3d.PS_UNIFORMS x ≠ ctx.shader_state.PS_UNIFORMS x)) = [k] →
          S.buffer.length + 3 < U32 →
          ctx'.stream.buffer = S.buffer ++
            [load_state_header (VIVS_PS_UNIFORMS k >>> 2) 1 0, ctx.shader_state.PS_UNIFORMS k]) ∧
      (ctx.dirty &&& ETNA_DIRTY_VS_UNIFORMS ≠ 0 → ctx.dirty &&& ETNA_DIRTY_PS_UNIFORMS ≠ 0 →
        ctx'.stream =
          coalesced_region
            (coalesced_region S ctx.shader_state.vs_uniforms_size
              (((List.range ctx.shader_state.vs_uniforms_size).filter
                (fun x => decide (ctx.gpu3d.VS_UNIFORMS x ≠ ctx.shader_state.VS_UNIFORMS x))).map
                (fun x => emit_op.state (VIVS_VS_UNIFORMS x) (ctx.shader_state.VS_UNIFORMS x))))
            ctx.shader_state.ps_uniforms_size
            (((List.range ctx.shader_state.ps_uniforms_size).filter
              (fun x => decide (ctx.gpu3d.PS_UNIFORMS x ≠ ctx.shader_state.PS_UNIFORMS x))).map
              (fun x => emit_op.state (VIVS_PS_UNIFORMS x) (ctx.shader_state.PS_UNIFORMS x)))) ∧
      header_count (load_state_header (VIVS_VS_UNIFORMS 5 >>> 2) 1 0) = 1 ∧
      4 * header_offset (load_state_header (VIVS_VS_UNIFORMS 5 >>> 2) 1 0) = VIVS_VS_UNIFORMS 5 ∧
      header_count (load_state_header (VIVS_PS_UNIFORMS 5 >>> 2) 1 0) = 1 ∧
      4 * header_offset (load_state_header (VIVS_PS_UNIFORMS 5 >>> 2) 1 0) =
        VIVS_PS_UNIFORMS 5 := by
  obtain ⟨ve, ops, h1, h2, h3⟩ := etna_emit_state_some d l ctx ctx' h
  rw [emit_state_relink_clean l ctx hs] at h2 h3
  have hst : ctx'.stream = (emit_state_uniforms ctx ctx.dirty
      (emit_state_shader_stall ctx (coalesced_region
        (emit_state_vertex_elements ctx.dirty ve (emit_state_flush d ctx.dirty ctx.stream))
        ETNA_3D_CONTEXT_SIZE ops))
      (emit_state_msaa_clobber ctx ctx.dirty)).1 := by rw [h3]
  rw [emit_state_uniforms_sparse _ _ _ _ hs] at hst
  simp only [(emit_state_msaa_clobber_uniforms ctx ctx.dirty).1,
    (emit_state_msaa_clobber_uniforms ctx ctx.dirty).2] at hst
  have heven := emit_state_shader_stall_even ctx _ (coalesced_region_even
    (emit_state_vertex_elements ctx.dirty ve (emit_state_flush d ctx.dirty ctx.stream))
    ETNA_3D_CONTEXT_SIZE ops)
  have hpad : ∀ n : Nat, n % 2 = 0 → padding (n + 2) = [] := by
    intro n hn
    unfold padding
    rw [if_neg (by omega)]
  refine ⟨_, ⟨ve, ops, h1, h2, rfl⟩, heven, ?_, ?_, ?_, by decide, by decide, by decide,
    by decide⟩
  · intro hv hp
    rw [if_neg (by simp [hp]), if_pos hv] at hst
    refine ⟨hst, ?_⟩
    intro k hk hlen
    rw [hst, hk, List.map_cons, List.map_nil,
      coalesced_region_single _ _ _ _ (by unfold VIVS_VS_UNIFORMS; omega) hlen, hpad _ heven,
      List.append_nil]
  · intro hp hv
    rw [if_pos hp, if_neg (by simp [hv])] at hst
    refine ⟨hst, ?_⟩
    intro k hk hlen
    rw [hst, hk, List.map_cons, List.map_nil,
      coalesced_region_single _ _ _ _ (by unfold VIVS_PS_UNIFORMS; omega) hlen, hpad _ heven,
      List.append_nil]
  · intro hv hp
    rw [if_pos hp, if_pos hv] at hst
    exact hst

/-- C12 (witness): a pass with only the vertex-uniform category dirty, eight
vertex uniforms of which only index 5 differs from the mirror. -/
theorem etna_emit_state_uniform_diff_witness :
    ∃ S : etna_cmd_stream, S.buffer.length % 2 = 0 ∧
      (S.buffer.length + 3 < U32 →
        (etna_emit_state false (fun c => c.shader_state)
          { blank_context with
            dirty := ETNA_DIRTY_VS_UNIFORMS
            shader_state := { blank_context.shader_state with vs_uniforms_size := 8, VS_UNIFORMS := fun x => if x = 5 then 9 else 0 } }).map
          (fun c => c.stream.buffer) =
          some (S.buffer ++ [load_state_header (VIVS_VS_UNIFORMS 5 >>> 2) 1 0, 9])) :=
  (etna_emit_state_uniform_diff false (fun c => c.shader_state)
    { blank_context with
      dirty := ETNA_DIRTY_VS_UNIFORMS
      shader_state := { blank_context.shader_state with vs_uniforms_size := 8, VS_UNIFORMS := fun x => if x = 5 then 9 else 0 } }
    _ rfl (by decide)).imp
    (fun _ hS => ⟨hS.2.1, fun hl =>
      congrArg some ((hS.2.2.1 (by decide) (by decide)).2 5 (by decide) hl)⟩)

theorem index_runs_from_flatten (xs : List Nat) :
    ∀ (cur : List Nat) (last : Nat), (index_runs_from cur last xs).flatten = cur ++ xs := by
  induction xs with
  | nil => intro cur last; simp [index_runs_from]
  | cons x xs ih =>
    intro cur last
    unfold index_runs_from
    split
    · rw [ih]; simp
    · rw [List.flatten_cons, ih]; simp

/-- Concatenating the runs gives the index list back. -/
theorem index_runs_flatten (xs : List Nat) : (index_runs xs).flatten = xs := by
  cases xs with
  | nil => rfl
  | cons x xs => simp [index_runs, index_runs_from_flatten]

/-- The packets of the writes to `base + 4 * x` for the indices `x` of a list are
the packets of its runs of consecutive indices. -/
theorem group_from_index_runs (base : Nat) (new_values : Nat → Nat) (xs : List Nat) :
    ∀ (cur : List Nat) (l : Nat), cur ≠ [] → base + 4 * l + 4 < U32 →
      (∀ x ∈ xs, base + 4 * x + 4 < U32) →
      group_from ⟨base + 4 * cur.headD 0, false, cur.map new_values⟩ (base + 4 * l)
          (xs.map (fun x => (⟨base + 4 * x, false, new_values x⟩ : reg_write))) =
        (index_runs_from cur l xs).map
          (fun r => (⟨base + 4 * r.headD 0, false, r.map new_values⟩ : packet)) := by
  induction xs with
  | nil => intro cur l _ _ _; simp [group_from, index_runs_from]
  | cons x xs ih =>
    intro cur l hcur hl hxs
    have h4 : add_u32 (base + 4 * l) 4 = base + 4 * l + 4 := by
      unfold add_u32; exact Nat.mod_eq_of_lt hl
    have hx := hxs x (List.mem_cons_self _ _)
    have hxs2 : ∀ y ∈ xs, base + 4 * y + 4 < U32 :=
      fun y hy => hxs y (List.mem_cons_of_mem _ hy)
    simp only [List.map_cons, group_from, index_runs_from, h4, and_true]
    by_cases hq : x = l + 1
    · have hc : base + 4 * l + 4 = base + 4 * x := by omega
      rw [if_pos hc, if_pos hq]
      have := ih (cur ++ [x]) x (by simp) hx hxs2
      have hh : (cur ++ [x]).headD 0 = cur.headD 0 := by
        cases cur with
        | nil => exact absurd rfl hcur
        | cons c cs => rfl
      rw [hh, List.map_append] at this
      exact this
    · have hc : ¬ base + 4 * l + 4 = base + 4 * x := by omega
      rw [if_neg hc, if_neg hq, List.map_cons]
      have := ih [x] x (by simp) hx hxs2
      simp only [List.headD_cons, List.map_cons, List.map_nil] at this
      rw [this]

theorem group_writes_index_runs (base : Nat) (new_values : Nat → Nat) (xs : List Nat)
    (hxs : ∀ x ∈ xs, base + 4 * x + 4 < U32) :
    group_writes (xs.map (fun x => (⟨base + 4 * x, false, new_values x⟩ : reg_write))) =
      (index_runs xs).map
        (fun r => (⟨base + 4 * r.headD 0, false, r.map new_values⟩ : packet)) := by
  cases xs with
  | nil => rfl
  | cons x xs =>
    have := group_from_index_runs base new_values xs [x] x (by simp)
      (hxs x (List.mem_cons_self _ _)) (fun y hy => hxs y (List.mem_cons_of_mem _ hy))
    simpa [group_writes, index_runs] using this

/-- The stream left by a sparse update of the uniforms at `base + 4 * x`. -/
theorem uniform_update_buffer (stream : etna_cmd_stream) (base size : Nat)
    (new_values mirror : Nat → Nat) (hb : base ≠ 0) (hsz : base + 4 * size < U32)
    (hlen : stream.buffer.length + 3 * size < U32) :
    (uniform_update stream (fun x => base + 4 * x) size new_values mirror).1.buffer =
      stream.buffer ++
        (if differing_indices size new_values mirror = [] then padding stream.buffer.length
         else encode_packets stream.buffer.length
          ((index_runs (differing_indices size new_values mirror)).map
            (fun r => (⟨base + 4 * r.headD 0, false, r.map new_values⟩ : packet)))) := by
  rw [uniform_update_region]
  have hw : (((List.range size).filter (fun x => decide (mirror x ≠ new_values x))).map
      (fun x => emit_op.state (base + 4 * x) (new_values x))).filterMap emit_op.write =
      (differing_indices size new_values mirror).map
        (fun x => (⟨base + 4 * x, false, new_values x⟩ : reg_write)) := by
    unfold differing_indices
    generalize (List.range size).filter (fun x => decide (mirror x ≠ new_values x)) = ds
    induction ds with
    | nil => rfl
    | cons y ys ih => simp [List.filterMap_cons, emit_op.write, ih]
  have hmem : ∀ x ∈ differing_indices size new_values mirror, x < size := by
    intro x hx
    unfold differing_indices at hx
    exact List.mem_range.mp (List.mem_of_mem_filter hx)
  have hdl : (differing_indices size new_values mirror).length ≤ size := by
    unfold differing_indices
    exact (List.length_filter_le _ _).trans (by simp)
  rw [coalesced_region_buffer, hw]
  · rw [group_writes_index_runs base new_values _ (fun x hx => by have := hmem x hx; omega)]
    simp
  · rw [hw]
    intro w hwm
    obtain ⟨x, -, rfl⟩ := List.mem_map.mp hwm
    simp only
    omega
  · rw [hw, List.length_map]
    omega

/-- C13: a sparse uniform update of `etna_emit_state` (stream offsets and uniform
addresses within 32 bits) leaves in the stream one load-state packet per
maximal run of consecutive indices at which the mirror differs from the new
value, in order: the header targets the uniform register of the first index of
the run and the payload is the new values of the run, so the number of headers
is the number of runs, and the count field of each header is the length of its
run for runs shorter than 1024. -/
theorem uniform_update_runs (stream : etna_cmd_stream) (size : Nat)
    (new_values mirror : Nat → Nat) (hsz : VIVS_PS_UNIFORMS size < U32)
    (hlen : stream.buffer.length + 3 * size < U32) :
    (uniform_update stream VIVS_VS_UNIFORMS size new_values mirror).1.buffer =
        stream.buffer ++
          (if differing_indices size new_values mirror = [] then padding stream.buffer.length
           else encode_packets stream.buffer.length
            ((index_runs (differing_indices size new_values mirror)).map
              (fun r => (⟨VIVS_VS_UNIFORMS (r.headD 0), false, r.map new_values⟩ : packet)))) ∧
      (uniform_update stream VIVS_PS_UNIFORMS size new_values mirror).1.buffer =
        stream.buffer ++
          (if differing_indices size new_values mirror = [] then padding stream.buffer.length
           else encode_packets stream.buffer.length
            ((index_runs (differing_indices size new_values mirror)).map
              (fun r => (⟨VIVS_PS_UNIFORMS (r.headD 0), false, r.map new_values⟩ : packet)))) ∧
      ((index_runs (differing_indices size new_values mirror)).map
          (fun r => (⟨VIVS_VS_UNIFORMS (r.headD 0), false, r.map new_values⟩ : packet))).length =
        (index_runs (differing_indices size new_values mirror)).length ∧
      (∀ r ∈ index_runs (differing_indices size new_values mirror), ∀ a : Nat,
        r.length < 1024 →
        header_count (load_state_header (a >>> 2) (r.map new_values).length 0) = r.length) ∧
      (index_runs (differing_indices size new_values mirror)).flatten =
        differing_indices size new_values mirror ∧
      index_runs [1, 2, 3, 7, 9, 10] = [[1, 2, 3], [7], [9, 10]] := by
  have hv : (0x05000 : Nat) + 4 * size < U32 := by
    unfold VIVS_PS_UNIFORMS at hsz; omega
  have hp : (0x07000 : Nat) + 4 * size < U32 := by
    unfold VIVS_PS_UNIFORMS at hsz; omega
  refine ⟨uniform_update_buffer stream 0x05000 size new_values mirror (by decide) hv hlen,
    uniform_update_buffer stream 0x07000 size new_values mirror (by decide) hp hlen,
    List.length_map _ _, ?_, index_runs_flatten _, by decide⟩
  intro r _ a hr
  rw [header_count_load_state_header, List.length_map]
  exact Nat.mod_eq_of_lt hr

/-- C13 (witness): six vertex uniforms over a zero mirror, the new values
differing at the indices 1, 2 and 4. -/
theorem uniform_update_runs_witness :
    (uniform_update ⟨[], []⟩ VIVS_VS_UNIFORMS 6 (fun x => if x = 1 ∨ x = 2 ∨ x = 4 then 7 else 0)
        (fun _ => 0)).1.buffer =
      [] ++
        (if differing_indices 6 (fun x => if x = 1 ∨ x = 2 ∨ x = 4 then 7 else 0) (fun _ => 0) = []
          then padding 0
         else encode_packets 0
          ((index_runs
              (differing_indices 6 (fun x => if x = 1 ∨ x = 2 ∨ x = 4 then 7 else 0)
                (fun _ => 0))).map
            (fun r => (⟨VIVS_VS_UNIFORMS (r.headD 0), false,
              r.map (fun x => if x = 1 ∨ x = 2 ∨ x = 4 then 7 else 0)⟩ : packet)))) :=
  (uniform_update_runs ⟨[], []⟩ 6 (fun x => if x = 1 ∨ x = 2 ∨ x = 4 then 7 else 0) (fun _ => 0)
    (by decide) (by decide)).1

/-! ## The order of the registers written in the region -/

theorem written_regs_append (a b : List emit_op) :
    written_regs (a ++ b) = written_regs a ++ written_regs b := by
  simp [written_regs, List.filterMap_append]

/-- The registers written are among the registers named, in order. -/
theorem written_regs_sublist (ops : List emit_op) :
    (written_regs ops).Sublist (ops.map emit_op.reg) := by
  induction ops with
  | nil => exact List.Sublist.slnil
  | cons op ops ih =>
    cases op with
    | state r v => exact List.Sublist.cons₂ _ ih
    | state_fixp r v => exact List.Sublist.cons₂ _ ih
    | state_reloc r x =>
      cases hb : x.bo with
      | none =>
        have : written_regs (emit_op.state_reloc r x :: ops) = written_regs ops := by
          simp [written_regs, List.filterMap_cons, emit_op.write, hb]
        rw [this]
        exact List.Sublist.cons _ ih
      | some b =>
        have : written_regs (emit_op.state_reloc r x :: ops) = r :: written_regs ops := by
          simp [written_regs, List.filterMap_cons, emit_op.write, hb]
        rw [this]
        exact List.Sublist.cons₂ _ ih

theorem map_reg_sublist (l m : List Nat) (f : Nat → emit_op) (g : Nat → Nat)
    (h : ∀ x, (f x).reg = g x) (hl : l.Sublist m) :
    (written_regs (l.map f)).Sublist (m.map g) := by
  refine (written_regs_sublist _).trans ?_
  rw [List.map_map]
  have : emit_op.reg ∘ f = g := funext h
  rw [this]
  exact hl.map g

theorem written_regs_flatMap (l : List Nat) (F : Nat → List emit_op) :
    written_regs (l.flatMap F) = l.flatMap (fun y => written_regs (F y)) := by
  induction l with
  | nil => rfl
  | cons y ys ih => simp [List.flatMap_cons, written_regs_append, ih]

theorem flatMap_sublist (l : List Nat) (F G : Nat → List Nat) (h : ∀ y, (F y).Sublist (G y)) :
    (l.flatMap F).Sublist (l.flatMap G) := by
  induction l with
  | nil => exact List.Sublist.slnil
  | cons y ys ih =>
    simp only [List.flatMap_cons]
    exact (h y).append ih

theorem region_index_buffer_registers (ctx : etna_context) (dirty : Nat) :
    (written_regs (region_index_buffer ctx dirty)).Sublist
      ([VIVS_FE_INDEX_STREAM_BASE_ADDR, VIVS_FE_INDEX_STREAM_CONTROL]) := by
  unfold region_index_buffer
  split_ifs <;> first
    | exact List.nil_sublist _
    | (refine (written_regs_sublist _).trans ?_; exact of_decide_eq_true rfl)

theorem region_vertex_buffers_registers (ctx : etna_context) (dirty : Nat)
    (hc : ctx.vertex_buffer.count ≤ 9) :
    (written_regs (region_vertex_buffers ctx dirty)).Sublist
      (([VIVS_FE_VERTEX_STREAM_BASE_ADDR, VIVS_FE_VERTEX_STREAM_CONTROL] ++
        (List.range' 1 8).map VIVS_FE_VERTEX_STREAMS_BASE_ADDR ++
        (List.range' 1 8).map VIVS_FE_VERTEX_STREAMS_CONTROL)) := by
  have hr : (List.range' 1 (ctx.vertex_buffer.count - 1)).Sublist (List.range' 1 8) :=
    List.range'_sublist_right.mpr (by omega)
  unfold region_vertex_buffers
  split_ifs
  · rw [written_regs_append, written_regs_append]
    refine List.Sublist.append (List.Sublist.append ?_ ?_) ?_
    · refine (written_regs_sublist _).trans ?_
      exact of_decide_eq_true rfl
    · exact map_reg_sublist _ _ _ _ (fun _ => rfl) hr
    · exact map_reg_sublist _ _ _ _ (fun _ => rfl) ((List.filter_sublist _).trans hr)
  · exact List.nil_sublist _

theorem region_vs_end_pc_registers (ctx : etna_context) (dirty : Nat) :
    (written_regs (region_vs_end_pc ctx dirty)).Sublist
      ([VIVS_VS_END_PC]) := by
  unfold region_vs_end_pc
  split_ifs <;> first
    | exact List.nil_sublist _
    | (refine (written_regs_sublist _).trans ?_; exact of_decide_eq_true rfl)

theorem region_vs_output_count_registers (ctx : etna_context) (dirty : Nat) :
    (written_regs (region_vs_output_count ctx dirty)).Sublist
      ([VIVS_VS_OUTPUT_COUNT]) := by
  unfold region_vs_output_count
  split_ifs <;> first
    | exact List.nil_sublist _
    | (refine (written_regs_sublist _).trans ?_; exact of_decide_eq_true rfl)

theorem region_vs_input_count_registers (ctx : etna_context) (dirty : Nat) :
    (written_regs (region_vs_input_count ctx dirty)).Sublist
      ([VIVS_VS_INPUT_COUNT, VIVS_VS_TEMP_REGISTER_CONTROL]) := by
  unfold region_vs_input_count
  split_ifs <;> first
    | exact List.nil_sublist _
    | (refine (written_regs_sublist _).trans ?_; exact of_decide_eq_true rfl)

theorem region_vs_output_registers (ctx : etna_context) (dirty : Nat) :
    (written_regs (region_vs_output ctx dirty)).Sublist
      ((List.range 4).map VIVS_VS_OUTPUT) := by
  unfold region_vs_output
  split_ifs <;> first
    | exact List.nil_sublist _
    | (refine (written_regs_sublist _).trans ?_; exact of_decide_eq_true rfl)

theorem region_vs_input_registers (ctx : etna_context) (dirty : Nat) :
    (written_regs (region_vs_input ctx dirty)).Sublist
      ((List.range 4).map VIVS_VS_INPUT) := by
  unfold region_vs_input
  split_ifs <;> first
    | exact List.nil_sublist _
    | (refine (written_regs_sublist _).trans ?_; exact of_decide_eq_true rfl)

theorem region_vs_start_registers (ctx : etna_context) (dirty : Nat) :
    (written_regs (region_vs_start ctx dirty)).Sublist
      ([VIVS_VS_LOAD_BALANCING, VIVS_VS_START_PC, VIVS_VS_RANGE]) := by
  unfold region_vs_start
  split_ifs <;> first
    | exact List.nil_sublist _
    | (refine (written_regs_sublist _).trans ?_; exact of_decide_eq_true rfl)

theorem region_viewport_registers (ctx : etna_context) (dirty : Nat) :
    (written_regs (region_viewport ctx dirty)).Sublist
      ([VIVS_PA_VIEWPORT_SCALE_X, VIVS_PA_VIEWPORT_SCALE_Y, VIVS_PA_VIEWPORT_SCALE_Z,
        VIVS_PA_VIEWPORT_OFFSET_X, VIVS_PA_VIEWPORT_OFFSET_Y, VIVS_PA_VIEWPORT_OFFSET_Z]) := by
  unfold region_viewport
  split_ifs <;> first
    | exact List.nil_sublist _
    | (refine (written_regs_sublist _).trans ?_; exact of_decide_eq_true rfl)

theorem region_pa_rasterizer_registers (ctx : etna_context) (dirty : Nat) :
    (written_regs (region_pa_rasterizer ctx dirty)).Sublist
      ([VIVS_PA_LINE_WIDTH, VIVS_PA_POINT_SIZE, VIVS_PA_SYSTEM_MODE]) := by
  unfold region_pa_rasterizer
  split_ifs <;> first
    | exact List.nil_sublist _
    | (refine (written_regs_sublist _).trans ?_; exact of_decide_eq_true rfl)

theorem region_pa_attribute_count_registers (ctx : etna_context) (dirty : Nat) :
    (written_regs (region_pa_attribute_count ctx dirty)).Sublist
      ([VIVS_PA_ATTRIBUTE_ELEMENT_COUNT]) := by
  unfold region_pa_attribute_count
  split_ifs <;> first
    | exact List.nil_sublist _
    | (refine (written_regs_sublist _).trans ?_; exact of_decide_eq_true rfl)

theorem region_pa_config_registers (ctx : etna_context) (dirty : Nat) :
    (written_regs (region_pa_config ctx dirty)).Sublist
      ([VIVS_PA_CONFIG]) := by
  unfold region_pa_config
  split_ifs <;> first
    | exact List.nil_sublist _
    | (refine (written_regs_sublist _).trans ?_; exact of_decide_eq_true rfl)

theorem region_pa_shader_attributes_registers (ctx : etna_context) (dirty : Nat) :
    (written_regs (region_pa_shader_attributes ctx dirty)).Sublist
      ((List.range 10).map VIVS_PA_SHADER_ATTRIBUTES) := by
  unfold region_pa_shader_attributes
  split_ifs <;> first
    | exact List.nil_sublist _
    | (refine (written_regs_sublist _).trans ?_; exact of_decide_eq_true rfl)

theorem region_scissor_registers (ctx : etna_context) (dirty : Nat) :
    (written_regs (region_scissor ctx dirty)).Sublist
      ([VIVS_SE_SCISSOR_LEFT, VIVS_SE_SCISSOR_TOP, VIVS_SE_SCISSOR_RIGHT,
        VIVS_SE_SCISSOR_BOTTOM]) := by
  unfold region_scissor
  split_ifs <;> first
    | exact List.nil_sublist _
    | (refine (written_regs_sublist _).trans ?_; exact of_decide_eq_true rfl)

theorem region_se_rasterizer_registers (ctx : etna_context) (dirty : Nat) :
    (written_regs (region_se_rasterizer ctx dirty)).Sublist
      ([VIVS_SE_DEPTH_SCALE, VIVS_SE_DEPTH_BIAS, VIVS_SE_CONFIG]) := by
  unfold region_se_rasterizer
  split_ifs <;> first
    | exact List.nil_sublist _
    | (refine (written_regs_sublist _).trans ?_; exact of_decide_eq_true rfl)

theorem region_ra_control_registers (ctx : etna_context) (dirty : Nat) :
    (written_regs (region_ra_control ctx dirty)).Sublist
      ([VIVS_RA_CONTROL]) := by
  unfold region_ra_control
  split_ifs <;> first
    | exact List.nil_sublist _
    | (refine (written_regs_sublist _).trans ?_; exact of_decide_eq_true rfl)

theorem region_ra_framebuffer_registers (ctx : etna_context) (dirty : Nat) :
    (written_regs (region_ra_framebuffer ctx dirty)).Sublist
      (([VIVS_RA_MULTISAMPLE_UNK00E04] ++ (List.range 4).map VIVS_RA_MULTISAMPLE_UNK00E10 ++
        (List.range 16).map VIVS_RA_CENTROID_TABLE)) := by
  unfold region_ra_framebuffer
  split_ifs <;> first
    | exact List.nil_sublist _
    | (refine (written_regs_sublist _).trans ?_; exact of_decide_eq_true rfl)

theorem region_ps_registers (ctx : etna_context) (dirty : Nat) :
    (written_regs (region_ps ctx dirty)).Sublist
      ([VIVS_PS_END_PC, VIVS_PS_OUTPUT_REG, VIVS_PS_INPUT_COUNT, VIVS_PS_TEMP_REGISTER_CONTROL,
        VIVS_PS_CONTROL, VIVS_PS_START_PC, VIVS_PS_RANGE]) := by
  unfold region_ps
  split_ifs <;> first
    | exact List.nil_sublist _
    | (refine (written_regs_sublist _).trans ?_; exact of_decide_eq_true rfl)

theorem region_pe_depth_config_registers (ctx : etna_context) (dirty : Nat) :
    (written_regs (region_pe_depth_config ctx dirty)).Sublist
      ([VIVS_PE_DEPTH_CONFIG]) := by
  unfold region_pe_depth_config
  split_ifs <;> first
    | exact List.nil_sublist _
    | (refine (written_regs_sublist _).trans ?_; exact of_decide_eq_true rfl)

theorem region_pe_depth_range_registers (ctx : etna_context) (dirty : Nat) :
    (written_regs (region_pe_depth_range ctx dirty)).Sublist
      ([VIVS_PE_DEPTH_NEAR, VIVS_PE_DEPTH_FAR]) := by
  unfold region_pe_depth_range
  split_ifs <;> first
    | exact List.nil_sublist _
    | (refine (written_regs_sublist _).trans ?_; exact of_decide_eq_true rfl)

theorem region_pe_depth_registers (ctx : etna_context) (dirty : Nat) :
    (written_regs (region_pe_depth ctx dirty)).Sublist
      ([VIVS_PE_DEPTH_NORMALIZE, VIVS_PE_DEPTH_ADDR, VIVS_PE_DEPTH_STRIDE]) := by
  unfold region_pe_depth
  split_ifs <;> first
    | exact List.nil_sublist _
    | (refine (written_regs_sublist _).trans ?_; exact of_decide_eq_true rfl)

theorem region_pe_stencil_op_registers (ctx : etna_context) (dirty : Nat) :
    (written_regs (region_pe_stencil_op ctx dirty)).Sublist
      ([VIVS_PE_STENCIL_OP]) := by
  unfold region_pe_stencil_op
  split_ifs <;> first
    | exact List.nil_sublist _
    | (refine (written_regs_sublist _).trans ?_; exact of_decide_eq_true rfl)

theorem region_pe_stencil_config_registers (ctx : etna_context) (dirty : Nat) :
    (written_regs (region_pe_stencil_config ctx dirty)).Sublist
      ([VIVS_PE_STENCIL_CONFIG]) := by
  unfold region_pe_stencil_config
  split_ifs <;> first
    | exact List.nil_sublist _
    | (refine (written_regs_sublist _).trans ?_; exact of_decide_eq_true rfl)

theorem region_pe_alpha_op_registers (ctx : etna_context) (dirty : Nat) :
    (written_regs (region_pe_alpha_op ctx dirty)).Sublist
      ([VIVS_PE_ALPHA_OP]) := by
  unfold region_pe_alpha_op
  split_ifs <;> first
    | exact List.nil_sublist _
    | (refine (written_regs_sublist _).trans ?_; exact of_decide_eq_true rfl)

theorem region_pe_blend_color_registers (ctx : etna_context) (dirty : Nat) :
    (written_regs (region_pe_blend_color ctx dirty)).Sublist
      ([VIVS_PE_ALPHA_BLEND_COLOR]) := by
  unfold region_pe_blend_color
  split_ifs <;> first
    | exact List.nil_sublist _
    | (refine (written_regs_sublist _).trans ?_; exact of_decide_eq_true rfl)

theorem region_pe_alpha_config_registers (ctx : etna_context) (dirty : Nat) :
    (written_regs (region_pe_alpha_config ctx dirty)).Sublist
      ([VIVS_PE_ALPHA_CONFIG]) := by
  unfold region_pe_alpha_config
  split_ifs <;> first
    | exact List.nil_sublist _
    | (refine (written_regs_sublist _).trans ?_; exact of_decide_eq_true rfl)

theorem region_pe_color_format_registers (ctx : etna_context) (dirty : Nat) :
    (written_regs (region_pe_color_format ctx dirty)).Sublist
      ([VIVS_PE_COLOR_FORMAT]) := by
  unfold region_pe_color_format
  split_ifs <;> first
    | exact List.nil_sublist _
    | (refine (written_regs_sublist _).trans ?_; exact of_decide_eq_true rfl)

theorem region_pe_color_registers (ctx : etna_context) (dirty : Nat) (r : List emit_op)
    (h : region_pe_color ctx dirty = some r) :
    (written_regs r).Sublist
      ([VIVS_PE_COLOR_ADDR, VIVS_PE_COLOR_STRIDE, VIVS_PE_HDEPTH_CONTROL,
        VIVS_PE_PIPE_COLOR_ADDR 0, VIVS_PE_PIPE_COLOR_ADDR 1, VIVS_PE_PIPE_DEPTH_ADDR 0,
        VIVS_PE_PIPE_DEPTH_ADDR 1]) := by
  unfold region_pe_color at h
  split_ifs at h <;> first
    | exact Option.noConfusion h
    | (cases h; exact List.nil_sublist _)
    | (cases h; refine (written_regs_sublist _).trans ?_; exact of_decide_eq_true rfl)

theorem region_pe_stencil_ext_registers (ctx : etna_context) (dirty : Nat) :
    (written_regs (region_pe_stencil_ext ctx dirty)).Sublist
      ([VIVS_PE_STENCIL_CONFIG_EXT]) := by
  unfold region_pe_stencil_ext
  split_ifs <;> first
    | exact List.nil_sublist _
    | (refine (written_regs_sublist _).trans ?_; exact of_decide_eq_true rfl)

theorem region_pe_blend_registers (ctx : etna_context) (dirty : Nat) :
    (written_regs (region_pe_blend ctx dirty)).Sublist
      (([VIVS_PE_LOGIC_OP] ++ (List.range 2).map VIVS_PE_DITHER)) := by
  unfold region_pe_blend
  split_ifs <;> first
    | exact List.nil_sublist _
    | (refine (written_regs_sublist _).trans ?_; exact of_decide_eq_true rfl)

theorem region_ts_registers (ctx : etna_context) (dirty : Nat) :
    (written_regs (region_ts ctx dirty)).Sublist
      ([VIVS_TS_MEM_CONFIG, VIVS_TS_COLOR_STATUS_BASE, VIVS_TS_COLOR_SURFACE_BASE,
        VIVS_TS_COLOR_CLEAR_VALUE, VIVS_TS_DEPTH_STATUS_BASE, VIVS_TS_DEPTH_SURFACE_BASE,
        VIVS_TS_DEPTH_CLEAR_VALUE]) := by
  unfold region_ts
  split_ifs <;> first
    | exact List.nil_sublist _
    | (refine (written_regs_sublist _).trans ?_; exact of_decide_eq_true rfl)

theorem region_te_config0_registers (ctx : etna_context) (dirty a : Nat) :
    (written_regs (region_te_config0 ctx dirty a)).Sublist
      ((List.range VIVS_TE_SAMPLER__LEN).map VIVS_TE_SAMPLER_CONFIG0) := by
  unfold region_te_config0
  split_ifs <;> first
    | exact List.nil_sublist _
    | (refine (written_regs_sublist _).trans ?_; exact of_decide_eq_true rfl)

theorem region_te_size_registers (ctx : etna_context) (dirty a : Nat) :
    (written_regs (region_te_size ctx dirty a)).Sublist
      (((List.range VIVS_TE_SAMPLER__LEN).map VIVS_TE_SAMPLER_SIZE ++
        (List.range VIVS_TE_SAMPLER__LEN).map VIVS_TE_SAMPLER_LOG_SIZE)) := by
  unfold region_te_size
  split_ifs
  · rw [written_regs_append]
    exact (map_reg_sublist _ _ _ _ (fun _ => rfl) (List.filter_sublist _)).append
      (map_reg_sublist _ _ _ _ (fun _ => rfl) (List.filter_sublist _))
  · exact List.nil_sublist _

theorem region_te_lod_registers (ctx : etna_context) (dirty a : Nat) :
    (written_regs (region_te_lod ctx dirty a)).Sublist
      (((List.range VIVS_TE_SAMPLER__LEN).map VIVS_TE_SAMPLER_LOD_CONFIG ++
        (List.range VIVS_TE_SAMPLER__LEN).map VIVS_TE_SAMPLER_CONFIG1)) := by
  unfold region_te_lod
  split_ifs
  · rw [written_regs_append]
    exact (map_reg_sublist _ _ _ _ (fun _ => rfl) (List.filter_sublist _)).append
      (map_reg_sublist _ _ _ _ (fun _ => rfl) (List.filter_sublist _))
  · exact List.nil_sublist _

theorem region_te_lod_addr_registers (ctx : etna_context) (dirty a : Nat) :
    (written_regs (region_te_lod_addr ctx dirty a)).Sublist
      ((List.range VIVS_TE_SAMPLER_LOD_ADDR__LEN).flatMap (fun y =>
        (List.range VIVS_TE_SAMPLER__LEN).map (fun x => VIVS_TE_SAMPLER_LOD_ADDR x y))) := by
  unfold region_te_lod_addr
  split_ifs
  · rw [written_regs_flatMap]
    exact flatMap_sublist _ _ _
      (fun y => map_reg_sublist _ _ _ _ (fun _ => rfl) (List.filter_sublist _))
  · exact List.nil_sublist _

theorem region_varying_registers (ctx : etna_context) (dirty : Nat) :
    (written_regs (region_varying ctx dirty)).Sublist
      (([VIVS_GL_VARYING_TOTAL_COMPONENTS, VIVS_GL_VARYING_NUM_COMPONENTS] ++
        (List.range 2).map VIVS_GL_VARYING_COMPONENT_USE)) := by
  unfold region_varying
  split_ifs <;> first
    | exact List.nil_sublist _
    | (refine (written_regs_sublist _).trans ?_; exact of_decide_eq_true rfl)

theorem ascending_pairwise (l : List Nat) (h : ascending l = true) : l.Pairwise (· < ·) := by
  induction l with
  | nil => exact List.Pairwise.nil
  | cons a l ih =>
    cases l with
    | nil => exact List.pairwise_singleton _ _
    | cons b l =>
      simp only [ascending, Bool.and_eq_true, decide_eq_true_eq] at h
      have hp := ih h.2
      refine List.Pairwise.cons ?_ hp
      intro x hx
      rcases List.mem_cons.mp hx with rfl | hx
      · exact h.1
      · exact Nat.lt_trans h.1 (List.rel_of_pairwise_cons hp hx)

set_option maxRecDepth 100000 in
theorem region_registers_pairwise : region_registers.Pairwise (· < ·) :=
  ascending_pairwise _ (by decide)

set_option maxRecDepth 100000 in
theorem multi_sample_not_region_register : VIVS_GL_MULTI_SAMPLE_CONFIG ∉ region_registers := by
  decide

/-- The registers written after the leading rule are among the table's, in order. -/
theorem region_rest_registers (ctx : etna_context) (dirty a : Nat) (r : List emit_op)
    (hpc : region_pe_color ctx dirty = some r) (hc : ctx.vertex_buffer.count ≤ 9) :
    (written_regs
      (region_index_buffer ctx dirty ++
      region_vertex_buffers ctx dirty ++
      region_vs_end_pc ctx dirty ++
      region_vs_output_count ctx dirty ++
      region_vs_input_count ctx dirty ++
      region_vs_output ctx dirty ++
      region_vs_input ctx dirty ++
      region_vs_start ctx dirty ++
      region_viewport ctx dirty ++
      region_pa_rasterizer ctx dirty ++
      region_pa_attribute_count ctx dirty ++
      region_pa_config ctx dirty ++
      region_pa_shader_attributes ctx dirty ++
      region_scissor ctx dirty ++
      region_se_rasterizer ctx dirty ++
      region_ra_control ctx dirty ++
      region_ra_framebuffer ctx dirty ++
      region_ps ctx dirty ++
      region_pe_depth_config ctx dirty ++
      region_pe_depth_range ctx dirty ++
      region_pe_depth ctx dirty ++
      region_pe_stencil_op ctx dirty ++
      region_pe_stencil_config ctx dirty ++
      region_pe_alpha_op ctx dirty ++
      region_pe_blend_color ctx dirty ++
      region_pe_alpha_config ctx dirty ++
      region_pe_color_format ctx dirty ++
      r ++
      region_pe_stencil_ext ctx dirty ++
      region_pe_blend ctx dirty ++
      region_ts ctx dirty ++
      region_te_config0 ctx dirty a ++
      region_te_size ctx dirty a ++
      region_te_lod ctx dirty a ++
      region_te_lod_addr ctx dirty a ++
      region_varying ctx dirty)).Sublist region_registers := by
  simp only [written_regs_append]
  unfold region_registers
  exact (((((((((((((((((((((((((((((((((((region_index_buffer_registers ctx dirty).append
      (region_vertex_buffers_registers ctx dirty hc)).append
      (region_vs_end_pc_registers ctx dirty)).append
      (region_vs_output_count_registers ctx dirty)).append
      (region_vs_input_count_registers ctx dirty)).append
      (region_vs_output_registers ctx dirty)).append
      (region_vs_input_registers ctx dirty)).append
      (region_vs_start_registers ctx dirty)).append
      (region_viewport_registers ctx dirty)).append
      (region_pa_rasterizer_registers ctx dirty)).append
      (region_pa_attribute_count_registers ctx dirty)).append
      (region_pa_config_registers ctx dirty)).append
      (region_pa_shader_attributes_registers ctx dirty)).append
      (region_scissor_registers ctx dirty)).append
      (region_se_rasterizer_registers ctx dirty)).append
      (region_ra_control_registers ctx dirty)).append
      (region_ra_framebuffer_registers ctx dirty)).append
      (region_ps_registers ctx dirty)).append
      (region_pe_depth_config_registers ctx dirty)).append
      (region_pe_depth_range_registers ctx dirty)).append
      (region_pe_depth_registers ctx dirty)).append
      (region_pe_stencil_op_registers ctx dirty)).append
      (region_pe_stencil_config_registers ctx dirty)).append
      (region_pe_alpha_op_registers ctx dirty)).append
      (region_pe_blend_color_registers ctx dirty)).append
      (region_pe_alpha_config_registers ctx dirty)).append
      (region_pe_color_format_registers ctx dirty)).append
      (region_pe_color_registers ctx dirty r hpc)).append
      (region_pe_stencil_ext_registers ctx dirty)).append
      (region_pe_blend_registers ctx dirty)).append
      (region_ts_registers ctx dirty)).append
      (region_te_config0_registers ctx dirty a)).append
      (region_te_size_registers ctx dirty a)).append
      (region_te_lod_registers ctx dirty a)).append
      (region_te_lod_addr_registers ctx dirty a)).append
      (region_varying_registers ctx dirty)

/-- The order of the registers of the region, for every dirty set and every
context state with at most nine vertex buffers on which the region does not
abort: GL_MULTI_SAMPLE_CONFIG is written first when the framebuffer or
sample-mask category is dirty, the register addresses written after it appear
in strictly ascending order and never include GL_MULTI_SAMPLE_CONFIG, and so no
register is written twice. -/
theorem region_order (ctx : etna_context) (dirty a : Nat) (ops : List emit_op)
    (h : etna_emit_state_region ctx dirty a = some ops) (hc : ctx.vertex_buffer.count ≤ 9) :
    ∃ rest : List emit_op, ops = region_multi_sample ctx dirty ++ rest ∧
      written_regs (region_multi_sample ctx dirty) =
        (if dirty &&& (ETNA_DIRTY_FRAMEBUFFER ||| ETNA_DIRTY_SAMPLE_MASK) ≠ 0 then
          [VIVS_GL_MULTI_SAMPLE_CONFIG] else []) ∧
      (written_regs rest).Sublist region_registers ∧
      (written_regs rest).Pairwise (· < ·) ∧
      VIVS_GL_MULTI_SAMPLE_CONFIG ∉ written_regs rest ∧
      (written_regs ops).Nodup := by
  unfold etna_emit_state_region at h
  cases hpc : region_pe_color ctx dirty with
  | none => simp [hpc] at h
  | some r =>
    simp only [hpc, Option.some.injEq] at h
    have hsub := region_rest_registers ctx dirty a r hpc hc
    have hpw := region_registers_pairwise.sublist hsub
    have hnm : VIVS_GL_MULTI_SAMPLE_CONFIG ∉ written_regs
        (region_index_buffer ctx dirty ++
      region_vertex_buffers ctx dirty ++
      region_vs_end_pc ctx dirty ++
      region_vs_output_count ctx dirty ++
      region_vs_input_count ctx dirty ++
      region_vs_output ctx dirty ++
      region_vs_input ctx dirty ++
      region_vs_start ctx dirty ++
      region_viewport ctx dirty ++
      region_pa_rasterizer ctx dirty ++
      region_pa_attribute_count ctx dirty ++
      region_pa_config ctx dirty ++
      region_pa_shader_attributes ctx dirty ++
      region_scissor ctx dirty ++
      region_se_rasterizer ctx dirty ++
      region_ra_control ctx dirty ++
      region_ra_framebuffer ctx dirty ++
      region_ps ctx dirty ++
      region_pe_depth_config ctx dirty ++
      region_pe_depth_range ctx dirty ++
      region_pe_depth ctx dirty ++
      region_pe_stencil_op ctx dirty ++
      region_pe_stencil_config ctx dirty ++
      region_pe_alpha_op ctx dirty ++
      region_pe_blend_color ctx dirty ++
      region_pe_alpha_config ctx dirty ++
      region_pe_color_format ctx dirty ++
      r ++
      region_pe_stencil_ext ctx dirty ++
      region_pe_blend ctx dirty ++
      region_ts ctx dirty ++
      region_te_config0 ctx dirty a ++
      region_te_size ctx dirty a ++
      region_te_lod ctx dirty a ++
      region_te_lod_addr ctx dirty a ++
      region_varying ctx dirty) :=
      fun hm => multi_sample_not_region_register (hsub.subset hm)
    have hms : written_regs (region_multi_sample ctx dirty) =
        (if dirty &&& (ETNA_DIRTY_FRAMEBUFFER ||| ETNA_DIRTY_SAMPLE_MASK) ≠ 0 then
          [VIVS_GL_MULTI_SAMPLE_CONFIG] else []) := by
      unfold region_multi_sample
      split <;> rfl
    have hops : ops = region_multi_sample ctx dirty ++
        (region_index_buffer ctx dirty ++
      region_vertex_buffers ctx dirty ++
      region_vs_end_pc ctx dirty ++
      region_vs_output_count ctx dirty ++
      region_vs_input_count ctx dirty ++
      region_vs_output ctx dirty ++
      region_vs_input ctx dirty ++
      region_vs_start ctx dirty ++
      region_viewport ctx dirty ++
      region_pa_rasterizer ctx dirty ++
      region_pa_attribute_count ctx dirty ++
      region_pa_config ctx dirty ++
      region_pa_shader_attributes ctx dirty ++
      region_scissor ctx dirty ++
      region_se_rasterizer ctx dirty ++
      region_ra_control ctx dirty ++
      region_ra_framebuffer ctx dirty ++
      region_ps ctx dirty ++
      region_pe_depth_config ctx dirty ++
      region_pe_depth_range ctx dirty ++
      region_pe_depth ctx dirty ++
      region_pe_stencil_op ctx dirty ++
      region_pe_stencil_config ctx dirty ++
      region_pe_alpha_op ctx dirty ++
      region_pe_blend_color ctx dirty ++
      region_pe_alpha_config ctx dirty ++
      region_pe_color_format ctx dirty ++
      r ++
      region_pe_stencil_ext ctx dirty ++
      region_pe_blend ctx dirty ++
      region_ts ctx dirty ++
      region_te_config0 ctx dirty a ++
      region_te_size ctx dirty a ++
      region_te_lod ctx dirty a ++
      region_te_lod_addr ctx dirty a ++
      region_varying ctx dirty) := by
      rw [← h]
      simp only [List.append_assoc]
    refine ⟨_, hops, hms, hsub, hpw, hnm, ?_⟩
    rw [hops, written_regs_append, hms]
    have key : ∀ W : List Nat, VIVS_GL_MULTI_SAMPLE_CONFIG ∉ W → W.Nodup →
        ((if dirty &&& (ETNA_DIRTY_FRAMEBUFFER ||| ETNA_DIRTY_SAMPLE_MASK) ≠ 0 then
          [VIVS_GL_MULTI_SAMPLE_CONFIG] else []) ++ W).Nodup := by
      intro W h1 h2
      split
      · exact List.nodup_cons.mpr ⟨h1, h2⟩
      · exact h2
    exact key _ hnm (hpw.imp (fun hlt => Nat.ne_of_lt hlt))

/-! ## Decoding the words of a coalesced region -/

theorem run_writes_append (vals more : List Nat) :
    ∀ (a : Nat) (t : Bool),
      run_writes a t (vals ++ more) =
        run_writes a t vals ++ run_writes (a + 4 * vals.length) t more := by
  induction vals with
  | nil => intro a t; simp [run_writes]
  | cons v vs ih =>
    intro a t
    have e : a + 4 * (vs.length + 1) = a + 4 + 4 * vs.length := by omega
    rw [List.cons_append, run_writes, run_writes, ih (a + 4) t, List.length_cons, e,
      List.cons_append]

theorem decode_packets_cons (fuel h : Nat) (rest : List Nat) :
    decode_packets (fuel + 1) (h :: rest) =
      run_writes (4 * header_offset h) (header_fixp h) (rest.take (header_count h)) ++
        decode_packets fuel
          ((rest.drop (header_count h)).drop (if header_count h % 2 = 0 then 1 else 0)) :=
  rfl

/-- The writes of the packets of an open packet followed by more writes are the
writes of the open packet followed by those writes, when no address wraps. -/
theorem group_from_writes (ws : List reg_write) :
    ∀ (p : packet) (last : Nat), p.vals ≠ [] → last + 4 = p.reg + 4 * p.vals.length →
      last + 4 < U32 → (∀ w ∈ ws, w.reg + 4 < U32) →
      (group_from p last ws).flatMap (fun q => run_writes q.reg q.fixp q.vals) =
        run_writes p.reg p.fixp p.vals ++ ws := by
  induction ws with
  | nil => intro p last _ _ _ _; simp [group_from]
  | cons w ws ih =>
    intro p last hv hl hlt hws
    have h4 : add_u32 last 4 = last + 4 := by
      unfold add_u32; exact Nat.mod_eq_of_lt hlt
    have hw := hws w (List.mem_cons_self _ _)
    have hws2 : ∀ x ∈ ws, x.reg + 4 < U32 := fun x hx => hws x (List.mem_cons_of_mem _ hx)
    unfold group_from
    rw [h4]
    split
    · rename_i hc
      have := ih { p with vals := p.vals ++ [w.value] } w.reg (by simp)
        (by simp only [List.length_append, List.length_singleton]; omega) hw hws2
      rw [this]
      simp only [run_writes_append, run_writes, List.append_assoc, List.singleton_append]
      have hr : p.reg + 4 * p.vals.length = w.reg := by omega
      rw [hr, hc.2]
    · have := ih ⟨w.reg, w.fixp, [w.value]⟩ w.reg (by simp) (by simp) hw hws2
      rw [List.flatMap_cons, this]
      simp [run_writes]

theorem group_writes_writes (ws : List reg_write) (hws : ∀ w ∈ ws, w.reg + 4 < U32) :
    (group_writes ws).flatMap (fun q => run_writes q.reg q.fixp q.vals) = ws := by
  cases ws with
  | nil => rfl
  | cons w ws =>
    have := group_from_writes ws ⟨w.reg, w.fixp, [w.value]⟩ w.reg (by simp) (by simp)
      (hws w (List.mem_cons_self _ _)) (fun x hx => hws x (List.mem_cons_of_mem _ hx))
    simpa [group_writes, run_writes] using this

/-- Every packet of a grouping starts at the address of one of the writes, or is
the open packet, and is not empty. -/
theorem group_from_packets (P : Nat → Prop) (ws : List reg_write) :
    ∀ (p : packet) (last : Nat), p.vals ≠ [] → P p.reg → (∀ w ∈ ws, P w.reg) →
      ∀ q ∈ group_from p last ws, q.vals ≠ [] ∧ P q.reg := by
  induction ws with
  | nil =>
    intro p last hv hp _ q hq
    simp only [group_from, List.mem_singleton] at hq
    rw [hq]; exact ⟨hv, hp⟩
  | cons w ws ih =>
    intro p last hv hp hws q hq
    have hw := hws w (List.mem_cons_self _ _)
    have hws2 : ∀ x ∈ ws, P x.reg := fun x hx => hws x (List.mem_cons_of_mem _ hx)
    unfold group_from at hq
    split at hq
    · exact ih { p with vals := p.vals ++ [w.value] } w.reg (by simp) hp hws2 q hq
    · rcases List.mem_cons.mp hq with rfl | hq
      · exact ⟨hv, hp⟩
      · exact ih ⟨w.reg, w.fixp, [w.value]⟩ w.reg (by simp) hw hws2 q hq

theorem group_writes_packets (P : Nat → Prop) (ws : List reg_write) (hws : ∀ w ∈ ws, P w.reg) :
    ∀ q ∈ group_writes ws, q.vals ≠ [] ∧ P q.reg := by
  cases ws with
  | nil => intro q hq; simp [group_writes] at hq
  | cons w ws =>
    exact group_from_packets P ws ⟨w.reg, w.fixp, [w.value]⟩ w.reg (by simp)
      (hws w (List.mem_cons_self _ _)) (fun x hx => hws x (List.mem_cons_of_mem _ hx))

theorem header_fixp_toNat (offset count : Nat) (t : Bool) :
    header_fixp (load_state_header offset count t.toNat) = t := by
  rw [header_fixp_load_state_header]
  cases t <;> simp

theorem aligned_register (reg : Nat) (ha : reg % 4 = 0) (hlt : reg < 0x40000) :
    4 * ((reg >>> 2) % 65536) = reg := by
  rw [Nat.shiftRight_eq_div_pow]
  omega

/-- Decoding the words of one closed packet at an even offset, followed by more
words, gives the writes of the packet and then the decoding of the rest. -/
theorem decode_packet_words (off fuel : Nat) (p : packet) (rest : List Nat)
    (hoff : off % 2 = 0) (hv : p.vals.length < 1024) (ha : p.reg % 4 = 0)
    (hlt : p.reg < 0x40000) :
    decode_packets (fuel + 1) (p.words off ++ rest) =
      run_writes p.reg p.fixp p.vals ++ decode_packets fuel rest := by
  unfold packet.words
  rw [List.cons_append, List.cons_append, decode_packets_cons]
  simp only [header_count_load_state_header, header_offset_load_state_header,
    header_fixp_toNat, Nat.mod_eq_of_lt hv, aligned_register p.reg ha hlt]
  rw [List.append_assoc, List.take_left, List.drop_left]
  congr 2
  unfold padding
  by_cases hp : p.vals.length % 2 = 0
  · have h1 : (off + 1 + p.vals.length) % 2 = 1 := by omega
    rw [if_pos h1, if_pos hp]
    rfl
  · have h1 : ¬ (off + 1 + p.vals.length) % 2 = 1 := by omega
    rw [if_neg h1, if_neg hp]
    rfl

theorem encode_packets_length_even (ps : List packet) :
    ∀ off, off % 2 = 0 → (encode_packets off ps).length % 2 = 0 := by
  induction ps with
  | nil => intro off _; rfl
  | cons p ps ih =>
    intro off hoff
    simp only [encode_packets, List.length_append]
    have h1 := packet_words_length off p
    have h2 := ih (off + (p.words off).length) (by omega)
    omega

/-- Decoding the words of closed packets that start at an even offset gives the
writes of the packets, with enough fuel. -/
theorem decode_encode_packets (ps : List packet) :
    ∀ (off fuel : Nat), off % 2 = 0 → ps.length ≤ fuel →
      (∀ p ∈ ps, p.vals.length < 1024 ∧ p.reg % 4 = 0 ∧ p.reg < 0x40000) →
      decode_packets fuel (encode_packets off ps) =
        ps.flatMap (fun q => run_writes q.reg q.fixp q.vals) := by
  induction ps with
  | nil =>
    intro off fuel _ _ _
    cases fuel <;> rfl
  | cons p ps ih =>
    intro off fuel hoff hf hps
    cases fuel with
    | zero => simp at hf
    | succ fuel =>
      obtain ⟨h1, h2, h3⟩ := hps p (List.mem_cons_self _ _)
      have hl := packet_words_length off p
      rw [encode_packets, decode_packet_words off fuel p _ hoff h1 h2 h3,
        ih (off + (p.words off).length) fuel (by omega)
          (by simpa using hf) (fun q hq => hps q (List.mem_cons_of_mem _ hq)),
        List.flatMap_cons]

theorem encode_packets_length_ge (ps : List packet) :
    ∀ off, ps.length ≤ (encode_packets off ps).length := by
  induction ps with
  | nil => intro off; exact Nat.le_refl _
  | cons p ps ih =>
    intro off
    simp only [encode_packets, List.length_append, List.length_cons]
    have h1 := packet_words_length off p
    have h2 := ih (off + (p.words off).length)
    omega

theorem decode_uncoalesced (ws : List reg_write) :
    ∀ fuel, ws.length ≤ fuel → (∀ w ∈ ws, w.reg % 4 = 0 ∧ w.reg < 0x40000) →
      decode_packets fuel (uncoalesced ws) = ws := by
  induction ws with
  | nil => intro fuel _ _; cases fuel <;> rfl
  | cons w ws ih =>
    intro fuel hf hws
    cases fuel with
    | zero => simp at hf
    | succ fuel =>
      obtain ⟨h2, h3⟩ := hws w (List.mem_cons_self _ _)
      rw [uncoalesced, decode_packets_cons]
      simp only [header_count_load_state_header, header_offset_load_state_header,
        header_fixp_toNat, aligned_register w.reg h2 h3]
      have : (1 : Nat) % 1024 = 1 := by norm_num
      rw [this]
      simp only [List.take_succ_cons, List.take_zero, List.drop_succ_cons, List.drop_zero,
        run_writes]
      rw [if_neg (by norm_num), List.drop_zero,
        ih fuel (by simpa using hf) (fun x hx => hws x (List.mem_cons_of_mem _ hx))]
      rfl

theorem uncoalesced_length (ws : List reg_write) : (uncoalesced ws).length = 2 * ws.length := by
  induction ws with
  | nil => rfl
  | cons w ws ih => simp only [uncoalesced, List.length_cons, ih]; omega

/-- C3 (amended): for every finite sequence of (register address, tag, value)
emissions made between `etna_coalesce_start` and `etna_coalesce_end`, with
non-zero 4-byte-aligned register addresses below 0x40000 (register index
within the 16-bit field of the header), runs shorter than 1024 words and a
region that starts at an even stream offset (offsets within 32 bits), decoding
the words written to the stream as load-state packets yields exactly the
emitted writes, in order, and so does decoding the uncoalesced encoding with
one packet per register. -/
theorem coalesced_region_decode (s0 : etna_cmd_stream) (max : Nat) (ws : List reg_write)
    (hreg : ∀ w ∈ ws, w.reg ≠ 0 ∧ w.reg % 4 = 0 ∧ w.reg < 0x40000)
    (hrun : ∀ p ∈ group_writes ws, p.vals.length < 1024)
    (heven : s0.buffer.length % 2 = 0)
    (hlen : s0.buffer.length + 3 * ws.length < U32) :
    ∃ words : List Nat,
      (coalesced_region s0 max (ws.map reg_write.op)).buffer = s0.buffer ++ words ∧
      decode_stream words = ws ∧ decode_stream (uncoalesced ws) = ws := by
  have hb := coalesced_region_buffer s0 max (ws.map reg_write.op)
    (by rw [filterMap_write_map_op]; exact fun w hw => (hreg w hw).1)
    (by rw [filterMap_write_map_op]; exact hlen)
  rw [filterMap_write_map_op] at hb
  refine ⟨_, hb, ?_, ?_⟩
  · by_cases hws : ws = []
    · rw [if_pos hws, hws]
      unfold padding
      rw [if_neg (by omega)]
      rfl
    · rw [if_neg hws]
      have hp := group_writes_packets (fun r => r % 4 = 0 ∧ r < 0x40000) ws
        (fun w hw => (hreg w hw).2)
      unfold decode_stream
      rw [decode_encode_packets _ _ _ heven (encode_packets_length_ge _ _)
          (fun p hpm => ⟨hrun p hpm, (hp p hpm).2⟩),
        group_writes_writes ws (fun w hw => by
          have := (hreg w hw).2.2
          unfold U32
          omega)]
  · unfold decode_stream
    exact decode_uncoalesced ws _ (by rw [uncoalesced_length]; omega)
      (fun w hw => (hreg w hw).2)

/-- C3 (witness): two fixed-point writes to 0xA00 and 0xA04 and a plain write to
0xA10, from the empty stream. -/
theorem coalesced_region_decode_witness :
    ∃ words : List Nat,
      (coalesced_region ⟨[], []⟩ 0
        (([⟨0xA00, true, 1⟩, ⟨0xA04, true, 2⟩, ⟨0xA10, false, 3⟩] : List reg_write).map
          reg_write.op)).buffer = [] ++ words ∧
      decode_stream words = [⟨0xA00, true, 1⟩, ⟨0xA04, true, 2⟩, ⟨0xA10, false, 3⟩] ∧
      decode_stream (uncoalesced [⟨0xA00, true, 1⟩, ⟨0xA04, true, 2⟩, ⟨0xA10, false, 3⟩]) =
        [⟨0xA00, true, 1⟩, ⟨0xA04, true, 2⟩, ⟨0xA10, false, 3⟩] :=
  coalesced_region_decode ⟨[], []⟩ 0 [⟨0xA00, true, 1⟩, ⟨0xA04, true, 2⟩, ⟨0xA10, false, 3⟩]
    (by decide) (by decide) (by decide) (by decide)

/-- C3 (counterexample): two plain writes to the registers 0x3FFFC and 0x40000,
from the empty stream, are merged into one packet whose decoding targets
0x3FFFC and 0x40000, while the uncoalesced encoding of the same writes decodes
to 0x3FFFC and register 0. -/
theorem decode_run_across_index_limit :
    (coalesced_region ⟨[], []⟩ 0
        (([⟨0x3FFFC, false, 7⟩, ⟨0x40000, false, 9⟩] : List reg_write).map
          reg_write.op)).buffer = [load_state_header 0xFFFF 2 0, 7, 9, 0xdeadbeef] ∧
      decode_stream [load_state_header 0xFFFF 2 0, 7, 9, 0xdeadbeef] =
        [⟨0x3FFFC, false, 7⟩, ⟨0x40000, false, 9⟩] ∧
      decode_stream (uncoalesced [⟨0x3FFFC, false, 7⟩, ⟨0x40000, false, 9⟩]) =
        [⟨0x3FFFC, false, 7⟩, ⟨0, false, 9⟩] ∧
      decode_stream [load_state_header 0xFFFF 2 0, 7, 9, 0xdeadbeef] ≠
        decode_stream (uncoalesced [⟨0x3FFFC, false, 7⟩, ⟨0x40000, false, 9⟩]) := by
  decide

/-! ## The size of the region -/

set_option maxRecDepth 1000000 in
/-- C29 (the code at the failing input): on the loaded context (every category
dirty, one pixel pipe, twelve active samplers, every reloc backed) the region of
`etna_emit_state` emits 335 register values, and the words appended between
`etna_coalesce_start(stream, &coalesce, ETNA_3D_CONTEXT_SIZE)` and the matching
`etna_coalesce_end`, from an empty stream, number 412, more than the 400
reserved. -/
theorem region_words_exceed_reservation :
    loaded_context.specs.pixel_pipes = 1 ∧
    ∃ ops : List emit_op,
      etna_emit_state_region loaded_context loaded_context.dirty
        (active_samplers_bits loaded_context) = some ops ∧
      (written_regs ops).length = 335 ∧
      (coalesced_region ⟨[], []⟩ ETNA_3D_CONTEXT_SIZE ops).buffer.length = 412 ∧
      ¬ 412 ≤ ETNA_3D_CONTEXT_SIZE := by
  refine ⟨rfl, (etna_emit_state_region loaded_context loaded_context.dirty
    (active_samplers_bits loaded_context)).getD [], by decide, by decide, ?_, by decide⟩
  rw [coalesced_region_buffer _ _ _ (by decide) (by decide)]
  decide

/-! ## The words of a resolve submission -/

theorem encode_packets_length_parity (ps : List packet) :
    ∀ off off2 : Nat, off % 2 = off2 % 2 →
      (encode_packets off ps).length = (encode_packets off2 ps).length := by
  induction ps with
  | nil => intro _ _ _; rfl
  | cons p ps ih =>
    intro off off2 h
    simp only [encode_packets, List.length_append]
    have h1 := packet_words_length off p
    have h2 := packet_words_length off2 p
    have h3 := ih (off + (p.words off).length) (off2 + (p.words off2).length) (by omega)
    omega

/-- The number of words a coalesced region appends at an even offset. -/
theorem coalesced_region_length (s0 : etna_cmd_stream) (max : Nat) (ops : List emit_op)
    (hreg : ∀ r ∈ ops.map emit_op.reg, r ≠ 0)
    (hlen : s0.buffer.length + 3 * ops.length < U32) (heven : s0.buffer.length % 2 = 0) :
    (coalesced_region s0 max ops).buffer.length =
      s0.buffer.length +
        (encode_packets 0 (group_writes (ops.filterMap emit_op.write))).length := by
  have hsub := written_regs_sublist ops
  have hl : (ops.filterMap emit_op.write).length ≤ ops.length := List.length_filterMap_le _ _
  rw [coalesced_region_buffer s0 max ops
    (fun w hw => hreg w.reg (hsub.subset (List.mem_map_of_mem _ hw))) (by omega),
    List.length_append]
  by_cases hw : ops.filterMap emit_op.write = []
  · rw [if_pos hw, hw]
    unfold padding
    rw [if_neg (by omega)]
    rfl
  · rw [if_neg hw, encode_packets_length_parity _ s0.buffer.length 0 (by omega)]

/-- The payload lengths of the packets of a grouping depend only on the
registers and tags of the writes, not on the values. -/
theorem group_from_shape (ws : List reg_write) :
    ∀ (ws2 : List reg_write) (p p2 : packet) (last : Nat), p.fixp = p2.fixp →
      p.vals.length = p2.vals.length →
      ws.map (fun w => (w.reg, w.fixp)) = ws2.map (fun w => (w.reg, w.fixp)) →
      (group_from p last ws).map (fun q => q.vals.length) =
        (group_from p2 last ws2).map (fun q => q.vals.length) := by
  induction ws with
  | nil =>
    intro ws2 p p2 last _ hl h
    cases ws2 with
    | nil => simp [group_from, hl]
    | cons w2 ws2 => simp at h
  | cons w ws ih =>
    intro ws2 p p2 last hf hl h
    cases ws2 with
    | nil => simp at h
    | cons w2 ws2 =>
      simp only [List.map_cons, List.cons.injEq, Prod.mk.injEq] at h
      obtain ⟨⟨hr, ht⟩, hrest⟩ := h
      unfold group_from
      rw [← hr, ← ht, ← hf]
      split
      · exact ih ws2 _ _ _ rfl (by simp [hl]) hrest
      · rw [List.map_cons, List.map_cons, hl]
        congr 1
        exact ih ws2 _ _ _ rfl rfl hrest

theorem encode_packets_length_shape (ps : List packet) :
    ∀ (ps2 : List packet) (off : Nat),
      ps.map (fun q => q.vals.length) = ps2.map (fun q => q.vals.length) →
      (encode_packets off ps).length = (encode_packets off ps2).length := by
  induction ps with
  | nil =>
    intro ps2 off h
    cases ps2 with
    | nil => rfl
    | cons p2 ps2 => simp at h
  | cons p ps ih =>
    intro ps2 off h
    cases ps2 with
    | nil => simp at h
    | cons p2 ps2 =>
      simp only [List.map_cons, List.cons.injEq] at h
      have h1 := packet_words_length off p
      have h2 := packet_words_length off p2
      have hw : (p.words off).length = (p2.words off).length := by omega
      simp only [encode_packets, List.length_append, hw]
      rw [ih ps2 _ h.2]

/-- The number of words of a coalesced write sequence depends only on the
registers and tags of the writes. -/
theorem word_count_shape (ws ws2 : List reg_write)
    (h : ws.map (fun w => (w.reg, w.fixp)) = ws2.map (fun w => (w.reg, w.fixp))) :
    (encode_packets 0 (group_writes ws)).length =
      (encode_packets 0 (group_writes ws2)).length := by
  apply encode_packets_length_shape
  cases ws with
  | nil =>
    cases ws2 with
    | nil => rfl
    | cons w2 ws2 => simp at h
  | cons w ws =>
    cases ws2 with
    | nil => simp at h
    | cons w2 ws2 =>
      simp only [List.map_cons, List.cons.injEq, Prod.mk.injEq] at h
      obtain ⟨⟨hr, ht⟩, hrest⟩ := h
      simp only [group_writes]
      rw [← hr, ← ht]
      exact group_from_shape ws ws2 _ _ _ rfl rfl hrest

theorem submit_rs_ops_single_writes (cs : compiled_rs_state) :
    (submit_rs_ops_single cs).filterMap emit_op.write =
      submit_rs_writes_single cs cs.source_0.bo.isSome cs.dest_0.bo.isSome := by
  obtain ⟨c, ss, ds, w, d0, d1, cc, f0, f1, f2, f3, e, p0, p1, ⟨sb, so, sf⟩, s1, ⟨db, do_, df⟩,
    dd1⟩ := cs
  cases sb <;> cases db <;> rfl

theorem submit_rs_ops_dual_writes (cs : compiled_rs_state) :
    (submit_rs_ops_dual cs).filterMap emit_op.write =
      submit_rs_writes_dual cs cs.source_0.bo.isSome
        (decide (cs.RS_SOURCE_STRIDE &&& VIVS_RS_SOURCE_STRIDE_MULTI ≠ 0) &&
          cs.source_1.bo.isSome)
        cs.dest_0.bo.isSome
        (decide (cs.RS_DEST_STRIDE &&& VIVS_RS_DEST_STRIDE_MULTI ≠ 0) &&
          cs.dest_1.bo.isSome) := by
  obtain ⟨c, ss, ds, w, d0, d1, cc, f0, f1, f2, f3, e, p0, p1, ⟨sb, so, sf⟩, ⟨sb1, so1, sf1⟩,
    ⟨db, do_, df⟩, ⟨db1, do1, df1⟩⟩ := cs
  unfold submit_rs_ops_dual
  by_cases hs : ss &&& VIVS_RS_SOURCE_STRIDE_MULTI ≠ 0 <;>
  by_cases hd : ds &&& VIVS_RS_DEST_STRIDE_MULTI ≠ 0 <;>
    simp only [hs, hd, if_true, if_false, not_false_eq_true, ne_eq, not_true_eq_false,
      decide_True, decide_False, Bool.true_and, Bool.false_and, decide_not] <;>
    cases sb <;> cases sb1 <;> cases db <;> cases db1 <;> rfl

theorem submit_rs_writes_single_words (cs : compiled_rs_state) (src dst : Bool) :
    (encode_packets 0 (group_writes (submit_rs_writes_single cs src dst))).length = 22 :=
  (word_count_shape _ (submit_rs_writes_single compiled_rs_state_zero src dst)
    (by cases src <;> cases dst <;> rfl)).trans (by revert src dst; decide)

theorem submit_rs_writes_dual_words (cs : compiled_rs_state) (src0 src1 dst0 dst1 : Bool) :
    (encode_packets 0
        (group_writes (submit_rs_writes_dual cs src0 src1 dst0 dst1))).length ≤ 34 ∧
      (src0 = true → src1 = true → dst0 = true → dst1 = true →
        (encode_packets 0
          (group_writes (submit_rs_writes_dual cs src0 src1 dst0 dst1))).length = 34) := by
  rw [word_count_shape _ (submit_rs_writes_dual compiled_rs_state_zero src0 src1 dst0 dst1)
    (by cases src0 <;> cases src1 <;> cases dst0 <;> cases dst1 <;> rfl)]
  revert src0 src1 dst0 dst1
  decide

theorem submit_rs_ops_single_regs (cs : compiled_rs_state) :
    ∀ r ∈ (submit_rs_ops_single cs).map emit_op.reg, r ≠ 0 := by
  have hne : ∀ x ∈ [VIVS_RS_CONFIG, VIVS_RS_SOURCE_ADDR, VIVS_RS_SOURCE_STRIDE,
      VIVS_RS_DEST_ADDR, VIVS_RS_DEST_STRIDE, VIVS_RS_WINDOW_SIZE, VIVS_RS_DITHER 0,
      VIVS_RS_DITHER 1, VIVS_RS_CLEAR_CONTROL, VIVS_RS_FILL_VALUE 0, VIVS_RS_FILL_VALUE 1,
      VIVS_RS_FILL_VALUE 2, VIVS_RS_FILL_VALUE 3, VIVS_RS_EXTRA_CONFIG, VIVS_RS_KICKER],
      x ≠ 0 := by decide
  exact hne

theorem submit_rs_ops_dual_regs (cs : compiled_rs_state) :
    (∀ r ∈ (submit_rs_ops_dual cs).map emit_op.reg, r ≠ 0) ∧
      (submit_rs_ops_dual cs).length ≤ 21 := by
  have hne : ∀ x ∈ [VIVS_RS_CONFIG, VIVS_RS_SOURCE_STRIDE, VIVS_RS_DEST_STRIDE,
      VIVS_RS_PIPE_SOURCE_ADDR 0, VIVS_RS_PIPE_SOURCE_ADDR 1, VIVS_RS_PIPE_DEST_ADDR 0,
      VIVS_RS_PIPE_DEST_ADDR 1, VIVS_RS_PIPE_OFFSET 0, VIVS_RS_PIPE_OFFSET 1,
      VIVS_RS_WINDOW_SIZE, VIVS_RS_DITHER 0, VIVS_RS_DITHER 1, VIVS_RS_CLEAR_CONTROL,
      VIVS_RS_FILL_VALUE 0, VIVS_RS_FILL_VALUE 1, VIVS_RS_FILL_VALUE 2, VIVS_RS_FILL_VALUE 3,
      VIVS_RS_EXTRA_CONFIG, VIVS_RS_KICKER], x ≠ 0 := by decide
  have hsub : ((submit_rs_ops_dual cs).map emit_op.reg).Sublist
      [VIVS_RS_CONFIG, VIVS_RS_SOURCE_STRIDE, VIVS_RS_DEST_STRIDE,
      VIVS_RS_PIPE_SOURCE_ADDR 0, VIVS_RS_PIPE_SOURCE_ADDR 1, VIVS_RS_PIPE_DEST_ADDR 0,
      VIVS_RS_PIPE_DEST_ADDR 1, VIVS_RS_PIPE_OFFSET 0, VIVS_RS_PIPE_OFFSET 1,
      VIVS_RS_WINDOW_SIZE, VIVS_RS_DITHER 0, VIVS_RS_DITHER 1, VIVS_RS_CLEAR_CONTROL,
      VIVS_RS_FILL_VALUE 0, VIVS_RS_FILL_VALUE 1, VIVS_RS_FILL_VALUE 2, VIVS_RS_FILL_VALUE 3,
      VIVS_RS_EXTRA_CONFIG, VIVS_RS_KICKER] := by
    unfold submit_rs_ops_dual
    split_ifs <;> exact of_decide_eq_true rfl
  refine ⟨fun r hr => hne r (hsub.subset hr), ?_⟩
  have := hsub.length_le
  simp only [List.length_map, List.length_cons, List.length_nil] at this
  omega

/-- C31: starting at an even stream offset (offsets within 32 bits), with the
register layout of the RS registers, `etna_submit_rs_state` appends exactly 22
words when the pixel-pipe count is 1, whether or not the source and destination
relocs have a backing allocation, and at most 34 words when the pixel-pipe
count is 2, exactly 34 when both strides carry the MULTI flag and all four
relocs have a backing allocation. -/
theorem etna_submit_rs_state_words (s0 : etna_cmd_stream) (cs : compiled_rs_state)
    (heven : s0.buffer.length % 2 = 0) (hlen : s0.buffer.length + 64 < U32) :
    (etna_submit_rs_state 1 s0 cs).map (fun s => s.buffer.length) =
        some (s0.buffer.length + 22) ∧
      (∃ n, n ≤ 34 ∧
        (etna_submit_rs_state 2 s0 cs).map (fun s => s.buffer.length) =
          some (s0.buffer.length + n)) ∧
      (cs.RS_SOURCE_STRIDE &&& VIVS_RS_SOURCE_STRIDE_MULTI ≠ 0 →
        cs.RS_DEST_STRIDE &&& VIVS_RS_DEST_STRIDE_MULTI ≠ 0 →
        cs.source_0.bo.isSome = true → cs.source_1.bo.isSome = true →
        cs.dest_0.bo.isSome = true → cs.dest_1.bo.isSome = true →
        (etna_submit_rs_state 2 s0 cs).map (fun s => s.buffer.length) =
          some (s0.buffer.length + 34)) := by
  have h1 : (coalesced_region s0 22 (submit_rs_ops_single cs)).buffer.length =
      s0.buffer.length + 22 := by
    rw [coalesced_region_length s0 22 _ (submit_rs_ops_single_regs cs)
      (by simp only [submit_rs_ops_single, List.length_cons, List.length_nil]; omega) heven,
      submit_rs_ops_single_writes, submit_rs_writes_single_words]
  have h2 : (coalesced_region s0 34 (submit_rs_ops_dual cs)).buffer.length =
      s0.buffer.length + (encode_packets 0 (group_writes
        (submit_rs_writes_dual cs cs.source_0.bo.isSome
          (decide (cs.RS_SOURCE_STRIDE &&& VIVS_RS_SOURCE_STRIDE_MULTI ≠ 0) &&
            cs.source_1.bo.isSome)
          cs.dest_0.bo.isSome
          (decide (cs.RS_DEST_STRIDE &&& VIVS_RS_DEST_STRIDE_MULTI ≠ 0) &&
            cs.dest_1.bo.isSome)))).length := by
    have hl := (submit_rs_ops_dual_regs cs).2
    rw [coalesced_region_length s0 34 _ (submit_rs_ops_dual_regs cs).1 (by omega) heven,
      submit_rs_ops_dual_writes]
  have key := submit_rs_writes_dual_words cs cs.source_0.bo.isSome
    (decide (cs.RS_SOURCE_STRIDE &&& VIVS_RS_SOURCE_STRIDE_MULTI ≠ 0) && cs.source_1.bo.isSome)
    cs.dest_0.bo.isSome
    (decide (cs.RS_DEST_STRIDE &&& VIVS_RS_DEST_STRIDE_MULTI ≠ 0) && cs.dest_1.bo.isSome)
  refine ⟨?_, ⟨_, key.1, ?_⟩, ?_⟩
  · simp only [etna_submit_rs_state, if_true, Option.map_some', h1]
  · simp only [etna_submit_rs_state, OfNat.ofNat_ne_one, if_false, if_true, Option.map_some',
      h2]
  · intro hs hd a b c d
    have := key.2 a (by simp [hs, b]) c (by simp [hd, d])
    simp only [etna_submit_rs_state, OfNat.ofNat_ne_one, if_false, if_true, Option.map_some',
      h2, this]

/-- C31 (witness): the all-zero block submitted to the empty stream. -/
theorem etna_submit_rs_state_words_witness :
    (etna_submit_rs_state 1 ⟨[], []⟩ compiled_rs_state_zero).map (fun s => s.buffer.length) =
      some (([] : List Nat).length + 22) :=
  (etna_submit_rs_state_words ⟨[], []⟩ compiled_rs_state_zero (by decide) (by decide)).1

theorem testBit_not_u32 (x i : Nat) (hi : i < 32) :
    (not_u32 x).testBit i = !x.testBit i := by
  unfold not_u32 U32
  have hx : x % 4294967296 < 2 ^ 32 := Nat.mod_lt _ (by norm_num)
  have e : 4294967296 - 1 - x % 4294967296 = 2 ^ 32 - (x % 4294967296 + 1) := by omega
  rw [e, Nat.testBit_two_pow_sub_succ hx]
  have h32 : (4294967296 : Nat) = 2 ^ 32 := by norm_num
  rw [h32, Nat.testBit_mod_two_pow]
  simp [hi]

/-- The output of the PE_COLOR_FORMAT rule when it fires, bit by bit, with `M`
the union of the components mask and the overwrite bit: a bit outside `M` is
the framebuffer's, a bit inside `M` is the AND of the blend state's and the
framebuffer's. -/
theorem region_pe_color_format_bits (ctx : etna_context) (dirty : Nat)
    (hd : dirty &&& (ETNA_DIRTY_BLEND ||| ETNA_DIRTY_FRAMEBUFFER) ≠ 0) :
    ∃ v : Nat, region_pe_color_format ctx dirty = [emit_op.state VIVS_PE_COLOR_FORMAT v] ∧
      ∀ i, i < 32 →
        ((VIVS_PE_COLOR_FORMAT_COMPONENTS__MASK ||| VIVS_PE_COLOR_FORMAT_OVERWRITE).testBit i =
            false →
          v.testBit i = ctx.framebuffer.PE_COLOR_FORMAT.testBit i) ∧
        ((VIVS_PE_COLOR_FORMAT_COMPONENTS__MASK ||| VIVS_PE_COLOR_FORMAT_OVERWRITE).testBit i =
            true →
          v.testBit i = (ctx.blend.PE_COLOR_FORMAT.testBit i &&
            ctx.framebuffer.PE_COLOR_FORMAT.testBit i)) := by
  refine ⟨_, by unfold region_pe_color_format; rw [if_pos hd], ?_⟩
  intro i hi
  simp only [Nat.testBit_and, Nat.testBit_or, testBit_not_u32 _ i hi]
  constructor
  · intro hm
    simp [hm]
  · intro hm
    simp [hm]

/-- C35: `etna_emit_state` never writes gpu3d.GL_MULTI_SAMPLE_CONFIG and never
writes the framebuffer state: on every context state on which it returns, both
have their value from before the call, so a sample-count field of the mirror
that differs from the framebuffer's before the pass still differs after it. -/
theorem etna_emit_state_multi_sample_mirror (d : Bool)
    (l : etna_context → compiled_shader_state) (ctx ctx' : etna_context)
    (h : etna_emit_state d l ctx = some ctx') :
    ctx'.gpu3d.GL_MULTI_SAMPLE_CONFIG = ctx.gpu3d.GL_MULTI_SAMPLE_CONFIG ∧
      ctx'.framebuffer = ctx.framebuffer ∧
      (ctx.gpu3d.GL_MULTI_SAMPLE_CONFIG &&& VIVS_GL_MULTI_SAMPLE_CONFIG_MSAA_SAMPLES__MASK ≠
          ctx.framebuffer.GL_MULTI_SAMPLE_CONFIG &&&
            VIVS_GL_MULTI_SAMPLE_CONFIG_MSAA_SAMPLES__MASK →
        ctx'.gpu3d.GL_MULTI_SAMPLE_CONFIG &&& VIVS_GL_MULTI_SAMPLE_CONFIG_MSAA_SAMPLES__MASK ≠
          ctx'.framebuffer.GL_MULTI_SAMPLE_CONFIG &&&
            VIVS_GL_MULTI_SAMPLE_CONFIG_MSAA_SAMPLES__MASK) := by
  obtain ⟨ve, ops, -, -, h2⟩ := etna_emit_state_some d l ctx ctx' h
  have hr := emit_state_relink_frame l ctx
  have hg : (emit_state_relink l ctx).gpu3d = ctx.gpu3d := by rw [hr]
  have hf : ctx'.framebuffer = ctx.framebuffer := by rw [h2, hr]
  have e1 : ctx'.gpu3d.GL_MULTI_SAMPLE_CONFIG = ctx.gpu3d.GL_MULTI_SAMPLE_CONFIG := by
    have e0 : ctx'.gpu3d.GL_MULTI_SAMPLE_CONFIG =
        (emit_state_msaa_clobber (emit_state_relink l ctx) ctx.dirty).GL_MULTI_SAMPLE_CONFIG := by
      rw [h2]; exact (emit_state_uniforms_frame _ _ _ _).2.2
    rw [e0]
    unfold emit_state_msaa_clobber
    rw [hg]
    split <;> rfl
  refine ⟨e1, hf, ?_⟩
  intro hne
  rw [e1, hf]
  exact hne

/-- C35 (witness): a pass with the framebuffer category dirty and a mirror whose
sample-count field is 1 against the framebuffer's 0. -/
theorem etna_emit_state_multi_sample_mirror_witness :
    ∃ ctx', etna_emit_state false (fun c => c.shader_state)
        { blank_context with
          dirty := ETNA_DIRTY_FRAMEBUFFER
          gpu3d := { blank_context.gpu3d with GL_MULTI_SAMPLE_CONFIG := 1 } } = some ctx' ∧
      ctx'.gpu3d.GL_MULTI_SAMPLE_CONFIG = 1 :=
  ⟨_, rfl, (etna_emit_state_multi_sample_mirror false (fun c => c.shader_state)
    { blank_context with
      dirty := ETNA_DIRTY_FRAMEBUFFER
      gpu3d := { blank_context.gpu3d with GL_MULTI_SAMPLE_CONFIG := 1 } } _ rfl).1⟩

/-- C36: the coalescer uses `last_reg == 0` as its "no packet open" marker.  With
no packet open, a write to register address 0 leaves the marker in place, so
the next write (to a non-zero address such as 4, whatever its tag) opens a new
load-state header right after the value without closing the first packet; the
header for register 0 keeps its count field 0 through every later emission to
non-zero registers and the final `etna_coalesce_end` (offsets within 32
bits).  From any coalescer state, a write to register 0 leaves `last_reg` at 0
and the next write appends a header and its value, touching no earlier word. -/
theorem coalesce_register_zero_marker (s : etna_cmd_stream) (c : etna_coalesce)
    (hc : c.last_reg = 0) (t1 t2 : Bool) (v1 reg v2 : Nat) (hreg : reg ≠ 0)
    (ops : List emit_op) (hops : ∀ w ∈ ops.filterMap emit_op.write, w.reg ≠ 0)
    (hlen : s.buffer.length + 4 + 3 * (ops.filterMap emit_op.write).length < U32) :
    ((reg_write.op ⟨0, t1, v1⟩).apply (s, c)).1.buffer =
        s.buffer ++ [load_state_header 0 0 t1.toNat, v1] ∧
      ((reg_write.op ⟨0, t1, v1⟩).apply (s, c)).2.last_reg = 0 ∧
      ((reg_write.op ⟨reg, t2, v2⟩).apply ((reg_write.op ⟨0, t1, v1⟩).apply (s, c))).1.buffer =
        s.buffer ++ [load_state_header 0 0 t1.toNat, v1,
          load_state_header (reg >>> 2) 0 t2.toNat, v2] ∧
      (etna_coalesce_end
          (emit_ops (s, c) (reg_write.op ⟨0, t1, v1⟩ :: reg_write.op ⟨reg, t2, v2⟩ :: ops)).1
          (emit_ops (s, c)
            (reg_write.op ⟨0, t1, v1⟩ :: reg_write.op ⟨reg, t2, v2⟩ :: ops)).2).buffer =
        s.buffer ++ [load_state_header 0 0 t1.toNat, v1] ++
          encode_packets (s.buffer.length + 2)
            (group_from ⟨reg, t2, [v2]⟩ reg (ops.filterMap emit_op.write)) ∧
      header_count (load_state_header 0 0 t1.toNat) = 0 ∧
      (∀ (s0 : etna_cmd_stream) (c0 : etna_coalesce),
        ((reg_write.op ⟨0, t1, v1⟩).apply (s0, c0)).2.last_reg = 0 ∧
          ((reg_write.op ⟨reg, t2, v2⟩).apply
              ((reg_write.op ⟨0, t1, v1⟩).apply (s0, c0))).1.buffer =
            ((reg_write.op ⟨0, t1, v1⟩).apply (s0, c0)).1.buffer ++
              [load_state_header (reg >>> 2) 0 t2.toNat, v2]) := by
  have hw1 := emit_op_apply_write (s, c) (reg_write.op ⟨0, t1, v1⟩) ⟨0, t1, v1⟩ (write_op _)
  rw [check_coalsence_closed s c 0 t1.toNat hc] at hw1
  have hb1 : ((reg_write.op ⟨0, t1, v1⟩).apply (s, c)).1.buffer =
      s.buffer ++ [load_state_header 0 0 t1.toNat, v1] := by
    rw [hw1.1]; simp
  have hl1 : ((reg_write.op ⟨0, t1, v1⟩).apply (s, c)).2.last_reg = 0 := by
    rw [hw1.2]
  have hopen := emit_op_apply_closed ((reg_write.op ⟨0, t1, v1⟩).apply (s, c)).1
    ((reg_write.op ⟨0, t1, v1⟩).apply (s, c)).2 hl1 (reg_write.op ⟨reg, t2, v2⟩)
    ⟨reg, t2, v2⟩ (write_op _) hreg
  have hb2 := hopen.1
  rw [hb1] at hb2
  refine ⟨hb1, hl1, by rw [hb2]; simp, ?_, ?_, ?_⟩
  · rw [emit_ops_cons, emit_ops_cons]
    have hl2 : ((reg_write.op ⟨reg, t2, v2⟩).apply
        ((reg_write.op ⟨0, t1, v1⟩).apply (s, c))).1.buffer.length = s.buffer.length + 4 := by
      rw [hb2]; simp
    have := emit_ops_open ops _ _ _ _ _ hopen hops (by rw [hl2]; exact hlen)
    rw [this, hb1]
    simp
  · rw [header_count_load_state_header]
  · intro s0 c0
    have h0 : ((reg_write.op ⟨0, t1, v1⟩).apply (s0, c0)).2.last_reg = 0 := by
      rw [(emit_op_apply_write (s0, c0) (reg_write.op ⟨0, t1, v1⟩) ⟨0, t1, v1⟩ (write_op _)).2]
      simp [check_coalsence]
    refine ⟨h0, ?_⟩
    have h2 := emit_op_apply_closed ((reg_write.op ⟨0, t1, v1⟩).apply (s0, c0)).1
      ((reg_write.op ⟨0, t1, v1⟩).apply (s0, c0)).2 h0 (reg_write.op ⟨reg, t2, v2⟩)
      ⟨reg, t2, v2⟩ (write_op _) hreg
    rw [h2.1]

/-- C36 (witness): two plain writes to the registers 0 and 4 from the empty
stream, with nothing after them. -/
theorem coalesce_register_zero_marker_witness :
    ((reg_write.op ⟨4, false, 9⟩).apply
        ((reg_write.op ⟨0, false, 7⟩).apply (⟨[], []⟩, ⟨0, 0, 0⟩))).1.buffer =
      [] ++ [load_state_header 0 0 false.toNat, 7, load_state_header (4 >>> 2) 0 false.toNat, 9] :=
  (coalesce_register_zero_marker ⟨[], []⟩ ⟨0, 0, 0⟩ rfl false false 7 4 9 (by decide) []
    (by decide) (by decide)).2.2.1

/-- Compiling a descriptor with other clear bits changes only RS_CLEAR_CONTROL. -/
theorem etna_compile_rs_state_clear_bits (NDEBUG : Bool) (pixel_pipes : Nat) (rs : rs_state)
    (b : Nat) :
    etna_compile_rs_state NDEBUG pixel_pipes { rs with clear_bits := b } =
      (etna_compile_rs_state NDEBUG pixel_pipes rs).map (fun cs =>
        { cs with RS_CLEAR_CONTROL := VIVS_RS_CLEAR_CONTROL_BITS b ||| rs.clear_mode }) := by
  unfold etna_compile_rs_state
  simp only
  by_cases hw : rs.width &&& ETNA_RS_WIDTH_MASK = 0
  · by_cases h1 : pixel_pipes = 1
    · simp [hw, h1]
    · by_cases h2 : pixel_pipes = 2
      · by_cases hh : NDEBUG = true ∨ rs.height &&& 7 = 0
        · simp [hw, h2, hh]
        · simp [hw, h2, hh]
      · simp [hw, h1, h2]
  · simp [hw]

/-- C37: for every resolve descriptor `rs` accepted by `etna_compile_rs_state`
whose `clear_mode` (a 32-bit value) has no bit inside the clear-bits field, and
every value `b`, `etna_modify_rs_clearbits(., b)` applied to the block compiled
from `rs` is exactly the block compiled from `rs` with `clear_bits` replaced by
`b`; and applying it twice with the same `b` gives the same block as once. -/
theorem etna_modify_rs_clearbits_compile (NDEBUG : Bool) (pixel_pipes : Nat) (rs : rs_state)
    (cs : compiled_rs_state) (b : Nat)
    (h : etna_compile_rs_state NDEBUG pixel_pipes rs = some cs)
    (hm : rs.clear_mode &&& VIVS_RS_CLEAR_CONTROL_BITS__MASK = 0)
    (hlt : rs.clear_mode < U32) :
    etna_compile_rs_state NDEBUG pixel_pipes { rs with clear_bits := b } =
        some (etna_modify_rs_clearbits cs b) ∧
      etna_modify_rs_clearbits (etna_modify_rs_clearbits cs b) b =
        etna_modify_rs_clearbits cs b := by
  have hmode : rs.clear_mode % 65536 = 0 := by
    have h16 := Nat.and_pow_two_sub_one_eq_mod rs.clear_mode 16
    have hm2 : rs.clear_mode &&& (2 ^ 16 - 1) = 0 := hm
    rw [hm2] at h16
    omega
  have key : ∀ (x : Nat),
      ((VIVS_RS_CLEAR_CONTROL_BITS x ||| rs.clear_mode) &&&
          not_u32 VIVS_RS_CLEAR_CONTROL_BITS__MASK) ||| VIVS_RS_CLEAR_CONTROL_BITS b =
        VIVS_RS_CLEAR_CONTROL_BITS b ||| rs.clear_mode := by
    intro x
    have hsum : VIVS_RS_CLEAR_CONTROL_BITS x ||| rs.clear_mode =
        2 ^ 16 * (rs.clear_mode / 65536) + x % 65536 := by
      rw [Nat.lor_comm, clear_bits_field]
      have e : rs.clear_mode = 2 ^ 16 * (rs.clear_mode / 65536) := by omega
      rw [e]
      have := lor_eq_add (rs.clear_mode / 65536) (x % 65536) 16 (Nat.mod_lt _ (by norm_num))
      rw [this]
      omega
    have hlt2 : VIVS_RS_CLEAR_CONTROL_BITS x ||| rs.clear_mode < U32 := by
      rw [hsum]; unfold U32 at hlt ⊢; omega
    rw [and_high_half _ hlt2, hsum]
    have e2 : (2 ^ 16 * (rs.clear_mode / 65536) + x % 65536) / 65536 =
        rs.clear_mode / 65536 := by omega
    rw [e2]
    have e : 2 ^ 16 * (rs.clear_mode / 65536) = rs.clear_mode := by omega
    rw [e, Nat.lor_comm]
  have hmod : ∀ (y : compiled_rs_state) (x : Nat),
      y.RS_CLEAR_CONTROL = VIVS_RS_CLEAR_CONTROL_BITS x ||| rs.clear_mode →
      etna_modify_rs_clearbits y b =
        { y with RS_CLEAR_CONTROL := VIVS_RS_CLEAR_CONTROL_BITS b ||| rs.clear_mode } := by
    intro y x hy
    unfold etna_modify_rs_clearbits
    simp only
    rw [hy, key]
  have hcc := (etna_compile_rs_state_fields NDEBUG pixel_pipes rs cs h).2.2.2.2.2.2
  have e1 := hmod cs rs.clear_bits hcc
  refine ⟨?_, ?_⟩
  · rw [etna_compile_rs_state_clear_bits, h, Option.map_some', e1]
  · rw [hmod (etna_modify_rs_clearbits cs b) b (by rw [e1]), e1]

/-- C37 (witness): a 16 by 8 descriptor with clear mode 0x10000 and clear bits 5,
modified to clear bits 0xff. -/
theorem etna_modify_rs_clearbits_compile_witness :
    ∃ cs, etna_compile_rs_state false 1
        { blank_rs_state with width := 16, height := 8, clear_bits := 5, clear_mode := 0x10000 } =
        some cs ∧
      etna_compile_rs_state false 1
        { blank_rs_state with width := 16, height := 8, clear_bits := 0xff, clear_mode := 0x10000 } =
        some (etna_modify_rs_clearbits cs 0xff) :=
  ⟨_, rfl, (etna_modify_rs_clearbits_compile false 1
    { blank_rs_state with width := 16, height := 8, clear_bits := 5, clear_mode := 0x10000 }
    _ 0xff rfl (by decide) (by decide)).1⟩

theorem coalesced_region_nil_even (s : etna_cmd_stream) (max : Nat)
    (h : s.buffer.length % 2 = 0) : coalesced_region s max [] = s := by
  rw [coalesced_region_nil]
  unfold padding
  rw [if_neg (by omega), List.append_nil]

theorem filter_differing_nil (n : Nat) (mirror new_values : Nat → Nat)
    (h : ∀ x, x < n → mirror x = new_values x) :
    (List.range n).filter (fun x => decide (mirror x ≠ new_values x)) = [] := by
  rw [List.filter_eq_nil_iff]
  intro x hx
  simp [h x (List.mem_range.mp hx)]

/-- The mirror left by the upload phase when the shader category is clean. -/
theorem emit_state_uniforms_sparse_mirror (ctx : etna_context) (dirty : Nat)
    (stream : etna_cmd_stream) (g : etna_3d_state) (hs : dirty &&& ETNA_DIRTY_SHADER = 0) :
    (emit_state_uniforms ctx dirty stream g).2.VS_UNIFORMS =
        (if dirty &&& ETNA_DIRTY_VS_UNIFORMS ≠ 0 then
          fun x => if x < ctx.shader_state.vs_uniforms_size then ctx.shader_state.VS_UNIFORMS x
            else g.VS_UNIFORMS x
         else g.VS_UNIFORMS) ∧
      (emit_state_uniforms ctx dirty stream g).2.PS_UNIFORMS =
        (if dirty &&& ETNA_DIRTY_PS_UNIFORMS ≠ 0 then
          fun x => if x < ctx.shader_state.ps_uniforms_size then ctx.shader_state.PS_UNIFORMS x
            else g.PS_UNIFORMS x
         else g.PS_UNIFORMS) := by
  unfold emit_state_uniforms
  rw [if_neg (by simp [hs])]
  by_cases hv : dirty &&& ETNA_DIRTY_VS_UNIFORMS ≠ 0 <;>
    by_cases hp : dirty &&& ETNA_DIRTY_PS_UNIFORMS ≠ 0 <;>
    simp only [hv, hp, ne_eq, not_false_eq_true, not_true_eq_false, if_true, if_false,
      uniform_update_mirror, and_self]

/-- C38: the sparse uniform update is idempotent.  For two consecutive passes of
`etna_emit_state` with the shader category clean, the second one starting from
the state left by the first with only `ctx->dirty` set again, and every uniform
category that is dirty in the second pass dirty in the first as well: the
second pass appends no word after its region (and optional stall), and leaves
both uniform mirrors as the first pass left them. -/
theorem etna_emit_state_uniforms_idempotent (d : Bool)
    (l : etna_context → compiled_shader_state) (ctx ctx1 ctx3 : etna_context) (dirty2 : Nat)
    (h1 : etna_emit_state d l ctx = some ctx1)
    (h2 : etna_emit_state d l { ctx1 with dirty := dirty2 } = some ctx3)
    (hs1 : ctx.dirty &&& ETNA_DIRTY_SHADER = 0) (hs2 : dirty2 &&& ETNA_DIRTY_SHADER = 0)
    (hv : dirty2 &&& ETNA_DIRTY_VS_UNIFORMS ≠ 0 → ctx.dirty &&& ETNA_DIRTY_VS_UNIFORMS ≠ 0)
    (hp : dirty2 &&& ETNA_DIRTY_PS_UNIFORMS ≠ 0 → ctx.dirty &&& ETNA_DIRTY_PS_UNIFORMS ≠ 0) :
    ctx3.shader_state = ctx.shader_state ∧
      ctx3.gpu3d.VS_UNIFORMS = ctx1.gpu3d.VS_UNIFORMS ∧
      ctx3.gpu3d.PS_UNIFORMS = ctx1.gpu3d.PS_UNIFORMS ∧
      ∃ ve ops, ctx1.vertex_elements = some ve ∧
        etna_emit_state_region { ctx1 with dirty := dirty2 } dirty2
          (active_samplers_bits { ctx1 with dirty := dirty2 }) = some ops ∧
        ctx3.stream = emit_state_shader_stall { ctx1 with dirty := dirty2 }
          (coalesced_region
            (emit_state_vertex_elements dirty2 ve (emit_state_flush d dirty2 ctx1.stream))
            ETNA_3D_CONTEXT_SIZE ops) := by
  -- the first pass
  obtain ⟨ve1, ops1, -, -, e1⟩ := etna_emit_state_some d l ctx ctx1 h1
  rw [emit_state_relink_clean l ctx hs1] at e1
  have hsh1 : ctx1.shader_state = ctx.shader_state := by rw [e1]
  have hg1 : ctx1.gpu3d = (emit_state_uniforms ctx ctx.dirty
      (emit_state_shader_stall ctx (coalesced_region
        (emit_state_vertex_elements ctx.dirty ve1 (emit_state_flush d ctx.dirty ctx.stream))
        ETNA_3D_CONTEXT_SIZE ops1))
      (emit_state_msaa_clobber ctx ctx.dirty)).2 := by rw [e1]
  have hm1 := emit_state_uniforms_mirror ctx ctx.dirty
    (emit_state_shader_stall ctx (coalesced_region
      (emit_state_vertex_elements ctx.dirty ve1 (emit_state_flush d ctx.dirty ctx.stream))
      ETNA_3D_CONTEXT_SIZE ops1))
    (emit_state_msaa_clobber ctx ctx.dirty)
  rw [← hg1] at hm1
  -- the second pass
  obtain ⟨ve, ops, hve, hops, e3⟩ :=
    etna_emit_state_some d l { ctx1 with dirty := dirty2 } ctx3 h2
  rw [emit_state_relink_clean l { ctx1 with dirty := dirty2 } hs2] at hops e3
  have heven := emit_state_shader_stall_even { ctx1 with dirty := dirty2 } _
    (coalesced_region_even
      (emit_state_vertex_elements dirty2 ve (emit_state_flush d dirty2 ctx1.stream))
      ETNA_3D_CONTEXT_SIZE ops)
  have hvs : dirty2 &&& ETNA_DIRTY_VS_UNIFORMS ≠ 0 →
      ∀ x, x < ctx.shader_state.vs_uniforms_size →
        ctx1.gpu3d.VS_UNIFORMS x = ctx.shader_state.VS_UNIFORMS x :=
    fun h2v => hm1.1 ((and_lor_ne_zero _ _ _).2 (Or.inr (hv h2v)))
  have hps : dirty2 &&& ETNA_DIRTY_PS_UNIFORMS ≠ 0 →
      ∀ x, x < ctx.shader_state.ps_uniforms_size →
        ctx1.gpu3d.PS_UNIFORMS x = ctx.shader_state.PS_UNIFORMS x :=
    fun h2p => hm1.2.1 ((and_lor_ne_zero _ _ _).2 (Or.inr (hp h2p)))
  have hmc := emit_state_msaa_clobber_uniforms { ctx1 with dirty := dirty2 } dirty2
  simp only at hmc
  have hst : ctx3.stream = (emit_state_uniforms { ctx1 with dirty := dirty2 } dirty2
      (emit_state_shader_stall { ctx1 with dirty := dirty2 } (coalesced_region
        (emit_state_vertex_elements dirty2 ve (emit_state_flush d dirty2 ctx1.stream))
        ETNA_3D_CONTEXT_SIZE ops))
      (emit_state_msaa_clobber { ctx1 with dirty := dirty2 } dirty2)).1 := by rw [e3]
  have hg3 : ctx3.gpu3d = (emit_state_uniforms { ctx1 with dirty := dirty2 } dirty2
      (emit_state_shader_stall { ctx1 with dirty := dirty2 } (coalesced_region
        (emit_state_vertex_elements dirty2 ve (emit_state_flush d dirty2 ctx1.stream))
        ETNA_3D_CONTEXT_SIZE ops))
      (emit_state_msaa_clobber { ctx1 with dirty := dirty2 } dirty2)).2 := by rw [e3]
  have hmir := emit_state_uniforms_sparse_mirror { ctx1 with dirty := dirty2 } dirty2
    (emit_state_shader_stall { ctx1 with dirty := dirty2 } (coalesced_region
      (emit_state_vertex_elements dirty2 ve (emit_state_flush d dirty2 ctx1.stream))
      ETNA_3D_CONTEXT_SIZE ops))
    (emit_state_msaa_clobber { ctx1 with dirty := dirty2 } dirty2) hs2
  rw [← hg3, hmc.1, hmc.2] at hmir
  simp only [hsh1] at hmir
  refine ⟨by rw [e3]; exact hsh1, ?_, ?_, ve, ops, hve, hops, ?_⟩
  · rw [hmir.1]
    split
    · rename_i h2v
      funext x
      split
      · rename_i hx; exact (hvs h2v x hx).symm
      · rfl
    · rfl
  · rw [hmir.2]
    split
    · rename_i h2p
      funext x
      split
      · rename_i hx; exact (hps h2p x hx).symm
      · rfl
    · rfl
  · rw [hst, emit_state_uniforms_sparse _ _ _ _ hs2]
    simp only [hmc.1, hmc.2]
    have hvnil : dirty2 &&& ETNA_DIRTY_VS_UNIFORMS ≠ 0 →
        (List.range ctx1.shader_state.vs_uniforms_size).filter
          (fun x => decide (ctx1.gpu3d.VS_UNIFORMS x ≠ ctx1.shader_state.VS_UNIFORMS x)) = [] :=
      fun h2v => filter_differing_nil _ _ _ (by rw [hsh1]; exact hvs h2v)
    have hpnil : dirty2 &&& ETNA_DIRTY_PS_UNIFORMS ≠ 0 →
        (List.range ctx1.shader_state.ps_uniforms_size).filter
          (fun x => decide (ctx1.gpu3d.PS_UNIFORMS x ≠ ctx1.shader_state.PS_UNIFORMS x)) = [] :=
      fun h2p => filter_differing_nil _ _ _ (by rw [hsh1]; exact hps h2p)
    by_cases h2v : dirty2 &&& ETNA_DIRTY_VS_UNIFORMS ≠ 0 <;>
      by_cases h2p : dirty2 &&& ETNA_DIRTY_PS_UNIFORMS ≠ 0
    · rw [if_pos h2p, if_pos h2v, hvnil h2v, hpnil h2p, List.map_nil, List.map_nil,
        coalesced_region_nil_even _ _ heven, coalesced_region_nil_even _ _ heven]
    · rw [if_neg h2p, if_pos h2v, hvnil h2v, List.map_nil,
        coalesced_region_nil_even _ _ heven]
    · rw [if_pos h2p, if_neg h2v, hpnil h2p, List.map_nil,
        coalesced_region_nil_even _ _ heven]
    · rw [if_neg h2p, if_neg h2v]

/-- C38 (witness): two passes with the vertex-uniform category dirty over two
vertex uniforms; the second pass leaves the stream of the first. -/
theorem etna_emit_state_uniforms_idempotent_witness :
    ∃ ctx1 ctx3, etna_emit_state false (fun c => c.shader_state)
        { blank_context with
          dirty := ETNA_DIRTY_VS_UNIFORMS
          shader_state := { blank_context.shader_state with vs_uniforms_size := 2, VS_UNIFORMS := fun x => 7 + 2 * x } } = some ctx1 ∧
      etna_emit_state false (fun c => c.shader_state)
        { ctx1 with dirty := ETNA_DIRTY_VS_UNIFORMS } = some ctx3 ∧
      ctx3.gpu3d.VS_UNIFORMS = ctx1.gpu3d.VS_UNIFORMS :=
  ⟨_, _, rfl, rfl, (etna_emit_state_uniforms_idempotent false (fun c => c.shader_state)
    { blank_context with
      dirty := ETNA_DIRTY_VS_UNIFORMS
      shader_state := { blank_context.shader_state with vs_uniforms_size := 2, VS_UNIFORMS := fun x => 7 + 2 * x } }
    _ _ ETNA_DIRTY_VS_UNIFORMS rfl rfl (by decide) (by decide) (fun _ => by decide)
    (fun hc => absurd (by decide) hc)).2.1⟩

/-- C39: `etna_cmd_stream_reset_notify` appends exactly the four base-setup
register writes (GL_API_MODE, GL_VERTEX_ELEMENT_CONFIG, RA_EARLY_DEPTH and
PA_W_CLIP_LIMIT, one load-state packet of count 1 each) and sets every bit of
`ctx->dirty`: each of the 32 bits read by `etna_emit_state` is set, so every
dirty-mask test of the next `etna_emit_state` succeeds, and its upload phase
takes the full path that re-loads the instruction memories and all uniforms and
copies them to the mirror. -/
theorem etna_cmd_stream_reset_notify_dirty (s : etna_cmd_stream) :
    (etna_cmd_stream_reset_notify s).1.buffer =
        s.buffer ++
          [load_state_header (VIVS_GL_API_MODE >>> 2) 1 0, VIVS_GL_API_MODE_OPENGL,
            load_state_header (VIVS_GL_VERTEX_ELEMENT_CONFIG >>> 2) 1 0, 0x00000001,
            load_state_header (VIVS_RA_EARLY_DEPTH >>> 2) 1 0, 0x00000031,
            load_state_header (VIVS_PA_W_CLIP_LIMIT >>> 2) 1 0, 0x34000001] ∧
      (etna_cmd_stream_reset_notify s).1.relocs = s.relocs ∧
      decode_stream
          [load_state_header (VIVS_GL_API_MODE >>> 2) 1 0, VIVS_GL_API_MODE_OPENGL,
            load_state_header (VIVS_GL_VERTEX_ELEMENT_CONFIG >>> 2) 1 0, 0x00000001,
            load_state_header (VIVS_RA_EARLY_DEPTH >>> 2) 1 0, 0x00000031,
            load_state_header (VIVS_PA_W_CLIP_LIMIT >>> 2) 1 0, 0x34000001] =
        [⟨VIVS_GL_API_MODE, false, VIVS_GL_API_MODE_OPENGL⟩,
          ⟨VIVS_GL_VERTEX_ELEMENT_CONFIG, false, 0x00000001⟩,
          ⟨VIVS_RA_EARLY_DEPTH, false, 0x00000031⟩,
          ⟨VIVS_PA_W_CLIP_LIMIT, false, 0x34000001⟩] ∧
      (∀ i, i < 32 → (etna_cmd_stream_reset_notify s).2.testBit i = true) ∧
      (∀ m, 0 < m → m < U32 → (etna_cmd_stream_reset_notify s).2 &&& m ≠ 0) ∧
      (∀ (ctx : etna_context) (stream : etna_cmd_stream) (g : etna_3d_state),
        emit_state_uniforms ctx (etna_cmd_stream_reset_notify s).2 stream g =
          (etna_set_state_multi
            (etna_set_state_multi
              (etna_set_state_multi
                (etna_set_state_multi stream ctx.specs.vs_offset
                  ctx.shader_state.vs_inst_mem_size ctx.shader_state.VS_INST_MEM)
                ctx.specs.ps_offset ctx.shader_state.ps_inst_mem_size
                ctx.shader_state.PS_INST_MEM)
              (VIVS_VS_UNIFORMS 0) ctx.shader_state.vs_uniforms_size
              ctx.shader_state.VS_UNIFORMS)
            (VIVS_PS_UNIFORMS 0) ctx.shader_state.ps_uniforms_size
            ctx.shader_state.PS_UNIFORMS,
          { g with
            vs_uniforms_size := ctx.shader_state.vs_uniforms_size
            ps_uniforms_size := ctx.shader_state.ps_uniforms_size
            VS_UNIFORMS := memcpy_words g.VS_UNIFORMS ctx.shader_state.VS_UNIFORMS
              ctx.shader_state.vs_uniforms_size
            PS_UNIFORMS := memcpy_words g.PS_UNIFORMS ctx.shader_state.PS_UNIFORMS
              ctx.shader_state.ps_uniforms_size
            VS_INST_MEM := memcpy_words g.VS_INST_MEM ctx.shader_state.VS_INST_MEM
              ctx.shader_state.vs_inst_mem_size
            PS_INST_MEM := memcpy_words g.PS_INST_MEM ctx.shader_state.PS_INST_MEM
              ctx.shader_state.ps_inst_mem_size })) := by
  have hd : (etna_cmd_stream_reset_notify s).2 = 2 ^ 32 - 1 := rfl
  refine ⟨?_, ?_, by decide, ?_, ?_, ?_⟩
  · simp [etna_cmd_stream_reset_notify, etna_set_state, etna_emit_load_state,
      etna_cmd_stream_emit, etna_cmd_stream_reserve]
  · simp [etna_cmd_stream_reset_notify, etna_set_state, etna_emit_load_state,
      etna_cmd_stream_emit, etna_cmd_stream_reserve]
  · intro i hi
    rw [hd, Nat.testBit_two_pow_sub_one]
    simp [hi]
  · intro m hm hlt
    rw [hd, Nat.and_comm, Nat.and_pow_two_sub_one_eq_mod]
    unfold U32 at hlt
    omega
  · intro ctx stream g
    unfold emit_state_uniforms
    rw [if_pos (by rw [hd]; decide)]

/-- C39 (witness): the framebuffer bit of the dirty set left by a notify on the
empty stream. -/
theorem etna_cmd_stream_reset_notify_dirty_witness :
    (etna_cmd_stream_reset_notify ⟨[], []⟩).2 &&& ETNA_DIRTY_FRAMEBUFFER ≠ 0 :=
  (etna_cmd_stream_reset_notify_dirty ⟨[], []⟩).2.2.2.2.1 ETNA_DIRTY_FRAMEBUFFER (by decide)
    (by decide)

/-! ## The rule table of the region -/

theorem written_regs_nil : written_regs [] = [] := rfl

theorem written_regs_cons_state (r v : Nat) (ops : List emit_op) :
    written_regs (emit_op.state r v :: ops) = r :: written_regs ops := rfl

theorem written_regs_cons_fixp (r v : Nat) (ops : List emit_op) :
    written_regs (emit_op.state_fixp r v :: ops) = r :: written_regs ops := rfl

theorem written_regs_cons_reloc (r : Nat) (x : etna_reloc) (ops : List emit_op) :
    written_regs (emit_op.state_reloc r x :: ops) =
      (if x.bo.isSome = true then [r] else []) ++ written_regs ops := by
  cases hb : x.bo <;> simp [written_regs, List.filterMap_cons, emit_op.write, hb]

theorem written_regs_map_state (l : List Nat) (f g : Nat → Nat) :
    written_regs (l.map (fun x => emit_op.state (f x) (g x))) = l.map f := by
  induction l with
  | nil => rfl
  | cons x xs ih => rw [List.map_cons, written_regs_cons_state, ih, List.map_cons]

theorem written_regs_map_reloc (l : List Nat) (f : Nat → Nat) (g : Nat → etna_reloc) :
    written_regs (l.map (fun x => emit_op.state_reloc (f x) (g x))) =
      (l.filter (fun x => (g x).bo.isSome)).map f := by
  induction l with
  | nil => rfl
  | cons x xs ih =>
    rw [List.map_cons, written_regs_cons_reloc, ih, List.filter_cons]
    split <;> simp

theorem gated_registers_nil : gated_registers [] = [] := rfl

theorem gated_registers_cons (r : Nat) (g : Bool) (l : List (Nat × Bool)) :
    gated_registers ((r, g) :: l) = (if g = true then [r] else []) ++ gated_registers l := by
  cases g <;> simp [gated_registers, List.filter_cons]

theorem gated_registers_append (a b : List (Nat × Bool)) :
    gated_registers (a ++ b) = gated_registers a ++ gated_registers b := by
  simp [gated_registers, List.filter_append]

theorem gated_registers_map (l : List Nat) (f : Nat → Nat) (g : Nat → Bool) :
    gated_registers (l.map (fun x => (f x, g x))) = (l.filter g).map f := by
  induction l with
  | nil => rfl
  | cons x xs ih =>
    rw [List.map_cons, gated_registers_cons, ih, List.filter_cons]
    cases g x <;> simp

theorem gated_registers_map_true (l : List Nat) (f : Nat → Nat) :
    gated_registers (l.map (fun x => (f x, true))) = l.map f := by
  rw [gated_registers_map l f (fun _ => true)]
  simp

theorem gated_registers_flatMap (l : List Nat) (F : Nat → List (Nat × Bool)) :
    gated_registers (l.flatMap F) = l.flatMap (fun y => gated_registers (F y)) := by
  induction l with
  | nil => rfl
  | cons y ys ih => simp [List.flatMap_cons, gated_registers_append, ih]

theorem filter_filter_and (l : List Nat) (p q : Nat → Bool) :
    (l.filter p).filter q = l.filter (fun x => p x && q x) := by
  rw [List.filter_filter]
  congr 1
  funext x
  exact Bool.and_comm _ _

theorem region_multi_sample_rule (ctx : etna_context) (dirty : Nat) :
    written_regs (region_multi_sample ctx dirty) =
      region_rule.written dirty
        ⟨ETNA_DIRTY_FRAMEBUFFER ||| ETNA_DIRTY_SAMPLE_MASK,
      [(VIVS_GL_MULTI_SAMPLE_CONFIG, true)]⟩ := by
  unfold region_multi_sample region_rule.written
  simp only
  split_ifs <;>
    simp [written_regs_append, written_regs_cons_state, written_regs_cons_fixp,
      written_regs_cons_reloc, written_regs_nil, written_regs_map_state, written_regs_map_reloc,
      gated_registers_nil, gated_registers_cons, gated_registers_append, gated_registers_map,
      gated_registers_map_true, gated_registers_flatMap, written_regs_flatMap,
      filter_filter_and]

theorem region_index_buffer_rule (ctx : etna_context) (dirty : Nat) :
    written_regs (region_index_buffer ctx dirty) =
      region_rule.written dirty
        ⟨ETNA_DIRTY_INDEX_BUFFER,
      [(VIVS_FE_INDEX_STREAM_BASE_ADDR,
          ctx.index_buffer.ib_buffer.isSome &&
            ctx.index_buffer.FE_INDEX_STREAM_BASE_ADDR.bo.isSome),
        (VIVS_FE_INDEX_STREAM_CONTROL, ctx.index_buffer.ib_buffer.isSome)]⟩ := by
  unfold region_index_buffer region_rule.written
  simp only
  split_ifs <;>
    simp_all [written_regs_append, written_regs_cons_state, written_regs_cons_fixp,
      written_regs_cons_reloc, written_regs_nil, written_regs_map_state, written_regs_map_reloc,
      gated_registers_nil, gated_registers_cons, gated_registers_append, gated_registers_map,
      gated_registers_map_true, gated_registers_flatMap, written_regs_flatMap,
      filter_filter_and]

theorem region_vertex_buffers_rule (ctx : etna_context) (dirty : Nat) :
    written_regs (region_vertex_buffers ctx dirty) =
      region_rule.written dirty
        ⟨ETNA_DIRTY_VERTEX_BUFFERS,
      [(VIVS_FE_VERTEX_STREAM_BASE_ADDR,
          (ctx.vertex_buffer.cvb 0).FE_VERTEX_STREAM_BASE_ADDR.bo.isSome),
        (VIVS_FE_VERTEX_STREAM_CONTROL, true)] ++
        (List.range' 1 (ctx.vertex_buffer.count - 1)).map (fun x =>
          (VIVS_FE_VERTEX_STREAMS_BASE_ADDR x,
            (ctx.vertex_buffer.cvb x).FE_VERTEX_STREAM_BASE_ADDR.bo.isSome)) ++
        (List.range' 1 (ctx.vertex_buffer.count - 1)).map (fun x =>
          (VIVS_FE_VERTEX_STREAMS_CONTROL x,
            (ctx.vertex_buffer.cvb x).FE_VERTEX_STREAM_BASE_ADDR.bo.isSome))⟩ := by
  unfold region_vertex_buffers region_rule.written
  simp only
  split_ifs <;>
    simp [written_regs_append, written_regs_cons_state, written_regs_cons_fixp,
      written_regs_cons_reloc, written_regs_nil, written_regs_map_state, written_regs_map_reloc,
      gated_registers_nil, gated_registers_cons, gated_registers_append, gated_registers_map,
      gated_registers_map_true, gated_registers_flatMap, written_regs_flatMap,
      filter_filter_and]

theorem region_vs_end_pc_rule (ctx : etna_context) (dirty : Nat) :
    written_regs (region_vs_end_pc ctx dirty) =
      region_rule.written dirty
        ⟨ETNA_DIRTY_SHADER,
      [(VIVS_VS_END_PC, true)]⟩ := by
  unfold region_vs_end_pc region_rule.written
  simp only
  split_ifs <;>
    simp [written_regs_append, written_regs_cons_state, written_regs_cons_fixp,
      written_regs_cons_reloc, written_regs_nil, written_regs_map_state, written_regs_map_reloc,
      gated_registers_nil, gated_registers_cons, gated_registers_append, gated_registers_map,
      gated_registers_map_true, gated_registers_flatMap, written_regs_flatMap,
      filter_filter_and]

theorem region_vs_output_count_rule (ctx : etna_context) (dirty : Nat) :
    written_regs (region_vs_output_count ctx dirty) =
      region_rule.written dirty
        ⟨ETNA_DIRTY_SHADER ||| ETNA_DIRTY_RASTERIZER,
      [(VIVS_VS_OUTPUT_COUNT, true)]⟩ := by
  unfold region_vs_output_count region_rule.written
  simp only
  split_ifs <;>
    simp [written_regs_append, written_regs_cons_state, written_regs_cons_fixp,
      written_regs_cons_reloc, written_regs_nil, written_regs_map_state, written_regs_map_reloc,
      gated_registers_nil, gated_registers_cons, gated_registers_append, gated_registers_map,
      gated_registers_map_true, gated_registers_flatMap, written_regs_flatMap,
      filter_filter_and]

theorem region_vs_input_count_rule (ctx : etna_context) (dirty : Nat) :
    written_regs (region_vs_input_count ctx dirty) =
      region_rule.written dirty
        ⟨ETNA_DIRTY_VERTEX_ELEMENTS ||| ETNA_DIRTY_SHADER,
      [(VIVS_VS_INPUT_COUNT, true), (VIVS_VS_TEMP_REGISTER_CONTROL, true)]⟩ := by
  unfold region_vs_input_count region_rule.written
  simp only
  split_ifs <;>
    simp [written_regs_append, written_regs_cons_state, written_regs_cons_fixp,
      written_regs_cons_reloc, written_regs_nil, written_regs_map_state, written_regs_map_reloc,
      gated_registers_nil, gated_registers_cons, gated_registers_append, gated_registers_map,
      gated_registers_map_true, gated_registers_flatMap, written_regs_flatMap,
      filter_filter_and]

theorem region_vs_output_rule (ctx : etna_context) (dirty : Nat) :
    written_regs (region_vs_output ctx dirty) =
      region_rule.written dirty
        ⟨ETNA_DIRTY_SHADER,
      (List.range 4).map (fun x => (VIVS_VS_OUTPUT x, true))⟩ := by
  unfold region_vs_output region_rule.written
  simp only
  split_ifs <;>
    simp [written_regs_append, written_regs_cons_state, written_regs_cons_fixp,
      written_regs_cons_reloc, written_regs_nil, written_regs_map_state, written_regs_map_reloc,
      gated_registers_nil, gated_registers_cons, gated_registers_append, gated_registers_map,
      gated_registers_map_true, gated_registers_flatMap, written_regs_flatMap,
      filter_filter_and]

theorem region_vs_input_rule (ctx : etna_context) (dirty : Nat) :
    written_regs (region_vs_input ctx dirty) =
      region_rule.written dirty
        ⟨ETNA_DIRTY_VERTEX_ELEMENTS ||| ETNA_DIRTY_SHADER,
      (List.range 4).map (fun x => (VIVS_VS_INPUT x, true))⟩ := by
  unfold region_vs_input region_rule.written
  simp only
  split_ifs <;>
    simp [written_regs_append, written_regs_cons_state, written_regs_cons_fixp,
      written_regs_cons_reloc, written_regs_nil, written_regs_map_state, written_regs_map_reloc,
      gated_registers_nil, gated_registers_cons, gated_registers_append, gated_registers_map,
      gated_registers_map_true, gated_registers_flatMap, written_regs_flatMap,
      filter_filter_and]

theorem region_vs_start_rule (ctx : etna_context) (dirty : Nat) :
    written_regs (region_vs_start ctx dirty) =
      region_rule.written dirty
        ⟨ETNA_DIRTY_SHADER,
      [(VIVS_VS_LOAD_BALANCING, true), (VIVS_VS_START_PC, true),
        (VIVS_VS_RANGE, ctx.specs.has_shader_range_registers)]⟩ := by
  unfold region_vs_start region_rule.written
  simp only
  split_ifs <;>
    simp_all [written_regs_append, written_regs_cons_state, written_regs_cons_fixp,
      written_regs_cons_reloc, written_regs_nil, written_regs_map_state, written_regs_map_reloc,
      gated_registers_nil, gated_registers_cons, gated_registers_append, gated_registers_map,
      gated_registers_map_true, gated_registers_flatMap, written_regs_flatMap,
      filter_filter_and]

theorem region_viewport_rule (ctx : etna_context) (dirty : Nat) :
    written_regs (region_viewport ctx dirty) =
      region_rule.written dirty
        ⟨ETNA_DIRTY_VIEWPORT,
      [(VIVS_PA_VIEWPORT_SCALE_X, true), (VIVS_PA_VIEWPORT_SCALE_Y, true),
        (VIVS_PA_VIEWPORT_SCALE_Z, true), (VIVS_PA_VIEWPORT_OFFSET_X, true),
        (VIVS_PA_VIEWPORT_OFFSET_Y, true), (VIVS_PA_VIEWPORT_OFFSET_Z, true)]⟩ := by
  unfold region_viewport region_rule.written
  simp only
  split_ifs <;>
    simp [written_regs_append, written_regs_cons_state, written_regs_cons_fixp,
      written_regs_cons_reloc, written_regs_nil, written_regs_map_state, written_regs_map_reloc,
      gated_registers_nil, gated_registers_cons, gated_registers_append, gated_registers_map,
      gated_registers_map_true, gated_registers_flatMap, written_regs_flatMap,
      filter_filter_and]

theorem region_pa_rasterizer_rule (ctx : etna_context) (dirty : Nat) :
    written_regs (region_pa_rasterizer ctx dirty) =
      region_rule.written dirty
        ⟨ETNA_DIRTY_RASTERIZER,
      [(VIVS_PA_LINE_WIDTH, true), (VIVS_PA_POINT_SIZE, true), (VIVS_PA_SYSTEM_MODE, true)]⟩ := by
  unfold region_pa_rasterizer region_rule.written
  simp only
  split_ifs <;>
    simp [written_regs_append, written_regs_cons_state, written_regs_cons_fixp,
      written_regs_cons_reloc, written_regs_nil, written_regs_map_state, written_regs_map_reloc,
      gated_registers_nil, gated_registers_cons, gated_registers_append, gated_registers_map,
      gated_registers_map_true, gated_registers_flatMap, written_regs_flatMap,
      filter_filter_and]

theorem region_pa_attribute_count_rule (ctx : etna_context) (dirty : Nat) :
    written_regs (region_pa_attribute_count ctx dirty) =
      region_rule.written dirty
        ⟨ETNA_DIRTY_SHADER,
      [(VIVS_PA_ATTRIBUTE_ELEMENT_COUNT, true)]⟩ := by
  unfold region_pa_attribute_count region_rule.written
  simp only
  split_ifs <;>
    simp [written_regs_append, written_regs_cons_state, written_regs_cons_fixp,
      written_regs_cons_reloc, written_regs_nil, written_regs_map_state, written_regs_map_reloc,
      gated_registers_nil, gated_registers_cons, gated_registers_append, gated_registers_map,
      gated_registers_map_true, gated_registers_flatMap, written_regs_flatMap,
      filter_filter_and]

theorem region_pa_config_rule (ctx : etna_context) (dirty : Nat) :
    written_regs (region_pa_config ctx dirty) =
      region_rule.written dirty
        ⟨ETNA_DIRTY_RASTERIZER ||| ETNA_DIRTY_SHADER,
      [(VIVS_PA_CONFIG, true)]⟩ := by
  unfold region_pa_config region_rule.written
  simp only
  split_ifs <;>
    simp [written_regs_append, written_regs_cons_state, written_regs_cons_fixp,
      written_regs_cons_reloc, written_regs_nil, written_regs_map_state, written_regs_map_reloc,
      gated_registers_nil, gated_registers_cons, gated_registers_append, gated_registers_map,
      gated_registers_map_true, gated_registers_flatMap, written_regs_flatMap,
      filter_filter_and]

theorem region_pa_shader_attributes_rule (ctx : etna_context) (dirty : Nat) :
    written_regs (region_pa_shader_attributes ctx dirty) =
      region_rule.written dirty
        ⟨ETNA_DIRTY_SHADER,
      (List.range 10).map (fun x => (VIVS_PA_SHADER_ATTRIBUTES x, true))⟩ := by
  unfold region_pa_shader_attributes region_rule.written
  simp only
  split_ifs <;>
    simp [written_regs_append, written_regs_cons_state, written_regs_cons_fixp,
      written_regs_cons_reloc, written_regs_nil, written_regs_map_state, written_regs_map_reloc,
      gated_registers_nil, gated_registers_cons, gated_registers_append, gated_registers_map,
      gated_registers_map_true, gated_registers_flatMap, written_regs_flatMap,
      filter_filter_and]

theorem region_scissor_rule (ctx : etna_context) (dirty : Nat) :
    written_regs (region_scissor ctx dirty) =
      region_rule.written dirty
        ⟨ETNA_DIRTY_SCISSOR ||| ETNA_DIRTY_FRAMEBUFFER ||| ETNA_DIRTY_RASTERIZER ||| ETNA_DIRTY_VIEWPORT,
      [(VIVS_SE_SCISSOR_LEFT, true), (VIVS_SE_SCISSOR_TOP, true), (VIVS_SE_SCISSOR_RIGHT, true),
        (VIVS_SE_SCISSOR_BOTTOM, true)]⟩ := by
  unfold region_scissor region_rule.written
  simp only
  split_ifs <;>
    simp [written_regs_append, written_regs_cons_state, written_regs_cons_fixp,
      written_regs_cons_reloc, written_regs_nil, written_regs_map_state, written_regs_map_reloc,
      gated_registers_nil, gated_registers_cons, gated_registers_append, gated_registers_map,
      gated_registers_map_true, gated_registers_flatMap, written_regs_flatMap,
      filter_filter_and]

theorem region_se_rasterizer_rule (ctx : etna_context) (dirty : Nat) :
    written_regs (region_se_rasterizer ctx dirty) =
      region_rule.written dirty
        ⟨ETNA_DIRTY_RASTERIZER,
      [(VIVS_SE_DEPTH_SCALE, true), (VIVS_SE_DEPTH_BIAS, true), (VIVS_SE_CONFIG, true)]⟩ := by
  unfold region_se_rasterizer region_rule.written
  simp only
  split_ifs <;>
    simp [written_regs_append, written_regs_cons_state, written_regs_cons_fixp,
      written_regs_cons_reloc, written_regs_nil, written_regs_map_state, written_regs_map_reloc,
      gated_registers_nil, gated_registers_cons, gated_registers_append, gated_registers_map,
      gated_registers_map_true, gated_registers_flatMap, written_regs_flatMap,
      filter_filter_and]

theorem region_ra_control_rule (ctx : etna_context) (dirty : Nat) :
    written_regs (region_ra_control ctx dirty) =
      region_rule.written dirty
        ⟨ETNA_DIRTY_SHADER,
      [(VIVS_RA_CONTROL, true)]⟩ := by
  unfold region_ra_control region_rule.written
  simp only
  split_ifs <;>
    simp [written_regs_append, written_regs_cons_state, written_regs_cons_fixp,
      written_regs_cons_reloc, written_regs_nil, written_regs_map_state, written_regs_map_reloc,
      gated_registers_nil, gated_registers_cons, gated_registers_append, gated_registers_map,
      gated_registers_map_true, gated_registers_flatMap, written_regs_flatMap,
      filter_filter_and]

theorem region_ra_framebuffer_rule (ctx : etna_context) (dirty : Nat) :
    written_regs (region_ra_framebuffer ctx dirty) =
      region_rule.written dirty
        ⟨ETNA_DIRTY_FRAMEBUFFER,
      [(VIVS_RA_MULTISAMPLE_UNK00E04, true)] ++
        (List.range 4).map (fun x => (VIVS_RA_MULTISAMPLE_UNK00E10 x, true)) ++
        (List.range 16).map (fun x => (VIVS_RA_CENTROID_TABLE x, true))⟩ := by
  unfold region_ra_framebuffer region_rule.written
  simp only
  split_ifs <;>
    simp [written_regs_append, written_regs_cons_state, written_regs_cons_fixp,
      written_regs_cons_reloc, written_regs_nil, written_regs_map_state, written_regs_map_reloc,
      gated_registers_nil, gated_registers_cons, gated_registers_append, gated_registers_map,
      gated_registers_map_true, gated_registers_flatMap, written_regs_flatMap,
      filter_filter_and]

theorem region_ps_rule (ctx : etna_context) (dirty : Nat) :
    written_regs (region_ps ctx dirty) =
      region_rule.written dirty
        ⟨ETNA_DIRTY_SHADER ||| ETNA_DIRTY_FRAMEBUFFER,
      [(VIVS_PS_END_PC, true), (VIVS_PS_OUTPUT_REG, true), (VIVS_PS_INPUT_COUNT, true),
        (VIVS_PS_TEMP_REGISTER_CONTROL, true), (VIVS_PS_CONTROL, true), (VIVS_PS_START_PC, true),
        (VIVS_PS_RANGE, ctx.specs.has_shader_range_registers)]⟩ := by
  unfold region_ps region_rule.written
  simp only
  split_ifs <;>
    simp_all [written_regs_append, written_regs_cons_state, written_regs_cons_fixp,
      written_regs_cons_reloc, written_regs_nil, written_regs_map_state, written_regs_map_reloc,
      gated_registers_nil, gated_registers_cons, gated_registers_append, gated_registers_map,
      gated_registers_map_true, gated_registers_flatMap, written_regs_flatMap,
      filter_filter_and]

theorem region_pe_depth_config_rule (ctx : etna_context) (dirty : Nat) :
    written_regs (region_pe_depth_config ctx dirty) =
      region_rule.written dirty
        ⟨ETNA_DIRTY_ZSA ||| ETNA_DIRTY_FRAMEBUFFER,
      [(VIVS_PE_DEPTH_CONFIG, true)]⟩ := by
  unfold region_pe_depth_config region_rule.written
  simp only
  split_ifs <;>
    simp [written_regs_append, written_regs_cons_state, written_regs_cons_fixp,
      written_regs_cons_reloc, written_regs_nil, written_regs_map_state, written_regs_map_reloc,
      gated_registers_nil, gated_registers_cons, gated_registers_append, gated_registers_map,
      gated_registers_map_true, gated_registers_flatMap, written_regs_flatMap,
      filter_filter_and]

theorem region_pe_depth_range_rule (ctx : etna_context) (dirty : Nat) :
    written_regs (region_pe_depth_range ctx dirty) =
      region_rule.written dirty
        ⟨ETNA_DIRTY_VIEWPORT,
      [(VIVS_PE_DEPTH_NEAR, true), (VIVS_PE_DEPTH_FAR, true)]⟩ := by
  unfold region_pe_depth_range region_rule.written
  simp only
  split_ifs <;>
    simp [written_regs_append, written_regs_cons_state, written_regs_cons_fixp,
      written_regs_cons_reloc, written_regs_nil, written_regs_map_state, written_regs_map_reloc,
      gated_registers_nil, gated_registers_cons, gated_registers_append, gated_registers_map,
      gated_registers_map_true, gated_registers_flatMap, written_regs_flatMap,
      filter_filter_and]

theorem region_pe_depth_rule (ctx : etna_context) (dirty : Nat) :
    written_regs (region_pe_depth ctx dirty) =
      region_rule.written dirty
        ⟨ETNA_DIRTY_FRAMEBUFFER,
      [(VIVS_PE_DEPTH_NORMALIZE, true),
        (VIVS_PE_DEPTH_ADDR,
          decide (ctx.specs.pixel_pipes = 1) && ctx.framebuffer.PE_DEPTH_ADDR.bo.isSome),
        (VIVS_PE_DEPTH_STRIDE, true)]⟩ := by
  unfold region_pe_depth region_rule.written
  simp only
  split_ifs <;>
    simp_all [written_regs_append, written_regs_cons_state, written_regs_cons_fixp,
      written_regs_cons_reloc, written_regs_nil, written_regs_map_state, written_regs_map_reloc,
      gated_registers_nil, gated_registers_cons, gated_registers_append, gated_registers_map,
      gated_registers_map_true, gated_registers_flatMap, written_regs_flatMap,
      filter_filter_and]

theorem region_pe_stencil_op_rule (ctx : etna_context) (dirty : Nat) :
    written_regs (region_pe_stencil_op ctx dirty) =
      region_rule.written dirty
        ⟨ETNA_DIRTY_ZSA,
      [(VIVS_PE_STENCIL_OP, true)]⟩ := by
  unfold region_pe_stencil_op region_rule.written
  simp only
  split_ifs <;>
    simp [written_regs_append, written_regs_cons_state, written_regs_cons_fixp,
      written_regs_cons_reloc, written_regs_nil, written_regs_map_state, written_regs_map_reloc,
      gated_registers_nil, gated_registers_cons, gated_registers_append, gated_registers_map,
      gated_registers_map_true, gated_registers_flatMap, written_regs_flatMap,
      filter_filter_and]

theorem region_pe_stencil_config_rule (ctx : etna_context) (dirty : Nat) :
    written_regs (region_pe_stencil_config ctx dirty) =
      region_rule.written dirty
        ⟨ETNA_DIRTY_ZSA ||| ETNA_DIRTY_STENCIL_REF,
      [(VIVS_PE_STENCIL_CONFIG, true)]⟩ := by
  unfold region_pe_stencil_config region_rule.written
  simp only
  split_ifs <;>
    simp [written_regs_append, written_regs_cons_state, written_regs_cons_fixp,
      written_regs_cons_reloc, written_regs_nil, written_regs_map_state, written_regs_map_reloc,
      gated_registers_nil, gated_registers_cons, gated_registers_append, gated_registers_map,
      gated_registers_map_true, gated_registers_flatMap, written_regs_flatMap,
      filter_filter_and]

theorem region_pe_alpha_op_rule (ctx : etna_context) (dirty : Nat) :
    written_regs (region_pe_alpha_op ctx dirty) =
      region_rule.written dirty
        ⟨ETNA_DIRTY_ZSA,
      [(VIVS_PE_ALPHA_OP, true)]⟩ := by
  unfold region_pe_alpha_op region_rule.written
  simp only
  split_ifs <;>
    simp [written_regs_append, written_regs_cons_state, written_regs_cons_fixp,
      written_regs_cons_reloc, written_regs_nil, written_regs_map_state, written_regs_map_reloc,
      gated_registers_nil, gated_registers_cons, gated_registers_append, gated_registers_map,
      gated_registers_map_true, gated_registers_flatMap, written_regs_flatMap,
      filter_filter_and]

theorem region_pe_blend_color_rule (ctx : etna_context) (dirty : Nat) :
    written_regs (region_pe_blend_color ctx dirty) =
      region_rule.written dirty
        ⟨ETNA_DIRTY_BLEND_COLOR,
      [(VIVS_PE_ALPHA_BLEND_COLOR, true)]⟩ := by
  unfold region_pe_blend_color region_rule.written
  simp only
  split_ifs <;>
    simp [written_regs_append, written_regs_cons_state, written_regs_cons_fixp,
      written_regs_cons_reloc, written_regs_nil, written_regs_map_state, written_regs_map_reloc,
      gated_registers_nil, gated_registers_cons, gated_registers_append, gated_registers_map,
      gated_registers_map_true, gated_registers_flatMap, written_regs_flatMap,
      filter_filter_and]

theorem region_pe_alpha_config_rule (ctx : etna_context) (dirty : Nat) :
    written_regs (region_pe_alpha_config ctx dirty) =
      region_rule.written dirty
        ⟨ETNA_DIRTY_BLEND,
      [(VIVS_PE_ALPHA_CONFIG, true)]⟩ := by
  unfold region_pe_alpha_config region_rule.written
  simp only
  split_ifs <;>
    simp [written_regs_append, written_regs_cons_state, written_regs_cons_fixp,
      written_regs_cons_reloc, written_regs_nil, written_regs_map_state, written_regs_map_reloc,
      gated_registers_nil, gated_registers_cons, gated_registers_append, gated_registers_map,
      gated_registers_map_true, gated_registers_flatMap, written_regs_flatMap,
      filter_filter_and]

theorem region_pe_color_format_rule (ctx : etna_context) (dirty : Nat) :
    written_regs (region_pe_color_format ctx dirty) =
      region_rule.written dirty
        ⟨ETNA_DIRTY_BLEND ||| ETNA_DIRTY_FRAMEBUFFER,
      [(VIVS_PE_COLOR_FORMAT, true)]⟩ := by
  unfold region_pe_color_format region_rule.written
  simp only
  split_ifs <;>
    simp [written_regs_append, written_regs_cons_state, written_regs_cons_fixp,
      written_regs_cons_reloc, written_regs_nil, written_regs_map_state, written_regs_map_reloc,
      gated_registers_nil, gated_registers_cons, gated_registers_append, gated_registers_map,
      gated_registers_map_true, gated_registers_flatMap, written_regs_flatMap,
      filter_filter_and]

theorem region_pe_color_rule (ctx : etna_context) (dirty : Nat) (r : List emit_op)
    (h : region_pe_color ctx dirty = some r) :
    written_regs r =
      region_rule.written dirty
        ⟨ETNA_DIRTY_FRAMEBUFFER,
      [(VIVS_PE_COLOR_ADDR,
          decide (ctx.specs.pixel_pipes = 1) && ctx.framebuffer.PE_COLOR_ADDR.bo.isSome),
        (VIVS_PE_COLOR_STRIDE, true), (VIVS_PE_HDEPTH_CONTROL, true),
        (VIVS_PE_PIPE_COLOR_ADDR 0,
          decide (ctx.specs.pixel_pipes = 2) && (ctx.framebuffer.PE_PIPE_COLOR_ADDR 0).bo.isSome),
        (VIVS_PE_PIPE_COLOR_ADDR 1,
          decide (ctx.specs.pixel_pipes = 2) && (ctx.framebuffer.PE_PIPE_COLOR_ADDR 1).bo.isSome),
        (VIVS_PE_PIPE_DEPTH_ADDR 0,
          decide (ctx.specs.pixel_pipes = 2) && (ctx.framebuffer.PE_PIPE_DEPTH_ADDR 0).bo.isSome),
        (VIVS_PE_PIPE_DEPTH_ADDR 1,
          decide (ctx.specs.pixel_pipes = 2) && (ctx.framebuffer.PE_PIPE_DEPTH_ADDR 1).bo.isSome)]⟩ := by
  unfold region_pe_color at h
  unfold region_rule.written
  simp only
  by_cases hd : dirty &&& ETNA_DIRTY_FRAMEBUFFER = 0
  · simp only [hd, ne_eq, not_true_eq_false, if_false, Option.some.injEq] at h
    subst h
    simp [written_regs_nil, hd]
  · by_cases h1 : ctx.specs.pixel_pipes = 1
    · simp only [hd, ne_eq, not_false_eq_true, if_true, h1, Option.some.injEq] at h
      subst h
      simp (disch := omega) [hd, h1, written_regs_append, written_regs_cons_state, written_regs_cons_fixp,
      written_regs_cons_reloc, written_regs_nil, written_regs_map_state, written_regs_map_reloc,
      gated_registers_nil, gated_registers_cons, gated_registers_append, gated_registers_map,
      gated_registers_map_true, gated_registers_flatMap, written_regs_flatMap,
      filter_filter_and]
    · by_cases h2 : ctx.specs.pixel_pipes = 2
      · simp only [hd, ne_eq, not_false_eq_true, if_true, h2, OfNat.ofNat_ne_one, if_false,
          Option.some.injEq] at h
        subst h
        simp [hd, h1, h2, written_regs_append, written_regs_cons_state, written_regs_cons_fixp,
      written_regs_cons_reloc, written_regs_nil, written_regs_map_state, written_regs_map_reloc,
      gated_registers_nil, gated_registers_cons, gated_registers_append, gated_registers_map,
      gated_registers_map_true, gated_registers_flatMap, written_regs_flatMap,
      filter_filter_and]
      · simp [hd, h1, h2] at h

theorem region_pe_stencil_ext_rule (ctx : etna_context) (dirty : Nat) :
    written_regs (region_pe_stencil_ext ctx dirty) =
      region_rule.written dirty
        ⟨ETNA_DIRTY_STENCIL_REF,
      [(VIVS_PE_STENCIL_CONFIG_EXT, true)]⟩ := by
  unfold region_pe_stencil_ext region_rule.written
  simp only
  split_ifs <;>
    simp [written_regs_append, written_regs_cons_state, written_regs_cons_fixp,
      written_regs_cons_reloc, written_regs_nil, written_regs_map_state, written_regs_map_reloc,
      gated_registers_nil, gated_registers_cons, gated_registers_append, gated_registers_map,
      gated_registers_map_true, gated_registers_flatMap, written_regs_flatMap,
      filter_filter_and]

theorem region_pe_blend_rule (ctx : etna_context) (dirty : Nat) :
    written_regs (region_pe_blend ctx dirty) =
      region_rule.written dirty
        ⟨ETNA_DIRTY_BLEND,
      [(VIVS_PE_LOGIC_OP, true)] ++ (List.range 2).map (fun x => (VIVS_PE_DITHER x, true))⟩ := by
  unfold region_pe_blend region_rule.written
  simp only
  split_ifs <;>
    simp [written_regs_append, written_regs_cons_state, written_regs_cons_fixp,
      written_regs_cons_reloc, written_regs_nil, written_regs_map_state, written_regs_map_reloc,
      gated_registers_nil, gated_registers_cons, gated_registers_append, gated_registers_map,
      gated_registers_map_true, gated_registers_flatMap, written_regs_flatMap,
      filter_filter_and]

theorem region_ts_rule (ctx : etna_context) (dirty : Nat) :
    written_regs (region_ts ctx dirty) =
      region_rule.written dirty
        ⟨ETNA_DIRTY_FRAMEBUFFER ||| ETNA_DIRTY_TS,
      [(VIVS_TS_MEM_CONFIG, true),
        (VIVS_TS_COLOR_STATUS_BASE, ctx.framebuffer.TS_COLOR_STATUS_BASE.bo.isSome),
        (VIVS_TS_COLOR_SURFACE_BASE, ctx.framebuffer.TS_COLOR_SURFACE_BASE.bo.isSome),
        (VIVS_TS_COLOR_CLEAR_VALUE, true),
        (VIVS_TS_DEPTH_STATUS_BASE, ctx.framebuffer.TS_DEPTH_STATUS_BASE.bo.isSome),
        (VIVS_TS_DEPTH_SURFACE_BASE, ctx.framebuffer.TS_DEPTH_SURFACE_BASE.bo.isSome),
        (VIVS_TS_DEPTH_CLEAR_VALUE, true)]⟩ := by
  unfold region_ts region_rule.written
  simp only
  split_ifs <;>
    simp [written_regs_append, written_regs_cons_state, written_regs_cons_fixp,
      written_regs_cons_reloc, written_regs_nil, written_regs_map_state, written_regs_map_reloc,
      gated_registers_nil, gated_registers_cons, gated_registers_append, gated_registers_map,
      gated_registers_map_true, gated_registers_flatMap, written_regs_flatMap,
      filter_filter_and]

theorem region_te_config0_rule (ctx : etna_context) (dirty active_samplers : Nat) :
    written_regs (region_te_config0 ctx dirty active_samplers) =
      region_rule.written dirty
        ⟨ETNA_DIRTY_SAMPLER_VIEWS ||| ETNA_DIRTY_SAMPLERS,
      (List.range VIVS_TE_SAMPLER__LEN).map (fun x => (VIVS_TE_SAMPLER_CONFIG0 x, true))⟩ := by
  unfold region_te_config0 region_rule.written
  simp only
  split_ifs <;>
    simp [written_regs_append, written_regs_cons_state, written_regs_cons_fixp,
      written_regs_cons_reloc, written_regs_nil, written_regs_map_state, written_regs_map_reloc,
      gated_registers_nil, gated_registers_cons, gated_registers_append, gated_registers_map,
      gated_registers_map_true, gated_registers_flatMap, written_regs_flatMap,
      filter_filter_and]

theorem region_te_size_rule (ctx : etna_context) (dirty active_samplers : Nat) :
    written_regs (region_te_size ctx dirty active_samplers) =
      region_rule.written dirty
        ⟨ETNA_DIRTY_SAMPLER_VIEWS,
      (List.range VIVS_TE_SAMPLER__LEN).map (fun x =>
          (VIVS_TE_SAMPLER_SIZE x, sampler_active active_samplers x)) ++
        (List.range VIVS_TE_SAMPLER__LEN).map (fun x =>
          (VIVS_TE_SAMPLER_LOG_SIZE x, sampler_active active_samplers x))⟩ := by
  unfold region_te_size region_rule.written
  simp only
  split_ifs <;>
    simp [written_regs_append, written_regs_cons_state, written_regs_cons_fixp,
      written_regs_cons_reloc, written_regs_nil, written_regs_map_state, written_regs_map_reloc,
      gated_registers_nil, gated_registers_cons, gated_registers_append, gated_registers_map,
      gated_registers_map_true, gated_registers_flatMap, written_regs_flatMap,
      filter_filter_and]

theorem region_te_lod_rule (ctx : etna_context) (dirty active_samplers : Nat) :
    written_regs (region_te_lod ctx dirty active_samplers) =
      region_rule.written dirty
        ⟨ETNA_DIRTY_SAMPLER_VIEWS ||| ETNA_DIRTY_SAMPLERS,
      (List.range VIVS_TE_SAMPLER__LEN).map (fun x =>
          (VIVS_TE_SAMPLER_LOD_CONFIG x, sampler_active active_samplers x)) ++
        (List.range VIVS_TE_SAMPLER__LEN).map (fun x =>
          (VIVS_TE_SAMPLER_CONFIG1 x, sampler_active active_samplers x))⟩ := by
  unfold region_te_lod region_rule.written
  simp only
  split_ifs <;>
    simp [written_regs_append, written_regs_cons_state, written_regs_cons_fixp,
      written_regs_cons_reloc, written_regs_nil, written_regs_map_state, written_regs_map_reloc,
      gated_registers_nil, gated_registers_cons, gated_registers_append, gated_registers_map,
      gated_registers_map_true, gated_registers_flatMap, written_regs_flatMap,
      filter_filter_and]

theorem region_te_lod_addr_rule (ctx : etna_context) (dirty active_samplers : Nat) :
    written_regs (region_te_lod_addr ctx dirty active_samplers) =
      region_rule.written dirty
        ⟨ETNA_DIRTY_SAMPLER_VIEWS,
      (List.range VIVS_TE_SAMPLER_LOD_ADDR__LEN).flatMap (fun y =>
          (List.range VIVS_TE_SAMPLER__LEN).map (fun x =>
            (VIVS_TE_SAMPLER_LOD_ADDR x y,
              sampler_active active_samplers x &&
                ((ctx.sampler_view x).TE_SAMPLER_LOD_ADDR y).bo.isSome)))⟩ := by
  unfold region_te_lod_addr region_rule.written
  simp only
  split_ifs <;>
    simp [written_regs_append, written_regs_cons_state, written_regs_cons_fixp,
      written_regs_cons_reloc, written_regs_nil, written_regs_map_state, written_regs_map_reloc,
      gated_registers_nil, gated_registers_cons, gated_registers_append, gated_registers_map,
      gated_registers_map_true, gated_registers_flatMap, written_regs_flatMap,
      Bool.and_comm]

theorem region_varying_rule (ctx : etna_context) (dirty : Nat) :
    written_regs (region_varying ctx dirty) =
      region_rule.written dirty
        ⟨ETNA_DIRTY_SHADER,
      [(VIVS_GL_VARYING_TOTAL_COMPONENTS, true), (VIVS_GL_VARYING_NUM_COMPONENTS, true)] ++
        (List.range 2).map (fun x => (VIVS_GL_VARYING_COMPONENT_USE x, true))⟩ := by
  unfold region_varying region_rule.written
  simp only
  split_ifs <;>
    simp [written_regs_append, written_regs_cons_state, written_regs_cons_fixp,
      written_regs_cons_reloc, written_regs_nil, written_regs_map_state, written_regs_map_reloc,
      gated_registers_nil, gated_registers_cons, gated_registers_append, gated_registers_map,
      gated_registers_map_true, gated_registers_flatMap, written_regs_flatMap,
      filter_filter_and]

/-- The registers written in the coalesced region are those the rule table
gives, in the same order. -/
theorem region_written_regs_eq (ctx : etna_context) (dirty a : Nat) (ops : List emit_op)
    (h : etna_emit_state_region ctx dirty a = some ops) :
    written_regs ops = region_rule_registers ctx dirty a := by
  unfold etna_emit_state_region at h
  cases hpc : region_pe_color ctx dirty with
  | none => simp [hpc] at h
  | some r =>
    simp only [hpc, Option.some.injEq] at h
    subst h
    simp only [written_regs_append]
    rw [region_multi_sample_rule ctx dirty,
      region_index_buffer_rule ctx dirty,
      region_vertex_buffers_rule ctx dirty,
      region_vs_end_pc_rule ctx dirty,
      region_vs_output_count_rule ctx dirty,
      region_vs_input_count_rule ctx dirty,
      region_vs_output_rule ctx dirty,
      region_vs_input_rule ctx dirty,
      region_vs_start_rule ctx dirty,
      region_viewport_rule ctx dirty,
      region_pa_rasterizer_rule ctx dirty,
      region_pa_attribute_count_rule ctx dirty,
      region_pa_config_rule ctx dirty,
      region_pa_shader_attributes_rule ctx dirty,
      region_scissor_rule ctx dirty,
      region_se_rasterizer_rule ctx dirty,
      region_ra_control_rule ctx dirty,
      region_ra_framebuffer_rule ctx dirty,
      region_ps_rule ctx dirty,
      region_pe_depth_config_rule ctx dirty,
      region_pe_depth_range_rule ctx dirty,
      region_pe_depth_rule ctx dirty,
      region_pe_stencil_op_rule ctx dirty,
      region_pe_stencil_config_rule ctx dirty,
      region_pe_alpha_op_rule ctx dirty,
      region_pe_blend_color_rule ctx dirty,
      region_pe_alpha_config_rule ctx dirty,
      region_pe_color_format_rule ctx dirty,
      region_pe_color_rule ctx dirty r hpc,
      region_pe_stencil_ext_rule ctx dirty,
      region_pe_blend_rule ctx dirty,
      region_ts_rule ctx dirty,
      region_te_config0_rule ctx dirty a,
      region_te_size_rule ctx dirty a,
      region_te_lod_rule ctx dirty a,
      region_te_lod_addr_rule ctx dirty a,
      region_varying_rule ctx dirty]
    unfold region_rule_registers region_rule_table
    simp only [List.flatMap_cons, List.flatMap_nil, List.append_nil, List.append_assoc]

/-- The region as the leading GL_MULTI_SAMPLE_CONFIG rule, the index-buffer rule,
the vertex-buffer rule and the rules after it. -/
theorem region_blocks (ctx : etna_context) (dirty a : Nat) (ops : List emit_op)
    (h : etna_emit_state_region ctx dirty a = some ops) :
    ∃ r, region_pe_color ctx dirty = some r ∧
      ops = region_multi_sample ctx dirty ++ (region_index_buffer ctx dirty ++
        (region_vertex_buffers ctx dirty ++ region_after_vertex_buffers ctx dirty a r)) := by
  unfold etna_emit_state_region at h
  cases hpc : region_pe_color ctx dirty with
  | none => simp [hpc] at h
  | some r =>
    simp only [hpc, Option.some.injEq] at h
    refine ⟨r, rfl, ?_⟩
    rw [← h]
    unfold region_after_vertex_buffers
    simp only [List.append_assoc]

/-- The registers written by the index-buffer rule and by the rules after the
vertex-buffer rule are among the table's, in order, whatever the number of
vertex buffers. -/
theorem region_fixed_registers (ctx : etna_context) (dirty a : Nat) (r : List emit_op)
    (hpc : region_pe_color ctx dirty = some r) :
    (written_regs (region_index_buffer ctx dirty ++
      region_after_vertex_buffers ctx dirty a r)).Sublist region_registers := by
  have h0 := region_rest_registers
    { ctx with vertex_buffer := { ctx.vertex_buffer with count := 0 } } dirty a r hpc
    (Nat.zero_le _)
  refine List.Sublist.trans ?_ h0
  simp only [written_regs_append, List.append_assoc]
  refine List.Sublist.append (List.Sublist.refl _) ?_
  unfold region_after_vertex_buffers
  simp only [written_regs_append, List.append_assoc]
  exact List.sublist_append_right _ _

/-- The registers written by the vertex-buffer rule: the two of the first stream,
and for every further stream with a backing allocation its base address and its
control register. -/
theorem vertex_buffers_written (ctx : etna_context) (dirty r : Nat) :
    r ∈ written_regs (region_vertex_buffers ctx dirty) ↔
      dirty &&& ETNA_DIRTY_VERTEX_BUFFERS ≠ 0 ∧
        ((r = VIVS_FE_VERTEX_STREAM_BASE_ADDR ∧
            (ctx.vertex_buffer.cvb 0).FE_VERTEX_STREAM_BASE_ADDR.bo.isSome = true) ∨
          r = VIVS_FE_VERTEX_STREAM_CONTROL ∨
          ∃ x, 1 ≤ x ∧ x < ctx.vertex_buffer.count ∧
            (ctx.vertex_buffer.cvb x).FE_VERTEX_STREAM_BASE_ADDR.bo.isSome = true ∧
            (r = VIVS_FE_VERTEX_STREAMS_BASE_ADDR x ∨ r = VIVS_FE_VERTEX_STREAMS_CONTROL x)) := by
  rw [region_vertex_buffers_rule]
  unfold region_rule.written
  simp only
  by_cases hd : dirty &&& ETNA_DIRTY_VERTEX_BUFFERS = 0
  · simp [hd]
  · simp only [ne_eq, hd, not_false_eq_true, if_true, true_and, gated_registers_append,
      gated_registers_cons, gated_registers_nil, gated_registers_map, List.mem_append,
      List.mem_map, List.mem_filter, List.mem_range'_1, List.append_nil]
    constructor
    · rintro ((h | h) | h)
      · rcases h with h | h
        · by_cases hb : (ctx.vertex_buffer.cvb 0).FE_VERTEX_STREAM_BASE_ADDR.bo.isSome = true
          · simp only [hb, if_true, List.mem_singleton] at h
            exact Or.inl ⟨h, hb⟩
          · simp [hb] at h
        · simp at h
          exact Or.inr (Or.inl h)
      · obtain ⟨x, ⟨⟨h1, h2⟩, hb⟩, hx⟩ := h
        exact Or.inr (Or.inr ⟨x, h1, by omega, hb, Or.inl hx.symm⟩)
      · obtain ⟨x, ⟨⟨h1, h2⟩, hb⟩, hx⟩ := h
        exact Or.inr (Or.inr ⟨x, h1, by omega, hb, Or.inr hx.symm⟩)
    · rintro (⟨h, hb⟩ | h | ⟨x, h1, h2, hb, hx | hx⟩)
      · exact Or.inl (Or.inl (Or.inl (by simp [hb, h])))
      · exact Or.inl (Or.inl (Or.inr (by simp [h])))
      · exact Or.inl (Or.inr ⟨x, ⟨⟨h1, by omega⟩, hb⟩, hx.symm⟩)
      · exact Or.inr ⟨x, ⟨⟨h1, by omega⟩, hb⟩, hx.symm⟩

/-- The registers written by the index-buffer rule and the rules after the
vertex-buffer rule are pairwise distinct. -/
theorem region_fixed_nodup (ctx : etna_context) (dirty a : Nat) (r : List emit_op)
    (hpc : region_pe_color ctx dirty = some r) :
    (written_regs (region_index_buffer ctx dirty ++
      region_after_vertex_buffers ctx dirty a r)).Nodup :=
  ((region_registers_pairwise.sublist (region_fixed_registers ctx dirty a r hpc)).imp
    (fun hlt => Nat.ne_of_lt hlt))

/-- Two writes of a list of emissions with pairwise distinct registers that name the
same register are the same write. -/
theorem write_unique (l : List emit_op) (hn : (written_regs l).Nodup) (w1 w2 : reg_write)
    (h1 : w1 ∈ l.filterMap emit_op.write) (h2 : w2 ∈ l.filterMap emit_op.write)
    (hr : w1.reg = w2.reg) : w1 = w2 :=
  List.inj_on_of_nodup_map hn h1 h2 hr

/-- The register of a write of a list of emissions is among the registers written. -/
theorem write_reg_mem (l : List emit_op) (w : reg_write) (h : w ∈ l.filterMap emit_op.write) :
    w.reg ∈ written_regs l :=
  List.mem_map_of_mem _ h

/-- Where a write of the region comes from, for a register other than
GL_MULTI_SAMPLE_CONFIG and the two registers of the first vertex stream: from
the index-buffer rule or a rule after the vertex-buffer rule, or from the
vertex-stream loops. -/
theorem region_write_source (ctx : etna_context) (dirty a : Nat) (ops r : List emit_op)
    (hops : ops = region_multi_sample ctx dirty ++ (region_index_buffer ctx dirty ++
        (region_vertex_buffers ctx dirty ++ region_after_vertex_buffers ctx dirty a r)))
    (w : reg_write) (hw : w ∈ ops.filterMap emit_op.write)
    (hm : w.reg ≠ VIVS_GL_MULTI_SAMPLE_CONFIG) (hb : w.reg ≠ VIVS_FE_VERTEX_STREAM_BASE_ADDR)
    (hc : w.reg ≠ VIVS_FE_VERTEX_STREAM_CONTROL) :
    w ∈ (region_index_buffer ctx dirty ++
        region_after_vertex_buffers ctx dirty a r).filterMap emit_op.write ∨
      (dirty &&& ETNA_DIRTY_VERTEX_BUFFERS ≠ 0 ∧
        ∃ x, 1 ≤ x ∧ x < ctx.vertex_buffer.count ∧
          (ctx.vertex_buffer.cvb x).FE_VERTEX_STREAM_BASE_ADDR.bo.isSome = true ∧
          (w.reg = VIVS_FE_VERTEX_STREAMS_BASE_ADDR x ∨
            w.reg = VIVS_FE_VERTEX_STREAMS_CONTROL x)) := by
  rw [hops] at hw
  simp only [List.filterMap_append, List.mem_append] at hw ⊢
  rcases hw with h | h | h | h
  · exfalso
    have := write_reg_mem _ _ h
    unfold region_multi_sample at this
    split at this
    · simp [written_regs_cons_state, written_regs_nil] at this
      exact hm this
    · simp [written_regs_nil] at this
  · exact Or.inl (Or.inl h)
  · have := (vertex_buffers_written ctx dirty w.reg).mp (write_reg_mem _ _ h)
    obtain ⟨hd, h1 | h1 | h1⟩ := this
    · exact absurd h1.1 hb
    · exact absurd h1 hc
    · exact Or.inr ⟨hd, h1⟩
  · exact Or.inl (Or.inr h)

/-! ## Claims about the rules of the region -/

/-- The rules after the vertex-buffer rule, split at the scissor rule. -/
theorem region_after_scissor (ctx : etna_context) (dirty a : Nat) (r : List emit_op) :
    region_after_vertex_buffers ctx dirty a r =
      (region_vs_end_pc ctx dirty ++
        region_vs_output_count ctx dirty ++
        region_vs_input_count ctx dirty ++
        region_vs_output ctx dirty ++
        region_vs_input ctx dirty ++
        region_vs_start ctx dirty ++
        region_viewport ctx dirty ++
        region_pa_rasterizer ctx dirty ++
        region_pa_attribute_count ctx dirty ++
        region_pa_config ctx dirty ++
        region_pa_shader_attributes ctx dirty) ++
        region_scissor ctx dirty ++
      (region_se_rasterizer ctx dirty ++
        region_ra_control ctx dirty ++
        region_ra_framebuffer ctx dirty ++
        region_ps ctx dirty ++
        region_pe_depth_config ctx dirty ++
        region_pe_depth_range ctx dirty ++
        region_pe_depth ctx dirty ++
        region_pe_stencil_op ctx dirty ++
        region_pe_stencil_config ctx dirty ++
        region_pe_alpha_op ctx dirty ++
        region_pe_blend_color ctx dirty ++
        region_pe_alpha_config ctx dirty ++
        region_pe_color_format ctx dirty ++
        r ++
        region_pe_stencil_ext ctx dirty ++
        region_pe_blend ctx dirty ++
        region_ts ctx dirty ++
        region_te_config0 ctx dirty a ++
        region_te_size ctx dirty a ++
        region_te_lod ctx dirty a ++
        region_te_lod_addr ctx dirty a ++
        region_varying ctx dirty) := by
  unfold region_after_vertex_buffers
  simp only [List.append_assoc]

/-- The rules after the vertex-buffer rule, split at the first sampler rule. -/
theorem region_after_te_config0 (ctx : etna_context) (dirty a : Nat) (r : List emit_op) :
    region_after_vertex_buffers ctx dirty a r =
      (region_vs_end_pc ctx dirty ++
        region_vs_output_count ctx dirty ++
        region_vs_input_count ctx dirty ++
        region_vs_output ctx dirty ++
        region_vs_input ctx dirty ++
        region_vs_start ctx dirty ++
        region_viewport ctx dirty ++
        region_pa_rasterizer ctx dirty ++
        region_pa_attribute_count ctx dirty ++
        region_pa_config ctx dirty ++
        region_pa_shader_attributes ctx dirty ++
        region_scissor ctx dirty ++
        region_se_rasterizer ctx dirty ++
        region_ra_control ctx dirty ++
        region_ra_framebuffer ctx dirty ++
        region_ps ctx dirty ++
        region_pe_depth_config ctx dirty ++
        region_pe_depth_range ctx dirty ++
        region_pe_depth ctx dirty ++
        region_pe_stencil_op ctx dirty ++
        region_pe_stencil_config ctx dirty ++
        region_pe_alpha_op ctx dirty ++
        region_pe_blend_color ctx dirty ++
        region_pe_alpha_config ctx dirty ++
        region_pe_color_format ctx dirty ++
        r ++
        region_pe_stencil_ext ctx dirty ++
        region_pe_blend ctx dirty ++
        region_ts ctx dirty) ++
        region_te_config0 ctx dirty a ++
      (region_te_size ctx dirty a ++
        region_te_lod ctx dirty a ++
        region_te_lod_addr ctx dirty a ++
        region_varying ctx dirty) := by
  unfold region_after_vertex_buffers
  simp only [List.append_assoc]

/-- The stream of a returning pass of `etna_emit_state` and the emission list of
its coalesced region, split into the leading GL_MULTI_SAMPLE_CONFIG rule, the
index-buffer rule, the vertex-buffer rule and the rules after it. -/
theorem etna_emit_state_stream (d : Bool) (l : etna_context → compiled_shader_state)
    (ctx ctx' : etna_context) (h : etna_emit_state d l ctx = some ctx') :
    ∃ ve ops r, ctx.vertex_elements = some ve ∧
      etna_emit_state_region (emit_state_relink l ctx) ctx.dirty (active_samplers_bits ctx) =
        some ops ∧
      ctx'.stream =
        (emit_state_uniforms (emit_state_relink l ctx) ctx.dirty
          (emit_state_shader_stall (emit_state_relink l ctx)
            (coalesced_region
              (emit_state_vertex_elements ctx.dirty ve
                (emit_state_flush d ctx.dirty ctx.stream))
              ETNA_3D_CONTEXT_SIZE ops))
          (emit_state_msaa_clobber (emit_state_relink l ctx) ctx.dirty)).1 ∧
      region_pe_color (emit_state_relink l ctx) ctx.dirty = some r ∧
      ops = region_multi_sample (emit_state_relink l ctx) ctx.dirty ++
        (region_index_buffer (emit_state_relink l ctx) ctx.dirty ++
          (region_vertex_buffers (emit_state_relink l ctx) ctx.dirty ++
            region_after_vertex_buffers (emit_state_relink l ctx) ctx.dirty
              (active_samplers_bits ctx) r)) := by
  obtain ⟨ve, ops, hve, hreg, h3⟩ := etna_emit_state_some d l ctx ctx' h
  obtain ⟨r, hpc, hops⟩ := region_blocks _ _ _ _ hreg
  exact ⟨ve, ops, r, hve, hreg, by rw [h3], hpc, hops⟩

/-- A write of a rule after the vertex-buffer rule is the only write of the region
to its register, up to the vertex-stream loops. -/
theorem region_write_exclusive (ctx : etna_context) (dirty a : Nat) (ops r : List emit_op)
    (hpc : region_pe_color ctx dirty = some r)
    (hops : ops = region_multi_sample ctx dirty ++ (region_index_buffer ctx dirty ++
        (region_vertex_buffers ctx dirty ++ region_after_vertex_buffers ctx dirty a r)))
    (w0 : reg_write)
    (h0 : w0 ∈ (region_after_vertex_buffers ctx dirty a r).filterMap emit_op.write)
    (hm : w0.reg ≠ VIVS_GL_MULTI_SAMPLE_CONFIG) (hb : w0.reg ≠ VIVS_FE_VERTEX_STREAM_BASE_ADDR)
    (hc : w0.reg ≠ VIVS_FE_VERTEX_STREAM_CONTROL)
    (w : reg_write) (hw : w ∈ ops.filterMap emit_op.write) (hr : w.reg = w0.reg) :
    w = w0 ∨
      (dirty &&& ETNA_DIRTY_VERTEX_BUFFERS ≠ 0 ∧
        ∃ x, 1 ≤ x ∧ x < ctx.vertex_buffer.count ∧
          (ctx.vertex_buffer.cvb x).FE_VERTEX_STREAM_BASE_ADDR.bo.isSome = true ∧
          (w0.reg = VIVS_FE_VERTEX_STREAMS_BASE_ADDR x ∨
            w0.reg = VIVS_FE_VERTEX_STREAMS_CONTROL x)) := by
  rcases region_write_source ctx dirty a ops r hops w hw (by rw [hr]; exact hm)
    (by rw [hr]; exact hb) (by rw [hr]; exact hc) with hfix | hex
  · left
    refine write_unique _ (region_fixed_nodup ctx dirty a r hpc) w w0 hfix ?_ hr
    rw [List.filterMap_append]
    exact List.mem_append_right _ h0
  · right
    rw [hr] at hex
    exact hex

/-- C33: in every returning pass of `etna_emit_state` with the blend or
framebuffer category dirty, the coalesced region emits PE_COLOR_FORMAT with a
value `v` that satisfies, with `M` the union of the components mask and the
overwrite bit and for each of the 32 bits: a bit of `v` outside `M` equals the
bit of `framebuffer.PE_COLOR_FORMAT`, and a bit of `v` inside `M` equals the AND
of the bits of the blend state's and the framebuffer's PE_COLOR_FORMAT.  The
stream of the pass is built from that emission list, and every other write of
the pass to the address of PE_COLOR_FORMAT comes from the vertex-stream loops,
which reach it only at stream index 867 or 875: with at most 867 vertex buffers
the rule's write is the only one. -/
theorem etna_emit_state_pe_color_format (d : Bool) (l : etna_context → compiled_shader_state)
    (ctx ctx' : etna_context) (h : etna_emit_state d l ctx = some ctx')
    (hd : ctx.dirty &&& (ETNA_DIRTY_BLEND ||| ETNA_DIRTY_FRAMEBUFFER) ≠ 0) :
    ∃ ve ops v, ctx.vertex_elements = some ve ∧
      etna_emit_state_region (emit_state_relink l ctx) ctx.dirty (active_samplers_bits ctx) =
        some ops ∧
      ctx'.stream =
        (emit_state_uniforms (emit_state_relink l ctx) ctx.dirty
          (emit_state_shader_stall (emit_state_relink l ctx)
            (coalesced_region
              (emit_state_vertex_elements ctx.dirty ve
                (emit_state_flush d ctx.dirty ctx.stream))
              ETNA_3D_CONTEXT_SIZE ops))
          (emit_state_msaa_clobber (emit_state_relink l ctx) ctx.dirty)).1 ∧
      emit_op.state VIVS_PE_COLOR_FORMAT v ∈ ops ∧
      (∀ i, i < 32 →
        ((VIVS_PE_COLOR_FORMAT_COMPONENTS__MASK ||| VIVS_PE_COLOR_FORMAT_OVERWRITE).testBit i =
            false →
          v.testBit i = ctx.framebuffer.PE_COLOR_FORMAT.testBit i) ∧
        ((VIVS_PE_COLOR_FORMAT_COMPONENTS__MASK ||| VIVS_PE_COLOR_FORMAT_OVERWRITE).testBit i =
            true →
          v.testBit i = (ctx.blend.PE_COLOR_FORMAT.testBit i &&
            ctx.framebuffer.PE_COLOR_FORMAT.testBit i))) ∧
      (∀ w ∈ ops.filterMap emit_op.write, w.reg = VIVS_PE_COLOR_FORMAT →
        w = ⟨VIVS_PE_COLOR_FORMAT, false, v⟩ ∨
          (ctx.dirty &&& ETNA_DIRTY_VERTEX_BUFFERS ≠ 0 ∧
            ∃ x, 1 ≤ x ∧ x < ctx.vertex_buffer.count ∧
              (ctx.vertex_buffer.cvb x).FE_VERTEX_STREAM_BASE_ADDR.bo.isSome = true ∧
              (VIVS_PE_COLOR_FORMAT = VIVS_FE_VERTEX_STREAMS_BASE_ADDR x ∨
                VIVS_PE_COLOR_FORMAT = VIVS_FE_VERTEX_STREAMS_CONTROL x))) ∧
      (ctx.vertex_buffer.count ≤ 867 →
        ∀ w ∈ ops.filterMap emit_op.write, w.reg = VIVS_PE_COLOR_FORMAT →
          w = ⟨VIVS_PE_COLOR_FORMAT, false, v⟩) := by
  obtain ⟨ve, ops, r, hve, hreg, hs, hpc, hops⟩ := etna_emit_state_stream d l ctx ctx' h
  have hr := emit_state_relink_frame l ctx
  have hfb : (emit_state_relink l ctx).framebuffer = ctx.framebuffer := by rw [hr]
  have hbl : (emit_state_relink l ctx).blend = ctx.blend := by rw [hr]
  have hvb : (emit_state_relink l ctx).vertex_buffer = ctx.vertex_buffer := by rw [hr]
  obtain ⟨v, hv, hbits⟩ := region_pe_color_format_bits (emit_state_relink l ctx) ctx.dirty hd
  rw [hfb, hbl] at hbits
  have hafter : emit_op.state VIVS_PE_COLOR_FORMAT v ∈
      region_after_vertex_buffers (emit_state_relink l ctx) ctx.dirty
        (active_samplers_bits ctx) r := by
    unfold region_after_vertex_buffers
    simp [hv]
  have hmem : emit_op.state VIVS_PE_COLOR_FORMAT v ∈ ops := by
    rw [hops]
    simp [hafter]
  have hw0 : (⟨VIVS_PE_COLOR_FORMAT, false, v⟩ : reg_write) ∈
      (region_after_vertex_buffers (emit_state_relink l ctx) ctx.dirty
        (active_samplers_bits ctx) r).filterMap emit_op.write :=
    List.mem_filterMap.2 ⟨_, hafter, rfl⟩
  have hex : ∀ w ∈ ops.filterMap emit_op.write, w.reg = VIVS_PE_COLOR_FORMAT →
      w = ⟨VIVS_PE_COLOR_FORMAT, false, v⟩ ∨
        (ctx.dirty &&& ETNA_DIRTY_VERTEX_BUFFERS ≠ 0 ∧
          ∃ x, 1 ≤ x ∧ x < ctx.vertex_buffer.count ∧
            (ctx.vertex_buffer.cvb x).FE_VERTEX_STREAM_BASE_ADDR.bo.isSome = true ∧
            (VIVS_PE_COLOR_FORMAT = VIVS_FE_VERTEX_STREAMS_BASE_ADDR x ∨
              VIVS_PE_COLOR_FORMAT = VIVS_FE_VERTEX_STREAMS_CONTROL x)) := by
    intro w hw hwr
    have := region_write_exclusive (emit_state_relink l ctx) ctx.dirty
      (active_samplers_bits ctx) ops r hpc hops ⟨VIVS_PE_COLOR_FORMAT, false, v⟩ hw0
      (by decide : VIVS_PE_COLOR_FORMAT ≠ VIVS_GL_MULTI_SAMPLE_CONFIG)
      (by decide : VIVS_PE_COLOR_FORMAT ≠ VIVS_FE_VERTEX_STREAM_BASE_ADDR)
      (by decide : VIVS_PE_COLOR_FORMAT ≠ VIVS_FE_VERTEX_STREAM_CONTROL) w hw hwr
    rw [hvb] at this
    exact this
  refine ⟨ve, ops, v, hve, hreg, hs, hmem, hbits, hex, ?_⟩
  intro hc w hw hwr
  rcases hex w hw hwr with h1 | ⟨-, x, hx1, hx2, -, hx3⟩
  · exact h1
  · exfalso
    unfold VIVS_PE_COLOR_FORMAT VIVS_FE_VERTEX_STREAMS_BASE_ADDR
      VIVS_FE_VERTEX_STREAMS_CONTROL at hx3
    omega

/-- C33 (witness): a pass on the blank context with the blend category dirty and
bit 8 (inside the components mask) set in the blend state's PE_COLOR_FORMAT and
clear in the framebuffer's. -/
theorem etna_emit_state_pe_color_format_witness :
    ∃ ctx', etna_emit_state false (fun c => c.shader_state)
        { blank_context with
          dirty := ETNA_DIRTY_BLEND
          blend := { blank_context.blend with PE_COLOR_FORMAT := 0x100 } } = some ctx' ∧
      ∃ ve ops v, blank_context.vertex_elements = some ve ∧
        etna_emit_state_region
            { blank_context with
              dirty := ETNA_DIRTY_BLEND
              blend := { blank_context.blend with PE_COLOR_FORMAT := 0x100 } }
            ETNA_DIRTY_BLEND 0 = some ops ∧
        emit_op.state VIVS_PE_COLOR_FORMAT v ∈ ops ∧
        v.testBit 8 = ((0x100 : Nat).testBit 8 && (0 : Nat).testBit 8) :=
  ⟨_, rfl,
    (etna_emit_state_pe_color_format false (fun c => c.shader_state)
      { blank_context with
        dirty := ETNA_DIRTY_BLEND
        blend := { blank_context.blend with PE_COLOR_FORMAT := 0x100 } } _ rfl
      (by decide)).imp (fun _ h1 => h1.imp (fun _ h2 => h2.imp (fun _ h3 =>
        ⟨h3.1, h3.2.1, h3.2.2.2.1, (h3.2.2.2.2.1 8 (by decide)).2 (by decide)⟩)))⟩

/-- C11: in every returning pass of `etna_emit_state` in which the scissor rule
fires, the coalesced region emits the four scissor registers together, as
fixed-point writes, with left/top equal to the maximum and right/bottom equal to
the minimum of the framebuffer and viewport bounds, further combined with the
explicit scissor bounds in the same way exactly when the rasterizer's scissor
flag is set.  The stream of the pass is built from that emission list, and every
other write of the pass to one of the four addresses comes from the
vertex-stream loops, which reach them only from stream index 344 on.  For
framebuffer (0,0,800,600) and viewport (10,10,790,590) the pass emits
(10,10,790,590) with the flag clear and (50,50,700,500) with the flag set and
explicit scissor (50,50,700,500). -/
theorem etna_emit_state_scissor (d : Bool) (l : etna_context → compiled_shader_state)
    (ctx ctx' : etna_context) (h : etna_emit_state d l ctx = some ctx')
    (hd : ctx.dirty &&& (ETNA_DIRTY_SCISSOR ||| ETNA_DIRTY_FRAMEBUFFER |||
      ETNA_DIRTY_RASTERIZER ||| ETNA_DIRTY_VIEWPORT) ≠ 0) :
    (∃ ve ops pre post, ctx.vertex_elements = some ve ∧
      etna_emit_state_region (emit_state_relink l ctx) ctx.dirty (active_samplers_bits ctx) =
        some ops ∧
      ctx'.stream =
        (emit_state_uniforms (emit_state_relink l ctx) ctx.dirty
          (emit_state_shader_stall (emit_state_relink l ctx)
            (coalesced_region
              (emit_state_vertex_elements ctx.dirty ve
                (emit_state_flush d ctx.dirty ctx.stream))
              ETNA_3D_CONTEXT_SIZE ops))
          (emit_state_msaa_clobber (emit_state_relink l ctx) ctx.dirty)).1 ∧
      (ctx.rasterizer.scissor = false →
        ops = pre ++
          [emit_op.state_fixp VIVS_SE_SCISSOR_LEFT
              (max ctx.framebuffer.SE_SCISSOR_LEFT ctx.viewport.SE_SCISSOR_LEFT),
            emit_op.state_fixp VIVS_SE_SCISSOR_TOP
              (max ctx.framebuffer.SE_SCISSOR_TOP ctx.viewport.SE_SCISSOR_TOP),
            emit_op.state_fixp VIVS_SE_SCISSOR_RIGHT
              (min ctx.framebuffer.SE_SCISSOR_RIGHT ctx.viewport.SE_SCISSOR_RIGHT),
            emit_op.state_fixp VIVS_SE_SCISSOR_BOTTOM
              (min ctx.framebuffer.SE_SCISSOR_BOTTOM ctx.viewport.SE_SCISSOR_BOTTOM)] ++
          post) ∧
      (ctx.rasterizer.scissor = true →
        ops = pre ++
          [emit_op.state_fixp VIVS_SE_SCISSOR_LEFT
              (max ctx.scissor.SE_SCISSOR_LEFT
                (max ctx.framebuffer.SE_SCISSOR_LEFT ctx.viewport.SE_SCISSOR_LEFT)),
            emit_op.state_fixp VIVS_SE_SCISSOR_TOP
              (max ctx.scissor.SE_SCISSOR_TOP
                (max ctx.framebuffer.SE_SCISSOR_TOP ctx.viewport.SE_SCISSOR_TOP)),
            emit_op.state_fixp VIVS_SE_SCISSOR_RIGHT
              (min ctx.scissor.SE_SCISSOR_RIGHT
                (min ctx.framebuffer.SE_SCISSOR_RIGHT ctx.viewport.SE_SCISSOR_RIGHT)),
            emit_op.state_fixp VIVS_SE_SCISSOR_BOTTOM
              (min ctx.scissor.SE_SCISSOR_BOTTOM
                (min ctx.framebuffer.SE_SCISSOR_BOTTOM ctx.viewport.SE_SCISSOR_BOTTOM))] ++
          post) ∧
      (∀ w ∈ ops.filterMap emit_op.write,
        w.reg ∈ [VIVS_SE_SCISSOR_LEFT, VIVS_SE_SCISSOR_TOP, VIVS_SE_SCISSOR_RIGHT,
          VIVS_SE_SCISSOR_BOTTOM] →
        w ∈ (region_scissor (emit_state_relink l ctx) ctx.dirty).filterMap emit_op.write ∨
          (ctx.dirty &&& ETNA_DIRTY_VERTEX_BUFFERS ≠ 0 ∧
            ∃ x, 344 ≤ x ∧ x < ctx.vertex_buffer.count ∧
              (ctx.vertex_buffer.cvb x).FE_VERTEX_STREAM_BASE_ADDR.bo.isSome = true ∧
              (w.reg = VIVS_FE_VERTEX_STREAMS_BASE_ADDR x ∨
                w.reg = VIVS_FE_VERTEX_STREAMS_CONTROL x))) ∧
      region_scissor (emit_state_relink l ctx) ctx.dirty = region_scissor ctx ctx.dirty) ∧
    (etna_emit_state false (fun c => c.shader_state)
        { blank_context with
          dirty := ETNA_DIRTY_SCISSOR
          framebuffer := { blank_context.framebuffer with SE_SCISSOR_RIGHT := 800, SE_SCISSOR_BOTTOM := 600 }
          viewport := { blank_context.viewport with SE_SCISSOR_LEFT := 10, SE_SCISSOR_TOP := 10, SE_SCISSOR_RIGHT := 790, SE_SCISSOR_BOTTOM := 590 } }).map
        (fun c => decode_stream c.stream.buffer) =
      some [⟨VIVS_SE_SCISSOR_LEFT, true, 10⟩, ⟨VIVS_SE_SCISSOR_TOP, true, 10⟩,
        ⟨VIVS_SE_SCISSOR_RIGHT, true, 790⟩, ⟨VIVS_SE_SCISSOR_BOTTOM, true, 590⟩] ∧
    (etna_emit_state false (fun c => c.shader_state)
        { blank_context with
          dirty := ETNA_DIRTY_SCISSOR
          framebuffer := { blank_context.framebuffer with SE_SCISSOR_RIGHT := 800, SE_SCISSOR_BOTTOM := 600 }
          viewport := { blank_context.viewport with SE_SCISSOR_LEFT := 10, SE_SCISSOR_TOP := 10, SE_SCISSOR_RIGHT := 790, SE_SCISSOR_BOTTOM := 590 }
          scissor := ⟨50, 50, 700, 500⟩
          rasterizer := { blank_context.rasterizer with scissor := true } }).map
        (fun c => decode_stream c.stream.buffer) =
      some [⟨VIVS_SE_SCISSOR_LEFT, true, 50⟩, ⟨VIVS_SE_SCISSOR_TOP, true, 50⟩,
        ⟨VIVS_SE_SCISSOR_RIGHT, true, 700⟩, ⟨VIVS_SE_SCISSOR_BOTTOM, true, 500⟩] := by
  refine ⟨?_, by decide, by decide⟩
  obtain ⟨ve, ops, r, hve, hreg, hs, hpc, hops⟩ := etna_emit_state_stream d l ctx ctx' h
  have hr := emit_state_relink_frame l ctx
  have hfb : (emit_state_relink l ctx).framebuffer = ctx.framebuffer := by rw [hr]
  have hvp : (emit_state_relink l ctx).viewport = ctx.viewport := by rw [hr]
  have hsc : (emit_state_relink l ctx).scissor = ctx.scissor := by rw [hr]
  have hra : (emit_state_relink l ctx).rasterizer = ctx.rasterizer := by rw [hr]
  have hvb : (emit_state_relink l ctx).vertex_buffer = ctx.vertex_buffer := by rw [hr]
  have hsame : region_scissor (emit_state_relink l ctx) ctx.dirty = region_scissor ctx ctx.dirty := by
    unfold region_scissor
    rw [hfb, hvp, hsc, hra]
  have heq := region_scissor_eq ctx ctx.dirty hd
  rw [← hsame] at heq
  obtain ⟨pre, post, hsplit⟩ : ∃ pre post, ops = pre ++
      region_scissor (emit_state_relink l ctx) ctx.dirty ++ post := by
    obtain ⟨P, Q, hPQ⟩ : ∃ P Q, region_after_vertex_buffers (emit_state_relink l ctx) ctx.dirty
        (active_samplers_bits ctx) r =
        P ++ region_scissor (emit_state_relink l ctx) ctx.dirty ++ Q :=
      ⟨_, _, region_after_scissor _ _ _ _⟩
    refine ⟨region_multi_sample (emit_state_relink l ctx) ctx.dirty ++
      (region_index_buffer (emit_state_relink l ctx) ctx.dirty ++
        (region_vertex_buffers (emit_state_relink l ctx) ctx.dirty ++ P)), Q, ?_⟩
    rw [hops, hPQ]
    simp only [List.append_assoc]
  refine ⟨ve, ops, pre, post, hve, hreg, hs, ?_, ?_, ?_, hsame⟩
  · intro hf
    rw [hsplit, heq]
    simp [hf]
  · intro hf
    rw [hsplit, heq]
    simp [hf]
  · intro w hw hwr
    have hsub : ∀ w0 ∈ (region_scissor (emit_state_relink l ctx) ctx.dirty).filterMap
        emit_op.write,
        w0 ∈ (region_after_vertex_buffers (emit_state_relink l ctx) ctx.dirty
          (active_samplers_bits ctx) r).filterMap emit_op.write := by
      intro w0 hw0
      unfold region_after_vertex_buffers
      simp only [List.filterMap_append, List.mem_append]
      simp [hw0]
    have hne : ∀ q ∈ [VIVS_SE_SCISSOR_LEFT, VIVS_SE_SCISSOR_TOP, VIVS_SE_SCISSOR_RIGHT,
        VIVS_SE_SCISSOR_BOTTOM],
        q ≠ VIVS_GL_MULTI_SAMPLE_CONFIG ∧ q ≠ VIVS_FE_VERTEX_STREAM_BASE_ADDR ∧
        q ≠ VIVS_FE_VERTEX_STREAM_CONTROL ∧
        ∀ x, (q = VIVS_FE_VERTEX_STREAMS_BASE_ADDR x ∨
          q = VIVS_FE_VERTEX_STREAMS_CONTROL x) → 344 ≤ x := by
      intro q hq
      simp only [List.mem_cons, List.mem_singleton, List.not_mem_nil, or_false] at hq
      rcases hq with rfl | rfl | rfl | rfl <;>
        refine ⟨by decide, by decide, by decide, ?_⟩ <;> intro x hx <;>
        simp only [VIVS_SE_SCISSOR_LEFT, VIVS_SE_SCISSOR_TOP, VIVS_SE_SCISSOR_RIGHT,
          VIVS_SE_SCISSOR_BOTTOM, VIVS_FE_VERTEX_STREAMS_BASE_ADDR,
          VIVS_FE_VERTEX_STREAMS_CONTROL] at hx <;> omega
    have hwregs : written_regs (region_scissor (emit_state_relink l ctx) ctx.dirty) =
        [VIVS_SE_SCISSOR_LEFT, VIVS_SE_SCISSOR_TOP, VIVS_SE_SCISSOR_RIGHT,
          VIVS_SE_SCISSOR_BOTTOM] := by
      rw [heq]; rfl
    have hin : w.reg ∈ written_regs (region_scissor (emit_state_relink l ctx) ctx.dirty) := by
      rw [hwregs]; exact hwr
    obtain ⟨w0, hw0, hreg0⟩ := List.mem_map.1 hin
    obtain ⟨hm, hb, hc, hx0⟩ := hne w0.reg (by rw [hreg0]; exact hwr)
    rcases region_write_exclusive (emit_state_relink l ctx) ctx.dirty
      (active_samplers_bits ctx) ops r hpc hops w0 (hsub w0 hw0) hm hb hc w hw hreg0.symm
      with e | ⟨hdv, x, hx1, hx2, hx3, hx4⟩
    · left
      rw [e]
      exact hw0
    · right
      rw [hvb] at hx2 hx3
      rw [hreg0] at hx4
      exact ⟨hdv, x, hx0 x (by rw [hreg0]; exact hx4), hx2, hx3, hx4⟩

/-- C11 (witness): a pass on the blank context with the scissor category dirty. -/
theorem etna_emit_state_scissor_witness :
    ∃ ctx', etna_emit_state false (fun c => c.shader_state)
        { blank_context with dirty := ETNA_DIRTY_SCISSOR } = some ctx' ∧
      ∃ ve ops pre post, blank_context.vertex_elements = some ve ∧
        etna_emit_state_region { blank_context with dirty := ETNA_DIRTY_SCISSOR }
          ETNA_DIRTY_SCISSOR 0 = some ops ∧
        (blank_context.rasterizer.scissor = false →
          ops = pre ++
            [emit_op.state_fixp VIVS_SE_SCISSOR_LEFT (max 0 0),
              emit_op.state_fixp VIVS_SE_SCISSOR_TOP (max 0 0),
              emit_op.state_fixp VIVS_SE_SCISSOR_RIGHT (min 0 0),
              emit_op.state_fixp VIVS_SE_SCISSOR_BOTTOM (min 0 0)] ++ post) :=
  ⟨_, rfl,
    (etna_emit_state_scissor false (fun c => c.shader_state)
      { blank_context with dirty := ETNA_DIRTY_SCISSOR } _ rfl (by decide)).1.imp
      (fun _ h1 => h1.imp (fun _ h2 => h2.imp (fun _ h3 => h3.imp (fun _ h4 =>
        ⟨h4.1, h4.2.1, h4.2.2.2.1⟩))))⟩

set_option maxRecDepth 100000 in
/-- The sampler registers lie at the addresses 0x2000 to 0x276C. -/
theorem te_sampler_registers_bounds :
    ∀ q ∈ te_sampler_registers, VIVS_TE_SAMPLER_CONFIG0 0 ≤ q ∧ q < 0x2770 := by
  decide

/-- A vertex stream after the first, with a backing allocation, has its base
address and its control register written in the region when the vertex-buffer
category is dirty. -/
theorem vertex_stream_written (ctx : etna_context) (dirty a : Nat) (ops : List emit_op)
    (h : etna_emit_state_region ctx dirty a = some ops)
    (hd : dirty &&& ETNA_DIRTY_VERTEX_BUFFERS ≠ 0) (x : Nat) (h1 : 1 ≤ x)
    (h2 : x < ctx.vertex_buffer.count)
    (hb : (ctx.vertex_buffer.cvb x).FE_VERTEX_STREAM_BASE_ADDR.bo.isSome = true) :
    VIVS_FE_VERTEX_STREAMS_BASE_ADDR x ∈ written_regs ops ∧
      VIVS_FE_VERTEX_STREAMS_CONTROL x ∈ written_regs ops := by
  obtain ⟨r, -, hops⟩ := region_blocks ctx dirty a ops h
  have hv1 := (vertex_buffers_written ctx dirty (VIVS_FE_VERTEX_STREAMS_BASE_ADDR x)).mpr
    ⟨hd, Or.inr (Or.inr ⟨x, h1, h2, hb, Or.inl rfl⟩)⟩
  have hv2 := (vertex_buffers_written ctx dirty (VIVS_FE_VERTEX_STREAMS_CONTROL x)).mpr
    ⟨hd, Or.inr (Or.inr ⟨x, h1, h2, hb, Or.inr rfl⟩)⟩
  rw [hops]
  simp only [written_regs_append, List.mem_append]
  exact ⟨Or.inr (Or.inr (Or.inl hv1)), Or.inr (Or.inr (Or.inl hv2))⟩

/-- C18 (amended): when the active-sampler bitmask is zero, a returning pass of
`etna_emit_state` with the sampler and/or sampler-view categories dirty emits
the value 0 to TE_SAMPLER_CONFIG0(x) for every one of the 12 samplers (0 marks a
sampler inactive), right before the varying rule, and the sampler rules emit
nothing else.  Every other write of the pass to a sampler register comes from
the vertex-stream loops, which reach the sampler addresses only from stream
index 1624 on: with at most 1624 vertex buffers the pass emits no word for any
other sampler register. -/
theorem etna_emit_state_no_active_samplers (d : Bool)
    (l : etna_context → compiled_shader_state) (ctx ctx' : etna_context)
    (h : etna_emit_state d l ctx = some ctx') (ha : active_samplers_bits ctx = 0)
    (hd : ctx.dirty &&& (ETNA_DIRTY_SAMPLER_VIEWS ||| ETNA_DIRTY_SAMPLERS) ≠ 0) :
    ∃ ve ops pre, ctx.vertex_elements = some ve ∧
      etna_emit_state_region (emit_state_relink l ctx) ctx.dirty (active_samplers_bits ctx) =
        some ops ∧
      ctx'.stream =
        (emit_state_uniforms (emit_state_relink l ctx) ctx.dirty
          (emit_state_shader_stall (emit_state_relink l ctx)
            (coalesced_region
              (emit_state_vertex_elements ctx.dirty ve
                (emit_state_flush d ctx.dirty ctx.stream))
              ETNA_3D_CONTEXT_SIZE ops))
          (emit_state_msaa_clobber (emit_state_relink l ctx) ctx.dirty)).1 ∧
      ops = pre ++
        (List.range VIVS_TE_SAMPLER__LEN).map
          (fun x => emit_op.state (VIVS_TE_SAMPLER_CONFIG0 x) 0) ++
        region_varying (emit_state_relink l ctx) ctx.dirty ∧
      (∀ w ∈ ops.filterMap emit_op.write, w.reg ∈ te_sampler_registers →
        (∃ x, x < VIVS_TE_SAMPLER__LEN ∧ w = ⟨VIVS_TE_SAMPLER_CONFIG0 x, false, 0⟩) ∨
          (ctx.dirty &&& ETNA_DIRTY_VERTEX_BUFFERS ≠ 0 ∧
            ∃ x, 1624 ≤ x ∧ x < ctx.vertex_buffer.count ∧
              (ctx.vertex_buffer.cvb x).FE_VERTEX_STREAM_BASE_ADDR.bo.isSome = true ∧
              (w.reg = VIVS_FE_VERTEX_STREAMS_BASE_ADDR x ∨
                w.reg = VIVS_FE_VERTEX_STREAMS_CONTROL x))) ∧
      (ctx.vertex_buffer.count ≤ 1624 →
        ∀ w ∈ ops.filterMap emit_op.write, w.reg ∈ te_sampler_registers →
          ∃ x, x < VIVS_TE_SAMPLER__LEN ∧ w = ⟨VIVS_TE_SAMPLER_CONFIG0 x, false, 0⟩) := by
  obtain ⟨ve, ops, r, hve, hreg, hs, hpc, hops⟩ := etna_emit_state_stream d l ctx ctx' h
  have hr := emit_state_relink_frame l ctx
  have hvb : (emit_state_relink l ctx).vertex_buffer = ctx.vertex_buffer := by rw [hr]
  rw [ha] at hops hreg
  obtain ⟨hc0, hsz, hlod, hla⟩ := region_samplers_inactive (emit_state_relink l ctx) ctx.dirty hd
  have hafter := region_after_te_config0 (emit_state_relink l ctx) ctx.dirty 0 r
  rw [hc0, hsz, hlod, hla] at hafter
  simp only [List.nil_append] at hafter
  generalize hP : (region_vs_end_pc (emit_state_relink l ctx) ctx.dirty ++
    region_vs_output_count (emit_state_relink l ctx) ctx.dirty ++
    region_vs_input_count (emit_state_relink l ctx) ctx.dirty ++
    region_vs_output (emit_state_relink l ctx) ctx.dirty ++
    region_vs_input (emit_state_relink l ctx) ctx.dirty ++
    region_vs_start (emit_state_relink l ctx) ctx.dirty ++
    region_viewport (emit_state_relink l ctx) ctx.dirty ++
    region_pa_rasterizer (emit_state_relink l ctx) ctx.dirty ++
    region_pa_attribute_count (emit_state_relink l ctx) ctx.dirty ++
    region_pa_config (emit_state_relink l ctx) ctx.dirty ++
    region_pa_shader_attributes (emit_state_relink l ctx) ctx.dirty ++
    region_scissor (emit_state_relink l ctx) ctx.dirty ++
    region_se_rasterizer (emit_state_relink l ctx) ctx.dirty ++
    region_ra_control (emit_state_relink l ctx) ctx.dirty ++
    region_ra_framebuffer (emit_state_relink l ctx) ctx.dirty ++
    region_ps (emit_state_relink l ctx) ctx.dirty ++
    region_pe_depth_config (emit_state_relink l ctx) ctx.dirty ++
    region_pe_depth_range (emit_state_relink l ctx) ctx.dirty ++
    region_pe_depth (emit_state_relink l ctx) ctx.dirty ++
    region_pe_stencil_op (emit_state_relink l ctx) ctx.dirty ++
    region_pe_stencil_config (emit_state_relink l ctx) ctx.dirty ++
    region_pe_alpha_op (emit_state_relink l ctx) ctx.dirty ++
    region_pe_blend_color (emit_state_relink l ctx) ctx.dirty ++
    region_pe_alpha_config (emit_state_relink l ctx) ctx.dirty ++
    region_pe_color_format (emit_state_relink l ctx) ctx.dirty ++
    r ++
    region_pe_stencil_ext (emit_state_relink l ctx) ctx.dirty ++
    region_pe_blend (emit_state_relink l ctx) ctx.dirty ++
    region_ts (emit_state_relink l ctx) ctx.dirty) = P at hafter
  have hz : VIVS_TE_SAMPLER_CONFIG0 0 ∈ written_regs
      ((List.range VIVS_TE_SAMPLER__LEN).map
        (fun x => emit_op.state (VIVS_TE_SAMPLER_CONFIG0 x) 0)) := by
    decide
  have hnd := region_fixed_nodup (emit_state_relink l ctx) ctx.dirty 0 r hpc
  have hpw := region_registers_pairwise.sublist
    (region_fixed_registers (emit_state_relink l ctx) ctx.dirty 0 r hpc)
  rw [hafter] at hpw hnd
  simp only [written_regs_append, List.append_assoc] at hpw
  have hlow : ∀ q ∈ written_regs (region_index_buffer (emit_state_relink l ctx) ctx.dirty) ++
      written_regs P, q < VIVS_TE_SAMPLER_CONFIG0 0 := by
    intro q hq
    rw [← List.append_assoc] at hpw
    exact (List.pairwise_append.1 hpw).2.2 q hq _ (List.mem_append_left _ hz)
  have hvar := region_varying_registers (emit_state_relink l ctx) ctx.dirty
  have hfix : ∀ w ∈ (region_index_buffer (emit_state_relink l ctx) ctx.dirty ++
      region_after_vertex_buffers (emit_state_relink l ctx) ctx.dirty 0 r).filterMap
        emit_op.write, w.reg ∈ te_sampler_registers →
      ∃ x, x < VIVS_TE_SAMPLER__LEN ∧ w = ⟨VIVS_TE_SAMPLER_CONFIG0 x, false, 0⟩ := by
    intro w hw hsr
    have hb := te_sampler_registers_bounds w.reg hsr
    rw [hafter] at hw
    simp only [List.filterMap_append, List.mem_append] at hw
    rcases hw with hw | (hw | hw) | hw
    · exfalso
      have := hlow w.reg (List.mem_append_left _ (write_reg_mem _ _ hw))
      omega
    · exfalso
      have := hlow w.reg (List.mem_append_right _ (write_reg_mem _ _ hw))
      omega
    · simp only [List.filterMap_map, List.mem_filterMap, List.mem_range, Function.comp,
        emit_op.write, Option.some.injEq] at hw
      obtain ⟨x, hx, hxw⟩ := hw
      exact ⟨x, hx, hxw.symm⟩
    · exfalso
      have hm := hvar.subset (write_reg_mem _ _ hw)
      simp only [List.mem_append, List.mem_cons, List.mem_singleton, List.not_mem_nil,
        or_false, List.mem_map, List.mem_range] at hm
      unfold VIVS_TE_SAMPLER_CONFIG0 at hb
      rcases hm with (hm | hm) | ⟨x, hx, hm⟩
      · rw [hm] at hb; unfold VIVS_GL_VARYING_TOTAL_COMPONENTS at hb; omega
      · rw [hm] at hb; unfold VIVS_GL_VARYING_NUM_COMPONENTS at hb; omega
      · rw [← hm] at hb; unfold VIVS_GL_VARYING_COMPONENT_USE at hb; omega
  have hex : ∀ w ∈ ops.filterMap emit_op.write, w.reg ∈ te_sampler_registers →
      (∃ x, x < VIVS_TE_SAMPLER__LEN ∧ w = ⟨VIVS_TE_SAMPLER_CONFIG0 x, false, 0⟩) ∨
        (ctx.dirty &&& ETNA_DIRTY_VERTEX_BUFFERS ≠ 0 ∧
          ∃ x, 1624 ≤ x ∧ x < ctx.vertex_buffer.count ∧
            (ctx.vertex_buffer.cvb x).FE_VERTEX_STREAM_BASE_ADDR.bo.isSome = true ∧
            (w.reg = VIVS_FE_VERTEX_STREAMS_BASE_ADDR x ∨
              w.reg = VIVS_FE_VERTEX_STREAMS_CONTROL x)) := by
    intro w hw hsr
    have hb := te_sampler_registers_bounds w.reg hsr
    unfold VIVS_TE_SAMPLER_CONFIG0 at hb
    rcases region_write_source (emit_state_relink l ctx) ctx.dirty 0 ops r hops w hw
      (by unfold VIVS_GL_MULTI_SAMPLE_CONFIG; omega)
      (by unfold VIVS_FE_VERTEX_STREAM_BASE_ADDR; omega)
      (by unfold VIVS_FE_VERTEX_STREAM_CONTROL; omega) with h1 | ⟨hdv, x, hx1, hx2, hx3, hx4⟩
    · exact Or.inl (hfix w h1 hsr)
    · right
      rw [hvb] at hx2 hx3
      refine ⟨hdv, x, ?_, hx2, hx3, hx4⟩
      unfold VIVS_FE_VERTEX_STREAMS_BASE_ADDR VIVS_FE_VERTEX_STREAMS_CONTROL at hx4
      omega
  refine ⟨ve, ops, region_multi_sample (emit_state_relink l ctx) ctx.dirty ++
      (region_index_buffer (emit_state_relink l ctx) ctx.dirty ++
        (region_vertex_buffers (emit_state_relink l ctx) ctx.dirty ++ P)), hve,
    by rw [ha]; exact hreg, hs, ?_, hex, ?_⟩
  · rw [hops, hafter]
    simp only [List.append_assoc]
  · intro hc w hw hsr
    rcases hex w hw hsr with h1 | ⟨-, x, hx1, hx2, -⟩
    · exact h1
    · omega

/-- C18 (witness): a pass on the blank context with the sampler category dirty. -/
theorem etna_emit_state_no_active_samplers_witness :
    ∃ ctx', etna_emit_state false (fun c => c.shader_state)
        { blank_context with dirty := ETNA_DIRTY_SAMPLERS } = some ctx' ∧
      ∃ ve ops pre, blank_context.vertex_elements = some ve ∧
        etna_emit_state_region { blank_context with dirty := ETNA_DIRTY_SAMPLERS }
          ETNA_DIRTY_SAMPLERS 0 = some ops ∧
        ops = pre ++
          (List.range VIVS_TE_SAMPLER__LEN).map
            (fun x => emit_op.state (VIVS_TE_SAMPLER_CONFIG0 x) 0) ++
          region_varying { blank_context with dirty := ETNA_DIRTY_SAMPLERS }
            ETNA_DIRTY_SAMPLERS :=
  ⟨_, rfl,
    (etna_emit_state_no_active_samplers false (fun c => c.shader_state)
      { blank_context with dirty := ETNA_DIRTY_SAMPLERS } _ rfl (by decide) (by decide)).imp
      (fun _ h1 => h1.imp (fun _ h2 => h2.imp (fun _ h3 => ⟨h3.1, h3.2.1, h3.2.2.2.1⟩)))⟩

/-- C18 (counterexample): with no active sampler and the sampler category dirty,
`etna_emit_state` emits one packet of twelve words for TE_SAMPLER_CONFIG0.  And
with 1649 vertex buffers and the vertex-buffer category dirty as well, the
vertex-stream loop writes the address of TE_SAMPLER_SIZE(0), which is the base
address register of stream 1648. -/
theorem emit_state_inactive_samplers_words :
    active_samplers_bits blank_context = 0 ∧
      (etna_emit_state false (fun c => c.shader_state)
        { blank_context with dirty := ETNA_DIRTY_SAMPLERS }).map (fun c => c.stream.buffer) =
      some (load_state_header (VIVS_TE_SAMPLER_CONFIG0 0 >>> 2) 12 0 ::
        List.replicate 12 0 ++ [0xdeadbeef]) ∧
      active_samplers_bits
        (streams_context 1649 (ETNA_DIRTY_SAMPLERS ||| ETNA_DIRTY_VERTEX_BUFFERS)) = 0 ∧
      (etna_emit_state false (fun c => c.shader_state)
        (streams_context 1649 (ETNA_DIRTY_SAMPLERS ||| ETNA_DIRTY_VERTEX_BUFFERS))).isSome =
        true ∧
      ∃ ops,
        etna_emit_state_region
          (streams_context 1649 (ETNA_DIRTY_SAMPLERS ||| ETNA_DIRTY_VERTEX_BUFFERS))
          (ETNA_DIRTY_SAMPLERS ||| ETNA_DIRTY_VERTEX_BUFFERS) 0 = some ops ∧
        VIVS_TE_SAMPLER_SIZE 0 ∈ te_sampler_registers ∧
        VIVS_TE_SAMPLER_SIZE 0 ∈ written_regs ops :=
  ⟨by decide, by decide, by decide, by decide, _, rfl, by decide,
    (vertex_stream_written
      (streams_context 1649 (ETNA_DIRTY_SAMPLERS ||| ETNA_DIRTY_VERTEX_BUFFERS))
      (ETNA_DIRTY_SAMPLERS ||| ETNA_DIRTY_VERTEX_BUFFERS) 0 _ rfl (by decide) 1648
      (by decide) (by decide) rfl).1⟩

/-- A register is given by the rule table for a dirty set exactly when it is
listed, with a gate that holds, by a rule whose mask intersects the set. -/
theorem mem_region_rule_registers (ctx : etna_context) (dirty a q : Nat) :
    q ∈ region_rule_registers ctx dirty a ↔
      ∃ rule ∈ region_rule_table ctx a, dirty &&& rule.mask ≠ 0 ∧ (q, true) ∈ rule.regs := by
  unfold region_rule_registers
  simp only [List.mem_flatMap]
  constructor
  · rintro ⟨rule, hr, hq⟩
    refine ⟨rule, hr, ?_⟩
    unfold region_rule.written at hq
    split at hq
    · rename_i hd
      refine ⟨hd, ?_⟩
      unfold gated_registers at hq
      simp only [List.mem_map, List.mem_filter] at hq
      obtain ⟨e, ⟨he, hg⟩, hq⟩ := hq
      have : e = (q, true) := Prod.ext hq hg
      rw [← this]
      exact he
    · simp at hq
  · rintro ⟨rule, hr, hd, hq⟩
    refine ⟨rule, hr, ?_⟩
    unfold region_rule.written
    rw [if_pos hd]
    unfold gated_registers
    simp only [List.mem_map, List.mem_filter]
    exact ⟨(q, true), ⟨hq, rfl⟩, rfl⟩

/-- The rule table does not read the shader state. -/
theorem region_rule_table_relink (l : etna_context → compiled_shader_state)
    (ctx : etna_context) (a : Nat) :
    region_rule_table (emit_state_relink l ctx) a = region_rule_table ctx a := by
  rw [emit_state_relink_frame l ctx]
  rfl

/-- C10 (amended): in every returning pass of `etna_emit_state`, the registers
written in the coalesced region are exactly those the rule table gives for the
dirty set of entry, in the table's order: every rule whose dirty mask intersects
the dirty set writes each of its registers whose gate holds (a bound index
buffer, a backing allocation for a reloc, an active sampler, the pixel-pipe
layout, the shader range registers), and nothing else is written.  With at most
nine vertex buffers each of these registers is written exactly once,
GL_MULTI_SAMPLE_CONFIG is written first when the framebuffer or sample-mask
category is dirty, and the register addresses written after it appear in
strictly ascending order and never include GL_MULTI_SAMPLE_CONFIG. -/
theorem etna_emit_state_region_order (d : Bool) (l : etna_context → compiled_shader_state)
    (ctx ctx' : etna_context) (h : etna_emit_state d l ctx = some ctx') :
    ∃ ve ops, ctx.vertex_elements = some ve ∧
      etna_emit_state_region (emit_state_relink l ctx) ctx.dirty (active_samplers_bits ctx) =
        some ops ∧
      ctx'.stream =
        (emit_state_uniforms (emit_state_relink l ctx) ctx.dirty
          (emit_state_shader_stall (emit_state_relink l ctx)
            (coalesced_region
              (emit_state_vertex_elements ctx.dirty ve
                (emit_state_flush d ctx.dirty ctx.stream))
              ETNA_3D_CONTEXT_SIZE ops))
          (emit_state_msaa_clobber (emit_state_relink l ctx) ctx.dirty)).1 ∧
      written_regs ops = region_rule_registers ctx ctx.dirty (active_samplers_bits ctx) ∧
      (∀ rule ∈ region_rule_table ctx (active_samplers_bits ctx),
        ctx.dirty &&& rule.mask ≠ 0 → ∀ q, (q, true) ∈ rule.regs → q ∈ written_regs ops) ∧
      (∀ q ∈ written_regs ops, ∃ rule ∈ region_rule_table ctx (active_samplers_bits ctx),
        ctx.dirty &&& rule.mask ≠ 0 ∧ (q, true) ∈ rule.regs) ∧
      (ctx.vertex_buffer.count ≤ 9 →
        (∀ rule ∈ region_rule_table ctx (active_samplers_bits ctx),
          ctx.dirty &&& rule.mask ≠ 0 → ∀ q, (q, true) ∈ rule.regs →
            (written_regs ops).count q = 1) ∧
        (written_regs ops).Nodup ∧
        ∃ rest : List emit_op,
          ops = region_multi_sample (emit_state_relink l ctx) ctx.dirty ++ rest ∧
          written_regs (region_multi_sample (emit_state_relink l ctx) ctx.dirty) =
            (if ctx.dirty &&& (ETNA_DIRTY_FRAMEBUFFER ||| ETNA_DIRTY_SAMPLE_MASK) ≠ 0 then
              [VIVS_GL_MULTI_SAMPLE_CONFIG] else []) ∧
          (written_regs rest).Sublist region_registers ∧
          (written_regs rest).Pairwise (· < ·) ∧
          VIVS_GL_MULTI_SAMPLE_CONFIG ∉ written_regs rest) := by
  obtain ⟨ve, ops, r, hve, hreg, hs, -, -⟩ := etna_emit_state_stream d l ctx ctx' h
  have hr := emit_state_relink_frame l ctx
  have hvb : (emit_state_relink l ctx).vertex_buffer = ctx.vertex_buffer := by rw [hr]
  have heq : written_regs ops =
      region_rule_registers ctx ctx.dirty (active_samplers_bits ctx) := by
    rw [region_written_regs_eq _ _ _ _ hreg]
    unfold region_rule_registers
    rw [region_rule_table_relink]
  have hmem : ∀ q, q ∈ written_regs ops ↔
      ∃ rule ∈ region_rule_table ctx (active_samplers_bits ctx),
        ctx.dirty &&& rule.mask ≠ 0 ∧ (q, true) ∈ rule.regs := by
    intro q
    rw [heq]
    exact mem_region_rule_registers _ _ _ _
  refine ⟨ve, ops, hve, hreg, hs, heq,
    fun rule hrule hd q hq => (hmem q).2 ⟨rule, hrule, hd, hq⟩,
    fun q hq => (hmem q).1 hq, ?_⟩
  intro hc
  obtain ⟨rest, h1, h2, h3, h4, h5, h6⟩ := region_order (emit_state_relink l ctx) ctx.dirty
    (active_samplers_bits ctx) ops hreg (by rw [hvb]; exact hc)
  exact ⟨fun rule hrule hd q hq =>
      List.count_eq_one_of_mem h6 ((hmem q).2 ⟨rule, hrule, hd, hq⟩),
    h6, rest, h1, h2, h3, h4, h5⟩

/-- C10 (witness): a pass on the blank context with the sample-mask and
blend-color categories dirty. -/
theorem etna_emit_state_region_order_witness :
    ∃ ctx', etna_emit_state false (fun c => c.shader_state)
        { blank_context with dirty := ETNA_DIRTY_SAMPLE_MASK ||| ETNA_DIRTY_BLEND_COLOR } =
        some ctx' ∧
      ∃ ve ops, blank_context.vertex_elements = some ve ∧
        etna_emit_state_region
          { blank_context with dirty := ETNA_DIRTY_SAMPLE_MASK ||| ETNA_DIRTY_BLEND_COLOR }
          (ETNA_DIRTY_SAMPLE_MASK ||| ETNA_DIRTY_BLEND_COLOR) 0 = some ops ∧
        (written_regs ops).count VIVS_PE_ALPHA_BLEND_COLOR = 1 ∧
        (written_regs ops).Nodup :=
  ⟨_, rfl,
    (etna_emit_state_region_order false (fun c => c.shader_state)
      { blank_context with dirty := ETNA_DIRTY_SAMPLE_MASK ||| ETNA_DIRTY_BLEND_COLOR }
      _ rfl).imp
      (fun _ h1 => h1.imp (fun _ h2 => ⟨h2.1, h2.2.1,
        (h2.2.2.2.2.2.2 (by decide)).1
          ⟨ETNA_DIRTY_BLEND_COLOR, [(VIVS_PE_ALPHA_BLEND_COLOR, true)]⟩
          (by simp [region_rule_table]) (by decide) VIVS_PE_ALPHA_BLEND_COLOR (by simp),
        (h2.2.2.2.2.2.2 (by decide)).2.1⟩))⟩

/-- C10 (counterexample): with the sample-mask and blend-color categories dirty the
region writes GL_MULTI_SAMPLE_CONFIG (0x3818) before PE_ALPHA_BLEND_COLOR
(0x1424); with the index-buffer category dirty and no index buffer bound, the
index-buffer rule writes nothing; and with ten vertex buffers the base address
of stream 9 and the control register of stream 1 are the same register 0x6A4,
which is written twice, so that the addresses are not strictly ascending. -/
theorem region_multi_sample_out_of_order :
    (etna_emit_state_region blank_context (ETNA_DIRTY_SAMPLE_MASK ||| ETNA_DIRTY_BLEND_COLOR)
        0).map written_regs =
        some [VIVS_GL_MULTI_SAMPLE_CONFIG, VIVS_PE_ALPHA_BLEND_COLOR] ∧
      ¬ VIVS_GL_MULTI_SAMPLE_CONFIG ≤ VIVS_PE_ALPHA_BLEND_COLOR ∧
      ETNA_DIRTY_INDEX_BUFFER &&& ETNA_DIRTY_INDEX_BUFFER ≠ 0 ∧
      (etna_emit_state_region blank_context ETNA_DIRTY_INDEX_BUFFER 0).map written_regs =
        some [] ∧
      (etna_emit_state false (fun c => c.shader_state)
        (streams_context 10 ETNA_DIRTY_VERTEX_BUFFERS)).isSome = true ∧
      (etna_emit_state_region (streams_context 10 ETNA_DIRTY_VERTEX_BUFFERS)
          ETNA_DIRTY_VERTEX_BUFFERS 0).map written_regs =
        some [0x64C, 0x650, 0x684, 0x688, 0x68C, 0x690, 0x694, 0x698, 0x69C, 0x6A0, 0x6A4,
          0x6A4, 0x6A8, 0x6AC, 0x6B0, 0x6B4, 0x6B8, 0x6BC, 0x6C0, 0x6C4] ∧
      VIVS_FE_VERTEX_STREAMS_BASE_ADDR 9 = VIVS_FE_VERTEX_STREAMS_CONTROL 1 := by
  decide

end Etnaviv
